import Mathlib

/-!
Verification of the godns DNS message codec and resolver selection logic.

The model follows pkg/buffer (BytePacketBuffer and the domain name codec)
and pkg/dns (DNSHeader, DNSQuestion, DNSRecord, DNSPacket, getNS).  Byte
strings are lists of naturals; Go machine integers are naturals reduced
modulo 2^8, 2^16 or 2^32 exactly at the points where the Go code converts
between integer widths.  Fallible operations return Except String, with
the error text taken from the Go error messages; a Go runtime fault
(index out of range, nil pointer) is modelled as Option.none or as a
distinguished error value, as noted at each definition.
-/

set_option maxRecDepth 40000

namespace GoDNS

/-- The fixed 512 octet DNS buffer with a cursor, from NewBytePacketBuffer
in pkg/buffer: a 512 byte slice and an integer position. -/
structure BytePacketBuffer where
  buf : List Nat
  pos : Nat
  deriving Repr, DecidableEq

/-- NewBytePacketBuffer: 512 zero octets, cursor at 0. -/
def newBytePacketBuffer : BytePacketBuffer :=
  { buf := List.replicate 512 0, pos := 0 }

/-- BytePacketBuffer.Get: random access read, bounds checked against 512. -/
def BytePacketBuffer.get (b : BytePacketBuffer) (pos : Nat) : Except String Nat :=
  if 512 ≤ pos then .error "end of buffer" else .ok (b.buf.getD pos 0)

/-- BytePacketBuffer.Set16: stores the two big-endian halves of a 16 bit
value at pos and pos+1.  The Go method performs no bounds check of its
own; an index at or beyond the end of Buf faults at runtime, which this
model renders as none (there is no error return in the Go signature). -/
def BytePacketBuffer.set16 (b : BytePacketBuffer) (pos v : Nat) :
    Option BytePacketBuffer :=
  if pos + 1 < b.buf.length then
    some { b with buf := (b.buf.set pos (v / 256 % 256)).set (pos + 1) (v % 256) }
  else
    none

/-- BytePacketBuffer.GetRange: non-advancing slice Buf[start : start+len],
rejected when start+len >= 512. -/
def BytePacketBuffer.getRange (b : BytePacketBuffer) (start len : Nat) :
    Except String (List Nat) :=
  if 512 ≤ start + len then .error "buffer overflow"
  else .ok ((b.buf.drop start).take len)

/-- BytePacketBuffer.Read: one octet at the cursor, advancing it. -/
def BytePacketBuffer.read (b : BytePacketBuffer) :
    Except String (Nat × BytePacketBuffer) :=
  if 512 ≤ b.pos then .error "buffer overflow"
  else .ok (b.buf.getD b.pos 0, { b with pos := b.pos + 1 })

/-- BytePacketBuffer.Read16: two octets, big endian. -/
def BytePacketBuffer.read16 (b : BytePacketBuffer) :
    Except String (Nat × BytePacketBuffer) := do
  let (f, b) ← b.read
  let (s, b) ← b.read
  .ok ((f <<< 8) ||| s, b)

/-- BytePacketBuffer.Read32: four octets, big endian. -/
def BytePacketBuffer.read32 (b : BytePacketBuffer) :
    Except String (Nat × BytePacketBuffer) := do
  let (f, b) ← b.read
  let (s, b) ← b.read
  let (t, b) ← b.read
  let (fth, b) ← b.read
  .ok ((f <<< 24) ||| (s <<< 16) ||| (t <<< 8) ||| fth, b)

/-- BytePacketBuffer.writePacketByte: append one octet at the cursor.
The stored value is the uint8 image of the argument, hence the mod 256. -/
def BytePacketBuffer.writePacketByte (b : BytePacketBuffer) (value : Nat) :
    Except String BytePacketBuffer :=
  if 512 ≤ b.pos then .error "end of buffer"
  else .ok { buf := b.buf.set b.pos (value % 256), pos := b.pos + 1 }

/-- BytePacketBuffer.Write8. -/
def BytePacketBuffer.write8 (b : BytePacketBuffer) (value : Nat) :
    Except String BytePacketBuffer :=
  b.writePacketByte value

/-- BytePacketBuffer.Write16: uint8(value >> 8) then uint8(value & 0xFF). -/
def BytePacketBuffer.write16 (b : BytePacketBuffer) (value : Nat) :
    Except String BytePacketBuffer := do
  let b ← b.writePacketByte (value / 256 % 256)
  b.writePacketByte (value % 256)

/-- BytePacketBuffer.Write32: the four big-endian octets of the value. -/
def BytePacketBuffer.write32 (b : BytePacketBuffer) (value : Nat) :
    Except String BytePacketBuffer := do
  let b ← b.writePacketByte (value / 2 ^ 24 % 256)
  let b ← b.writePacketByte (value / 2 ^ 16 % 256)
  let b ← b.writePacketByte (value / 2 ^ 8 % 256)
  b.writePacketByte (value % 256)

/-- strings.Split of a Go byte string on the single byte 46, the dot.
Like the Go function it always returns at least one part and keeps
empty parts. -/
def splitDot : List Nat → List (List Nat)
  | [] => [[]]
  | c :: rest =>
    if c = 46 then [] :: splitDot rest
    else
      match splitDot rest with
      | l :: ls => (c :: l) :: ls
      | [] => [[c]]

/-- Joining labels with dots, the inverse of splitDot. -/
def joinDot : List (List Nat) → List Nat
  | [] => []
  | [l] => l
  | l :: l2 :: ls => l ++ 46 :: joinDot (l2 :: ls)

/-- The name accumulated by the ReadQname loop over a list of labels:
the current delimiter, the label, then the remaining labels joined by
dots.  dotAcc [] is joinDot. -/
def dotAcc : List Nat → List (List Nat) → List Nat
  | _, [] => []
  | delim, lab :: rest => delim ++ lab ++ dotAcc [46] rest

/-- BytePacketBuffer.WriteQname: for each label of the dotted name emit a
length octet (labels longer than 0x3f are refused) and the label bytes,
then a terminating zero octet.  The Go source performs no compression. -/
def BytePacketBuffer.writeQname (b : BytePacketBuffer) (qname : List Nat) :
    Except String BytePacketBuffer := do
  let b ← (splitDot qname).foldlM
    (fun (b : BytePacketBuffer) (label : List Nat) => do
      if 0x3f < label.length then
        throw "single label exceeds 63 character of length"
      else
        let b ← b.write8 label.length
        label.foldlM (fun b bt => b.write8 bt) b)
    b
  b.write8 0

/-- MAX_JUMPS from pkg/buffer. -/
def MAX_JUMPS : Nat := 5

/-- One fuel unit per loop iteration of ReadQname; see readQnameFuel.
The loop of the Go source carries the buffer cursor bpos (updated only by
the Seek calls), the local position pos, the jumped flag, the jump
counter, the accumulated name and the current delimiter.  It returns the
accumulated name bytes, the final cursor and the final jump counter.
The bounds checks of the Get and GetRange calls are inlined.  The fuel
only guards the recursion; readQnameLoop_fuel_sufficient proves that with
the fuel used by readQname the "loop fuel exhausted" branch is dead. -/
def readQnameLoop (buf : List Nat) (bpos pos : Nat) (jumped : Bool)
    (jumps : Nat) (acc delim : List Nat) :
    Nat → Except String (List Nat × Nat × Nat)
  | 0 => .error "loop fuel exhausted"
  | fuel + 1 =>
    if MAX_JUMPS < jumps then
      .error "Limit of 5 max jumps exceeded"
    else if 512 ≤ pos then
      .error "reading query name: end of buffer"
    else
      let len := buf.getD pos 0
      if len &&& 0xC0 = 0xC0 then
        let bpos := if jumped then bpos else pos + 2
        if 512 ≤ pos + 1 then
          .error "reading offset instructions: end of buffer"
        else
          let b2 := buf.getD (pos + 1) 0
          readQnameLoop buf bpos (((len ^^^ 0xC0) <<< 8) ||| b2) true
            (jumps + 1) acc delim fuel
      else
        if len = 0 then
          .ok (acc, if jumped then bpos else pos + 1, jumps)
        else if 512 ≤ pos + 1 + len then
          .error "reading the label: buffer overflow"
        else
          readQnameLoop buf bpos (pos + 1 + len) jumped jumps
            (acc ++ delim ++ (buf.drop (pos + 1)).take len) [46] fuel

/-- Fuel sufficient for any run of the ReadQname loop: the loop performs
at most 6 pointer jumps, and between jumps the local position strictly
increases below 512, so (6 - jumps) * 514 + (512 - pos) + 1 bounds the
number of iterations; 6 * 514 + 513 dominates it for every start state. -/
def readQnameFuel : Nat := 6 * 514 + 513

/-- BytePacketBuffer.ReadQname.  Returns the decoded name bytes (appended
to the empty accumulator, as the callers in pkg/dns do) and the buffer
with its cursor moved as the Go method moves it. -/
def BytePacketBuffer.readQname (b : BytePacketBuffer) :
    Except String (List Nat × BytePacketBuffer) :=
  match readQnameLoop b.buf b.pos b.pos false 0 [] [] readQnameFuel with
  | .error e => .error e
  | .ok (name, bp, _) => .ok (name, { b with pos := bp })

/-! ### pkg/dns: result codes and the header codec -/

/-- ResultCode from pkg/dns/header.go. -/
inductive ResultCode where
  | noError | formErr | servFail | nxDomain | noTimp | refused
  deriving Repr, DecidableEq

/-- The numeric value of a ResultCode (the Go iota constants 0..5). -/
def ResultCode.toUint8 : ResultCode → Nat
  | .noError => 0
  | .formErr => 1
  | .servFail => 2
  | .nxDomain => 3
  | .noTimp => 4
  | .refused => 5

/-- DNSHeader.GetResCode: codes 0..5 map to the six constants, every
other value maps to NoError. -/
def getResCode (code : Nat) : ResultCode :=
  match code with
  | 0 => .noError
  | 1 => .formErr
  | 2 => .servFail
  | 3 => .nxDomain
  | 4 => .noTimp
  | 5 => .refused
  | _ => .noError

/-- utils.BoolToUint8. -/
def boolToUint8 (value : Bool) : Nat :=
  if value then 1 else 0

/-- DNSHeader from pkg/dns/header.go.  The Go Class-like integer fields
are uint16 (the counts, id) and uint8 (opcode); they are naturals here,
truncated where the code truncates. -/
structure DNSHeader where
  id : Nat
  recursionDesired : Bool
  truncatedMessage : Bool
  authoritativeAnswer : Bool
  opcode : Nat
  response : Bool
  resCode : ResultCode
  checkingDisabled : Bool
  authedData : Bool
  z : Bool
  recursionAvailable : Bool
  questions : Nat
  answers : Nat
  authoritativeEntries : Nat
  resourceEntries : Nat
  deriving Repr, DecidableEq

/-- NewDNSHeader: all fields zero, false and NoError. -/
def newDNSHeader : DNSHeader :=
  { id := 0, recursionDesired := false, truncatedMessage := false
    authoritativeAnswer := false, opcode := 0, response := false
    resCode := .noError, checkingDisabled := false, authedData := false
    z := false, recursionAvailable := false, questions := 0, answers := 0
    authoritativeEntries := 0, resourceEntries := 0 }

/-- Go (x & bit) > 0 rendered as a Bool. -/
def flagSet (x : Nat) : Bool := decide (0 < x)

/-- DNSHeader.Read: id, the two flag bytes (split from one Read16), and
the four section counts. -/
def DNSHeader.read (b : BytePacketBuffer) :
    Except String (DNSHeader × BytePacketBuffer) := do
  let (id, b) ← b.read16
  let (flags, b) ← b.read16
  let a := flags >>> 8
  let bb := flags &&& 0xFF
  let (qd, b) ← b.read16
  let (an, b) ← b.read16
  let (auth, b) ← b.read16
  let (res, b) ← b.read16
  .ok ({ id := id
         recursionDesired := flagSet (a &&& (1 <<< 0))
         truncatedMessage := flagSet (a &&& (1 <<< 1))
         authoritativeAnswer := flagSet (a &&& (1 <<< 2))
         opcode := (a >>> 3) &&& 0x0F
         response := flagSet (a &&& (1 <<< 7))
         resCode := getResCode (bb &&& 0x0F)
         checkingDisabled := flagSet (bb &&& (1 <<< 4))
         authedData := flagSet (bb &&& (1 <<< 5))
         z := flagSet (bb &&& (1 <<< 6))
         recursionAvailable := flagSet (bb &&& (1 <<< 7))
         questions := qd, answers := an
         authoritativeEntries := auth, resourceEntries := res }, b)

/-- The buffer state left by a Write16 call whose error result the
caller discards.  Write16 emits its two octets one Write8 at a time
through the pointer receiver, so when the second Write8 fails the first
octet stays written and the cursor stays advanced; only the error value
is lost.  A failing Write8 itself changes nothing. -/
def BytePacketBuffer.write16Ignored (b : BytePacketBuffer) (value : Nat) :
    BytePacketBuffer :=
  match b.write8 (value / 256 % 256) with
  | .error _ => b
  | .ok b1 =>
    match b1.write8 (value % 256) with
    | .error _ => b1
    | .ok b2 => b2

/-- DNSHeader.Write.  Faithful to the Go source: the errors of the last
three count writes are discarded (the source reuses the stale err from
the questions write in those three if statements), but their mutations
of the pointer receiver are kept, including a partial first octet when
the second Write8 of a Write16 fails. -/
def DNSHeader.write (h : DNSHeader) (b : BytePacketBuffer) :
    Except String BytePacketBuffer := do
  let b ← b.write16 h.id
  let b ← b.write8 (boolToUint8 h.recursionDesired |||
    (boolToUint8 h.truncatedMessage <<< 1) |||
    (boolToUint8 h.authoritativeAnswer <<< 2) |||
    (h.opcode <<< 3) |||
    (boolToUint8 h.response <<< 7))
  let b ← b.write8 (h.resCode.toUint8 |||
    boolToUint8 h.checkingDisabled <<< 4 |||
    boolToUint8 h.authedData <<< 5 |||
    boolToUint8 h.z <<< 6 |||
    boolToUint8 h.recursionAvailable <<< 7)
  let b ← b.write16 h.questions
  let b := b.write16Ignored h.answers
  let b := b.write16Ignored h.authoritativeEntries
  let b := b.write16Ignored h.resourceEntries
  .ok b

/-! ### pkg/dns: question, record and packet -/

/-- The QueryType constants from pkg/dns/question.go; QueryType is an
integer type, modelled as Nat. -/
def UnknownQueryType : Nat := 0
def AQueryType : Nat := 1
def NSQueryType : Nat := 2
def CNAMEQueryType : Nat := 5
def SOAQueryType : Nat := 6
def MXQueryType : Nat := 15
def AAAAQueryType : Nat := 28

/-- DNSQuestion: name, class, query type.  The Go Name field is a
pointer always populated by NewDNSQuestion; it is a plain byte string
here.  The Go Class field is named cls because class is reserved. -/
structure DNSQuestion where
  name : List Nat
  cls : Nat
  qtype : Nat
  deriving Repr, DecidableEq

/-- DNSQuestion.Read, reading into NewDNSQuestion("", UnknownQueryType):
qname, qtype, class. -/
def DNSQuestion.read (b : BytePacketBuffer) :
    Except String (DNSQuestion × BytePacketBuffer) := do
  let (n, b) ← b.readQname
  let (i, b) ← b.read16
  let (c, b) ← b.read16
  .ok ({ name := n, cls := c, qtype := i }, b)

/-- DNSQuestion.Write: qname, uint16 qtype, uint16 class. -/
def DNSQuestion.write (q : DNSQuestion) (b : BytePacketBuffer) :
    Except String BytePacketBuffer := do
  let b ← b.writeQname q.name
  let b ← b.write16 (q.qtype % 65536)
  b.write16 (q.cls % 65536)

/-- The 12 byte v4-in-v6 head used by Go net.IPv4. -/
def v4MappedHead : List Nat := [0, 0, 0, 0, 0, 0, 0, 0, 0, 0, 255, 255]

/-- Go net.IPv4: a 16 byte address holding the four octets. -/
def netIPv4 (a b c d : Nat) : List Nat := v4MappedHead ++ [a, b, c, d]

/-- Go net.IP.To4: a 4 byte address as is, a v4-mapped 16 byte address
reduced to its last four octets, anything else nil (here none). -/
def ipTo4 (ip : List Nat) : Option (List Nat) :=
  if ip.length = 4 then some ip
  else if ip.length = 16 ∧ ip.take 12 = v4MappedHead then some (ip.drop 12)
  else none

/-- Go net.IP.To16: a 16 byte address as is, a 4 byte address expanded
to the v4-mapped form, anything else nil; ranging over nil yields no
octets, so the nil case is the empty list here. -/
def ipTo16 (ip : List Nat) : List Nat :=
  if ip.length = 16 then ip
  else if ip.length = 4 then v4MappedHead ++ ip
  else []

/-- DNSRecord from pkg/dns/record.go.  The Domain, Host and MailHost
fields are pointers (nil when a record type does not carry them) and the
Addr field is a Go net.IP slice (nil when absent): all four are Options.
The Go Class field is named cls because class is reserved. -/
structure DNSRecord where
  qtype : Nat
  domain : Option (List Nat)
  host : Option (List Nat)
  mailHost : Option (List Nat)
  serial : Nat
  refresh : Nat
  retry : Nat
  expire : Nat
  minimum : Nat
  cls : Nat
  priority : Nat
  addr : Option (List Nat)
  ttl : Nat
  dataLen : Nat
  deriving Repr, DecidableEq

/-- The Go zero value DNSRecord{} that DNSRecord.Read starts from. -/
def emptyDNSRecord : DNSRecord :=
  { qtype := 0, domain := none, host := none, mailHost := none
    serial := 0, refresh := 0, retry := 0, expire := 0, minimum := 0
    cls := 0, priority := 0, addr := none, ttl := 0, dataLen := 0 }

/-- DNSRecord.Read: common head (domain, qtype, class, ttl, data length)
then the per-type payload dispatch of the Go source.  An unknown qtype
skips dataLen octets and retains dataLen. -/
def DNSRecord.read (b : BytePacketBuffer) :
    Except String (DNSRecord × BytePacketBuffer) := do
  let (domain, b) ← b.readQname
  let (qtype_num, b) ← b.read16
  let (cls, b) ← b.read16
  let (ttl, b) ← b.read32
  let (dataLen, b) ← b.read16
  let r := { emptyDNSRecord with
             qtype := qtype_num, domain := some domain, cls := cls, ttl := ttl }
  if qtype_num = AQueryType then
    let (raw, b) ← b.read32
    .ok ({ r with addr := some (netIPv4 (raw >>> 24 &&& 0xFF) (raw >>> 16 &&& 0xFF)
                    (raw >>> 8 &&& 0xFF) (raw >>> 0 &&& 0xFF)) }, b)
  else if qtype_num = NSQueryType then
    let (ns, b) ← b.readQname
    .ok ({ r with host := some ns }, b)
  else if qtype_num = CNAMEQueryType then
    let (cname, b) ← b.readQname
    .ok ({ r with host := some cname }, b)
  else if qtype_num = SOAQueryType then
    let (host, b) ← b.readQname
    let (mailHost, b) ← b.readQname
    let (serial, b) ← b.read32
    let (refresh, b) ← b.read32
    let (retry, b) ← b.read32
    let (expire, b) ← b.read32
    let (minimum, b) ← b.read32
    .ok ({ r with host := some host, mailHost := some mailHost
                  serial := serial, refresh := refresh, retry := retry
                  expire := expire, minimum := minimum }, b)
  else if qtype_num = AAAAQueryType then
    let (raw1, b) ← b.read32
    let (raw2, b) ← b.read32
    let (raw3, b) ← b.read32
    let (raw4, b) ← b.read32
    let to8 := fun (v : Nat) =>
      [v >>> 24 &&& 0xFF, v >>> 16 &&& 0xFF, v >>> 8 &&& 0xFF, v >>> 0 &&& 0xFF]
    .ok ({ r with addr := some (to8 raw1 ++ to8 raw2 ++ to8 raw3 ++ to8 raw4) }, b)
  else if qtype_num = MXQueryType then
    let (priority, b) ← b.read16
    let (mx, b) ← b.readQname
    .ok ({ r with host := some mx, priority := priority }, b)
  else
    .ok ({ r with dataLen := dataLen }, { b with pos := b.pos + dataLen })

/-- Dereference of a Go *DomainName / net.IP.  Go faults at runtime on a
nil pointer; the record writer below surfaces that as an error value. -/
def derefName : Option (List Nat) → Except String (List Nat)
  | some n => .ok n
  | none => .error "runtime fault: nil domain name"

/-- DNSRecord.Write: common head, then the per-type payload.  The
variable-length payloads write a placeholder data length and back-patch
it with Set16; a Set16 or To4 fault is surfaced as an error value where
Go would fault at runtime.  Returns the octet count and the buffer. -/
def DNSRecord.write (r : DNSRecord) (b : BytePacketBuffer) :
    Except String (Nat × BytePacketBuffer) := do
  let startPos := b.pos
  let d ← derefName r.domain
  let b ← b.writeQname d
  let b ← b.write16 (r.qtype % 65536)
  let b ← b.write16 (r.cls % 65536)
  let b ← b.write32 (r.ttl % 2 ^ 32)
  if r.qtype = AQueryType then
    let b ← b.write16 4
    let ip ← derefName r.addr
    match ipTo4 ip with
    | none => .error "runtime fault: To4 returned nil"
    | some addrRaw => do
      let b ← b.write8 (addrRaw.getD 0 0)
      let b ← b.write8 (addrRaw.getD 1 0)
      let b ← b.write8 (addrRaw.getD 2 0)
      let b ← b.write8 (addrRaw.getD 3 0)
      .ok (b.pos - startPos, b)
  else if r.qtype = NSQueryType then
    let pos := b.pos
    let b ← b.write16 0
    let h ← derefName r.host
    let b ← b.writeQname h
    match b.set16 pos ((b.pos - (pos + 2)) % 65536) with
    | none => .error "runtime fault: Set16 out of range"
    | some b => .ok (b.pos - startPos, b)
  else if r.qtype = CNAMEQueryType then
    let pos := b.pos
    let b ← b.write16 0
    let h ← derefName r.host
    let b ← b.writeQname h
    match b.set16 pos ((b.pos - (pos + 2)) % 65536) with
    | none => .error "runtime fault: Set16 out of range"
    | some b => .ok (b.pos - startPos, b)
  else if r.qtype = SOAQueryType then
    let pos := b.pos
    let b ← b.write16 0
    let h ← derefName r.host
    let b ← b.writeQname h
    let mh ← derefName r.mailHost
    let b ← b.writeQname mh
    let b ← b.write32 (r.serial % 2 ^ 32)
    let b ← b.write32 (r.refresh % 2 ^ 32)
    let b ← b.write32 (r.retry % 2 ^ 32)
    let b ← b.write32 (r.expire % 2 ^ 32)
    let b ← b.write32 (r.minimum % 2 ^ 32)
    match b.set16 pos ((b.pos - (pos + 2)) % 65536) with
    | none => .error "runtime fault: Set16 out of range"
    | some b => .ok (b.pos - startPos, b)
  else if r.qtype = MXQueryType then
    let pos := b.pos
    let b ← b.write16 0
    let b ← b.write16 (r.priority % 65536)
    let h ← derefName r.host
    let b ← b.writeQname h
    match b.set16 pos ((b.pos - (pos + 2)) % 65536) with
    | none => .error "runtime fault: Set16 out of range"
    | some b => .ok (b.pos - startPos, b)
  else if r.qtype = AAAAQueryType then
    let b ← b.write16 16
    let ip ← derefName r.addr
    let b ← (ipTo16 ip).foldlM (fun (b : BytePacketBuffer) bt => b.write8 bt) b
    .ok (b.pos - startPos, b)
  else
    .ok (b.pos - startPos, b)

/-- DNSPacket: header plus the four sections. -/
structure DNSPacket where
  header : DNSHeader
  questions : List DNSQuestion
  answers : List DNSRecord
  authorities : List DNSRecord
  resources : List DNSRecord
  deriving Repr, DecidableEq

/-- Reading n items with a reader that advances the buffer, in order,
as the count-driven for loops of DNSPacket.Read do. -/
def readN {α : Type} (f : BytePacketBuffer → Except String (α × BytePacketBuffer)) :
    Nat → BytePacketBuffer → Except String (List α × BytePacketBuffer)
  | 0, b => .ok ([], b)
  | n + 1, b => do
    let (x, b) ← f b
    let (xs, b) ← readN f n b
    .ok (x :: xs, b)

/-- DNSPacket.Read: header, then as many questions, answers, authorities
and resources as the header counts dictate. -/
def DNSPacket.read (b : BytePacketBuffer) :
    Except String (DNSPacket × BytePacketBuffer) := do
  let (h, b) ← DNSHeader.read b
  let (qs, b) ← readN DNSQuestion.read h.questions b
  let (ans, b) ← readN DNSRecord.read h.answers b
  let (auths, b) ← readN DNSRecord.read h.authoritativeEntries b
  let (res, b) ← readN DNSRecord.read h.resourceEntries b
  .ok ({ header := h, questions := qs, answers := ans
         authorities := auths, resources := res }, b)

/-- DNSPacket.Write: bind the header counts to the section lengths (the
uint16 casts of the Go source), then emit header, questions, answers,
authorities and resources in order. -/
def DNSPacket.write (p : DNSPacket) (b : BytePacketBuffer) :
    Except String BytePacketBuffer := do
  let h := { p.header with
             questions := p.questions.length % 65536
             answers := p.answers.length % 65536
             authoritativeEntries := p.authorities.length % 65536
             resourceEntries := p.resources.length % 65536 }
  let b ← h.write b
  let b ← p.questions.foldlM (fun b q => q.write b) b
  let b ← p.answers.foldlM (fun (b : BytePacketBuffer) r =>
    (r.write b).map Prod.snd) b
  let b ← p.authorities.foldlM (fun (b : BytePacketBuffer) r =>
    (r.write b).map Prod.snd) b
  let b ← p.resources.foldlM (fun (b : BytePacketBuffer) r =>
    (r.write b).map Prod.snd) b
  .ok b

/-- The String method of a possibly nil *DomainName as getNS uses it.
Go would fault on a nil pointer; decoded NS records always carry a host,
and the nil case is rendered as the empty string. -/
def domainString (d : Option (List Nat)) : List Nat := d.getD []

/-- DNSPacket.getNS: every authority record whose query type is NS and
whose owner name is a suffix of qname (strings.HasSuffix, byte-exact)
contributes its (domain, host) tuple, in section order. -/
def DNSPacket.getNS (p : DNSPacket) (qname : List Nat) :
    List (List Nat × List Nat) :=
  p.authorities.foldl
    (fun acc r =>
      if r.qtype = NSQueryType ∧ (domainString r.domain).isSuffixOf qname then
        acc ++ [(domainString r.domain, domainString r.host)]
      else acc)
    []

/-- DNSPacket.GetResolverNS: the address of the first A resource record
whose owner equals the host of a matched NS tuple. -/
def DNSPacket.getResolverNS (p : DNSPacket) (qname : List Nat) :
    Option (List Nat) :=
  (p.getNS qname).findSome? fun tuple =>
    p.resources.findSome? fun r =>
      if r.qtype = AQueryType ∧ tuple.2 = domainString r.domain then r.addr
      else none

/-! ### Concrete fixtures used by the theorems -/

/-- The byte string www.google.com. -/
def wwwGoogleCom : List Nat :=
  [119, 119, 119, 46, 103, 111, 111, 103, 108, 101, 46, 99, 111, 109]

/-- The byte string GOOGLE.COM (upper case ASCII). -/
def googleComUpper : List Nat := [71, 79, 79, 71, 76, 69, 46, 67, 79, 77]

/-- The byte string google.com (lower case ASCII). -/
def googleComLower : List Nat := [103, 111, 111, 103, 108, 101, 46, 99, 111, 109]

/-- An NS authority record owning GOOGLE.COM. -/
def nsRecordUpper : DNSRecord :=
  { emptyDNSRecord with qtype := 2, domain := some googleComUpper
                        host := some [110, 115], cls := 1 }

/-- The same NS authority record with the owner lower-cased. -/
def nsRecordLower : DNSRecord :=
  { emptyDNSRecord with qtype := 2, domain := some googleComLower
                        host := some [110, 115], cls := 1 }

/-- A packet holding just the given authority records. -/
def packetWithAuthorities (rs : List DNSRecord) : DNSPacket :=
  { header := newDNSHeader, questions := [], answers := []
    authorities := rs, resources := [] }

/-- A zeroed buffer whose cursor leaves 11 free octets. -/
def bufferAt501 : BytePacketBuffer := { buf := List.replicate 512 0, pos := 501 }

/-- A buffer starting with a compression pointer to offset 0: reading a
name at 0 jumps to 0 forever. -/
def selfJumpBuffer : BytePacketBuffer :=
  { buf := 192 :: 0 :: List.replicate 510 0, pos := 0 }

/-- A buffer whose octet 509 is the label length 2, so the label bytes
occupy octets 510 and 511, the final octet. -/
def labelAtEndBuffer : BytePacketBuffer :=
  { buf := (List.replicate 512 0).set 509 2, pos := 509 }

/-- An A answer record whose DataLen field is 7 (the wire carries the
real RDLENGTH 4; the decoder leaves DataLen at 0 for known types). -/
def aRecordDataLen7 : DNSRecord :=
  { emptyDNSRecord with qtype := 1, domain := some [97], cls := 1
                        ttl := 300, addr := some (netIPv4 1 2 3 4), dataLen := 7 }

/-- The C1 counterexample packet: one question and the A answer above. -/
def packetDataLen7 : DNSPacket :=
  { header := { newDNSHeader with id := 1234 }
    questions := [{ name := [97], cls := 1, qtype := 1 }]
    answers := [aRecordDataLen7], authorities := [], resources := [] }

/-! ### Encoding descriptions, wellformedness and auxiliary notions used
by the round-trip development -/

/-- A sequence of Write8 calls. -/
def writeList (b : BytePacketBuffer) (xs : List Nat) :
    Except String BytePacketBuffer :=
  xs.foldlM (fun b v => b.write8 v) b

/-- Overwriting the region [p, p + xs.length) of a list with xs. -/
def splice (l : List Nat) (p : Nat) (xs : List Nat) : List Nat :=
  l.take p ++ xs ++ l.drop (p + xs.length)

/-- The region [p, p + xs.length) of l holds exactly the octets xs. -/
def bytesAt (l : List Nat) (p : Nat) (xs : List Nat) : Prop :=
  p + xs.length ≤ l.length ∧ (l.drop p).take xs.length = xs

/-- The two big-endian octets Write16 derives from a value. -/
def be16 (v : Nat) : List Nat := [v / 256 % 256, v % 256]

/-- The four big-endian octets Write32 derives from a value. -/
def be32 (v : Nat) : List Nat :=
  [v / 2 ^ 24 % 256, v / 2 ^ 16 % 256, v / 2 ^ 8 % 256, v % 256]

/-- The label area of an encoded name: length octet then label octets. -/
def encLabels (ls : List (List Nat)) : List Nat :=
  ls.foldr (fun l acc => l.length :: l ++ acc) []

/-- The wire encoding WriteQname produces: labels then the terminator. -/
def encQname (n : List Nat) : List Nat := encLabels (splitDot n) ++ [0]

/-- The first flags byte DNSHeader.Write composes (a uint8). -/
def flagByteA (h : DNSHeader) : Nat :=
  (boolToUint8 h.recursionDesired |||
    (boolToUint8 h.truncatedMessage <<< 1) |||
    (boolToUint8 h.authoritativeAnswer <<< 2) |||
    (h.opcode <<< 3) |||
    (boolToUint8 h.response <<< 7)) % 256

/-- The second flags byte DNSHeader.Write composes (a uint8). -/
def flagByteB (h : DNSHeader) : Nat :=
  (h.resCode.toUint8 |||
    boolToUint8 h.checkingDisabled <<< 4 |||
    boolToUint8 h.authedData <<< 5 |||
    boolToUint8 h.z <<< 6 |||
    boolToUint8 h.recursionAvailable <<< 7) % 256

/-- The 12 octets DNSHeader.Write emits. -/
def encHeader (h : DNSHeader) : List Nat :=
  be16 h.id ++ [flagByteA h, flagByteB h] ++ be16 h.questions ++
  be16 h.answers ++ be16 h.authoritativeEntries ++ be16 h.resourceEntries

/-- The octets DNSQuestion.Write emits. -/
def encQuestion (q : DNSQuestion) : List Nat :=
  encQname q.name ++ be16 (q.qtype % 65536) ++ be16 (q.cls % 65536)

/-- The octets DNSRecord.Write emits, with the back-patched data length
in place. -/
def encRecord (r : DNSRecord) : List Nat :=
  encQname (r.domain.getD []) ++ be16 (r.qtype % 65536) ++
  be16 (r.cls % 65536) ++ be32 (r.ttl % 2 ^ 32) ++
  (if r.qtype = AQueryType then
    be16 4 ++ (ipTo4 (r.addr.getD [])).getD []
  else if r.qtype = NSQueryType ∨ r.qtype = CNAMEQueryType then
    be16 (encQname (r.host.getD [])).length ++ encQname (r.host.getD [])
  else if r.qtype = SOAQueryType then
    be16 (encQname (r.host.getD []) ++ encQname (r.mailHost.getD []) ++
      be32 (r.serial % 2 ^ 32) ++ be32 (r.refresh % 2 ^ 32) ++
      be32 (r.retry % 2 ^ 32) ++ be32 (r.expire % 2 ^ 32) ++
      be32 (r.minimum % 2 ^ 32)).length ++
    (encQname (r.host.getD []) ++ encQname (r.mailHost.getD []) ++
      be32 (r.serial % 2 ^ 32) ++ be32 (r.refresh % 2 ^ 32) ++
      be32 (r.retry % 2 ^ 32) ++ be32 (r.expire % 2 ^ 32) ++
      be32 (r.minimum % 2 ^ 32))
  else if r.qtype = MXQueryType then
    be16 (be16 (r.priority % 65536) ++ encQname (r.host.getD [])).length ++
    (be16 (r.priority % 65536) ++ encQname (r.host.getD []))
  else if r.qtype = AAAAQueryType then
    be16 16 ++ ipTo16 (r.addr.getD [])
  else [])

/-- The octets DNSPacket.Write emits into a fresh buffer. -/
def encPacket (p : DNSPacket) : List Nat :=
  encHeader { p.header with
              questions := p.questions.length % 65536
              answers := p.answers.length % 65536
              authoritativeEntries := p.authorities.length % 65536
              resourceEntries := p.resources.length % 65536 } ++
  (p.questions.map encQuestion).flatten ++
  (p.answers.map encRecord).flatten ++
  (p.authorities.map encRecord).flatten ++
  (p.resources.map encRecord).flatten

/-- A domain name in the image of the decoder: every label nonempty and
at most 63 octets, every octet an actual byte. -/
def goodName (n : List Nat) : Prop :=
  (∀ l ∈ splitDot n, l ≠ [] ∧ l.length ≤ 63) ∧ ∀ x ∈ n, x < 256

/-- Header fields within the widths the wire carries. -/
def goodHeader (h : DNSHeader) : Prop := h.id < 65536 ∧ h.opcode < 16

/-- Question fields within the widths the wire carries. -/
def goodQuestion (q : DNSQuestion) : Prop :=
  goodName q.name ∧ q.cls < 65536 ∧ q.qtype < 65536

/-- The SOA numeric fields are all zero. -/
def zeroSOAFields (r : DNSRecord) : Prop :=
  r.serial = 0 ∧ r.refresh = 0 ∧ r.retry = 0 ∧ r.expire = 0 ∧ r.minimum = 0

/-- The record carries a host name in decoder shape. -/
def goodHost (r : DNSRecord) : Prop :=
  r.host ≠ none ∧ goodName (r.host.getD [])

/-- A record in the image of the decoder: a known query type, the fields
that type serializes present and in the exact shape the decoder
produces, and the fields it does not serialize at their zero values.
The DataLen field is deliberately unconstrained. -/
def goodRecord (r : DNSRecord) : Prop :=
  r.domain ≠ none ∧ goodName (r.domain.getD []) ∧ r.cls < 65536 ∧
  r.ttl < 2 ^ 32 ∧
  ((r.qtype = AQueryType ∧ r.addr ≠ none ∧ (r.addr.getD []).length = 16 ∧
      (r.addr.getD []).take 12 = v4MappedHead ∧ (∀ x ∈ r.addr.getD [], x < 256) ∧
      r.host = none ∧ r.mailHost = none ∧ zeroSOAFields r ∧ r.priority = 0) ∨
   ((r.qtype = NSQueryType ∨ r.qtype = CNAMEQueryType) ∧ goodHost r ∧
      r.addr = none ∧ r.mailHost = none ∧ zeroSOAFields r ∧ r.priority = 0) ∨
   (r.qtype = SOAQueryType ∧ goodHost r ∧ r.mailHost ≠ none ∧
      goodName (r.mailHost.getD []) ∧ r.addr = none ∧ r.serial < 2 ^ 32 ∧
      r.refresh < 2 ^ 32 ∧ r.retry < 2 ^ 32 ∧ r.expire < 2 ^ 32 ∧
      r.minimum < 2 ^ 32 ∧ r.priority = 0) ∨
   (r.qtype = MXQueryType ∧ goodHost r ∧ r.priority < 65536 ∧
      r.addr = none ∧ r.mailHost = none ∧ zeroSOAFields r) ∨
   (r.qtype = AAAAQueryType ∧ r.addr ≠ none ∧ (r.addr.getD []).length = 16 ∧
      (∀ x ∈ r.addr.getD [], x < 256) ∧ r.host = none ∧ r.mailHost = none ∧
      zeroSOAFields r ∧ r.priority = 0))

/-- A packet in the image of the decoder. -/
def goodPacket (p : DNSPacket) : Prop :=
  goodHeader p.header ∧ (∀ q ∈ p.questions, goodQuestion q) ∧
  (∀ r ∈ p.answers, goodRecord r) ∧ (∀ r ∈ p.authorities, goodRecord r) ∧
  (∀ r ∈ p.resources, goodRecord r)

/-- The record with its DataLen field cleared, as the decoder leaves it
for the known record types. -/
def zeroDataLen (r : DNSRecord) : DNSRecord := { r with dataLen := 0 }

/-- Header equality on everything but the four section counts. -/
def headerEqModCounts (h1 h2 : DNSHeader) : Prop :=
  h1.id = h2.id ∧ h1.recursionDesired = h2.recursionDesired ∧
  h1.truncatedMessage = h2.truncatedMessage ∧
  h1.authoritativeAnswer = h2.authoritativeAnswer ∧
  h1.opcode = h2.opcode ∧ h1.response = h2.response ∧
  h1.resCode = h2.resCode ∧ h1.checkingDisabled = h2.checkingDisabled ∧
  h1.authedData = h2.authedData ∧ h1.z = h2.z ∧
  h1.recursionAvailable = h2.recursionAvailable

instance (n : List Nat) : Decidable (goodName n) := by
  unfold goodName; infer_instance

instance (h : DNSHeader) : Decidable (goodHeader h) := by
  unfold goodHeader; infer_instance

instance (q : DNSQuestion) : Decidable (goodQuestion q) := by
  unfold goodQuestion; infer_instance

instance (r : DNSRecord) : Decidable (zeroSOAFields r) := by
  unfold zeroSOAFields; infer_instance

instance (r : DNSRecord) : Decidable (goodHost r) := by
  unfold goodHost; infer_instance

instance (r : DNSRecord) : Decidable (goodRecord r) := by
  unfold goodRecord
  haveI d1 : Decidable (r.qtype = AQueryType ∧ r.addr ≠ none ∧
      (r.addr.getD []).length = 16 ∧ (r.addr.getD []).take 12 = v4MappedHead ∧
      (∀ x ∈ r.addr.getD [], x < 256) ∧ r.host = none ∧ r.mailHost = none ∧
      zeroSOAFields r ∧ r.priority = 0) := inferInstance
  haveI d2 : Decidable ((r.qtype = NSQueryType ∨ r.qtype = CNAMEQueryType) ∧
      goodHost r ∧ r.addr = none ∧ r.mailHost = none ∧ zeroSOAFields r ∧
      r.priority = 0) := inferInstance
  haveI d3 : Decidable (r.qtype = SOAQueryType ∧ goodHost r ∧
      r.mailHost ≠ none ∧ goodName (r.mailHost.getD []) ∧ r.addr = none ∧
      r.serial < 2 ^ 32 ∧ r.refresh < 2 ^ 32 ∧ r.retry < 2 ^ 32 ∧
      r.expire < 2 ^ 32 ∧ r.minimum < 2 ^ 32 ∧ r.priority = 0) := inferInstance
  haveI d4 : Decidable (r.qtype = MXQueryType ∧ goodHost r ∧
      r.priority < 65536 ∧ r.addr = none ∧ r.mailHost = none ∧
      zeroSOAFields r) := inferInstance
  haveI d5 : Decidable (r.qtype = AAAAQueryType ∧ r.addr ≠ none ∧
      (r.addr.getD []).length = 16 ∧ (∀ x ∈ r.addr.getD [], x < 256) ∧
      r.host = none ∧ r.mailHost = none ∧ zeroSOAFields r ∧
      r.priority = 0) := inferInstance
  infer_instance

instance (p : DNSPacket) : Decidable (goodPacket p) := by
  unfold goodPacket; infer_instance

/-- A writer step: the cursor does not move backwards, the buffer keeps
its length, a cursor within bounds stays within bounds, and octets below
the starting cursor are untouched. -/
def writeStep (b b2 : BytePacketBuffer) : Prop :=
  b.pos ≤ b2.pos ∧ b2.buf.length = b.buf.length ∧
  (b.pos ≤ 512 → b2.pos ≤ 512) ∧
  ∀ i < b.pos, b2.buf.getD i 0 = b.buf.getD i 0

/-- A wellformed packet used as witness input: one question and one A
answer. -/
def wfWitnessHeader : DNSHeader :=
  { newDNSHeader with
    id := 7
    opcode := 3
    response := true
    resCode := .servFail
    recursionDesired := true }

/-- The answer record of the witness packet. -/
def wfWitnessAnswer : DNSRecord :=
  { emptyDNSRecord with
    qtype := 1
    domain := some [97]
    cls := 1
    ttl := 60
    addr := some (netIPv4 1 2 3 4) }

/-- The witness packet assembled. -/
def wfWitnessPacket : DNSPacket :=
  { header := wfWitnessHeader
    questions := [{ name := [119, 119, 119], cls := 1, qtype := 1 }]
    answers := [wfWitnessAnswer]
    authorities := [], resources := [] }

/-- The buffer produced by writing the witness packet into a fresh
buffer (the write succeeds, as proven where this is used). -/
def wfWitnessWritten : BytePacketBuffer :=
  match wfWitnessPacket.write newBytePacketBuffer with
  | .ok b => b
  | .error _ => newBytePacketBuffer

/-! ### Helper lemmas -/

/-- One unfolding step of the ReadQname loop. -/
theorem readQnameLoop_succ (buf : List Nat) (bpos pos : Nat) (jumped : Bool)
    (jumps : Nat) (acc delim : List Nat) (fuel : Nat) :
    readQnameLoop buf bpos pos jumped jumps acc delim (fuel + 1) =
      if MAX_JUMPS < jumps then
        .error "Limit of 5 max jumps exceeded"
      else if 512 ≤ pos then
        .error "reading query name: end of buffer"
      else if buf.getD pos 0 &&& 0xC0 = 0xC0 then
        if 512 ≤ pos + 1 then
          .error "reading offset instructions: end of buffer"
        else
          readQnameLoop buf (if jumped then bpos else pos + 2)
            (((buf.getD pos 0 ^^^ 0xC0) <<< 8) ||| buf.getD (pos + 1) 0) true
            (jumps + 1) acc delim fuel
      else if buf.getD pos 0 = 0 then
        .ok (acc, if jumped then bpos else pos + 1, jumps)
      else if 512 ≤ pos + 1 + buf.getD pos 0 then
        .error "reading the label: buffer overflow"
      else
        readQnameLoop buf bpos (pos + 1 + buf.getD pos 0) jumped jumps
          (acc ++ delim ++ (buf.drop (pos + 1)).take (buf.getD pos 0)) [46]
          fuel := rfl

/-- A value below 64 never has the two pointer bits set. -/
theorem small_not_pointer : ∀ len < 64, len &&& 0xC0 = 0 := by decide

/-- The ReadQname loop over the authorities fold of getNS, characterised
as a filter-and-map: generalised accumulator form. -/
theorem getNS_fold_eq (qname : List Nat) (rs : List DNSRecord)
    (acc : List (List Nat × List Nat)) :
    rs.foldl
      (fun acc r =>
        if r.qtype = NSQueryType ∧ (domainString r.domain).isSuffixOf qname then
          acc ++ [(domainString r.domain, domainString r.host)]
        else acc)
      acc =
    acc ++ (rs.filter
      (fun r => decide (r.qtype = NSQueryType ∧
        (domainString r.domain).isSuffixOf qname))).map
      (fun r => (domainString r.domain, domainString r.host)) := by
  induction rs generalizing acc with
  | nil => simp
  | cons r rest ih =>
    rw [List.foldl_cons, List.filter_cons]
    by_cases h : r.qtype = NSQueryType ∧ (domainString r.domain).isSuffixOf qname
    · rw [if_pos h, ih, if_pos (by exact decide_eq_true h)]
      rw [List.map_cons, List.append_assoc]
      rfl
    · rw [if_neg h, ih, if_neg (by simpa using h)]

/-- Bitwise or of a left shift with a small value is addition. -/
theorem lor_shift_eq_add (a s k : Nat) (h : s < 2 ^ k) :
    (a <<< k) ||| s = a * 2 ^ k + s := by
  apply Nat.eq_of_testBit_eq
  intro i
  rw [Nat.testBit_lor, Nat.testBit_shiftLeft, mul_comm,
    Nat.testBit_mul_pow_two_add a h i]
  by_cases hik : i < k
  · simp [hik, Nat.not_le.mpr hik]
  · have hsk : s.testBit i = false := by
      apply Nat.testBit_lt_two_pow
      exact lt_of_lt_of_le h (Nat.pow_le_pow_right (by norm_num) (by omega))
    simp [hik, Nat.le_of_not_lt, hsk, Nat.not_lt.mp hik]

/-- Masking with 0xFF is reduction mod 256. -/
theorem and_255_eq_mod (x : Nat) : x &&& 0xFF = x % 256 := by
  have : (0xFF : Nat) = 2 ^ 8 - 1 := by norm_num
  rw [this, Nat.and_pow_two_sub_one_eq_mod]

/-- Masking with 0x0F is reduction mod 16. -/
theorem and_15_eq_mod (x : Nat) : x &&& 0x0F = x % 16 := by
  have : (0x0F : Nat) = 2 ^ 4 - 1 := by norm_num
  rw [this, Nat.and_pow_two_sub_one_eq_mod]

/-- The low byte of a big-endian 16 bit compose. -/
theorem lor_shift8_and255 (a s : Nat) (h : s < 256) :
    ((a <<< 8) ||| s) &&& 0xFF = s := by
  rw [and_255_eq_mod, lor_shift_eq_add a s 8 (by norm_num [h] : s < 2 ^ 8)]
  omega

/-- The high byte of a big-endian 16 bit compose. -/
theorem lor_shift8_shr8 (a s : Nat) (h : s < 256) :
    ((a <<< 8) ||| s) >>> 8 = a := by
  rw [lor_shift_eq_add a s 8 (by norm_num [h] : s < 2 ^ 8),
    Nat.shiftRight_eq_div_pow]
  norm_num
  omega

/-- Read16 characterised: it fails exactly when the second octet would
cross 512, and otherwise composes the two octets at the cursor. -/
theorem read16_eq (b : BytePacketBuffer) :
    b.read16 = if 512 ≤ b.pos + 1 then .error "buffer overflow"
      else .ok ((b.buf.getD b.pos 0 <<< 8) ||| b.buf.getD (b.pos + 1) 0,
        { b with pos := b.pos + 2 }) := by
  unfold BytePacketBuffer.read16 BytePacketBuffer.read
  by_cases h1 : 512 ≤ b.pos
  · rw [if_pos h1, if_pos (by omega : 512 ≤ b.pos + 1)]
    rfl
  · rw [if_neg h1]
    by_cases h2 : 512 ≤ b.pos + 1
    · rw [if_pos h2]
      simp [bind, Except.bind, h2]
    · rw [if_neg h2]
      simp [bind, Except.bind, h2]

/-- The fuel bound of the ReadQname loop is never reached: with fuel at
least (6 - jumps) * 514 + (512 - pos) + 1, the loop cannot return the
fuel exhaustion error.  This is the termination argument for the Go
loop: the jump counter is bounded by 6 and between jumps the position
strictly increases below 512. -/
theorem readQnameLoop_fuel_sufficient :
    ∀ (fuel : Nat) (buf : List Nat) (bpos pos : Nat) (jumped : Bool)
      (jumps : Nat) (acc delim : List Nat),
      (6 - jumps) * 514 + (512 - pos) + 1 ≤ fuel →
      readQnameLoop buf bpos pos jumped jumps acc delim fuel ≠
        .error "loop fuel exhausted" := by
  intro fuel
  induction fuel with
  | zero => intro buf bpos pos jumped jumps acc delim hm; omega
  | succ f ih =>
    intro buf bpos pos jumped jumps acc delim hm
    rw [readQnameLoop_succ]
    by_cases h1 : MAX_JUMPS < jumps
    · rw [if_pos h1]; simp
    · rw [if_neg h1]
      by_cases h2 : 512 ≤ pos
      · rw [if_pos h2]; simp
      · rw [if_neg h2]
        by_cases h3 : buf.getD pos 0 &&& 0xC0 = 0xC0
        · rw [if_pos h3]
          by_cases h4 : 512 ≤ pos + 1
          · rw [if_pos h4]; simp
          · rw [if_neg h4]
            apply ih
            simp [MAX_JUMPS] at h1
            omega
        · rw [if_neg h3]
          by_cases h5 : buf.getD pos 0 = 0
          · rw [if_pos h5]; simp
          · rw [if_neg h5]
            by_cases h6 : 512 ≤ pos + 1 + buf.getD pos 0
            · rw [if_pos h6]; simp
            · rw [if_neg h6]
              apply ih
              omega

/-- On a successful run the jump counter of the ReadQname loop never
exceeds MAX_JUMPS: every loop entry passes the jumps check. -/
theorem readQnameLoop_jumps_le :
    ∀ (fuel : Nat) (buf : List Nat) (bpos pos : Nat) (jumped : Bool)
      (jumps : Nat) (acc delim : List Nat) (res : List Nat × Nat × Nat),
      readQnameLoop buf bpos pos jumped jumps acc delim fuel = .ok res →
      res.2.2 ≤ MAX_JUMPS := by
  intro fuel
  induction fuel with
  | zero =>
    intro buf bpos pos jumped jumps acc delim res hok
    simp [readQnameLoop] at hok
  | succ f ih =>
    intro buf bpos pos jumped jumps acc delim res hok
    rw [readQnameLoop_succ] at hok
    by_cases h1 : MAX_JUMPS < jumps
    · simp [h1] at hok
    · rw [if_neg h1] at hok
      by_cases h2 : 512 ≤ pos
      · simp [h2] at hok
      · rw [if_neg h2] at hok
        by_cases h3 : buf.getD pos 0 &&& 0xC0 = 0xC0
        · rw [if_pos h3] at hok
          by_cases h4 : 512 ≤ pos + 1
          · simp [h4] at hok
          · rw [if_neg h4] at hok
            exact ih _ _ _ _ _ _ _ _ hok
        · rw [if_neg h3] at hok
          by_cases h5 : buf.getD pos 0 = 0
          · rw [if_pos h5] at hok
            cases hok
            simpa using Nat.le_of_not_lt h1
          · rw [if_neg h5] at hok
            by_cases h6 : 512 ≤ pos + 1 + buf.getD pos 0
            · rw [if_pos h6] at hok
              exact Except.noConfusion hok
            · rw [if_neg h6] at hok
              exact ih _ _ _ _ _ _ _ _ hok

/-! ### Splice, bytesAt and writeList algebra -/

theorem splice_length {l : List Nat} {p : Nat} {xs : List Nat}
    (h : p + xs.length ≤ l.length) : (splice l p xs).length = l.length := by
  simp [splice]
  omega

theorem splice_getElem? {l : List Nat} {p : Nat} {xs : List Nat}
    (h : p + xs.length ≤ l.length) (i : Nat) :
    (splice l p xs)[i]? =
      if i < p then l[i]?
      else if i < p + xs.length then xs[i - p]?
      else l[i]? := by
  unfold splice
  have hlt : (List.take p l).length = p := by
    rw [List.length_take]
    omega
  simp only [List.getElem?_append, List.getElem?_take, List.length_append,
    hlt, List.getElem?_drop]
  split_ifs <;> first | rfl | omega | (congr 1; omega)

theorem splice_nil (l : List Nat) (p : Nat) (h : p ≤ l.length) :
    splice l p [] = l := by
  simp [splice]

theorem set_eq_splice {l : List Nat} {p : Nat} (v : Nat) (h : p < l.length) :
    l.set p v = splice l p [v] := by
  apply List.ext_getElem?
  intro i
  rw [splice_getElem? (by simpa using h), List.getElem?_set]
  simp only [List.length_cons, List.length_nil]
  by_cases h1 : i < p
  · rw [if_neg (by omega : ¬ p = i), if_pos h1]
  · by_cases h2 : i < p + (0 + 1)
    · have hpi : p = i := by omega
      subst hpi
      simp [h]
    · rw [if_neg (by omega : ¬ p = i), if_neg h1, if_neg h2]

theorem splice_splice {l : List Nat} {p : Nat} {u w : List Nat}
    (h : p + u.length + w.length ≤ l.length) :
    splice (splice l p u) (p + u.length) w = splice l p (u ++ w) := by
  have hx : p + u.length ≤ l.length := by omega
  have hl1 : (splice l p u).length = l.length := splice_length hx
  apply List.ext_getElem?
  intro i
  rw [splice_getElem? (show p + u.length + w.length ≤
        (splice l p u).length from by rw [hl1]; omega) i]
  rw [splice_getElem? (show p + (u ++ w).length ≤ l.length from by
        simp only [List.length_append]; omega) i]
  simp only [splice_getElem? hx, List.getElem?_append, List.length_append]
  split_ifs <;> first | rfl | omega | (congr 1; omega)

theorem bytesAt_iff {l : List Nat} {p : Nat} {xs : List Nat} :
    bytesAt l p xs ↔ p + xs.length ≤ l.length ∧
      ∀ i < xs.length, l.getD (p + i) 0 = xs.getD i 0 := by
  unfold bytesAt
  constructor
  · rintro ⟨hle, heq⟩
    refine ⟨hle, fun i hi => ?_⟩
    have := congrArg (fun t => t[i]?) heq
    simp only [List.getElem?_take, List.getElem?_drop] at this
    rw [if_pos hi] at this
    rw [List.getD_eq_getElem?_getD, List.getD_eq_getElem?_getD, this]
  · rintro ⟨hle, heq⟩
    refine ⟨hle, ?_⟩
    apply List.ext_getElem?
    intro i
    rw [List.getElem?_take, List.getElem?_drop]
    by_cases hi : i < xs.length
    · rw [if_pos hi]
      have h1 : p + i < l.length := by omega
      have h2 := heq i hi
      rw [List.getD_eq_getElem?_getD, List.getD_eq_getElem?_getD] at h2
      rw [List.getElem?_eq_getElem h1, List.getElem?_eq_getElem hi]
      rw [List.getElem?_eq_getElem h1, List.getElem?_eq_getElem hi] at h2
      simpa using h2
    · rw [if_neg hi, eq_comm, List.getElem?_eq_none_iff]
      omega

theorem bytesAt_append {l : List Nat} {p : Nat} {xs ys : List Nat} :
    bytesAt l p (xs ++ ys) ↔ bytesAt l p xs ∧ bytesAt l (p + xs.length) ys := by
  rw [bytesAt_iff, bytesAt_iff, bytesAt_iff]
  simp only [List.length_append]
  constructor
  · rintro ⟨hle, heq⟩
    refine ⟨⟨by omega, fun i hi => ?_⟩, ⟨by omega, fun i hi => ?_⟩⟩
    · have h2 := heq i (by omega)
      rwa [List.getD_append _ _ _ _ hi] at h2
    · have h2 := heq (xs.length + i) (by omega)
      rw [List.getD_append_right _ _ _ _ (by omega)] at h2
      rw [show xs.length + i - xs.length = i from by omega] at h2
      rw [show p + xs.length + i = p + (xs.length + i) from by omega]
      exact h2
  · rintro ⟨⟨hle1, heq1⟩, ⟨hle2, heq2⟩⟩
    refine ⟨by omega, fun i hi => ?_⟩
    by_cases hx : i < xs.length
    · rw [List.getD_append _ _ _ _ hx]
      exact heq1 i hx
    · rw [List.getD_append_right _ _ _ _ (by omega)]
      have h2 := heq2 (i - xs.length) (by omega)
      rw [show p + xs.length + (i - xs.length) = p + i from by omega] at h2
      exact h2

theorem bytesAt_splice {l : List Nat} {p : Nat} {xs : List Nat}
    (h : p + xs.length ≤ l.length) : bytesAt (splice l p xs) p xs := by
  rw [bytesAt_iff]
  refine ⟨by rw [splice_length h]; exact h, fun i hi => ?_⟩
  rw [List.getD_eq_getElem?_getD, splice_getElem? h,
    if_neg (by omega : ¬ p + i < p), if_pos (by omega : p + i < p + xs.length)]
  simp [List.getD_eq_getElem?_getD]

/-! ### Writer characterisations -/

theorem except_bind_pure {α : Type} (e : Except String α) :
    (e >>= fun a => (Except.ok a : Except String α)) = e := by
  cases e <;> rfl

theorem write8_ok {b : BytePacketBuffer} {v : Nat} {b2 : BytePacketBuffer} :
    b.write8 v = .ok b2 ↔ b.pos < 512 ∧
      b2 = ⟨b.buf.set b.pos (v % 256), b.pos + 1⟩ := by
  unfold BytePacketBuffer.write8 BytePacketBuffer.writePacketByte
  by_cases h : 512 ≤ b.pos
  · rw [if_pos h]
    simp
    omega
  · rw [if_neg h]
    simp [eq_comm]
    omega

theorem writeList_nil (b : BytePacketBuffer) : writeList b [] = .ok b := rfl

theorem writeList_cons (b : BytePacketBuffer) (v : Nat) (vs : List Nat) :
    writeList b (v :: vs) =
      b.write8 v >>= (fun b1 => writeList b1 vs) := rfl

theorem writeList_append (b : BytePacketBuffer) (xs ys : List Nat) :
    writeList b (xs ++ ys) =
      writeList b xs >>= (fun b1 => writeList b1 ys) := by
  induction xs generalizing b with
  | nil =>
    rw [List.nil_append, writeList_nil]
    rfl
  | cons v vs ih =>
    rw [List.cons_append, writeList_cons, writeList_cons]
    cases h : b.write8 v with
    | error e => rfl
    | ok b1 =>
      show writeList b1 (vs ++ ys) = writeList b1 vs >>= _
      exact ih b1

theorem writeList_ok {xs : List Nat} : ∀ {b b2 : BytePacketBuffer},
    b.buf.length = 512 → b.pos ≤ 512 →
    (writeList b xs = .ok b2 ↔
      b.pos + xs.length ≤ 512 ∧
      b2 = ⟨splice b.buf b.pos (xs.map (· % 256)), b.pos + xs.length⟩) := by
  induction xs with
  | nil =>
    intro b b2 hlen hpos
    rw [writeList_nil]
    simp only [List.map_nil, List.length_nil, Nat.add_zero,
      splice_nil b.buf b.pos (by omega)]
    constructor
    · intro hok
      obtain rfl : b = b2 := by simpa using hok
      exact ⟨hpos, rfl⟩
    · rintro ⟨-, rfl⟩
      rfl
  | cons v vs ih =>
    intro b b2 hlen hpos
    rw [writeList_cons]
    by_cases h : 512 ≤ b.pos
    · have hw : b.write8 v = .error "end of buffer" := by
        unfold BytePacketBuffer.write8 BytePacketBuffer.writePacketByte
        rw [if_pos h]
      rw [hw]
      show Except.error _ = _ ↔ _
      rw [show ((Except.error "end of buffer" : Except String BytePacketBuffer)
          = .ok b2) = False from by simp]
      rw [false_iff]
      rintro ⟨hc, -⟩
      simp at hc
      omega
    · have hw : b.write8 v = .ok ⟨b.buf.set b.pos (v % 256), b.pos + 1⟩ :=
        write8_ok.mpr ⟨by omega, rfl⟩
      rw [hw]
      show writeList ⟨b.buf.set b.pos (v % 256), b.pos + 1⟩ vs = _ ↔ _
      rw [ih (by simpa using hlen) (by simp; omega)]
      simp only [List.map_cons, List.length_cons]
      have hsp : (b.buf.set b.pos (v % 256)) = splice b.buf b.pos [v % 256] :=
        set_eq_splice _ (by omega)
      constructor
      · rintro ⟨hc, rfl⟩
        refine ⟨by omega, ?_⟩
        have hss : splice (splice b.buf b.pos [v % 256]) (b.pos + 1)
            (vs.map (· % 256)) =
            splice b.buf b.pos ([v % 256] ++ vs.map (· % 256)) := by
          have := splice_splice (l := b.buf) (p := b.pos) (u := [v % 256])
            (w := vs.map (· % 256)) (by simp; omega)
          simpa using this
        rw [hsp]
        simp only [List.singleton_append] at hss
        rw [hss]
        congr 1
        omega
      · rintro ⟨hc, rfl⟩
        refine ⟨by omega, ?_⟩
        have hss : splice (splice b.buf b.pos [v % 256]) (b.pos + 1)
            (vs.map (· % 256)) =
            splice b.buf b.pos ([v % 256] ++ vs.map (· % 256)) := by
          have := splice_splice (l := b.buf) (p := b.pos) (u := [v % 256])
            (w := vs.map (· % 256)) (by simp; omega)
          simpa using this
        rw [hsp]
        simp only [List.singleton_append] at hss
        rw [hss]
        congr 1
        omega

/-- The introduction form of writeList_ok. -/
theorem writeList_ok_of {b : BytePacketBuffer} {v : List Nat}
    (hlen : b.buf.length = 512) (hpos : b.pos ≤ 512)
    (hfit : b.pos + v.length ≤ 512) :
    writeList b v =
      .ok ⟨splice b.buf b.pos (v.map (· % 256)), b.pos + v.length⟩ :=
  (writeList_ok hlen hpos).mpr ⟨hfit, rfl⟩

theorem write8_eq_writeList (b : BytePacketBuffer) (v : Nat) :
    b.write8 v = writeList b [v] := by
  rw [writeList_cons]
  conv_rhs => rw [show (fun b1 => writeList b1 ([] : List Nat)) =
    (fun b1 => (Except.ok b1 : Except String BytePacketBuffer)) from rfl]
  rw [except_bind_pure]

theorem write16_eq_writeList (b : BytePacketBuffer) (v : Nat) :
    b.write16 v = writeList b (be16 v) := by
  show (b.write8 (v / 256 % 256)).bind
      (fun b1 => b1.write8 (v % 256)) = _
  unfold be16
  rw [writeList_cons]
  cases h : b.write8 (v / 256 % 256) with
  | error e => rfl
  | ok b1 =>
    show b1.write8 (v % 256) = writeList b1 [v % 256]
    exact write8_eq_writeList b1 (v % 256)

theorem write32_eq_writeList (b : BytePacketBuffer) (v : Nat) :
    b.write32 v = writeList b (be32 v) := by
  show (b.write8 (v / 2 ^ 24 % 256)).bind
      (fun b1 => (b1.write8 (v / 2 ^ 16 % 256)).bind
        (fun b2 => (b2.write8 (v / 2 ^ 8 % 256)).bind
          (fun b3 => b3.write8 (v % 256)))) = _
  unfold be32
  rw [writeList_cons]
  cases h1 : b.write8 (v / 2 ^ 24 % 256) with
  | error e => rfl
  | ok b1 =>
    show (b1.write8 (v / 2 ^ 16 % 256)).bind
        (fun b2 => (b2.write8 (v / 2 ^ 8 % 256)).bind
          (fun b3 => b3.write8 (v % 256))) =
      writeList b1 [v / 2 ^ 16 % 256, v / 2 ^ 8 % 256, v % 256]
    rw [writeList_cons]
    cases h2 : b1.write8 (v / 2 ^ 16 % 256) with
    | error e => rfl
    | ok b2 =>
      show (b2.write8 (v / 2 ^ 8 % 256)).bind
          (fun b3 => b3.write8 (v % 256)) =
        writeList b2 [v / 2 ^ 8 % 256, v % 256]
      rw [writeList_cons]
      cases h3 : b2.write8 (v / 2 ^ 8 % 256) with
      | error e => rfl
      | ok b3 =>
        show b3.write8 (v % 256) = writeList b3 [v % 256]
        exact write8_eq_writeList b3 (v % 256)

theorem ok_bind {α β : Type} (a : α) (f : α → Except String β) :
    (Except.ok a : Except String α) >>= f = f a := rfl

theorem error_bind {α β : Type} (e : String) (f : α → Except String β) :
    (Except.error e : Except String α) >>= f = .error e := rfl

theorem map_mod_eq_self {xs : List Nat} (h : ∀ x ∈ xs, x < 256) :
    xs.map (· % 256) = xs := by
  induction xs with
  | nil => rfl
  | cons v vs ih =>
    rw [List.map_cons, ih (fun x hx => h x (by simp [hx]))]
    have hv : v < 256 := h v (by simp)
    rw [Nat.mod_eq_of_lt hv]

theorem be16_lt (v : Nat) : ∀ x ∈ be16 v, x < 256 := by
  intro x hx
  simp [be16] at hx
  rcases hx with rfl | rfl <;> omega

theorem be32_lt (v : Nat) : ∀ x ∈ be32 v, x < 256 := by
  intro x hx
  simp [be32] at hx
  rcases hx with rfl | rfl | rfl | rfl <;> omega

theorem be16_length (v : Nat) : (be16 v).length = 2 := rfl

theorem be32_length (v : Nat) : (be32 v).length = 4 := rfl

theorem be16_mod_65536 (v : Nat) : be16 (v % 65536) = be16 v := by
  simp only [be16]
  rw [show v % 65536 / 256 % 256 = v / 256 % 256 from by omega,
    show v % 65536 % 256 = v % 256 from by omega]

/-- The label fold of WriteQname is the writeList of the label area. -/
theorem labelFold_eq_writeList :
    ∀ (ls : List (List Nat)) (b : BytePacketBuffer),
      (∀ l ∈ ls, l.length ≤ 63) →
      ls.foldlM
        (fun (b : BytePacketBuffer) (label : List Nat) => do
          if 0x3f < label.length then
            throw "single label exceeds 63 character of length"
          else
            let b ← b.write8 label.length
            label.foldlM (fun b bt => b.write8 bt) b)
        b = writeList b (encLabels ls) := by
  intro ls
  induction ls with
  | nil => intro b _; rfl
  | cons l ls ih =>
    intro b h
    have h63 : ¬ 0x3f < l.length := by
      have := h l (by simp)
      omega
    rw [List.foldlM_cons]
    rw [if_neg h63]
    have henc : encLabels (l :: ls) = l.length :: (l ++ encLabels ls) := rfl
    rw [henc, writeList_cons]
    cases hw : b.write8 l.length with
    | error e => simp only [hw, error_bind]
    | ok b1 =>
      simp only [hw, ok_bind]
      rw [show List.foldlM (fun b bt => b.write8 bt) b1 l =
        writeList b1 l from rfl, writeList_append]
      cases hwl : writeList b1 l with
      | error e => simp only [error_bind]
      | ok b2 =>
        simp only [ok_bind]
        exact ih b2 (fun x hx => h x (by simp [hx]))

/-- WriteQname is the writeList of the name encoding, provided every
label fits in 63 octets. -/
theorem writeQname_eq_writeList {n : List Nat} (b : BytePacketBuffer)
    (h63 : ∀ l ∈ splitDot n, l.length ≤ 63) :
    b.writeQname n = writeList b (encQname n) := by
  unfold BytePacketBuffer.writeQname encQname
  rw [labelFold_eq_writeList (splitDot n) b h63, writeList_append]
  cases hw : writeList b (encLabels (splitDot n)) with
  | error e => simp only [error_bind]
  | ok b1 =>
    simp only [ok_bind]
    exact write8_eq_writeList b1 0

theorem mod256_mod256 (x : Nat) : x % 256 % 256 = x % 256 :=
  Nat.mod_mod_of_dvd x dvd_rfl

theorem mod65536_div256 (n : Nat) : n % 65536 / 256 % 256 = n / 256 % 256 := by
  omega

theorem mod65536_mod256 (n : Nat) : n % 65536 % 256 = n % 256 := by
  omega

theorem lor_eq_add {a b : Nat} (k : Nat) (ha : a % 2 ^ k = 0) (hb : b < 2 ^ k) :
    a ||| b = a + b := by
  obtain ⟨c, rfl⟩ : ∃ c, a = c * 2 ^ k :=
    ⟨a / 2 ^ k, (Nat.div_mul_cancel (Nat.dvd_of_mod_eq_zero ha)).symm⟩
  rw [← Nat.shiftLeft_eq, lor_shift_eq_add c b k hb, Nat.shiftLeft_eq]

theorem splice_set {l : List Nat} {p j : Nat} {u : List Nat} (v : Nat)
    (hj : j < u.length) (hle : p + u.length ≤ l.length) :
    (splice l p u).set (p + j) v = splice l p (u.set j v) := by
  have hls : (u.set j v).length = u.length := by simp
  have hle2 : p + (u.set j v).length ≤ l.length := by omega
  apply List.ext_getElem?
  intro i
  rw [List.getElem?_set, splice_getElem? hle2 i, List.getElem?_set,
    splice_getElem? hle i, splice_length hle, hls]
  split_ifs <;> first | rfl | omega | (congr 1; omega)

theorem set16_eq {b : BytePacketBuffer} {p : Nat} (v : Nat)
    (h : p + 1 < b.buf.length) :
    b.set16 p v =
      some { b with buf := (b.buf.set p (v / 256 % 256)).set (p + 1) (v % 256) } := by
  unfold BytePacketBuffer.set16
  rw [if_pos h]

theorem set16_splice0 {l : List Nat} {q pp : Nat} (v : Nat) {x0 x1 : Nat}
    {rest : List Nat} (hle : q + (x0 :: x1 :: rest).length ≤ l.length) :
    (⟨splice l q (x0 :: x1 :: rest), pp⟩ : BytePacketBuffer).set16 q v =
      some ⟨splice l q (v / 256 % 256 :: v % 256 :: rest), pp⟩ := by
  have hlt : (x0 :: x1 :: rest).length ≤ l.length - q := by omega
  have h1 : q + 1 < (splice l q (x0 :: x1 :: rest)).length := by
    rw [splice_length hle]
    simp at hle
    omega
  rw [set16_eq v h1]
  have e0 : (splice l q (x0 :: x1 :: rest)).set q (v / 256 % 256) =
      splice l q (v / 256 % 256 :: x1 :: rest) := by
    have := splice_set (l := l) (p := q) (j := 0)
      (u := x0 :: x1 :: rest) (v / 256 % 256) (by simp) hle
    simpa using this
  have e1 : (splice l q (v / 256 % 256 :: x1 :: rest)).set (q + 1) (v % 256) =
      splice l q (v / 256 % 256 :: v % 256 :: rest) := by
    have := splice_set (l := l) (p := q) (j := 1)
      (u := v / 256 % 256 :: x1 :: rest) (v % 256)
      (by simp only [List.length_cons]; omega)
      (by simp only [List.length_cons] at hle ⊢; omega)
    simpa using this
  rw [e0, e1]

theorem splice_splice_map {l : List Nat} {p : Nat} {xs ys : List Nat}
    (h : p + xs.length + ys.length ≤ l.length) :
    splice (splice l p (xs.map (· % 256))) (p + xs.length) (ys.map (· % 256)) =
      splice l p ((xs ++ ys).map (· % 256)) := by
  rw [show p + xs.length = p + (xs.map (· % 256)).length from by simp,
    List.map_append]
  exact splice_splice (by simpa using h)

theorem bytesAt_singleton {l : List Nat} {p x : Nat} :
    bytesAt l p [x] ↔ p < l.length ∧ l.getD p 0 = x := by
  rw [bytesAt_iff]
  constructor
  · rintro ⟨h1, h2⟩
    have h3 := h2 0 (by simp)
    simp only [List.length_cons, List.length_nil] at h1
    exact ⟨by omega, by simpa using h3⟩
  · rintro ⟨h1, h2⟩
    refine ⟨by simp; omega, fun i hi => ?_⟩
    simp only [List.length_cons, List.length_nil] at hi
    have hi0 : i = 0 := by omega
    subst hi0
    simpa using h2

theorem bytesAt_cons {l : List Nat} {p x : Nat} {xs : List Nat} :
    bytesAt l p (x :: xs) ↔
      p < l.length ∧ l.getD p 0 = x ∧ bytesAt l (p + 1) xs := by
  rw [show x :: xs = [x] ++ xs from rfl, bytesAt_append, bytesAt_singleton]
  simp only [List.length_cons, List.length_nil]
  tauto

theorem read32_eq (b : BytePacketBuffer) :
    b.read32 = if 512 ≤ b.pos + 3 then .error "buffer overflow"
      else .ok ((b.buf.getD b.pos 0 <<< 24) ||| (b.buf.getD (b.pos + 1) 0 <<< 16) |||
        (b.buf.getD (b.pos + 2) 0 <<< 8) ||| b.buf.getD (b.pos + 3) 0,
        { b with pos := b.pos + 4 }) := by
  unfold BytePacketBuffer.read32 BytePacketBuffer.read
  by_cases h1 : 512 ≤ b.pos
  · rw [if_pos h1, if_pos (by omega : 512 ≤ b.pos + 3)]
    rfl
  · by_cases h2 : 512 ≤ b.pos + 1
    · rw [if_neg h1, if_pos (by omega : 512 ≤ b.pos + 3)]
      simp [bind, Except.bind, h2]
    · by_cases h3 : 512 ≤ b.pos + 2
      · rw [if_neg h1, if_pos (by omega : 512 ≤ b.pos + 3)]
        simp [bind, Except.bind, h2, h3]
      · by_cases h4 : 512 ≤ b.pos + 3
        · rw [if_neg h1, if_pos h4]
          simp [bind, Except.bind, h2, h3, h4]
        · rw [if_neg h1, if_neg h4]
          simp [bind, Except.bind, h2, h3, h4]

theorem read16_bytes_raw {l : List Nat} {p u w : Nat}
    (hlen : l.length = 512) (hb : bytesAt l p [u, w]) :
    (⟨l, p⟩ : BytePacketBuffer).read16 =
      .ok ((u <<< 8) ||| w, ⟨l, p + 2⟩) := by
  rw [bytesAt_cons] at hb
  obtain ⟨hp0, h0, hb⟩ := hb
  rw [bytesAt_singleton] at hb
  obtain ⟨hp1, h1⟩ := hb
  rw [read16_eq]
  dsimp only
  rw [if_neg (by omega : ¬ 512 ≤ p + 1), h0, h1]

theorem read16_bytes {l : List Nat} {p v : Nat} (hlen : l.length = 512)
    (hv : v < 65536) (hb : bytesAt l p (be16 v)) :
    (⟨l, p⟩ : BytePacketBuffer).read16 = .ok (v, ⟨l, p + 2⟩) := by
  have hval : ((v / 256 % 256) <<< 8) ||| (v % 256) = v := by
    rw [lor_shift_eq_add _ _ 8 (by omega)]
    omega
  rw [read16_bytes_raw (u := v / 256 % 256) (w := v % 256) hlen hb, hval]

theorem four_byte_value {x0 x1 x2 x3 : Nat} (h0 : x0 < 256) (h1 : x1 < 256)
    (h2 : x2 < 256) (h3 : x3 < 256) :
    (x0 <<< 24) ||| (x1 <<< 16) ||| (x2 <<< 8) ||| x3 =
      x0 * 2 ^ 24 + x1 * 2 ^ 16 + x2 * 2 ^ 8 + x3 := by
  simp only [Nat.shiftLeft_eq]
  rw [lor_eq_add (a := x0 * 2 ^ 24) (b := x1 * 2 ^ 16) 24 (by omega) (by omega)]
  rw [lor_eq_add (a := x0 * 2 ^ 24 + x1 * 2 ^ 16) (b := x2 * 2 ^ 8) 16
    (by omega) (by omega)]
  rw [lor_eq_add (a := x0 * 2 ^ 24 + x1 * 2 ^ 16 + x2 * 2 ^ 8) (b := x3) 8
    (by omega) (by omega)]

theorem four_byte_fields {x0 x1 x2 x3 : Nat} (h0 : x0 < 256) (h1 : x1 < 256)
    (h2 : x2 < 256) (h3 : x3 < 256) :
    (x0 * 2 ^ 24 + x1 * 2 ^ 16 + x2 * 2 ^ 8 + x3) >>> 24 &&& 0xFF = x0 ∧
    (x0 * 2 ^ 24 + x1 * 2 ^ 16 + x2 * 2 ^ 8 + x3) >>> 16 &&& 0xFF = x1 ∧
    (x0 * 2 ^ 24 + x1 * 2 ^ 16 + x2 * 2 ^ 8 + x3) >>> 8 &&& 0xFF = x2 ∧
    (x0 * 2 ^ 24 + x1 * 2 ^ 16 + x2 * 2 ^ 8 + x3) >>> 0 &&& 0xFF = x3 := by
  refine ⟨?_, ?_, ?_, ?_⟩ <;>
    rw [Nat.shiftRight_eq_div_pow, and_255_eq_mod] <;> omega

theorem read32_bytes_raw {l : List Nat} {p u w y z : Nat}
    (hlen : l.length = 512) (hb : bytesAt l p [u, w, y, z]) :
    (⟨l, p⟩ : BytePacketBuffer).read32 =
      .ok ((u <<< 24) ||| (w <<< 16) ||| (y <<< 8) ||| z, ⟨l, p + 4⟩) := by
  rw [bytesAt_cons] at hb
  obtain ⟨hp0, h0, hb⟩ := hb
  rw [bytesAt_cons] at hb
  obtain ⟨hp1, h1, hb⟩ := hb
  rw [bytesAt_cons] at hb
  obtain ⟨hp2, h2, hb⟩ := hb
  rw [bytesAt_singleton] at hb
  obtain ⟨hp3, h3⟩ := hb
  have g2 : l.getD (p + 2) 0 = y := h2
  have g3 : l.getD (p + 3) 0 = z := h3
  rw [read32_eq]
  dsimp only
  rw [if_neg (show ¬ 512 ≤ p + 3 from by omega), h0, h1, g2, g3]

theorem read32_bytes {l : List Nat} {p v : Nat} (hlen : l.length = 512)
    (hv : v < 2 ^ 32) (hb : bytesAt l p (be32 v)) :
    (⟨l, p⟩ : BytePacketBuffer).read32 = .ok (v, ⟨l, p + 4⟩) := by
  rw [read32_bytes_raw (u := v / 2 ^ 24 % 256) (w := v / 2 ^ 16 % 256)
    (y := v / 2 ^ 8 % 256) (z := v % 256) hlen hb,
    four_byte_value (by omega) (by omega) (by omega) (by omega),
    show v / 2 ^ 24 % 256 * 2 ^ 24 + v / 2 ^ 16 % 256 * 2 ^ 16 +
      v / 2 ^ 8 % 256 * 2 ^ 8 + v % 256 = v from by omega]

theorem encLabels_nil : encLabels [] = [] := rfl

theorem encLabels_cons (l : List Nat) (ls : List (List Nat)) :
    encLabels (l :: ls) = l.length :: (l ++ encLabels ls) := rfl

theorem encLabels_len_ge : ∀ ls : List (List Nat),
    ls.length ≤ (encLabels ls).length := by
  intro ls
  induction ls with
  | nil => simp [encLabels_nil]
  | cons l ls ih =>
    rw [encLabels_cons]
    simp only [List.length_cons, List.length_append]
    omega

theorem splitDot_ne_nil : ∀ n : List Nat, splitDot n ≠ [] := by
  intro n
  induction n with
  | nil => simp [splitDot]
  | cons c rest ih =>
    simp only [splitDot]
    by_cases h : c = 46
    · rw [if_pos h]
      simp
    · rw [if_neg h]
      cases hs : splitDot rest with
      | nil => simp
      | cons l ls => simp

theorem joinDot_splitDot : ∀ n : List Nat, joinDot (splitDot n) = n := by
  intro n
  induction n with
  | nil => rfl
  | cons c rest ih =>
    simp only [splitDot]
    by_cases h : c = 46
    · rw [if_pos h]
      subst h
      cases hs : splitDot rest with
      | nil => exact absurd hs (splitDot_ne_nil rest)
      | cons l ls =>
        rw [hs] at ih
        show ([] : List Nat) ++ 46 :: joinDot (l :: ls) = 46 :: rest
        rw [List.nil_append, ih]
    · rw [if_neg h]
      cases hs : splitDot rest with
      | nil => exact absurd hs (splitDot_ne_nil rest)
      | cons l ls =>
        rw [hs] at ih
        cases ls with
        | nil =>
          show c :: l = c :: rest
          rw [show joinDot [l] = l from rfl] at ih
          rw [ih]
        | cons l2 ls2 =>
          show (c :: l) ++ 46 :: joinDot (l2 :: ls2) = c :: rest
          rw [show joinDot (l :: l2 :: ls2) = l ++ 46 :: joinDot (l2 :: ls2)
            from rfl] at ih
          rw [List.cons_append, ih]

theorem dotAcc46_eq : ∀ ls : List (List Nat), ls ≠ [] →
    dotAcc [46] ls = 46 :: joinDot ls := by
  intro ls
  induction ls with
  | nil => intro h; exact absurd rfl h
  | cons lab rest ih =>
    intro _
    cases rest with
    | nil =>
      show [46] ++ lab ++ dotAcc [46] [] = 46 :: joinDot [lab]
      simp [dotAcc, joinDot]
    | cons r rs =>
      have h2 := ih (by simp)
      show 46 :: (lab ++ dotAcc [46] (r :: rs)) = 46 :: joinDot (lab :: r :: rs)
      rw [h2, show joinDot (lab :: r :: rs) = lab ++ 46 :: joinDot (r :: rs)
        from rfl]

theorem dotAcc_nil_delim : ∀ ls : List (List Nat), dotAcc [] ls = joinDot ls := by
  intro ls
  cases ls with
  | nil => rfl
  | cons lab rest =>
    cases rest with
    | nil => simp [dotAcc, joinDot]
    | cons r rs =>
      show ([] : List Nat) ++ lab ++ dotAcc [46] (r :: rs) = joinDot (lab :: r :: rs)
      rw [dotAcc46_eq (r :: rs) (by simp)]
      rfl

/-- The ReadQname loop over a region holding an encoded label list and
the terminator: no jump is ever taken, the labels are accumulated with
dot delimiters, and the cursor lands one past the terminator. -/
theorem readQnameLoop_labels :
    ∀ (ls : List (List Nat)) (l : List Nat) (p bp jumps : Nat)
      (acc delim : List Nat) (fuel : Nat),
      l.length = 512 → jumps ≤ MAX_JUMPS →
      (∀ lab ∈ ls, lab ≠ [] ∧ lab.length ≤ 63) →
      bytesAt l p (encLabels ls ++ [0]) →
      ls.length + 1 ≤ fuel →
      readQnameLoop l bp p false jumps acc delim fuel =
        .ok (acc ++ dotAcc delim ls, p + (encLabels ls).length + 1, jumps) := by
  intro ls
  induction ls with
  | nil =>
    intro l p bp jumps acc delim fuel hlen hj hgood hb hfuel
    obtain ⟨f, rfl⟩ : ∃ f, fuel = f + 1 := ⟨fuel - 1, by omega⟩
    have hb' : bytesAt l p [0] := hb
    rw [bytesAt_singleton] at hb'
    obtain ⟨hp, h0⟩ := hb'
    rw [readQnameLoop_succ,
      if_neg (show ¬ MAX_JUMPS < jumps from by omega),
      if_neg (show ¬ 512 ≤ p from by omega), h0,
      if_neg (show ¬ (0 : Nat) &&& 0xC0 = 0xC0 from by decide),
      if_pos rfl]
    simp [dotAcc, encLabels_nil]
  | cons lab rest ih =>
    intro l p bp jumps acc delim fuel hlen hj hgood hb hfuel
    obtain ⟨f, rfl⟩ : ∃ f, fuel = f + 1 := ⟨fuel - 1, by omega⟩
    obtain ⟨hlab_ne, hlab_le⟩ := hgood lab (by simp)
    have hshape : encLabels (lab :: rest) ++ [0] =
        lab.length :: (lab ++ (encLabels rest ++ [0])) := by
      rw [encLabels_cons]
      simp [List.append_assoc]
    rw [hshape] at hb
    rw [bytesAt_cons] at hb
    obtain ⟨hp, hbyte, hb⟩ := hb
    rw [bytesAt_append] at hb
    obtain ⟨hlab, htail⟩ := hb
    obtain ⟨hlab1, hlab2⟩ := hlab
    have htail1 := (bytesAt_iff.mp htail).1
    rw [readQnameLoop_succ,
      if_neg (show ¬ MAX_JUMPS < jumps from by omega),
      if_neg (show ¬ 512 ≤ p from by omega), hbyte,
      if_neg (show ¬ lab.length &&& 0xC0 = 0xC0 from by
        rw [small_not_pointer lab.length (by omega)]
        decide),
      if_neg (show ¬ lab.length = 0 from by
        intro hc
        exact hlab_ne (List.eq_nil_of_length_eq_zero hc)),
      if_neg (show ¬ 512 ≤ p + 1 + lab.length from by
        simp only [List.length_append, List.length_cons, List.length_nil] at htail1
        omega),
      hlab2]
    rw [ih l (p + 1 + lab.length) bp jumps (acc ++ delim ++ lab) [46] f hlen hj
      (fun x hx => hgood x (by simp [hx])) htail
      (by simp only [List.length_cons] at hfuel; omega)]
    rw [show (acc ++ delim ++ lab) ++ dotAcc [46] rest =
        acc ++ dotAcc delim (lab :: rest) from by
      show _ = acc ++ (delim ++ lab ++ dotAcc [46] rest)
      simp [List.append_assoc]]
    rw [show p + 1 + lab.length + (encLabels rest).length + 1 =
        p + (encLabels (lab :: rest)).length + 1 from by
      rw [encLabels_cons]
      simp only [List.length_cons, List.length_append]
      omega]

/-- ReadQname over a region holding the WriteQname encoding of a
wellformed name decodes exactly that name and advances past it. -/
theorem readQname_bytes {l : List Nat} {p : Nat} {n : List Nat}
    (hlen : l.length = 512) (hgood : goodName n)
    (hb : bytesAt l p (encQname n)) :
    (⟨l, p⟩ : BytePacketBuffer).readQname =
      .ok (n, ⟨l, p + (encQname n).length⟩) := by
  obtain ⟨hg1, hg2⟩ := hgood
  have hfit := (bytesAt_iff.mp hb).1
  have hcount : (splitDot n).length ≤ (encLabels (splitDot n)).length :=
    encLabels_len_ge (splitDot n)
  have hlen2 : (encQname n).length = (encLabels (splitDot n)).length + 1 := by
    simp [encQname]
  have hloop := readQnameLoop_labels (splitDot n) l p p 0 [] [] readQnameFuel
    hlen (Nat.zero_le _)
    (fun lab hx => ⟨(hg1 lab hx).1, (hg1 lab hx).2⟩) hb
    (by
      rw [hlen2, hlen] at hfit
      show (splitDot n).length + 1 ≤ 6 * 514 + 513
      omega)
  unfold BytePacketBuffer.readQname
  dsimp only
  rw [hloop]
  dsimp only
  rw [show ([] : List Nat) ++ dotAcc [] (splitDot n) = n from by
    rw [List.nil_append, dotAcc_nil_delim, joinDot_splitDot]]
  rw [show p + (encLabels (splitDot n)).length + 1 = p + (encQname n).length
    from by rw [hlen2]; omega]

/-- On a successful Write16 the error-discarding variant leaves exactly
the successful result. -/
theorem write16Ignored_of_ok {b : BytePacketBuffer} {v : Nat}
    {b2 : BytePacketBuffer} (h : b.write16 v = .ok b2) :
    b.write16Ignored v = b2 := by
  unfold BytePacketBuffer.write16 at h
  unfold BytePacketBuffer.write16Ignored
  cases h1 : b.write8 (v / 256 % 256) with
  | error e =>
    have h1' : b.writePacketByte (v / 256 % 256) = .error e := h1
    rw [h1', error_bind] at h
    exact Except.noConfusion h
  | ok c =>
    have h1' : b.writePacketByte (v / 256 % 256) = .ok c := h1
    rw [h1'] at h
    simp only [ok_bind] at h
    dsimp only
    cases h2 : c.write8 (v % 256) with
    | error e =>
      have h2' : c.writePacketByte (v % 256) = .error e := h2
      rw [h2'] at h
      exact Except.noConfusion h
    | ok d =>
      have h2' : c.writePacketByte (v % 256) = .ok d := h2
      rw [h2'] at h
      dsimp only
      exact Except.ok.inj h

/-- DNSHeader.Write on a buffer with at least 12 free octets: all seven
writes succeed (so the discarded errors of the last three writes are
nil) and the result is the 12 octet header encoding spliced in at the
cursor. -/
theorem headerWrite_ok {h : DNSHeader} {b : BytePacketBuffer}
    (hlen : b.buf.length = 512) (hpos : b.pos ≤ 512)
    (hfit : b.pos + 12 ≤ 512) :
    h.write b = .ok ⟨splice b.buf b.pos ((encHeader h).map (· % 256)),
      b.pos + 12⟩ := by
  have L0 : (b.buf : List Nat).length = 512 := hlen
  have L1 : ((splice b.buf b.pos ((be16 h.id).map (· % 256))) : List Nat).length = 512 := by
    have hc : b.pos + (((be16 h.id)).map (· % 256)).length ≤
        (b.buf : List Nat).length := by
      rw [L0]
      show b.pos + 2 ≤ 512
      omega
    rw [splice_length hc]
    exact L0
  have L2 : ((splice (splice b.buf b.pos ((be16 h.id).map (· % 256))) (b.pos + 2) ([(boolToUint8 h.recursionDesired |||
        (boolToUint8 h.truncatedMessage <<< 1) |||
        (boolToUint8 h.authoritativeAnswer <<< 2) |||
        (h.opcode <<< 3) |||
        (boolToUint8 h.response <<< 7))].map (· % 256))) : List Nat).length = 512 := by
    have hc : (b.pos + 2) + (([(boolToUint8 h.recursionDesired |||
        (boolToUint8 h.truncatedMessage <<< 1) |||
        (boolToUint8 h.authoritativeAnswer <<< 2) |||
        (h.opcode <<< 3) |||
        (boolToUint8 h.response <<< 7))]).map (· % 256)).length ≤
        ((splice b.buf b.pos ((be16 h.id).map (· % 256))) : List Nat).length := by
      rw [L1]
      show (b.pos + 2) + 1 ≤ 512
      omega
    rw [splice_length hc]
    exact L1
  have L3 : ((splice (splice (splice b.buf b.pos ((be16 h.id).map (· % 256))) (b.pos + 2) ([(boolToUint8 h.recursionDesired |||
        (boolToUint8 h.truncatedMessage <<< 1) |||
        (boolToUint8 h.authoritativeAnswer <<< 2) |||
        (h.opcode <<< 3) |||
        (boolToUint8 h.response <<< 7))].map (· % 256))) (b.pos + 3) ([(h.resCode.toUint8 |||
        boolToUint8 h.checkingDisabled <<< 4 |||
        boolToUint8 h.authedData <<< 5 |||
        boolToUint8 h.z <<< 6 |||
        boolToUint8 h.recursionAvailable <<< 7)].map (· % 256))) : List Nat).length = 512 := by
    have hc : (b.pos + 3) + (([(h.resCode.toUint8 |||
        boolToUint8 h.checkingDisabled <<< 4 |||
        boolToUint8 h.authedData <<< 5 |||
        boolToUint8 h.z <<< 6 |||
        boolToUint8 h.recursionAvailable <<< 7)]).map (· % 256)).length ≤
        ((splice (splice b.buf b.pos ((be16 h.id).map (· % 256))) (b.pos + 2) ([(boolToUint8 h.recursionDesired |||
        (boolToUint8 h.truncatedMessage <<< 1) |||
        (boolToUint8 h.authoritativeAnswer <<< 2) |||
        (h.opcode <<< 3) |||
        (boolToUint8 h.response <<< 7))].map (· % 256))) : List Nat).length := by
      rw [L2]
      show (b.pos + 3) + 1 ≤ 512
      omega
    rw [splice_length hc]
    exact L2
  have L4 : ((splice (splice (splice (splice b.buf b.pos ((be16 h.id).map (· % 256))) (b.pos + 2) ([(boolToUint8 h.recursionDesired |||
        (boolToUint8 h.truncatedMessage <<< 1) |||
        (boolToUint8 h.authoritativeAnswer <<< 2) |||
        (h.opcode <<< 3) |||
        (boolToUint8 h.response <<< 7))].map (· % 256))) (b.pos + 3) ([(h.resCode.toUint8 |||
        boolToUint8 h.checkingDisabled <<< 4 |||
        boolToUint8 h.authedData <<< 5 |||
        boolToUint8 h.z <<< 6 |||
        boolToUint8 h.recursionAvailable <<< 7)].map (· % 256))) (b.pos + 4) ((be16 h.questions).map (· % 256))) : List Nat).length = 512 := by
    have hc : (b.pos + 4) + (((be16 h.questions)).map (· % 256)).length ≤
        ((splice (splice (splice b.buf b.pos ((be16 h.id).map (· % 256))) (b.pos + 2) ([(boolToUint8 h.recursionDesired |||
        (boolToUint8 h.truncatedMessage <<< 1) |||
        (boolToUint8 h.authoritativeAnswer <<< 2) |||
        (h.opcode <<< 3) |||
        (boolToUint8 h.response <<< 7))].map (· % 256))) (b.pos + 3) ([(h.resCode.toUint8 |||
        boolToUint8 h.checkingDisabled <<< 4 |||
        boolToUint8 h.authedData <<< 5 |||
        boolToUint8 h.z <<< 6 |||
        boolToUint8 h.recursionAvailable <<< 7)].map (· % 256))) : List Nat).length := by
      rw [L3]
      show (b.pos + 4) + 2 ≤ 512
      omega
    rw [splice_length hc]
    exact L3
  have L5 : ((splice (splice (splice (splice (splice b.buf b.pos ((be16 h.id).map (· % 256))) (b.pos + 2) ([(boolToUint8 h.recursionDesired |||
        (boolToUint8 h.truncatedMessage <<< 1) |||
        (boolToUint8 h.authoritativeAnswer <<< 2) |||
        (h.opcode <<< 3) |||
        (boolToUint8 h.response <<< 7))].map (· % 256))) (b.pos + 3) ([(h.resCode.toUint8 |||
        boolToUint8 h.checkingDisabled <<< 4 |||
        boolToUint8 h.authedData <<< 5 |||
        boolToUint8 h.z <<< 6 |||
        boolToUint8 h.recursionAvailable <<< 7)].map (· % 256))) (b.pos + 4) ((be16 h.questions).map (· % 256))) (b.pos + 6) ((be16 h.answers).map (· % 256))) : List Nat).length = 512 := by
    have hc : (b.pos + 6) + (((be16 h.answers)).map (· % 256)).length ≤
        ((splice (splice (splice (splice b.buf b.pos ((be16 h.id).map (· % 256))) (b.pos + 2) ([(boolToUint8 h.recursionDesired |||
        (boolToUint8 h.truncatedMessage <<< 1) |||
        (boolToUint8 h.authoritativeAnswer <<< 2) |||
        (h.opcode <<< 3) |||
        (boolToUint8 h.response <<< 7))].map (· % 256))) (b.pos + 3) ([(h.resCode.toUint8 |||
        boolToUint8 h.checkingDisabled <<< 4 |||
        boolToUint8 h.authedData <<< 5 |||
        boolToUint8 h.z <<< 6 |||
        boolToUint8 h.recursionAvailable <<< 7)].map (· % 256))) (b.pos + 4) ((be16 h.questions).map (· % 256))) : List Nat).length := by
      rw [L4]
      show (b.pos + 6) + 2 ≤ 512
      omega
    rw [splice_length hc]
    exact L4
  have L6 : ((splice (splice (splice (splice (splice (splice b.buf b.pos ((be16 h.id).map (· % 256))) (b.pos + 2) ([(boolToUint8 h.recursionDesired |||
        (boolToUint8 h.truncatedMessage <<< 1) |||
        (boolToUint8 h.authoritativeAnswer <<< 2) |||
        (h.opcode <<< 3) |||
        (boolToUint8 h.response <<< 7))].map (· % 256))) (b.pos + 3) ([(h.resCode.toUint8 |||
        boolToUint8 h.checkingDisabled <<< 4 |||
        boolToUint8 h.authedData <<< 5 |||
        boolToUint8 h.z <<< 6 |||
        boolToUint8 h.recursionAvailable <<< 7)].map (· % 256))) (b.pos + 4) ((be16 h.questions).map (· % 256))) (b.pos + 6) ((be16 h.answers).map (· % 256))) (b.pos + 8) ((be16 h.authoritativeEntries).map (· % 256))) : List Nat).length = 512 := by
    have hc : (b.pos + 8) + (((be16 h.authoritativeEntries)).map (· % 256)).length ≤
        ((splice (splice (splice (splice (splice b.buf b.pos ((be16 h.id).map (· % 256))) (b.pos + 2) ([(boolToUint8 h.recursionDesired |||
        (boolToUint8 h.truncatedMessage <<< 1) |||
        (boolToUint8 h.authoritativeAnswer <<< 2) |||
        (h.opcode <<< 3) |||
        (boolToUint8 h.response <<< 7))].map (· % 256))) (b.pos + 3) ([(h.resCode.toUint8 |||
        boolToUint8 h.checkingDisabled <<< 4 |||
        boolToUint8 h.authedData <<< 5 |||
        boolToUint8 h.z <<< 6 |||
        boolToUint8 h.recursionAvailable <<< 7)].map (· % 256))) (b.pos + 4) ((be16 h.questions).map (· % 256))) (b.pos + 6) ((be16 h.answers).map (· % 256))) : List Nat).length := by
      rw [L5]
      show (b.pos + 8) + 2 ≤ 512
      omega
    rw [splice_length hc]
    exact L5
  have L7 : ((splice (splice (splice (splice (splice (splice (splice b.buf b.pos ((be16 h.id).map (· % 256))) (b.pos + 2) ([(boolToUint8 h.recursionDesired |||
        (boolToUint8 h.truncatedMessage <<< 1) |||
        (boolToUint8 h.authoritativeAnswer <<< 2) |||
        (h.opcode <<< 3) |||
        (boolToUint8 h.response <<< 7))].map (· % 256))) (b.pos + 3) ([(h.resCode.toUint8 |||
        boolToUint8 h.checkingDisabled <<< 4 |||
        boolToUint8 h.authedData <<< 5 |||
        boolToUint8 h.z <<< 6 |||
        boolToUint8 h.recursionAvailable <<< 7)].map (· % 256))) (b.pos + 4) ((be16 h.questions).map (· % 256))) (b.pos + 6) ((be16 h.answers).map (· % 256))) (b.pos + 8) ((be16 h.authoritativeEntries).map (· % 256))) (b.pos + 10) ((be16 h.resourceEntries).map (· % 256))) : List Nat).length = 512 := by
    have hc : (b.pos + 10) + (((be16 h.resourceEntries)).map (· % 256)).length ≤
        ((splice (splice (splice (splice (splice (splice b.buf b.pos ((be16 h.id).map (· % 256))) (b.pos + 2) ([(boolToUint8 h.recursionDesired |||
        (boolToUint8 h.truncatedMessage <<< 1) |||
        (boolToUint8 h.authoritativeAnswer <<< 2) |||
        (h.opcode <<< 3) |||
        (boolToUint8 h.response <<< 7))].map (· % 256))) (b.pos + 3) ([(h.resCode.toUint8 |||
        boolToUint8 h.checkingDisabled <<< 4 |||
        boolToUint8 h.authedData <<< 5 |||
        boolToUint8 h.z <<< 6 |||
        boolToUint8 h.recursionAvailable <<< 7)].map (· % 256))) (b.pos + 4) ((be16 h.questions).map (· % 256))) (b.pos + 6) ((be16 h.answers).map (· % 256))) (b.pos + 8) ((be16 h.authoritativeEntries).map (· % 256))) : List Nat).length := by
      rw [L6]
      show (b.pos + 10) + 2 ≤ 512
      omega
    rw [splice_length hc]
    exact L6
  have e1 : BytePacketBuffer.write16 b h.id =
      .ok ⟨(splice b.buf b.pos ((be16 h.id).map (· % 256))), (b.pos + 2)⟩ := by
    rw [write16_eq_writeList]
    exact writeList_ok_of (b := b) (v := (be16 h.id))
      L0 hpos (show b.pos + 2 ≤ 512 from by omega)
  have e2 : BytePacketBuffer.write8 (⟨(splice b.buf b.pos ((be16 h.id).map (· % 256))), (b.pos + 2)⟩ : BytePacketBuffer) (boolToUint8 h.recursionDesired |||
        (boolToUint8 h.truncatedMessage <<< 1) |||
        (boolToUint8 h.authoritativeAnswer <<< 2) |||
        (h.opcode <<< 3) |||
        (boolToUint8 h.response <<< 7)) =
      .ok ⟨(splice (splice b.buf b.pos ((be16 h.id).map (· % 256))) (b.pos + 2) ([(boolToUint8 h.recursionDesired |||
        (boolToUint8 h.truncatedMessage <<< 1) |||
        (boolToUint8 h.authoritativeAnswer <<< 2) |||
        (h.opcode <<< 3) |||
        (boolToUint8 h.response <<< 7))].map (· % 256))), (b.pos + 3)⟩ := by
    rw [write8_eq_writeList]
    exact writeList_ok_of (b := (⟨(splice b.buf b.pos ((be16 h.id).map (· % 256))), (b.pos + 2)⟩ : BytePacketBuffer)) (v := [(boolToUint8 h.recursionDesired |||
        (boolToUint8 h.truncatedMessage <<< 1) |||
        (boolToUint8 h.authoritativeAnswer <<< 2) |||
        (h.opcode <<< 3) |||
        (boolToUint8 h.response <<< 7))])
      L1 (show (b.pos + 2) ≤ 512 from by omega) (show (b.pos + 2) + 1 ≤ 512 from by omega)
  have e3 : BytePacketBuffer.write8 (⟨(splice (splice b.buf b.pos ((be16 h.id).map (· % 256))) (b.pos + 2) ([(boolToUint8 h.recursionDesired |||
        (boolToUint8 h.truncatedMessage <<< 1) |||
        (boolToUint8 h.authoritativeAnswer <<< 2) |||
        (h.opcode <<< 3) |||
        (boolToUint8 h.response <<< 7))].map (· % 256))), (b.pos + 3)⟩ : BytePacketBuffer) (h.resCode.toUint8 |||
        boolToUint8 h.checkingDisabled <<< 4 |||
        boolToUint8 h.authedData <<< 5 |||
        boolToUint8 h.z <<< 6 |||
        boolToUint8 h.recursionAvailable <<< 7) =
      .ok ⟨(splice (splice (splice b.buf b.pos ((be16 h.id).map (· % 256))) (b.pos + 2) ([(boolToUint8 h.recursionDesired |||
        (boolToUint8 h.truncatedMessage <<< 1) |||
        (boolToUint8 h.authoritativeAnswer <<< 2) |||
        (h.opcode <<< 3) |||
        (boolToUint8 h.response <<< 7))].map (· % 256))) (b.pos + 3) ([(h.resCode.toUint8 |||
        boolToUint8 h.checkingDisabled <<< 4 |||
        boolToUint8 h.authedData <<< 5 |||
        boolToUint8 h.z <<< 6 |||
        boolToUint8 h.recursionAvailable <<< 7)].map (· % 256))), (b.pos + 4)⟩ := by
    rw [write8_eq_writeList]
    exact writeList_ok_of (b := (⟨(splice (splice b.buf b.pos ((be16 h.id).map (· % 256))) (b.pos + 2) ([(boolToUint8 h.recursionDesired |||
        (boolToUint8 h.truncatedMessage <<< 1) |||
        (boolToUint8 h.authoritativeAnswer <<< 2) |||
        (h.opcode <<< 3) |||
        (boolToUint8 h.response <<< 7))].map (· % 256))), (b.pos + 3)⟩ : BytePacketBuffer)) (v := [(h.resCode.toUint8 |||
        boolToUint8 h.checkingDisabled <<< 4 |||
        boolToUint8 h.authedData <<< 5 |||
        boolToUint8 h.z <<< 6 |||
        boolToUint8 h.recursionAvailable <<< 7)])
      L2 (show (b.pos + 3) ≤ 512 from by omega) (show (b.pos + 3) + 1 ≤ 512 from by omega)
  have e4 : BytePacketBuffer.write16 (⟨(splice (splice (splice b.buf b.pos ((be16 h.id).map (· % 256))) (b.pos + 2) ([(boolToUint8 h.recursionDesired |||
        (boolToUint8 h.truncatedMessage <<< 1) |||
        (boolToUint8 h.authoritativeAnswer <<< 2) |||
        (h.opcode <<< 3) |||
        (boolToUint8 h.response <<< 7))].map (· % 256))) (b.pos + 3) ([(h.resCode.toUint8 |||
        boolToUint8 h.checkingDisabled <<< 4 |||
        boolToUint8 h.authedData <<< 5 |||
        boolToUint8 h.z <<< 6 |||
        boolToUint8 h.recursionAvailable <<< 7)].map (· % 256))), (b.pos + 4)⟩ : BytePacketBuffer) h.questions =
      .ok ⟨(splice (splice (splice (splice b.buf b.pos ((be16 h.id).map (· % 256))) (b.pos + 2) ([(boolToUint8 h.recursionDesired |||
        (boolToUint8 h.truncatedMessage <<< 1) |||
        (boolToUint8 h.authoritativeAnswer <<< 2) |||
        (h.opcode <<< 3) |||
        (boolToUint8 h.response <<< 7))].map (· % 256))) (b.pos + 3) ([(h.resCode.toUint8 |||
        boolToUint8 h.checkingDisabled <<< 4 |||
        boolToUint8 h.authedData <<< 5 |||
        boolToUint8 h.z <<< 6 |||
        boolToUint8 h.recursionAvailable <<< 7)].map (· % 256))) (b.pos + 4) ((be16 h.questions).map (· % 256))), (b.pos + 6)⟩ := by
    rw [write16_eq_writeList]
    exact writeList_ok_of (b := (⟨(splice (splice (splice b.buf b.pos ((be16 h.id).map (· % 256))) (b.pos + 2) ([(boolToUint8 h.recursionDesired |||
        (boolToUint8 h.truncatedMessage <<< 1) |||
        (boolToUint8 h.authoritativeAnswer <<< 2) |||
        (h.opcode <<< 3) |||
        (boolToUint8 h.response <<< 7))].map (· % 256))) (b.pos + 3) ([(h.resCode.toUint8 |||
        boolToUint8 h.checkingDisabled <<< 4 |||
        boolToUint8 h.authedData <<< 5 |||
        boolToUint8 h.z <<< 6 |||
        boolToUint8 h.recursionAvailable <<< 7)].map (· % 256))), (b.pos + 4)⟩ : BytePacketBuffer)) (v := (be16 h.questions))
      L3 (show (b.pos + 4) ≤ 512 from by omega) (show (b.pos + 4) + 2 ≤ 512 from by omega)
  have e5 : BytePacketBuffer.write16 (⟨(splice (splice (splice (splice b.buf b.pos ((be16 h.id).map (· % 256))) (b.pos + 2) ([(boolToUint8 h.recursionDesired |||
        (boolToUint8 h.truncatedMessage <<< 1) |||
        (boolToUint8 h.authoritativeAnswer <<< 2) |||
        (h.opcode <<< 3) |||
        (boolToUint8 h.response <<< 7))].map (· % 256))) (b.pos + 3) ([(h.resCode.toUint8 |||
        boolToUint8 h.checkingDisabled <<< 4 |||
        boolToUint8 h.authedData <<< 5 |||
        boolToUint8 h.z <<< 6 |||
        boolToUint8 h.recursionAvailable <<< 7)].map (· % 256))) (b.pos + 4) ((be16 h.questions).map (· % 256))), (b.pos + 6)⟩ : BytePacketBuffer) h.answers =
      .ok ⟨(splice (splice (splice (splice (splice b.buf b.pos ((be16 h.id).map (· % 256))) (b.pos + 2) ([(boolToUint8 h.recursionDesired |||
        (boolToUint8 h.truncatedMessage <<< 1) |||
        (boolToUint8 h.authoritativeAnswer <<< 2) |||
        (h.opcode <<< 3) |||
        (boolToUint8 h.response <<< 7))].map (· % 256))) (b.pos + 3) ([(h.resCode.toUint8 |||
        boolToUint8 h.checkingDisabled <<< 4 |||
        boolToUint8 h.authedData <<< 5 |||
        boolToUint8 h.z <<< 6 |||
        boolToUint8 h.recursionAvailable <<< 7)].map (· % 256))) (b.pos + 4) ((be16 h.questions).map (· % 256))) (b.pos + 6) ((be16 h.answers).map (· % 256))), (b.pos + 8)⟩ := by
    rw [write16_eq_writeList]
    exact writeList_ok_of (b := (⟨(splice (splice (splice (splice b.buf b.pos ((be16 h.id).map (· % 256))) (b.pos + 2) ([(boolToUint8 h.recursionDesired |||
        (boolToUint8 h.truncatedMessage <<< 1) |||
        (boolToUint8 h.authoritativeAnswer <<< 2) |||
        (h.opcode <<< 3) |||
        (boolToUint8 h.response <<< 7))].map (· % 256))) (b.pos + 3) ([(h.resCode.toUint8 |||
        boolToUint8 h.checkingDisabled <<< 4 |||
        boolToUint8 h.authedData <<< 5 |||
        boolToUint8 h.z <<< 6 |||
        boolToUint8 h.recursionAvailable <<< 7)].map (· % 256))) (b.pos + 4) ((be16 h.questions).map (· % 256))), (b.pos + 6)⟩ : BytePacketBuffer)) (v := (be16 h.answers))
      L4 (show (b.pos + 6) ≤ 512 from by omega) (show (b.pos + 6) + 2 ≤ 512 from by omega)
  have e6 : BytePacketBuffer.write16 (⟨(splice (splice (splice (splice (splice b.buf b.pos ((be16 h.id).map (· % 256))) (b.pos + 2) ([(boolToUint8 h.recursionDesired |||
        (boolToUint8 h.truncatedMessage <<< 1) |||
        (boolToUint8 h.authoritativeAnswer <<< 2) |||
        (h.opcode <<< 3) |||
        (boolToUint8 h.response <<< 7))].map (· % 256))) (b.pos + 3) ([(h.resCode.toUint8 |||
        boolToUint8 h.checkingDisabled <<< 4 |||
        boolToUint8 h.authedData <<< 5 |||
        boolToUint8 h.z <<< 6 |||
        boolToUint8 h.recursionAvailable <<< 7)].map (· % 256))) (b.pos + 4) ((be16 h.questions).map (· % 256))) (b.pos + 6) ((be16 h.answers).map (· % 256))), (b.pos + 8)⟩ : BytePacketBuffer) h.authoritativeEntries =
      .ok ⟨(splice (splice (splice (splice (splice (splice b.buf b.pos ((be16 h.id).map (· % 256))) (b.pos + 2) ([(boolToUint8 h.recursionDesired |||
        (boolToUint8 h.truncatedMessage <<< 1) |||
        (boolToUint8 h.authoritativeAnswer <<< 2) |||
        (h.opcode <<< 3) |||
        (boolToUint8 h.response <<< 7))].map (· % 256))) (b.pos + 3) ([(h.resCode.toUint8 |||
        boolToUint8 h.checkingDisabled <<< 4 |||
        boolToUint8 h.authedData <<< 5 |||
        boolToUint8 h.z <<< 6 |||
        boolToUint8 h.recursionAvailable <<< 7)].map (· % 256))) (b.pos + 4) ((be16 h.questions).map (· % 256))) (b.pos + 6) ((be16 h.answers).map (· % 256))) (b.pos + 8) ((be16 h.authoritativeEntries).map (· % 256))), (b.pos + 10)⟩ := by
    rw [write16_eq_writeList]
    exact writeList_ok_of (b := (⟨(splice (splice (splice (splice (splice b.buf b.pos ((be16 h.id).map (· % 256))) (b.pos + 2) ([(boolToUint8 h.recursionDesired |||
        (boolToUint8 h.truncatedMessage <<< 1) |||
        (boolToUint8 h.authoritativeAnswer <<< 2) |||
        (h.opcode <<< 3) |||
        (boolToUint8 h.response <<< 7))].map (· % 256))) (b.pos + 3) ([(h.resCode.toUint8 |||
        boolToUint8 h.checkingDisabled <<< 4 |||
        boolToUint8 h.authedData <<< 5 |||
        boolToUint8 h.z <<< 6 |||
        boolToUint8 h.recursionAvailable <<< 7)].map (· % 256))) (b.pos + 4) ((be16 h.questions).map (· % 256))) (b.pos + 6) ((be16 h.answers).map (· % 256))), (b.pos + 8)⟩ : BytePacketBuffer)) (v := (be16 h.authoritativeEntries))
      L5 (show (b.pos + 8) ≤ 512 from by omega) (show (b.pos + 8) + 2 ≤ 512 from by omega)
  have e7 : BytePacketBuffer.write16 (⟨(splice (splice (splice (splice (splice (splice b.buf b.pos ((be16 h.id).map (· % 256))) (b.pos + 2) ([(boolToUint8 h.recursionDesired |||
        (boolToUint8 h.truncatedMessage <<< 1) |||
        (boolToUint8 h.authoritativeAnswer <<< 2) |||
        (h.opcode <<< 3) |||
        (boolToUint8 h.response <<< 7))].map (· % 256))) (b.pos + 3) ([(h.resCode.toUint8 |||
        boolToUint8 h.checkingDisabled <<< 4 |||
        boolToUint8 h.authedData <<< 5 |||
        boolToUint8 h.z <<< 6 |||
        boolToUint8 h.recursionAvailable <<< 7)].map (· % 256))) (b.pos + 4) ((be16 h.questions).map (· % 256))) (b.pos + 6) ((be16 h.answers).map (· % 256))) (b.pos + 8) ((be16 h.authoritativeEntries).map (· % 256))), (b.pos + 10)⟩ : BytePacketBuffer) h.resourceEntries =
      .ok ⟨(splice (splice (splice (splice (splice (splice (splice b.buf b.pos ((be16 h.id).map (· % 256))) (b.pos + 2) ([(boolToUint8 h.recursionDesired |||
        (boolToUint8 h.truncatedMessage <<< 1) |||
        (boolToUint8 h.authoritativeAnswer <<< 2) |||
        (h.opcode <<< 3) |||
        (boolToUint8 h.response <<< 7))].map (· % 256))) (b.pos + 3) ([(h.resCode.toUint8 |||
        boolToUint8 h.checkingDisabled <<< 4 |||
        boolToUint8 h.authedData <<< 5 |||
        boolToUint8 h.z <<< 6 |||
        boolToUint8 h.recursionAvailable <<< 7)].map (· % 256))) (b.pos + 4) ((be16 h.questions).map (· % 256))) (b.pos + 6) ((be16 h.answers).map (· % 256))) (b.pos + 8) ((be16 h.authoritativeEntries).map (· % 256))) (b.pos + 10) ((be16 h.resourceEntries).map (· % 256))), (b.pos + 12)⟩ := by
    rw [write16_eq_writeList]
    exact writeList_ok_of (b := (⟨(splice (splice (splice (splice (splice (splice b.buf b.pos ((be16 h.id).map (· % 256))) (b.pos + 2) ([(boolToUint8 h.recursionDesired |||
        (boolToUint8 h.truncatedMessage <<< 1) |||
        (boolToUint8 h.authoritativeAnswer <<< 2) |||
        (h.opcode <<< 3) |||
        (boolToUint8 h.response <<< 7))].map (· % 256))) (b.pos + 3) ([(h.resCode.toUint8 |||
        boolToUint8 h.checkingDisabled <<< 4 |||
        boolToUint8 h.authedData <<< 5 |||
        boolToUint8 h.z <<< 6 |||
        boolToUint8 h.recursionAvailable <<< 7)].map (· % 256))) (b.pos + 4) ((be16 h.questions).map (· % 256))) (b.pos + 6) ((be16 h.answers).map (· % 256))) (b.pos + 8) ((be16 h.authoritativeEntries).map (· % 256))), (b.pos + 10)⟩ : BytePacketBuffer)) (v := (be16 h.resourceEntries))
      L6 (show (b.pos + 10) ≤ 512 from by omega) (show (b.pos + 10) + 2 ≤ 512 from by omega)
  unfold DNSHeader.write
  rw [e1]
  simp only [ok_bind]
  rw [e2]
  simp only [ok_bind]
  rw [e3]
  simp only [ok_bind]
  rw [e4]
  simp only [ok_bind]
  rw [write16Ignored_of_ok e5]
  try dsimp only
  rw [write16Ignored_of_ok e6]
  try dsimp only
  rw [write16Ignored_of_ok e7]
  try dsimp only
  have f1 : splice (splice b.buf b.pos ((be16 h.id).map (· % 256))) (b.pos + 2) ([(boolToUint8 h.recursionDesired |||
        (boolToUint8 h.truncatedMessage <<< 1) |||
        (boolToUint8 h.authoritativeAnswer <<< 2) |||
        (h.opcode <<< 3) |||
        (boolToUint8 h.response <<< 7))].map (· % 256)) =
      splice b.buf b.pos (((be16 h.id).map (· % 256)) ++ ([(boolToUint8 h.recursionDesired |||
        (boolToUint8 h.truncatedMessage <<< 1) |||
        (boolToUint8 h.authoritativeAnswer <<< 2) |||
        (h.opcode <<< 3) |||
        (boolToUint8 h.response <<< 7))].map (· % 256))) :=
    splice_splice (show b.pos + (((be16 h.id).map (· % 256)) : List Nat).length +
        (([(boolToUint8 h.recursionDesired |||
        (boolToUint8 h.truncatedMessage <<< 1) |||
        (boolToUint8 h.authoritativeAnswer <<< 2) |||
        (h.opcode <<< 3) |||
        (boolToUint8 h.response <<< 7))].map (· % 256)) : List Nat).length ≤ b.buf.length from by
      rw [hlen]
      show b.pos + 2 + 1 ≤ 512
      omega)
  have f2 : splice (splice b.buf b.pos (((be16 h.id).map (· % 256)) ++ ([(boolToUint8 h.recursionDesired |||
        (boolToUint8 h.truncatedMessage <<< 1) |||
        (boolToUint8 h.authoritativeAnswer <<< 2) |||
        (h.opcode <<< 3) |||
        (boolToUint8 h.response <<< 7))].map (· % 256)))) (b.pos + 3) ([(h.resCode.toUint8 |||
        boolToUint8 h.checkingDisabled <<< 4 |||
        boolToUint8 h.authedData <<< 5 |||
        boolToUint8 h.z <<< 6 |||
        boolToUint8 h.recursionAvailable <<< 7)].map (· % 256)) =
      splice b.buf b.pos ((((be16 h.id).map (· % 256)) ++ ([(boolToUint8 h.recursionDesired |||
        (boolToUint8 h.truncatedMessage <<< 1) |||
        (boolToUint8 h.authoritativeAnswer <<< 2) |||
        (h.opcode <<< 3) |||
        (boolToUint8 h.response <<< 7))].map (· % 256))) ++ ([(h.resCode.toUint8 |||
        boolToUint8 h.checkingDisabled <<< 4 |||
        boolToUint8 h.authedData <<< 5 |||
        boolToUint8 h.z <<< 6 |||
        boolToUint8 h.recursionAvailable <<< 7)].map (· % 256))) :=
    splice_splice (show b.pos + ((((be16 h.id).map (· % 256)) ++ ([(boolToUint8 h.recursionDesired |||
        (boolToUint8 h.truncatedMessage <<< 1) |||
        (boolToUint8 h.authoritativeAnswer <<< 2) |||
        (h.opcode <<< 3) |||
        (boolToUint8 h.response <<< 7))].map (· % 256))) : List Nat).length +
        (([(h.resCode.toUint8 |||
        boolToUint8 h.checkingDisabled <<< 4 |||
        boolToUint8 h.authedData <<< 5 |||
        boolToUint8 h.z <<< 6 |||
        boolToUint8 h.recursionAvailable <<< 7)].map (· % 256)) : List Nat).length ≤ b.buf.length from by
      rw [hlen]
      show b.pos + 3 + 1 ≤ 512
      omega)
  have f3 : splice (splice b.buf b.pos ((((be16 h.id).map (· % 256)) ++ ([(boolToUint8 h.recursionDesired |||
        (boolToUint8 h.truncatedMessage <<< 1) |||
        (boolToUint8 h.authoritativeAnswer <<< 2) |||
        (h.opcode <<< 3) |||
        (boolToUint8 h.response <<< 7))].map (· % 256))) ++ ([(h.resCode.toUint8 |||
        boolToUint8 h.checkingDisabled <<< 4 |||
        boolToUint8 h.authedData <<< 5 |||
        boolToUint8 h.z <<< 6 |||
        boolToUint8 h.recursionAvailable <<< 7)].map (· % 256)))) (b.pos + 4) ((be16 h.questions).map (· % 256)) =
      splice b.buf b.pos (((((be16 h.id).map (· % 256)) ++ ([(boolToUint8 h.recursionDesired |||
        (boolToUint8 h.truncatedMessage <<< 1) |||
        (boolToUint8 h.authoritativeAnswer <<< 2) |||
        (h.opcode <<< 3) |||
        (boolToUint8 h.response <<< 7))].map (· % 256))) ++ ([(h.resCode.toUint8 |||
        boolToUint8 h.checkingDisabled <<< 4 |||
        boolToUint8 h.authedData <<< 5 |||
        boolToUint8 h.z <<< 6 |||
        boolToUint8 h.recursionAvailable <<< 7)].map (· % 256))) ++ ((be16 h.questions).map (· % 256))) :=
    splice_splice (show b.pos + (((((be16 h.id).map (· % 256)) ++ ([(boolToUint8 h.recursionDesired |||
        (boolToUint8 h.truncatedMessage <<< 1) |||
        (boolToUint8 h.authoritativeAnswer <<< 2) |||
        (h.opcode <<< 3) |||
        (boolToUint8 h.response <<< 7))].map (· % 256))) ++ ([(h.resCode.toUint8 |||
        boolToUint8 h.checkingDisabled <<< 4 |||
        boolToUint8 h.authedData <<< 5 |||
        boolToUint8 h.z <<< 6 |||
        boolToUint8 h.recursionAvailable <<< 7)].map (· % 256))) : List Nat).length +
        (((be16 h.questions).map (· % 256)) : List Nat).length ≤ b.buf.length from by
      rw [hlen]
      show b.pos + 4 + 2 ≤ 512
      omega)
  have f4 : splice (splice b.buf b.pos (((((be16 h.id).map (· % 256)) ++ ([(boolToUint8 h.recursionDesired |||
        (boolToUint8 h.truncatedMessage <<< 1) |||
        (boolToUint8 h.authoritativeAnswer <<< 2) |||
        (h.opcode <<< 3) |||
        (boolToUint8 h.response <<< 7))].map (· % 256))) ++ ([(h.resCode.toUint8 |||
        boolToUint8 h.checkingDisabled <<< 4 |||
        boolToUint8 h.authedData <<< 5 |||
        boolToUint8 h.z <<< 6 |||
        boolToUint8 h.recursionAvailable <<< 7)].map (· % 256))) ++ ((be16 h.questions).map (· % 256)))) (b.pos + 6) ((be16 h.answers).map (· % 256)) =
      splice b.buf b.pos ((((((be16 h.id).map (· % 256)) ++ ([(boolToUint8 h.recursionDesired |||
        (boolToUint8 h.truncatedMessage <<< 1) |||
        (boolToUint8 h.authoritativeAnswer <<< 2) |||
        (h.opcode <<< 3) |||
        (boolToUint8 h.response <<< 7))].map (· % 256))) ++ ([(h.resCode.toUint8 |||
        boolToUint8 h.checkingDisabled <<< 4 |||
        boolToUint8 h.authedData <<< 5 |||
        boolToUint8 h.z <<< 6 |||
        boolToUint8 h.recursionAvailable <<< 7)].map (· % 256))) ++ ((be16 h.questions).map (· % 256))) ++ ((be16 h.answers).map (· % 256))) :=
    splice_splice (show b.pos + ((((((be16 h.id).map (· % 256)) ++ ([(boolToUint8 h.recursionDesired |||
        (boolToUint8 h.truncatedMessage <<< 1) |||
        (boolToUint8 h.authoritativeAnswer <<< 2) |||
        (h.opcode <<< 3) |||
        (boolToUint8 h.response <<< 7))].map (· % 256))) ++ ([(h.resCode.toUint8 |||
        boolToUint8 h.checkingDisabled <<< 4 |||
        boolToUint8 h.authedData <<< 5 |||
        boolToUint8 h.z <<< 6 |||
        boolToUint8 h.recursionAvailable <<< 7)].map (· % 256))) ++ ((be16 h.questions).map (· % 256))) : List Nat).length +
        (((be16 h.answers).map (· % 256)) : List Nat).length ≤ b.buf.length from by
      rw [hlen]
      show b.pos + 6 + 2 ≤ 512
      omega)
  have f5 : splice (splice b.buf b.pos ((((((be16 h.id).map (· % 256)) ++ ([(boolToUint8 h.recursionDesired |||
        (boolToUint8 h.truncatedMessage <<< 1) |||
        (boolToUint8 h.authoritativeAnswer <<< 2) |||
        (h.opcode <<< 3) |||
        (boolToUint8 h.response <<< 7))].map (· % 256))) ++ ([(h.resCode.toUint8 |||
        boolToUint8 h.checkingDisabled <<< 4 |||
        boolToUint8 h.authedData <<< 5 |||
        boolToUint8 h.z <<< 6 |||
        boolToUint8 h.recursionAvailable <<< 7)].map (· % 256))) ++ ((be16 h.questions).map (· % 256))) ++ ((be16 h.answers).map (· % 256)))) (b.pos + 8) ((be16 h.authoritativeEntries).map (· % 256)) =
      splice b.buf b.pos (((((((be16 h.id).map (· % 256)) ++ ([(boolToUint8 h.recursionDesired |||
        (boolToUint8 h.truncatedMessage <<< 1) |||
        (boolToUint8 h.authoritativeAnswer <<< 2) |||
        (h.opcode <<< 3) |||
        (boolToUint8 h.response <<< 7))].map (· % 256))) ++ ([(h.resCode.toUint8 |||
        boolToUint8 h.checkingDisabled <<< 4 |||
        boolToUint8 h.authedData <<< 5 |||
        boolToUint8 h.z <<< 6 |||
        boolToUint8 h.recursionAvailable <<< 7)].map (· % 256))) ++ ((be16 h.questions).map (· % 256))) ++ ((be16 h.answers).map (· % 256))) ++ ((be16 h.authoritativeEntries).map (· % 256))) :=
    splice_splice (show b.pos + (((((((be16 h.id).map (· % 256)) ++ ([(boolToUint8 h.recursionDesired |||
        (boolToUint8 h.truncatedMessage <<< 1) |||
        (boolToUint8 h.authoritativeAnswer <<< 2) |||
        (h.opcode <<< 3) |||
        (boolToUint8 h.response <<< 7))].map (· % 256))) ++ ([(h.resCode.toUint8 |||
        boolToUint8 h.checkingDisabled <<< 4 |||
        boolToUint8 h.authedData <<< 5 |||
        boolToUint8 h.z <<< 6 |||
        boolToUint8 h.recursionAvailable <<< 7)].map (· % 256))) ++ ((be16 h.questions).map (· % 256))) ++ ((be16 h.answers).map (· % 256))) : List Nat).length +
        (((be16 h.authoritativeEntries).map (· % 256)) : List Nat).length ≤ b.buf.length from by
      rw [hlen]
      show b.pos + 8 + 2 ≤ 512
      omega)
  have f6 : splice (splice b.buf b.pos (((((((be16 h.id).map (· % 256)) ++ ([(boolToUint8 h.recursionDesired |||
        (boolToUint8 h.truncatedMessage <<< 1) |||
        (boolToUint8 h.authoritativeAnswer <<< 2) |||
        (h.opcode <<< 3) |||
        (boolToUint8 h.response <<< 7))].map (· % 256))) ++ ([(h.resCode.toUint8 |||
        boolToUint8 h.checkingDisabled <<< 4 |||
        boolToUint8 h.authedData <<< 5 |||
        boolToUint8 h.z <<< 6 |||
        boolToUint8 h.recursionAvailable <<< 7)].map (· % 256))) ++ ((be16 h.questions).map (· % 256))) ++ ((be16 h.answers).map (· % 256))) ++ ((be16 h.authoritativeEntries).map (· % 256)))) (b.pos + 10) ((be16 h.resourceEntries).map (· % 256)) =
      splice b.buf b.pos ((((((((be16 h.id).map (· % 256)) ++ ([(boolToUint8 h.recursionDesired |||
        (boolToUint8 h.truncatedMessage <<< 1) |||
        (boolToUint8 h.authoritativeAnswer <<< 2) |||
        (h.opcode <<< 3) |||
        (boolToUint8 h.response <<< 7))].map (· % 256))) ++ ([(h.resCode.toUint8 |||
        boolToUint8 h.checkingDisabled <<< 4 |||
        boolToUint8 h.authedData <<< 5 |||
        boolToUint8 h.z <<< 6 |||
        boolToUint8 h.recursionAvailable <<< 7)].map (· % 256))) ++ ((be16 h.questions).map (· % 256))) ++ ((be16 h.answers).map (· % 256))) ++ ((be16 h.authoritativeEntries).map (· % 256))) ++ ((be16 h.resourceEntries).map (· % 256))) :=
    splice_splice (show b.pos + ((((((((be16 h.id).map (· % 256)) ++ ([(boolToUint8 h.recursionDesired |||
        (boolToUint8 h.truncatedMessage <<< 1) |||
        (boolToUint8 h.authoritativeAnswer <<< 2) |||
        (h.opcode <<< 3) |||
        (boolToUint8 h.response <<< 7))].map (· % 256))) ++ ([(h.resCode.toUint8 |||
        boolToUint8 h.checkingDisabled <<< 4 |||
        boolToUint8 h.authedData <<< 5 |||
        boolToUint8 h.z <<< 6 |||
        boolToUint8 h.recursionAvailable <<< 7)].map (· % 256))) ++ ((be16 h.questions).map (· % 256))) ++ ((be16 h.answers).map (· % 256))) ++ ((be16 h.authoritativeEntries).map (· % 256))) : List Nat).length +
        (((be16 h.resourceEntries).map (· % 256)) : List Nat).length ≤ b.buf.length from by
      rw [hlen]
      show b.pos + 10 + 2 ≤ 512
      omega)
  rw [f1, f2, f3, f4, f5, f6]
  have hlist : ((((((((be16 h.id).map (· % 256)) ++ ([(boolToUint8 h.recursionDesired |||
        (boolToUint8 h.truncatedMessage <<< 1) |||
        (boolToUint8 h.authoritativeAnswer <<< 2) |||
        (h.opcode <<< 3) |||
        (boolToUint8 h.response <<< 7))].map (· % 256))) ++ ([(h.resCode.toUint8 |||
        boolToUint8 h.checkingDisabled <<< 4 |||
        boolToUint8 h.authedData <<< 5 |||
        boolToUint8 h.z <<< 6 |||
        boolToUint8 h.recursionAvailable <<< 7)].map (· % 256))) ++ ((be16 h.questions).map (· % 256))) ++ ((be16 h.answers).map (· % 256))) ++ ((be16 h.authoritativeEntries).map (· % 256))) ++ ((be16 h.resourceEntries).map (· % 256))) = (encHeader h).map (· % 256) := by
    simp [encHeader, flagByteA, flagByteB, be16, mod256_mod256,
      List.append_assoc]
  rw [hlist]


/-- DNSQuestion.Write on a wellformed question that fits the free space:
the encoding is spliced in at the cursor. -/
theorem questionWrite_ok {q : DNSQuestion} {b : BytePacketBuffer}
    (hgood : goodQuestion q) (hlen : b.buf.length = 512) (hpos : b.pos ≤ 512)
    (hfit : b.pos + (encQuestion q).length ≤ 512) :
    q.write b = .ok ⟨splice b.buf b.pos ((encQuestion q).map (· % 256)),
      b.pos + (encQuestion q).length⟩ := by
  obtain ⟨hname, hcls, hqt⟩ := hgood
  have h63 : ∀ lab ∈ splitDot q.name, lab.length ≤ 63 :=
    fun lab hx => (hname.1 lab hx).2
  have hqlen : (encQuestion q).length = (encQname q.name).length + 4 := by
    simp [encQuestion, be16_length]
  have L0 : b.buf.length = 512 := hlen
  have e1 : b.writeQname q.name =
      .ok ⟨splice b.buf b.pos ((encQname q.name).map (· % 256)),
        b.pos + (encQname q.name).length⟩ := by
    rw [writeQname_eq_writeList b h63]
    exact writeList_ok_of hlen hpos (by omega)
  have L1 : (splice b.buf b.pos ((encQname q.name).map (· % 256))).length = 512 := by
    rw [splice_length (by simp only [List.length_map]; omega)]
    exact hlen
  have e2 : BytePacketBuffer.write16
      (⟨splice b.buf b.pos ((encQname q.name).map (· % 256)),
        b.pos + (encQname q.name).length⟩ : BytePacketBuffer) (q.qtype % 65536) =
      .ok ⟨splice (splice b.buf b.pos ((encQname q.name).map (· % 256)))
          (b.pos + (encQname q.name).length)
          ((be16 (q.qtype % 65536)).map (· % 256)),
        b.pos + (encQname q.name).length + 2⟩ := by
    rw [write16_eq_writeList]
    exact writeList_ok_of L1
      (show b.pos + (encQname q.name).length ≤ 512 from by omega)
      (show b.pos + (encQname q.name).length + 2 ≤ 512 from by omega)
  have L2 : (splice (splice b.buf b.pos ((encQname q.name).map (· % 256)))
      (b.pos + (encQname q.name).length)
      ((be16 (q.qtype % 65536)).map (· % 256))).length = 512 := by
    rw [splice_length]
    · exact L1
    · rw [L1]
      show b.pos + (encQname q.name).length + 2 ≤ 512
      omega
  have e3 : BytePacketBuffer.write16
      (⟨splice (splice b.buf b.pos ((encQname q.name).map (· % 256)))
          (b.pos + (encQname q.name).length)
          ((be16 (q.qtype % 65536)).map (· % 256)),
        b.pos + (encQname q.name).length + 2⟩ : BytePacketBuffer) (q.cls % 65536) =
      .ok ⟨splice (splice (splice b.buf b.pos ((encQname q.name).map (· % 256)))
            (b.pos + (encQname q.name).length)
            ((be16 (q.qtype % 65536)).map (· % 256)))
          (b.pos + (encQname q.name).length + 2)
          ((be16 (q.cls % 65536)).map (· % 256)),
        b.pos + (encQname q.name).length + 2 + 2⟩ := by
    rw [write16_eq_writeList]
    exact writeList_ok_of L2
      (show b.pos + (encQname q.name).length + 2 ≤ 512 from by omega)
      (show b.pos + (encQname q.name).length + 2 + 2 ≤ 512 from by omega)
  unfold DNSQuestion.write
  rw [e1]
  simp only [ok_bind]
  rw [e2]
  simp only [ok_bind]
  rw [e3]
  have g1 : splice (splice (splice b.buf b.pos
        ((encQname q.name).map (· % 256)))
        (b.pos + (encQname q.name).length)
        ((be16 (q.qtype % 65536)).map (· % 256)))
      (b.pos + (encQname q.name).length + 2)
      ((be16 (q.cls % 65536)).map (· % 256)) =
      splice (splice b.buf b.pos ((encQname q.name).map (· % 256)))
        (b.pos + (encQname q.name).length)
        ((be16 (q.qtype % 65536) ++ be16 (q.cls % 65536)).map (· % 256)) :=
    splice_splice_map (by
      rw [L1]
      show b.pos + (encQname q.name).length + 2 + 2 ≤ 512
      omega)
  rw [g1]
  have g2 : splice (splice b.buf b.pos ((encQname q.name).map (· % 256)))
      (b.pos + (encQname q.name).length)
      ((be16 (q.qtype % 65536) ++ be16 (q.cls % 65536)).map (· % 256)) =
      splice b.buf b.pos
        ((encQname q.name ++ (be16 (q.qtype % 65536) ++ be16 (q.cls % 65536))).map
          (· % 256)) :=
    splice_splice_map (by
      rw [hlen]
      simp only [List.length_append, be16_length]
      omega)
  rw [g2]
  rw [show encQname q.name ++ (be16 (q.qtype % 65536) ++ be16 (q.cls % 65536)) =
      encQuestion q from by simp [encQuestion, List.append_assoc]]
  rw [show b.pos + (encQname q.name).length + 2 + 2 =
      b.pos + (encQuestion q).length from by rw [hqlen]; omega]

theorem list_len4 : ∀ {l : List Nat}, l.length = 4 →
    ∃ x0 x1 x2 x3, l = [x0, x1, x2, x3]
  | [x0, x1, x2, x3], _ => ⟨x0, x1, x2, x3, rfl⟩
  | [], h => by simp at h
  | [_], h => by simp only [List.length_cons, List.length_nil] at h; omega
  | [_, _], h => by simp only [List.length_cons, List.length_nil] at h; omega
  | [_, _, _], h => by simp only [List.length_cons, List.length_nil] at h; omega
  | _ :: _ :: _ :: _ :: _ :: _, h => by
    simp only [List.length_cons] at h; omega

theorem ipTo4_v4mapped {a : List Nat} (h16 : a.length = 16)
    (htake : a.take 12 = v4MappedHead) : ipTo4 a = some (a.drop 12) := by
  unfold ipTo4
  rw [if_neg (by omega), if_pos ⟨h16, htake⟩]

theorem ipTo16_of_len16 {a : List Nat} (h16 : a.length = 16) : ipTo16 a = a := by
  unfold ipTo16
  rw [if_pos h16]

/-- DNSRecord.Write of an A record in decoder shape: the encoding with
RDLENGTH 4 and the four address octets is spliced in at the cursor and
the returned count is the encoding length. -/
theorem recordWrite_A_ok {r : DNSRecord} {b : BytePacketBuffer}
    {d a : List Nat}
    (hq : r.qtype = AQueryType) (hdom : r.domain = some d)
    (haddr : r.addr = some a) (ha16 : a.length = 16)
    (htake : a.take 12 = v4MappedHead)
    (hd63 : ∀ lab ∈ splitDot d, lab.length ≤ 63)
    (hlen : b.buf.length = 512) (hpos : b.pos ≤ 512)
    (hfit : b.pos + (encRecord r).length ≤ 512) :
    r.write b = .ok ((encRecord r).length,
      ⟨splice b.buf b.pos ((encRecord r).map (· % 256)),
        b.pos + (encRecord r).length⟩) := by
  obtain ⟨a0, a1, a2, a3, hdrop⟩ :=
    list_len4 (l := a.drop 12) (by rw [List.length_drop, ha16])
  have hpay : (ipTo4 (r.addr.getD [])).getD [] = [a0, a1, a2, a3] := by
    rw [haddr, Option.getD_some, ipTo4_v4mapped ha16 htake, Option.getD_some,
      hdrop]
  have henc : encRecord r = encQname d ++ be16 (r.qtype % 65536) ++
      be16 (r.cls % 65536) ++ be32 (r.ttl % 2 ^ 32) ++
      (be16 4 ++ [a0, a1, a2, a3]) := by
    unfold encRecord
    rw [if_pos hq, hdom, Option.getD_some, hpay]
  have hRlen : (encRecord r).length = (encQname d).length + 14 := by
    rw [henc]
    simp only [List.length_append, List.length_cons, List.length_nil, be16_length, be32_length, List.length_map]
    try omega
  have L0 : (b.buf : List Nat).length = 512 := hlen
  have L1 : ((splice b.buf b.pos ((encQname d).map (· % 256))) : List Nat).length = 512 := by
    rw [splice_length (by
      rw [L0]
      simp only [List.length_append, List.length_cons, List.length_nil, be16_length, be32_length, List.length_map]
      omega)]
    exact L0
  have e1 : BytePacketBuffer.writeQname b d =
      .ok ⟨(splice b.buf b.pos ((encQname d).map (· % 256))), (b.pos + ((encQname d)).length)⟩ := by
    rw [writeQname_eq_writeList _ hd63]
    exact writeList_ok_of (b := b) (v := (encQname d)) L0
      (show b.pos ≤ 512 from by omega)
      (show (b.pos + ((encQname d)).length) ≤ 512 from by omega)
  have L2 : ((splice (splice b.buf b.pos ((encQname d).map (· % 256))) (b.pos + ((encQname d)).length) ((be16 (r.qtype % 65536)).map (· % 256))) : List Nat).length = 512 := by
    rw [splice_length (by
      rw [L1]
      simp only [List.length_append, List.length_cons, List.length_nil, be16_length, be32_length, List.length_map]
      omega)]
    exact L1
  have e2 : BytePacketBuffer.write16 (⟨(splice b.buf b.pos ((encQname d).map (· % 256))), (b.pos + ((encQname d)).length)⟩ : BytePacketBuffer) (r.qtype % 65536) =
      .ok ⟨(splice (splice b.buf b.pos ((encQname d).map (· % 256))) (b.pos + ((encQname d)).length) ((be16 (r.qtype % 65536)).map (· % 256))), ((b.pos + ((encQname d)).length) + 2)⟩ := by
    rw [write16_eq_writeList]
    exact writeList_ok_of (b := (⟨(splice b.buf b.pos ((encQname d).map (· % 256))), (b.pos + ((encQname d)).length)⟩ : BytePacketBuffer)) (v := (be16 (r.qtype % 65536))) L1
      (show (b.pos + ((encQname d)).length) ≤ 512 from by omega)
      (show ((b.pos + ((encQname d)).length) + 2) ≤ 512 from by omega)
  have L3 : ((splice (splice (splice b.buf b.pos ((encQname d).map (· % 256))) (b.pos + ((encQname d)).length) ((be16 (r.qtype % 65536)).map (· % 256))) ((b.pos + ((encQname d)).length) + 2) ((be16 (r.cls % 65536)).map (· % 256))) : List Nat).length = 512 := by
    rw [splice_length (by
      rw [L2]
      simp only [List.length_append, List.length_cons, List.length_nil, be16_length, be32_length, List.length_map]
      omega)]
    exact L2
  have e3 : BytePacketBuffer.write16 (⟨(splice (splice b.buf b.pos ((encQname d).map (· % 256))) (b.pos + ((encQname d)).length) ((be16 (r.qtype % 65536)).map (· % 256))), ((b.pos + ((encQname d)).length) + 2)⟩ : BytePacketBuffer) (r.cls % 65536) =
      .ok ⟨(splice (splice (splice b.buf b.pos ((encQname d).map (· % 256))) (b.pos + ((encQname d)).length) ((be16 (r.qtype % 65536)).map (· % 256))) ((b.pos + ((encQname d)).length) + 2) ((be16 (r.cls % 65536)).map (· % 256))), (((b.pos + ((encQname d)).length) + 2) + 2)⟩ := by
    rw [write16_eq_writeList]
    exact writeList_ok_of (b := (⟨(splice (splice b.buf b.pos ((encQname d).map (· % 256))) (b.pos + ((encQname d)).length) ((be16 (r.qtype % 65536)).map (· % 256))), ((b.pos + ((encQname d)).length) + 2)⟩ : BytePacketBuffer)) (v := (be16 (r.cls % 65536))) L2
      (show ((b.pos + ((encQname d)).length) + 2) ≤ 512 from by omega)
      (show (((b.pos + ((encQname d)).length) + 2) + 2) ≤ 512 from by omega)
  have L4 : ((splice (splice (splice (splice b.buf b.pos ((encQname d).map (· % 256))) (b.pos + ((encQname d)).length) ((be16 (r.qtype % 65536)).map (· % 256))) ((b.pos + ((encQname d)).length) + 2) ((be16 (r.cls % 65536)).map (· % 256))) (((b.pos + ((encQname d)).length) + 2) + 2) ((be32 (r.ttl % 2 ^ 32)).map (· % 256))) : List Nat).length = 512 := by
    rw [splice_length (by
      rw [L3]
      simp only [List.length_append, List.length_cons, List.length_nil, be16_length, be32_length, List.length_map]
      omega)]
    exact L3
  have e4 : BytePacketBuffer.write32 (⟨(splice (splice (splice b.buf b.pos ((encQname d).map (· % 256))) (b.pos + ((encQname d)).length) ((be16 (r.qtype % 65536)).map (· % 256))) ((b.pos + ((encQname d)).length) + 2) ((be16 (r.cls % 65536)).map (· % 256))), (((b.pos + ((encQname d)).length) + 2) + 2)⟩ : BytePacketBuffer) (r.ttl % 2 ^ 32) =
      .ok ⟨(splice (splice (splice (splice b.buf b.pos ((encQname d).map (· % 256))) (b.pos + ((encQname d)).length) ((be16 (r.qtype % 65536)).map (· % 256))) ((b.pos + ((encQname d)).length) + 2) ((be16 (r.cls % 65536)).map (· % 256))) (((b.pos + ((encQname d)).length) + 2) + 2) ((be32 (r.ttl % 2 ^ 32)).map (· % 256))), ((((b.pos + ((encQname d)).length) + 2) + 2) + 4)⟩ := by
    rw [write32_eq_writeList]
    exact writeList_ok_of (b := (⟨(splice (splice (splice b.buf b.pos ((encQname d).map (· % 256))) (b.pos + ((encQname d)).length) ((be16 (r.qtype % 65536)).map (· % 256))) ((b.pos + ((encQname d)).length) + 2) ((be16 (r.cls % 65536)).map (· % 256))), (((b.pos + ((encQname d)).length) + 2) + 2)⟩ : BytePacketBuffer)) (v := (be32 (r.ttl % 2 ^ 32))) L3
      (show (((b.pos + ((encQname d)).length) + 2) + 2) ≤ 512 from by omega)
      (show ((((b.pos + ((encQname d)).length) + 2) + 2) + 4) ≤ 512 from by omega)
  have L5 : ((splice (splice (splice (splice (splice b.buf b.pos ((encQname d).map (· % 256))) (b.pos + ((encQname d)).length) ((be16 (r.qtype % 65536)).map (· % 256))) ((b.pos + ((encQname d)).length) + 2) ((be16 (r.cls % 65536)).map (· % 256))) (((b.pos + ((encQname d)).length) + 2) + 2) ((be32 (r.ttl % 2 ^ 32)).map (· % 256))) ((((b.pos + ((encQname d)).length) + 2) + 2) + 4) ((be16 4).map (· % 256))) : List Nat).length = 512 := by
    rw [splice_length (by
      rw [L4]
      simp only [List.length_append, List.length_cons, List.length_nil, be16_length, be32_length, List.length_map]
      omega)]
    exact L4
  have e5 : BytePacketBuffer.write16 (⟨(splice (splice (splice (splice b.buf b.pos ((encQname d).map (· % 256))) (b.pos + ((encQname d)).length) ((be16 (r.qtype % 65536)).map (· % 256))) ((b.pos + ((encQname d)).length) + 2) ((be16 (r.cls % 65536)).map (· % 256))) (((b.pos + ((encQname d)).length) + 2) + 2) ((be32 (r.ttl % 2 ^ 32)).map (· % 256))), ((((b.pos + ((encQname d)).length) + 2) + 2) + 4)⟩ : BytePacketBuffer) 4 =
      .ok ⟨(splice (splice (splice (splice (splice b.buf b.pos ((encQname d).map (· % 256))) (b.pos + ((encQname d)).length) ((be16 (r.qtype % 65536)).map (· % 256))) ((b.pos + ((encQname d)).length) + 2) ((be16 (r.cls % 65536)).map (· % 256))) (((b.pos + ((encQname d)).length) + 2) + 2) ((be32 (r.ttl % 2 ^ 32)).map (· % 256))) ((((b.pos + ((encQname d)).length) + 2) + 2) + 4) ((be16 4).map (· % 256))), (((((b.pos + ((encQname d)).length) + 2) + 2) + 4) + 2)⟩ := by
    rw [write16_eq_writeList]
    exact writeList_ok_of (b := (⟨(splice (splice (splice (splice b.buf b.pos ((encQname d).map (· % 256))) (b.pos + ((encQname d)).length) ((be16 (r.qtype % 65536)).map (· % 256))) ((b.pos + ((encQname d)).length) + 2) ((be16 (r.cls % 65536)).map (· % 256))) (((b.pos + ((encQname d)).length) + 2) + 2) ((be32 (r.ttl % 2 ^ 32)).map (· % 256))), ((((b.pos + ((encQname d)).length) + 2) + 2) + 4)⟩ : BytePacketBuffer)) (v := (be16 4)) L4
      (show ((((b.pos + ((encQname d)).length) + 2) + 2) + 4) ≤ 512 from by omega)
      (show (((((b.pos + ((encQname d)).length) + 2) + 2) + 4) + 2) ≤ 512 from by omega)
  have L6 : ((splice (splice (splice (splice (splice (splice b.buf b.pos ((encQname d).map (· % 256))) (b.pos + ((encQname d)).length) ((be16 (r.qtype % 65536)).map (· % 256))) ((b.pos + ((encQname d)).length) + 2) ((be16 (r.cls % 65536)).map (· % 256))) (((b.pos + ((encQname d)).length) + 2) + 2) ((be32 (r.ttl % 2 ^ 32)).map (· % 256))) ((((b.pos + ((encQname d)).length) + 2) + 2) + 4) ((be16 4).map (· % 256))) (((((b.pos + ((encQname d)).length) + 2) + 2) + 4) + 2) ([a0].map (· % 256))) : List Nat).length = 512 := by
    rw [splice_length (by
      rw [L5]
      simp only [List.length_append, List.length_cons, List.length_nil, be16_length, be32_length, List.length_map]
      omega)]
    exact L5
  have e6 : BytePacketBuffer.write8 (⟨(splice (splice (splice (splice (splice b.buf b.pos ((encQname d).map (· % 256))) (b.pos + ((encQname d)).length) ((be16 (r.qtype % 65536)).map (· % 256))) ((b.pos + ((encQname d)).length) + 2) ((be16 (r.cls % 65536)).map (· % 256))) (((b.pos + ((encQname d)).length) + 2) + 2) ((be32 (r.ttl % 2 ^ 32)).map (· % 256))) ((((b.pos + ((encQname d)).length) + 2) + 2) + 4) ((be16 4).map (· % 256))), (((((b.pos + ((encQname d)).length) + 2) + 2) + 4) + 2)⟩ : BytePacketBuffer) a0 =
      .ok ⟨(splice (splice (splice (splice (splice (splice b.buf b.pos ((encQname d).map (· % 256))) (b.pos + ((encQname d)).length) ((be16 (r.qtype % 65536)).map (· % 256))) ((b.pos + ((encQname d)).length) + 2) ((be16 (r.cls % 65536)).map (· % 256))) (((b.pos + ((encQname d)).length) + 2) + 2) ((be32 (r.ttl % 2 ^ 32)).map (· % 256))) ((((b.pos + ((encQname d)).length) + 2) + 2) + 4) ((be16 4).map (· % 256))) (((((b.pos + ((encQname d)).length) + 2) + 2) + 4) + 2) ([a0].map (· % 256))), ((((((b.pos + ((encQname d)).length) + 2) + 2) + 4) + 2) + 1)⟩ := by
    rw [write8_eq_writeList]
    exact writeList_ok_of (b := (⟨(splice (splice (splice (splice (splice b.buf b.pos ((encQname d).map (· % 256))) (b.pos + ((encQname d)).length) ((be16 (r.qtype % 65536)).map (· % 256))) ((b.pos + ((encQname d)).length) + 2) ((be16 (r.cls % 65536)).map (· % 256))) (((b.pos + ((encQname d)).length) + 2) + 2) ((be32 (r.ttl % 2 ^ 32)).map (· % 256))) ((((b.pos + ((encQname d)).length) + 2) + 2) + 4) ((be16 4).map (· % 256))), (((((b.pos + ((encQname d)).length) + 2) + 2) + 4) + 2)⟩ : BytePacketBuffer)) (v := [a0]) L5
      (show (((((b.pos + ((encQname d)).length) + 2) + 2) + 4) + 2) ≤ 512 from by omega)
      (show ((((((b.pos + ((encQname d)).length) + 2) + 2) + 4) + 2) + 1) ≤ 512 from by omega)
  have L7 : ((splice (splice (splice (splice (splice (splice (splice b.buf b.pos ((encQname d).map (· % 256))) (b.pos + ((encQname d)).length) ((be16 (r.qtype % 65536)).map (· % 256))) ((b.pos + ((encQname d)).length) + 2) ((be16 (r.cls % 65536)).map (· % 256))) (((b.pos + ((encQname d)).length) + 2) + 2) ((be32 (r.ttl % 2 ^ 32)).map (· % 256))) ((((b.pos + ((encQname d)).length) + 2) + 2) + 4) ((be16 4).map (· % 256))) (((((b.pos + ((encQname d)).length) + 2) + 2) + 4) + 2) ([a0].map (· % 256))) ((((((b.pos + ((encQname d)).length) + 2) + 2) + 4) + 2) + 1) ([a1].map (· % 256))) : List Nat).length = 512 := by
    rw [splice_length (by
      rw [L6]
      simp only [List.length_append, List.length_cons, List.length_nil, be16_length, be32_length, List.length_map]
      omega)]
    exact L6
  have e7 : BytePacketBuffer.write8 (⟨(splice (splice (splice (splice (splice (splice b.buf b.pos ((encQname d).map (· % 256))) (b.pos + ((encQname d)).length) ((be16 (r.qtype % 65536)).map (· % 256))) ((b.pos + ((encQname d)).length) + 2) ((be16 (r.cls % 65536)).map (· % 256))) (((b.pos + ((encQname d)).length) + 2) + 2) ((be32 (r.ttl % 2 ^ 32)).map (· % 256))) ((((b.pos + ((encQname d)).length) + 2) + 2) + 4) ((be16 4).map (· % 256))) (((((b.pos + ((encQname d)).length) + 2) + 2) + 4) + 2) ([a0].map (· % 256))), ((((((b.pos + ((encQname d)).length) + 2) + 2) + 4) + 2) + 1)⟩ : BytePacketBuffer) a1 =
      .ok ⟨(splice (splice (splice (splice (splice (splice (splice b.buf b.pos ((encQname d).map (· % 256))) (b.pos + ((encQname d)).length) ((be16 (r.qtype % 65536)).map (· % 256))) ((b.pos + ((encQname d)).length) + 2) ((be16 (r.cls % 65536)).map (· % 256))) (((b.pos + ((encQname d)).length) + 2) + 2) ((be32 (r.ttl % 2 ^ 32)).map (· % 256))) ((((b.pos + ((encQname d)).length) + 2) + 2) + 4) ((be16 4).map (· % 256))) (((((b.pos + ((encQname d)).length) + 2) + 2) + 4) + 2) ([a0].map (· % 256))) ((((((b.pos + ((encQname d)).length) + 2) + 2) + 4) + 2) + 1) ([a1].map (· % 256))), (((((((b.pos + ((encQname d)).length) + 2) + 2) + 4) + 2) + 1) + 1)⟩ := by
    rw [write8_eq_writeList]
    exact writeList_ok_of (b := (⟨(splice (splice (splice (splice (splice (splice b.buf b.pos ((encQname d).map (· % 256))) (b.pos + ((encQname d)).length) ((be16 (r.qtype % 65536)).map (· % 256))) ((b.pos + ((encQname d)).length) + 2) ((be16 (r.cls % 65536)).map (· % 256))) (((b.pos + ((encQname d)).length) + 2) + 2) ((be32 (r.ttl % 2 ^ 32)).map (· % 256))) ((((b.pos + ((encQname d)).length) + 2) + 2) + 4) ((be16 4).map (· % 256))) (((((b.pos + ((encQname d)).length) + 2) + 2) + 4) + 2) ([a0].map (· % 256))), ((((((b.pos + ((encQname d)).length) + 2) + 2) + 4) + 2) + 1)⟩ : BytePacketBuffer)) (v := [a1]) L6
      (show ((((((b.pos + ((encQname d)).length) + 2) + 2) + 4) + 2) + 1) ≤ 512 from by omega)
      (show (((((((b.pos + ((encQname d)).length) + 2) + 2) + 4) + 2) + 1) + 1) ≤ 512 from by omega)
  have L8 : ((splice (splice (splice (splice (splice (splice (splice (splice b.buf b.pos ((encQname d).map (· % 256))) (b.pos + ((encQname d)).length) ((be16 (r.qtype % 65536)).map (· % 256))) ((b.pos + ((encQname d)).length) + 2) ((be16 (r.cls % 65536)).map (· % 256))) (((b.pos + ((encQname d)).length) + 2) + 2) ((be32 (r.ttl % 2 ^ 32)).map (· % 256))) ((((b.pos + ((encQname d)).length) + 2) + 2) + 4) ((be16 4).map (· % 256))) (((((b.pos + ((encQname d)).length) + 2) + 2) + 4) + 2) ([a0].map (· % 256))) ((((((b.pos + ((encQname d)).length) + 2) + 2) + 4) + 2) + 1) ([a1].map (· % 256))) (((((((b.pos + ((encQname d)).length) + 2) + 2) + 4) + 2) + 1) + 1) ([a2].map (· % 256))) : List Nat).length = 512 := by
    rw [splice_length (by
      rw [L7]
      simp only [List.length_append, List.length_cons, List.length_nil, be16_length, be32_length, List.length_map]
      omega)]
    exact L7
  have e8 : BytePacketBuffer.write8 (⟨(splice (splice (splice (splice (splice (splice (splice b.buf b.pos ((encQname d).map (· % 256))) (b.pos + ((encQname d)).length) ((be16 (r.qtype % 65536)).map (· % 256))) ((b.pos + ((encQname d)).length) + 2) ((be16 (r.cls % 65536)).map (· % 256))) (((b.pos + ((encQname d)).length) + 2) + 2) ((be32 (r.ttl % 2 ^ 32)).map (· % 256))) ((((b.pos + ((encQname d)).length) + 2) + 2) + 4) ((be16 4).map (· % 256))) (((((b.pos + ((encQname d)).length) + 2) + 2) + 4) + 2) ([a0].map (· % 256))) ((((((b.pos + ((encQname d)).length) + 2) + 2) + 4) + 2) + 1) ([a1].map (· % 256))), (((((((b.pos + ((encQname d)).length) + 2) + 2) + 4) + 2) + 1) + 1)⟩ : BytePacketBuffer) a2 =
      .ok ⟨(splice (splice (splice (splice (splice (splice (splice (splice b.buf b.pos ((encQname d).map (· % 256))) (b.pos + ((encQname d)).length) ((be16 (r.qtype % 65536)).map (· % 256))) ((b.pos + ((encQname d)).length) + 2) ((be16 (r.cls % 65536)).map (· % 256))) (((b.pos + ((encQname d)).length) + 2) + 2) ((be32 (r.ttl % 2 ^ 32)).map (· % 256))) ((((b.pos + ((encQname d)).length) + 2) + 2) + 4) ((be16 4).map (· % 256))) (((((b.pos + ((encQname d)).length) + 2) + 2) + 4) + 2) ([a0].map (· % 256))) ((((((b.pos + ((encQname d)).length) + 2) + 2) + 4) + 2) + 1) ([a1].map (· % 256))) (((((((b.pos + ((encQname d)).length) + 2) + 2) + 4) + 2) + 1) + 1) ([a2].map (· % 256))), ((((((((b.pos + ((encQname d)).length) + 2) + 2) + 4) + 2) + 1) + 1) + 1)⟩ := by
    rw [write8_eq_writeList]
    exact writeList_ok_of (b := (⟨(splice (splice (splice (splice (splice (splice (splice b.buf b.pos ((encQname d).map (· % 256))) (b.pos + ((encQname d)).length) ((be16 (r.qtype % 65536)).map (· % 256))) ((b.pos + ((encQname d)).length) + 2) ((be16 (r.cls % 65536)).map (· % 256))) (((b.pos + ((encQname d)).length) + 2) + 2) ((be32 (r.ttl % 2 ^ 32)).map (· % 256))) ((((b.pos + ((encQname d)).length) + 2) + 2) + 4) ((be16 4).map (· % 256))) (((((b.pos + ((encQname d)).length) + 2) + 2) + 4) + 2) ([a0].map (· % 256))) ((((((b.pos + ((encQname d)).length) + 2) + 2) + 4) + 2) + 1) ([a1].map (· % 256))), (((((((b.pos + ((encQname d)).length) + 2) + 2) + 4) + 2) + 1) + 1)⟩ : BytePacketBuffer)) (v := [a2]) L7
      (show (((((((b.pos + ((encQname d)).length) + 2) + 2) + 4) + 2) + 1) + 1) ≤ 512 from by omega)
      (show ((((((((b.pos + ((encQname d)).length) + 2) + 2) + 4) + 2) + 1) + 1) + 1) ≤ 512 from by omega)
  have L9 : ((splice (splice (splice (splice (splice (splice (splice (splice (splice b.buf b.pos ((encQname d).map (· % 256))) (b.pos + ((encQname d)).length) ((be16 (r.qtype % 65536)).map (· % 256))) ((b.pos + ((encQname d)).length) + 2) ((be16 (r.cls % 65536)).map (· % 256))) (((b.pos + ((encQname d)).length) + 2) + 2) ((be32 (r.ttl % 2 ^ 32)).map (· % 256))) ((((b.pos + ((encQname d)).length) + 2) + 2) + 4) ((be16 4).map (· % 256))) (((((b.pos + ((encQname d)).length) + 2) + 2) + 4) + 2) ([a0].map (· % 256))) ((((((b.pos + ((encQname d)).length) + 2) + 2) + 4) + 2) + 1) ([a1].map (· % 256))) (((((((b.pos + ((encQname d)).length) + 2) + 2) + 4) + 2) + 1) + 1) ([a2].map (· % 256))) ((((((((b.pos + ((encQname d)).length) + 2) + 2) + 4) + 2) + 1) + 1) + 1) ([a3].map (· % 256))) : List Nat).length = 512 := by
    rw [splice_length (by
      rw [L8]
      simp only [List.length_append, List.length_cons, List.length_nil, be16_length, be32_length, List.length_map]
      omega)]
    exact L8
  have e9 : BytePacketBuffer.write8 (⟨(splice (splice (splice (splice (splice (splice (splice (splice b.buf b.pos ((encQname d).map (· % 256))) (b.pos + ((encQname d)).length) ((be16 (r.qtype % 65536)).map (· % 256))) ((b.pos + ((encQname d)).length) + 2) ((be16 (r.cls % 65536)).map (· % 256))) (((b.pos + ((encQname d)).length) + 2) + 2) ((be32 (r.ttl % 2 ^ 32)).map (· % 256))) ((((b.pos + ((encQname d)).length) + 2) + 2) + 4) ((be16 4).map (· % 256))) (((((b.pos + ((encQname d)).length) + 2) + 2) + 4) + 2) ([a0].map (· % 256))) ((((((b.pos + ((encQname d)).length) + 2) + 2) + 4) + 2) + 1) ([a1].map (· % 256))) (((((((b.pos + ((encQname d)).length) + 2) + 2) + 4) + 2) + 1) + 1) ([a2].map (· % 256))), ((((((((b.pos + ((encQname d)).length) + 2) + 2) + 4) + 2) + 1) + 1) + 1)⟩ : BytePacketBuffer) a3 =
      .ok ⟨(splice (splice (splice (splice (splice (splice (splice (splice (splice b.buf b.pos ((encQname d).map (· % 256))) (b.pos + ((encQname d)).length) ((be16 (r.qtype % 65536)).map (· % 256))) ((b.pos + ((encQname d)).length) + 2) ((be16 (r.cls % 65536)).map (· % 256))) (((b.pos + ((encQname d)).length) + 2) + 2) ((be32 (r.ttl % 2 ^ 32)).map (· % 256))) ((((b.pos + ((encQname d)).length) + 2) + 2) + 4) ((be16 4).map (· % 256))) (((((b.pos + ((encQname d)).length) + 2) + 2) + 4) + 2) ([a0].map (· % 256))) ((((((b.pos + ((encQname d)).length) + 2) + 2) + 4) + 2) + 1) ([a1].map (· % 256))) (((((((b.pos + ((encQname d)).length) + 2) + 2) + 4) + 2) + 1) + 1) ([a2].map (· % 256))) ((((((((b.pos + ((encQname d)).length) + 2) + 2) + 4) + 2) + 1) + 1) + 1) ([a3].map (· % 256))), (((((((((b.pos + ((encQname d)).length) + 2) + 2) + 4) + 2) + 1) + 1) + 1) + 1)⟩ := by
    rw [write8_eq_writeList]
    exact writeList_ok_of (b := (⟨(splice (splice (splice (splice (splice (splice (splice (splice b.buf b.pos ((encQname d).map (· % 256))) (b.pos + ((encQname d)).length) ((be16 (r.qtype % 65536)).map (· % 256))) ((b.pos + ((encQname d)).length) + 2) ((be16 (r.cls % 65536)).map (· % 256))) (((b.pos + ((encQname d)).length) + 2) + 2) ((be32 (r.ttl % 2 ^ 32)).map (· % 256))) ((((b.pos + ((encQname d)).length) + 2) + 2) + 4) ((be16 4).map (· % 256))) (((((b.pos + ((encQname d)).length) + 2) + 2) + 4) + 2) ([a0].map (· % 256))) ((((((b.pos + ((encQname d)).length) + 2) + 2) + 4) + 2) + 1) ([a1].map (· % 256))) (((((((b.pos + ((encQname d)).length) + 2) + 2) + 4) + 2) + 1) + 1) ([a2].map (· % 256))), ((((((((b.pos + ((encQname d)).length) + 2) + 2) + 4) + 2) + 1) + 1) + 1)⟩ : BytePacketBuffer)) (v := [a3]) L8
      (show ((((((((b.pos + ((encQname d)).length) + 2) + 2) + 4) + 2) + 1) + 1) + 1) ≤ 512 from by omega)
      (show (((((((((b.pos + ((encQname d)).length) + 2) + 2) + 4) + 2) + 1) + 1) + 1) + 1) ≤ 512 from by omega)
  unfold DNSRecord.write
  rw [hdom, show derefName (some d) = (Except.ok d : Except String (List Nat))
    from rfl, ok_bind]
  rw [e1]
  simp only [ok_bind]
  rw [e2]
  simp only [ok_bind]
  rw [e3]
  simp only [ok_bind]
  rw [e4]
  simp only [ok_bind]
  rw [if_pos hq]
  rw [e5]
  simp only [ok_bind]
  rw [haddr, show derefName (some a) = (Except.ok a : Except String (List Nat))
    from rfl, ok_bind]
  rw [ipTo4_v4mapped ha16 htake]
  dsimp only
  rw [hdrop]
  simp only [List.getD_cons_zero, List.getD_cons_succ]
  rw [e6]
  simp only [ok_bind]
  rw [e7]
  simp only [ok_bind]
  rw [e8]
  simp only [ok_bind]
  rw [e9]
  simp only [ok_bind]
  have g8 : splice (splice (splice (splice (splice (splice (splice (splice (splice b.buf b.pos ((encQname d).map (· % 256))) (b.pos + ((encQname d)).length) ((be16 (r.qtype % 65536)).map (· % 256))) ((b.pos + ((encQname d)).length) + 2) ((be16 (r.cls % 65536)).map (· % 256))) (((b.pos + ((encQname d)).length) + 2) + 2) ((be32 (r.ttl % 2 ^ 32)).map (· % 256))) ((((b.pos + ((encQname d)).length) + 2) + 2) + 4) ((be16 4).map (· % 256))) (((((b.pos + ((encQname d)).length) + 2) + 2) + 4) + 2) ([a0].map (· % 256))) ((((((b.pos + ((encQname d)).length) + 2) + 2) + 4) + 2) + 1) ([a1].map (· % 256))) (((((((b.pos + ((encQname d)).length) + 2) + 2) + 4) + 2) + 1) + 1) ([a2].map (· % 256)))
      ((((((((b.pos + ((encQname d)).length) + 2) + 2) + 4) + 2) + 1) + 1) + 1) ([a3].map (· % 256)) =
      splice (splice (splice (splice (splice (splice (splice (splice b.buf b.pos ((encQname d).map (· % 256))) (b.pos + ((encQname d)).length) ((be16 (r.qtype % 65536)).map (· % 256))) ((b.pos + ((encQname d)).length) + 2) ((be16 (r.cls % 65536)).map (· % 256))) (((b.pos + ((encQname d)).length) + 2) + 2) ((be32 (r.ttl % 2 ^ 32)).map (· % 256))) ((((b.pos + ((encQname d)).length) + 2) + 2) + 4) ((be16 4).map (· % 256))) (((((b.pos + ((encQname d)).length) + 2) + 2) + 4) + 2) ([a0].map (· % 256))) ((((((b.pos + ((encQname d)).length) + 2) + 2) + 4) + 2) + 1) ([a1].map (· % 256))) (((((((b.pos + ((encQname d)).length) + 2) + 2) + 4) + 2) + 1) + 1) (([a2] ++ [a3]).map (· % 256)) :=
    splice_splice_map (by
      rw [L7]
      simp only [List.length_append, List.length_cons, List.length_nil, be16_length, be32_length, List.length_map]
      omega)
  rw [g8]
  have g7 : splice (splice (splice (splice (splice (splice (splice (splice b.buf b.pos ((encQname d).map (· % 256))) (b.pos + ((encQname d)).length) ((be16 (r.qtype % 65536)).map (· % 256))) ((b.pos + ((encQname d)).length) + 2) ((be16 (r.cls % 65536)).map (· % 256))) (((b.pos + ((encQname d)).length) + 2) + 2) ((be32 (r.ttl % 2 ^ 32)).map (· % 256))) ((((b.pos + ((encQname d)).length) + 2) + 2) + 4) ((be16 4).map (· % 256))) (((((b.pos + ((encQname d)).length) + 2) + 2) + 4) + 2) ([a0].map (· % 256))) ((((((b.pos + ((encQname d)).length) + 2) + 2) + 4) + 2) + 1) ([a1].map (· % 256)))
      (((((((b.pos + ((encQname d)).length) + 2) + 2) + 4) + 2) + 1) + 1) (([a2] ++ [a3]).map (· % 256)) =
      splice (splice (splice (splice (splice (splice (splice b.buf b.pos ((encQname d).map (· % 256))) (b.pos + ((encQname d)).length) ((be16 (r.qtype % 65536)).map (· % 256))) ((b.pos + ((encQname d)).length) + 2) ((be16 (r.cls % 65536)).map (· % 256))) (((b.pos + ((encQname d)).length) + 2) + 2) ((be32 (r.ttl % 2 ^ 32)).map (· % 256))) ((((b.pos + ((encQname d)).length) + 2) + 2) + 4) ((be16 4).map (· % 256))) (((((b.pos + ((encQname d)).length) + 2) + 2) + 4) + 2) ([a0].map (· % 256))) ((((((b.pos + ((encQname d)).length) + 2) + 2) + 4) + 2) + 1) (([a1] ++ ([a2] ++ [a3])).map (· % 256)) :=
    splice_splice_map (by
      rw [L6]
      simp only [List.length_append, List.length_cons, List.length_nil, be16_length, be32_length, List.length_map]
      omega)
  rw [g7]
  have g6 : splice (splice (splice (splice (splice (splice (splice b.buf b.pos ((encQname d).map (· % 256))) (b.pos + ((encQname d)).length) ((be16 (r.qtype % 65536)).map (· % 256))) ((b.pos + ((encQname d)).length) + 2) ((be16 (r.cls % 65536)).map (· % 256))) (((b.pos + ((encQname d)).length) + 2) + 2) ((be32 (r.ttl % 2 ^ 32)).map (· % 256))) ((((b.pos + ((encQname d)).length) + 2) + 2) + 4) ((be16 4).map (· % 256))) (((((b.pos + ((encQname d)).length) + 2) + 2) + 4) + 2) ([a0].map (· % 256)))
      ((((((b.pos + ((encQname d)).length) + 2) + 2) + 4) + 2) + 1) (([a1] ++ ([a2] ++ [a3])).map (· % 256)) =
      splice (splice (splice (splice (splice (splice b.buf b.pos ((encQname d).map (· % 256))) (b.pos + ((encQname d)).length) ((be16 (r.qtype % 65536)).map (· % 256))) ((b.pos + ((encQname d)).length) + 2) ((be16 (r.cls % 65536)).map (· % 256))) (((b.pos + ((encQname d)).length) + 2) + 2) ((be32 (r.ttl % 2 ^ 32)).map (· % 256))) ((((b.pos + ((encQname d)).length) + 2) + 2) + 4) ((be16 4).map (· % 256))) (((((b.pos + ((encQname d)).length) + 2) + 2) + 4) + 2) (([a0] ++ ([a1] ++ ([a2] ++ [a3]))).map (· % 256)) :=
    splice_splice_map (by
      rw [L5]
      simp only [List.length_append, List.length_cons, List.length_nil, be16_length, be32_length, List.length_map]
      omega)
  rw [g6]
  have g5 : splice (splice (splice (splice (splice (splice b.buf b.pos ((encQname d).map (· % 256))) (b.pos + ((encQname d)).length) ((be16 (r.qtype % 65536)).map (· % 256))) ((b.pos + ((encQname d)).length) + 2) ((be16 (r.cls % 65536)).map (· % 256))) (((b.pos + ((encQname d)).length) + 2) + 2) ((be32 (r.ttl % 2 ^ 32)).map (· % 256))) ((((b.pos + ((encQname d)).length) + 2) + 2) + 4) ((be16 4).map (· % 256)))
      (((((b.pos + ((encQname d)).length) + 2) + 2) + 4) + 2) (([a0] ++ ([a1] ++ ([a2] ++ [a3]))).map (· % 256)) =
      splice (splice (splice (splice (splice b.buf b.pos ((encQname d).map (· % 256))) (b.pos + ((encQname d)).length) ((be16 (r.qtype % 65536)).map (· % 256))) ((b.pos + ((encQname d)).length) + 2) ((be16 (r.cls % 65536)).map (· % 256))) (((b.pos + ((encQname d)).length) + 2) + 2) ((be32 (r.ttl % 2 ^ 32)).map (· % 256))) ((((b.pos + ((encQname d)).length) + 2) + 2) + 4) (((be16 4) ++ ([a0] ++ ([a1] ++ ([a2] ++ [a3])))).map (· % 256)) :=
    splice_splice_map (by
      rw [L4]
      simp only [List.length_append, List.length_cons, List.length_nil, be16_length, be32_length, List.length_map]
      omega)
  rw [g5]
  have g4 : splice (splice (splice (splice (splice b.buf b.pos ((encQname d).map (· % 256))) (b.pos + ((encQname d)).length) ((be16 (r.qtype % 65536)).map (· % 256))) ((b.pos + ((encQname d)).length) + 2) ((be16 (r.cls % 65536)).map (· % 256))) (((b.pos + ((encQname d)).length) + 2) + 2) ((be32 (r.ttl % 2 ^ 32)).map (· % 256)))
      ((((b.pos + ((encQname d)).length) + 2) + 2) + 4) (((be16 4) ++ ([a0] ++ ([a1] ++ ([a2] ++ [a3])))).map (· % 256)) =
      splice (splice (splice (splice b.buf b.pos ((encQname d).map (· % 256))) (b.pos + ((encQname d)).length) ((be16 (r.qtype % 65536)).map (· % 256))) ((b.pos + ((encQname d)).length) + 2) ((be16 (r.cls % 65536)).map (· % 256))) (((b.pos + ((encQname d)).length) + 2) + 2) (((be32 (r.ttl % 2 ^ 32)) ++ ((be16 4) ++ ([a0] ++ ([a1] ++ ([a2] ++ [a3]))))).map (· % 256)) :=
    splice_splice_map (by
      rw [L3]
      simp only [List.length_append, List.length_cons, List.length_nil, be16_length, be32_length, List.length_map]
      omega)
  rw [g4]
  have g3 : splice (splice (splice (splice b.buf b.pos ((encQname d).map (· % 256))) (b.pos + ((encQname d)).length) ((be16 (r.qtype % 65536)).map (· % 256))) ((b.pos + ((encQname d)).length) + 2) ((be16 (r.cls % 65536)).map (· % 256)))
      (((b.pos + ((encQname d)).length) + 2) + 2) (((be32 (r.ttl % 2 ^ 32)) ++ ((be16 4) ++ ([a0] ++ ([a1] ++ ([a2] ++ [a3]))))).map (· % 256)) =
      splice (splice (splice b.buf b.pos ((encQname d).map (· % 256))) (b.pos + ((encQname d)).length) ((be16 (r.qtype % 65536)).map (· % 256))) ((b.pos + ((encQname d)).length) + 2) (((be16 (r.cls % 65536)) ++ ((be32 (r.ttl % 2 ^ 32)) ++ ((be16 4) ++ ([a0] ++ ([a1] ++ ([a2] ++ [a3])))))).map (· % 256)) :=
    splice_splice_map (by
      rw [L2]
      simp only [List.length_append, List.length_cons, List.length_nil, be16_length, be32_length, List.length_map]
      omega)
  rw [g3]
  have g2 : splice (splice (splice b.buf b.pos ((encQname d).map (· % 256))) (b.pos + ((encQname d)).length) ((be16 (r.qtype % 65536)).map (· % 256)))
      ((b.pos + ((encQname d)).length) + 2) (((be16 (r.cls % 65536)) ++ ((be32 (r.ttl % 2 ^ 32)) ++ ((be16 4) ++ ([a0] ++ ([a1] ++ ([a2] ++ [a3])))))).map (· % 256)) =
      splice (splice b.buf b.pos ((encQname d).map (· % 256))) (b.pos + ((encQname d)).length) (((be16 (r.qtype % 65536)) ++ ((be16 (r.cls % 65536)) ++ ((be32 (r.ttl % 2 ^ 32)) ++ ((be16 4) ++ ([a0] ++ ([a1] ++ ([a2] ++ [a3]))))))).map (· % 256)) :=
    splice_splice_map (by
      rw [L1]
      simp only [List.length_append, List.length_cons, List.length_nil, be16_length, be32_length, List.length_map]
      omega)
  rw [g2]
  have g1 : splice (splice b.buf b.pos ((encQname d).map (· % 256)))
      (b.pos + ((encQname d)).length) (((be16 (r.qtype % 65536)) ++ ((be16 (r.cls % 65536)) ++ ((be32 (r.ttl % 2 ^ 32)) ++ ((be16 4) ++ ([a0] ++ ([a1] ++ ([a2] ++ [a3]))))))).map (· % 256)) =
      splice b.buf b.pos (((encQname d) ++ ((be16 (r.qtype % 65536)) ++ ((be16 (r.cls % 65536)) ++ ((be32 (r.ttl % 2 ^ 32)) ++ ((be16 4) ++ ([a0] ++ ([a1] ++ ([a2] ++ [a3])))))))).map (· % 256)) :=
    splice_splice_map (by
      rw [L0]
      simp only [List.length_append, List.length_cons, List.length_nil, be16_length, be32_length, List.length_map]
      omega)
  rw [g1]
  rw [show ((encQname d) ++ ((be16 (r.qtype % 65536)) ++ ((be16 (r.cls % 65536)) ++ ((be32 (r.ttl % 2 ^ 32)) ++ ((be16 4) ++ ([a0] ++ ([a1] ++ ([a2] ++ [a3])))))))) = encRecord r from by
    rw [henc]
    simp [List.append_assoc]]
  rw [show (((((((((b.pos + ((encQname d)).length) + 2) + 2) + 4) + 2) + 1) + 1) + 1) + 1) - b.pos = (encRecord r).length from by
    rw [hRlen]
    omega]
  rw [show (((((((((b.pos + ((encQname d)).length) + 2) + 2) + 4) + 2) + 1) + 1) + 1) + 1) = b.pos + (encRecord r).length from by
    rw [hRlen]
    omega]


-- BEGIN RECORD BRANCHES
/-- DNSRecord.Write of an NS record in decoder shape: the host encoding with its back-patched length is spliced in after the common head -/
theorem recordWrite_NS_ok {r : DNSRecord} {b : BytePacketBuffer}
    {d hn : List Nat}
    (hq : r.qtype = NSQueryType) (hdom : r.domain = some d)
    (hhost : r.host = some hn)
    (hh63 : ∀ lab ∈ splitDot hn, lab.length ≤ 63)
    (hd63 : ∀ lab ∈ splitDot d, lab.length ≤ 63)
    (hlen : b.buf.length = 512) (hpos : b.pos ≤ 512)
    (hfit : b.pos + (encRecord r).length ≤ 512) :
    r.write b = .ok ((encRecord r).length,
      ⟨splice b.buf b.pos ((encRecord r).map (· % 256)),
        b.pos + (encRecord r).length⟩) := by
  have henc : encRecord r = encQname d ++ be16 (r.qtype % 65536) ++
      be16 (r.cls % 65536) ++ be32 (r.ttl % 2 ^ 32) ++
      (be16 (encQname hn).length ++ encQname hn) := by
    unfold encRecord
    rw [if_neg (show ¬ (r.qtype = AQueryType) from by rw [hq]; decide), if_pos (Or.inl hq), hdom, Option.getD_some, hhost, Option.getD_some]
  have hRlen : (encRecord r).length = (encQname d).length + (encQname hn).length + 10 := by
    rw [henc]
    simp only [List.length_append, List.length_cons, List.length_nil, be16_length, be32_length, List.length_map]
    try omega
  have L0 : (b.buf : List Nat).length = 512 := hlen
  have L1 : ((splice b.buf b.pos ((encQname d).map (· % 256))) : List Nat).length = 512 := by
    rw [splice_length (by
      rw [L0]
      simp only [List.length_append, List.length_cons, List.length_nil, be16_length, be32_length, List.length_map]
      omega)]
    exact L0
  have e1 : BytePacketBuffer.writeQname b d =
      .ok ⟨(splice b.buf b.pos ((encQname d).map (· % 256))), (b.pos + ((encQname d)).length)⟩ := by
    rw [writeQname_eq_writeList _ hd63]
    exact writeList_ok_of (b := b) (v := (encQname d)) L0
      (show b.pos ≤ 512 from by omega)
      (show (b.pos + ((encQname d)).length) ≤ 512 from by omega)
  have L2 : ((splice (splice b.buf b.pos ((encQname d).map (· % 256))) (b.pos + ((encQname d)).length) ((be16 (r.qtype % 65536)).map (· % 256))) : List Nat).length = 512 := by
    rw [splice_length (by
      rw [L1]
      simp only [List.length_append, List.length_cons, List.length_nil, be16_length, be32_length, List.length_map]
      omega)]
    exact L1
  have e2 : BytePacketBuffer.write16 (⟨(splice b.buf b.pos ((encQname d).map (· % 256))), (b.pos + ((encQname d)).length)⟩ : BytePacketBuffer) (r.qtype % 65536) =
      .ok ⟨(splice (splice b.buf b.pos ((encQname d).map (· % 256))) (b.pos + ((encQname d)).length) ((be16 (r.qtype % 65536)).map (· % 256))), ((b.pos + ((encQname d)).length) + 2)⟩ := by
    rw [write16_eq_writeList]
    exact writeList_ok_of (b := (⟨(splice b.buf b.pos ((encQname d).map (· % 256))), (b.pos + ((encQname d)).length)⟩ : BytePacketBuffer)) (v := (be16 (r.qtype % 65536))) L1
      (show (b.pos + ((encQname d)).length) ≤ 512 from by omega)
      (show ((b.pos + ((encQname d)).length) + 2) ≤ 512 from by omega)
  have L3 : ((splice (splice (splice b.buf b.pos ((encQname d).map (· % 256))) (b.pos + ((encQname d)).length) ((be16 (r.qtype % 65536)).map (· % 256))) ((b.pos + ((encQname d)).length) + 2) ((be16 (r.cls % 65536)).map (· % 256))) : List Nat).length = 512 := by
    rw [splice_length (by
      rw [L2]
      simp only [List.length_append, List.length_cons, List.length_nil, be16_length, be32_length, List.length_map]
      omega)]
    exact L2
  have e3 : BytePacketBuffer.write16 (⟨(splice (splice b.buf b.pos ((encQname d).map (· % 256))) (b.pos + ((encQname d)).length) ((be16 (r.qtype % 65536)).map (· % 256))), ((b.pos + ((encQname d)).length) + 2)⟩ : BytePacketBuffer) (r.cls % 65536) =
      .ok ⟨(splice (splice (splice b.buf b.pos ((encQname d).map (· % 256))) (b.pos + ((encQname d)).length) ((be16 (r.qtype % 65536)).map (· % 256))) ((b.pos + ((encQname d)).length) + 2) ((be16 (r.cls % 65536)).map (· % 256))), (((b.pos + ((encQname d)).length) + 2) + 2)⟩ := by
    rw [write16_eq_writeList]
    exact writeList_ok_of (b := (⟨(splice (splice b.buf b.pos ((encQname d).map (· % 256))) (b.pos + ((encQname d)).length) ((be16 (r.qtype % 65536)).map (· % 256))), ((b.pos + ((encQname d)).length) + 2)⟩ : BytePacketBuffer)) (v := (be16 (r.cls % 65536))) L2
      (show ((b.pos + ((encQname d)).length) + 2) ≤ 512 from by omega)
      (show (((b.pos + ((encQname d)).length) + 2) + 2) ≤ 512 from by omega)
  have L4 : ((splice (splice (splice (splice b.buf b.pos ((encQname d).map (· % 256))) (b.pos + ((encQname d)).length) ((be16 (r.qtype % 65536)).map (· % 256))) ((b.pos + ((encQname d)).length) + 2) ((be16 (r.cls % 65536)).map (· % 256))) (((b.pos + ((encQname d)).length) + 2) + 2) ((be32 (r.ttl % 2 ^ 32)).map (· % 256))) : List Nat).length = 512 := by
    rw [splice_length (by
      rw [L3]
      simp only [List.length_append, List.length_cons, List.length_nil, be16_length, be32_length, List.length_map]
      omega)]
    exact L3
  have e4 : BytePacketBuffer.write32 (⟨(splice (splice (splice b.buf b.pos ((encQname d).map (· % 256))) (b.pos + ((encQname d)).length) ((be16 (r.qtype % 65536)).map (· % 256))) ((b.pos + ((encQname d)).length) + 2) ((be16 (r.cls % 65536)).map (· % 256))), (((b.pos + ((encQname d)).length) + 2) + 2)⟩ : BytePacketBuffer) (r.ttl % 2 ^ 32) =
      .ok ⟨(splice (splice (splice (splice b.buf b.pos ((encQname d).map (· % 256))) (b.pos + ((encQname d)).length) ((be16 (r.qtype % 65536)).map (· % 256))) ((b.pos + ((encQname d)).length) + 2) ((be16 (r.cls % 65536)).map (· % 256))) (((b.pos + ((encQname d)).length) + 2) + 2) ((be32 (r.ttl % 2 ^ 32)).map (· % 256))), ((((b.pos + ((encQname d)).length) + 2) + 2) + 4)⟩ := by
    rw [write32_eq_writeList]
    exact writeList_ok_of (b := (⟨(splice (splice (splice b.buf b.pos ((encQname d).map (· % 256))) (b.pos + ((encQname d)).length) ((be16 (r.qtype % 65536)).map (· % 256))) ((b.pos + ((encQname d)).length) + 2) ((be16 (r.cls % 65536)).map (· % 256))), (((b.pos + ((encQname d)).length) + 2) + 2)⟩ : BytePacketBuffer)) (v := (be32 (r.ttl % 2 ^ 32))) L3
      (show (((b.pos + ((encQname d)).length) + 2) + 2) ≤ 512 from by omega)
      (show ((((b.pos + ((encQname d)).length) + 2) + 2) + 4) ≤ 512 from by omega)
  have L5 : ((splice (splice (splice (splice (splice b.buf b.pos ((encQname d).map (· % 256))) (b.pos + ((encQname d)).length) ((be16 (r.qtype % 65536)).map (· % 256))) ((b.pos + ((encQname d)).length) + 2) ((be16 (r.cls % 65536)).map (· % 256))) (((b.pos + ((encQname d)).length) + 2) + 2) ((be32 (r.ttl % 2 ^ 32)).map (· % 256))) ((((b.pos + ((encQname d)).length) + 2) + 2) + 4) ((be16 0).map (· % 256))) : List Nat).length = 512 := by
    rw [splice_length (by
      rw [L4]
      simp only [List.length_append, List.length_cons, List.length_nil, be16_length, be32_length, List.length_map]
      omega)]
    exact L4
  have e5 : BytePacketBuffer.write16 (⟨(splice (splice (splice (splice b.buf b.pos ((encQname d).map (· % 256))) (b.pos + ((encQname d)).length) ((be16 (r.qtype % 65536)).map (· % 256))) ((b.pos + ((encQname d)).length) + 2) ((be16 (r.cls % 65536)).map (· % 256))) (((b.pos + ((encQname d)).length) + 2) + 2) ((be32 (r.ttl % 2 ^ 32)).map (· % 256))), ((((b.pos + ((encQname d)).length) + 2) + 2) + 4)⟩ : BytePacketBuffer) 0 =
      .ok ⟨(splice (splice (splice (splice (splice b.buf b.pos ((encQname d).map (· % 256))) (b.pos + ((encQname d)).length) ((be16 (r.qtype % 65536)).map (· % 256))) ((b.pos + ((encQname d)).length) + 2) ((be16 (r.cls % 65536)).map (· % 256))) (((b.pos + ((encQname d)).length) + 2) + 2) ((be32 (r.ttl % 2 ^ 32)).map (· % 256))) ((((b.pos + ((encQname d)).length) + 2) + 2) + 4) ((be16 0).map (· % 256))), (((((b.pos + ((encQname d)).length) + 2) + 2) + 4) + 2)⟩ := by
    rw [write16_eq_writeList]
    exact writeList_ok_of (b := (⟨(splice (splice (splice (splice b.buf b.pos ((encQname d).map (· % 256))) (b.pos + ((encQname d)).length) ((be16 (r.qtype % 65536)).map (· % 256))) ((b.pos + ((encQname d)).length) + 2) ((be16 (r.cls % 65536)).map (· % 256))) (((b.pos + ((encQname d)).length) + 2) + 2) ((be32 (r.ttl % 2 ^ 32)).map (· % 256))), ((((b.pos + ((encQname d)).length) + 2) + 2) + 4)⟩ : BytePacketBuffer)) (v := (be16 0)) L4
      (show ((((b.pos + ((encQname d)).length) + 2) + 2) + 4) ≤ 512 from by omega)
      (show (((((b.pos + ((encQname d)).length) + 2) + 2) + 4) + 2) ≤ 512 from by omega)
  have L6 : ((splice (splice (splice (splice (splice (splice b.buf b.pos ((encQname d).map (· % 256))) (b.pos + ((encQname d)).length) ((be16 (r.qtype % 65536)).map (· % 256))) ((b.pos + ((encQname d)).length) + 2) ((be16 (r.cls % 65536)).map (· % 256))) (((b.pos + ((encQname d)).length) + 2) + 2) ((be32 (r.ttl % 2 ^ 32)).map (· % 256))) ((((b.pos + ((encQname d)).length) + 2) + 2) + 4) ((be16 0).map (· % 256))) (((((b.pos + ((encQname d)).length) + 2) + 2) + 4) + 2) ((encQname hn).map (· % 256))) : List Nat).length = 512 := by
    rw [splice_length (by
      rw [L5]
      simp only [List.length_append, List.length_cons, List.length_nil, be16_length, be32_length, List.length_map]
      omega)]
    exact L5
  have e6 : BytePacketBuffer.writeQname (⟨(splice (splice (splice (splice (splice b.buf b.pos ((encQname d).map (· % 256))) (b.pos + ((encQname d)).length) ((be16 (r.qtype % 65536)).map (· % 256))) ((b.pos + ((encQname d)).length) + 2) ((be16 (r.cls % 65536)).map (· % 256))) (((b.pos + ((encQname d)).length) + 2) + 2) ((be32 (r.ttl % 2 ^ 32)).map (· % 256))) ((((b.pos + ((encQname d)).length) + 2) + 2) + 4) ((be16 0).map (· % 256))), (((((b.pos + ((encQname d)).length) + 2) + 2) + 4) + 2)⟩ : BytePacketBuffer) hn =
      .ok ⟨(splice (splice (splice (splice (splice (splice b.buf b.pos ((encQname d).map (· % 256))) (b.pos + ((encQname d)).length) ((be16 (r.qtype % 65536)).map (· % 256))) ((b.pos + ((encQname d)).length) + 2) ((be16 (r.cls % 65536)).map (· % 256))) (((b.pos + ((encQname d)).length) + 2) + 2) ((be32 (r.ttl % 2 ^ 32)).map (· % 256))) ((((b.pos + ((encQname d)).length) + 2) + 2) + 4) ((be16 0).map (· % 256))) (((((b.pos + ((encQname d)).length) + 2) + 2) + 4) + 2) ((encQname hn).map (· % 256))), ((((((b.pos + ((encQname d)).length) + 2) + 2) + 4) + 2) + ((encQname hn)).length)⟩ := by
    rw [writeQname_eq_writeList _ hh63]
    exact writeList_ok_of (b := (⟨(splice (splice (splice (splice (splice b.buf b.pos ((encQname d).map (· % 256))) (b.pos + ((encQname d)).length) ((be16 (r.qtype % 65536)).map (· % 256))) ((b.pos + ((encQname d)).length) + 2) ((be16 (r.cls % 65536)).map (· % 256))) (((b.pos + ((encQname d)).length) + 2) + 2) ((be32 (r.ttl % 2 ^ 32)).map (· % 256))) ((((b.pos + ((encQname d)).length) + 2) + 2) + 4) ((be16 0).map (· % 256))), (((((b.pos + ((encQname d)).length) + 2) + 2) + 4) + 2)⟩ : BytePacketBuffer)) (v := (encQname hn)) L5
      (show (((((b.pos + ((encQname d)).length) + 2) + 2) + 4) + 2) ≤ 512 from by omega)
      (show ((((((b.pos + ((encQname d)).length) + 2) + 2) + 4) + 2) + ((encQname hn)).length) ≤ 512 from by omega)
  unfold DNSRecord.write
  rw [hdom, show derefName (some d) = (Except.ok d : Except String (List Nat))
    from rfl, ok_bind]
  rw [e1]
  simp only [ok_bind]
  rw [e2]
  simp only [ok_bind]
  rw [e3]
  simp only [ok_bind]
  rw [e4]
  simp only [ok_bind]
  rw [if_neg (show ¬ (r.qtype = AQueryType) from by rw [hq]; decide), if_pos hq]
  rw [e5]
  simp only [ok_bind]
  rw [hhost, show derefName (some hn) = (Except.ok hn : Except String (List Nat))
    from rfl, ok_bind]
  rw [e6]
  simp only [ok_bind]
  have gp1 : splice (splice (splice (splice (splice (splice b.buf b.pos ((encQname d).map (· % 256))) (b.pos + ((encQname d)).length) ((be16 (r.qtype % 65536)).map (· % 256))) ((b.pos + ((encQname d)).length) + 2) ((be16 (r.cls % 65536)).map (· % 256))) (((b.pos + ((encQname d)).length) + 2) + 2) ((be32 (r.ttl % 2 ^ 32)).map (· % 256))) ((((b.pos + ((encQname d)).length) + 2) + 2) + 4) ((be16 0).map (· % 256)))
      (((((b.pos + ((encQname d)).length) + 2) + 2) + 4) + 2) ((encQname hn).map (· % 256)) =
      splice (splice (splice (splice (splice b.buf b.pos ((encQname d).map (· % 256))) (b.pos + ((encQname d)).length) ((be16 (r.qtype % 65536)).map (· % 256))) ((b.pos + ((encQname d)).length) + 2) ((be16 (r.cls % 65536)).map (· % 256))) (((b.pos + ((encQname d)).length) + 2) + 2) ((be32 (r.ttl % 2 ^ 32)).map (· % 256))) ((((b.pos + ((encQname d)).length) + 2) + 2) + 4) (((be16 0) ++ (encQname hn)).map (· % 256)) :=
    splice_splice_map (by
      rw [L4]
      simp only [List.length_append, List.length_cons, List.length_nil, be16_length, be32_length, List.length_map]
      omega)
  rw [gp1]
  have eset : BytePacketBuffer.set16
      (⟨splice (splice (splice (splice (splice b.buf b.pos ((encQname d).map (· % 256))) (b.pos + ((encQname d)).length) ((be16 (r.qtype % 65536)).map (· % 256))) ((b.pos + ((encQname d)).length) + 2) ((be16 (r.cls % 65536)).map (· % 256))) (((b.pos + ((encQname d)).length) + 2) + 2) ((be32 (r.ttl % 2 ^ 32)).map (· % 256))) ((((b.pos + ((encQname d)).length) + 2) + 2) + 4) (((be16 0) ++ (encQname hn)).map (· % 256)), ((((((b.pos + ((encQname d)).length) + 2) + 2) + 4) + 2) + ((encQname hn)).length)⟩ : BytePacketBuffer)
      ((((b.pos + ((encQname d)).length) + 2) + 2) + 4) ((((((((b.pos + ((encQname d)).length) + 2) + 2) + 4) + 2) + ((encQname hn)).length) - (((((b.pos + ((encQname d)).length) + 2) + 2) + 4) + 2)) % 65536) =
      some ⟨splice (splice (splice (splice (splice b.buf b.pos ((encQname d).map (· % 256))) (b.pos + ((encQname d)).length) ((be16 (r.qtype % 65536)).map (· % 256))) ((b.pos + ((encQname d)).length) + 2) ((be16 (r.cls % 65536)).map (· % 256))) (((b.pos + ((encQname d)).length) + 2) + 2) ((be32 (r.ttl % 2 ^ 32)).map (· % 256))) ((((b.pos + ((encQname d)).length) + 2) + 2) + 4)
        ((((((((b.pos + ((encQname d)).length) + 2) + 2) + 4) + 2) + ((encQname hn)).length) - (((((b.pos + ((encQname d)).length) + 2) + 2) + 4) + 2)) % 65536 / 256 % 256 :: (((((((b.pos + ((encQname d)).length) + 2) + 2) + 4) + 2) + ((encQname hn)).length) - (((((b.pos + ((encQname d)).length) + 2) + 2) + 4) + 2)) % 65536 % 256 :: ((encQname hn).map (· % 256))), ((((((b.pos + ((encQname d)).length) + 2) + 2) + 4) + 2) + ((encQname hn)).length)⟩ := by
    refine set16_splice0 _ ?_
    rw [L4]
    simp only [List.length_cons, List.length_map, List.length_append,
      List.nil_append, List.cons_append, List.append_eq, be16_length,
      be32_length]
    omega
  rw [eset]
  dsimp only
  rw [show ((((((b.pos + ((encQname d)).length) + 2) + 2) + 4) + 2) + ((encQname hn)).length) - (((((b.pos + ((encQname d)).length) + 2) + 2) + 4) + 2) = (encQname hn).length from by
    try simp only [List.length_append, List.length_cons, List.length_nil, be16_length, be32_length, List.length_map]
    omega]
  rw [mod65536_div256, mod65536_mod256]
  rw [show (encQname hn).length / 256 % 256 :: (encQname hn).length % 256 :: ((encQname hn).map (· % 256)) =
      ((be16 ((encQname hn).length) ++ (encQname hn)).map (· % 256)) from by
    simp [be16, mod256_mod256, List.map_append, List.append_assoc]]
  have gh1 : splice (splice (splice (splice (splice b.buf b.pos ((encQname d).map (· % 256))) (b.pos + ((encQname d)).length) ((be16 (r.qtype % 65536)).map (· % 256))) ((b.pos + ((encQname d)).length) + 2) ((be16 (r.cls % 65536)).map (· % 256))) (((b.pos + ((encQname d)).length) + 2) + 2) ((be32 (r.ttl % 2 ^ 32)).map (· % 256)))
      ((((b.pos + ((encQname d)).length) + 2) + 2) + 4) ((be16 ((encQname hn).length) ++ (encQname hn)).map (· % 256)) =
      splice (splice (splice (splice b.buf b.pos ((encQname d).map (· % 256))) (b.pos + ((encQname d)).length) ((be16 (r.qtype % 65536)).map (· % 256))) ((b.pos + ((encQname d)).length) + 2) ((be16 (r.cls % 65536)).map (· % 256))) (((b.pos + ((encQname d)).length) + 2) + 2) (((be32 (r.ttl % 2 ^ 32)) ++ (be16 ((encQname hn).length) ++ (encQname hn))).map (· % 256)) :=
    splice_splice_map (by
      rw [L3]
      simp only [List.length_append, List.length_cons, List.length_nil, be16_length, be32_length, List.length_map]
      omega)
  rw [gh1]
  have gh2 : splice (splice (splice (splice b.buf b.pos ((encQname d).map (· % 256))) (b.pos + ((encQname d)).length) ((be16 (r.qtype % 65536)).map (· % 256))) ((b.pos + ((encQname d)).length) + 2) ((be16 (r.cls % 65536)).map (· % 256)))
      (((b.pos + ((encQname d)).length) + 2) + 2) (((be32 (r.ttl % 2 ^ 32)) ++ (be16 ((encQname hn).length) ++ (encQname hn))).map (· % 256)) =
      splice (splice (splice b.buf b.pos ((encQname d).map (· % 256))) (b.pos + ((encQname d)).length) ((be16 (r.qtype % 65536)).map (· % 256))) ((b.pos + ((encQname d)).length) + 2) (((be16 (r.cls % 65536)) ++ ((be32 (r.ttl % 2 ^ 32)) ++ (be16 ((encQname hn).length) ++ (encQname hn)))).map (· % 256)) :=
    splice_splice_map (by
      rw [L2]
      simp only [List.length_append, List.length_cons, List.length_nil, be16_length, be32_length, List.length_map]
      omega)
  rw [gh2]
  have gh3 : splice (splice (splice b.buf b.pos ((encQname d).map (· % 256))) (b.pos + ((encQname d)).length) ((be16 (r.qtype % 65536)).map (· % 256)))
      ((b.pos + ((encQname d)).length) + 2) (((be16 (r.cls % 65536)) ++ ((be32 (r.ttl % 2 ^ 32)) ++ (be16 ((encQname hn).length) ++ (encQname hn)))).map (· % 256)) =
      splice (splice b.buf b.pos ((encQname d).map (· % 256))) (b.pos + ((encQname d)).length) (((be16 (r.qtype % 65536)) ++ ((be16 (r.cls % 65536)) ++ ((be32 (r.ttl % 2 ^ 32)) ++ (be16 ((encQname hn).length) ++ (encQname hn))))).map (· % 256)) :=
    splice_splice_map (by
      rw [L1]
      simp only [List.length_append, List.length_cons, List.length_nil, be16_length, be32_length, List.length_map]
      omega)
  rw [gh3]
  have gh4 : splice (splice b.buf b.pos ((encQname d).map (· % 256)))
      (b.pos + ((encQname d)).length) (((be16 (r.qtype % 65536)) ++ ((be16 (r.cls % 65536)) ++ ((be32 (r.ttl % 2 ^ 32)) ++ (be16 ((encQname hn).length) ++ (encQname hn))))).map (· % 256)) =
      splice b.buf b.pos (((encQname d) ++ ((be16 (r.qtype % 65536)) ++ ((be16 (r.cls % 65536)) ++ ((be32 (r.ttl % 2 ^ 32)) ++ (be16 ((encQname hn).length) ++ (encQname hn)))))).map (· % 256)) :=
    splice_splice_map (by
      rw [L0]
      simp only [List.length_append, List.length_cons, List.length_nil, be16_length, be32_length, List.length_map]
      omega)
  rw [gh4]
  rw [show ((encQname d) ++ ((be16 (r.qtype % 65536)) ++ ((be16 (r.cls % 65536)) ++ ((be32 (r.ttl % 2 ^ 32)) ++ (be16 ((encQname hn).length) ++ (encQname hn)))))) = encRecord r from by
    rw [henc]
    simp [List.append_assoc]]
  rw [show ((((((b.pos + ((encQname d)).length) + 2) + 2) + 4) + 2) + ((encQname hn)).length) - b.pos = (encRecord r).length from by
    rw [hRlen]
    try simp only [List.length_append, List.length_cons, List.length_nil, be16_length, be32_length, List.length_map]
    omega]
  rw [show ((((((b.pos + ((encQname d)).length) + 2) + 2) + 4) + 2) + ((encQname hn)).length) = b.pos + (encRecord r).length from by
    rw [hRlen]
    try simp only [List.length_append, List.length_cons, List.length_nil, be16_length, be32_length, List.length_map]
    omega]

/-- DNSRecord.Write of a CNAME record in decoder shape: the host encoding with its back-patched length is spliced in after the common head -/
theorem recordWrite_CNAME_ok {r : DNSRecord} {b : BytePacketBuffer}
    {d hn : List Nat}
    (hq : r.qtype = CNAMEQueryType) (hdom : r.domain = some d)
    (hhost : r.host = some hn)
    (hh63 : ∀ lab ∈ splitDot hn, lab.length ≤ 63)
    (hd63 : ∀ lab ∈ splitDot d, lab.length ≤ 63)
    (hlen : b.buf.length = 512) (hpos : b.pos ≤ 512)
    (hfit : b.pos + (encRecord r).length ≤ 512) :
    r.write b = .ok ((encRecord r).length,
      ⟨splice b.buf b.pos ((encRecord r).map (· % 256)),
        b.pos + (encRecord r).length⟩) := by
  have henc : encRecord r = encQname d ++ be16 (r.qtype % 65536) ++
      be16 (r.cls % 65536) ++ be32 (r.ttl % 2 ^ 32) ++
      (be16 (encQname hn).length ++ encQname hn) := by
    unfold encRecord
    rw [if_neg (show ¬ (r.qtype = AQueryType) from by rw [hq]; decide), if_pos (Or.inr hq), hdom, Option.getD_some, hhost, Option.getD_some]
  have hRlen : (encRecord r).length = (encQname d).length + (encQname hn).length + 10 := by
    rw [henc]
    simp only [List.length_append, List.length_cons, List.length_nil, be16_length, be32_length, List.length_map]
    try omega
  have L0 : (b.buf : List Nat).length = 512 := hlen
  have L1 : ((splice b.buf b.pos ((encQname d).map (· % 256))) : List Nat).length = 512 := by
    rw [splice_length (by
      rw [L0]
      simp only [List.length_append, List.length_cons, List.length_nil, be16_length, be32_length, List.length_map]
      omega)]
    exact L0
  have e1 : BytePacketBuffer.writeQname b d =
      .ok ⟨(splice b.buf b.pos ((encQname d).map (· % 256))), (b.pos + ((encQname d)).length)⟩ := by
    rw [writeQname_eq_writeList _ hd63]
    exact writeList_ok_of (b := b) (v := (encQname d)) L0
      (show b.pos ≤ 512 from by omega)
      (show (b.pos + ((encQname d)).length) ≤ 512 from by omega)
  have L2 : ((splice (splice b.buf b.pos ((encQname d).map (· % 256))) (b.pos + ((encQname d)).length) ((be16 (r.qtype % 65536)).map (· % 256))) : List Nat).length = 512 := by
    rw [splice_length (by
      rw [L1]
      simp only [List.length_append, List.length_cons, List.length_nil, be16_length, be32_length, List.length_map]
      omega)]
    exact L1
  have e2 : BytePacketBuffer.write16 (⟨(splice b.buf b.pos ((encQname d).map (· % 256))), (b.pos + ((encQname d)).length)⟩ : BytePacketBuffer) (r.qtype % 65536) =
      .ok ⟨(splice (splice b.buf b.pos ((encQname d).map (· % 256))) (b.pos + ((encQname d)).length) ((be16 (r.qtype % 65536)).map (· % 256))), ((b.pos + ((encQname d)).length) + 2)⟩ := by
    rw [write16_eq_writeList]
    exact writeList_ok_of (b := (⟨(splice b.buf b.pos ((encQname d).map (· % 256))), (b.pos + ((encQname d)).length)⟩ : BytePacketBuffer)) (v := (be16 (r.qtype % 65536))) L1
      (show (b.pos + ((encQname d)).length) ≤ 512 from by omega)
      (show ((b.pos + ((encQname d)).length) + 2) ≤ 512 from by omega)
  have L3 : ((splice (splice (splice b.buf b.pos ((encQname d).map (· % 256))) (b.pos + ((encQname d)).length) ((be16 (r.qtype % 65536)).map (· % 256))) ((b.pos + ((encQname d)).length) + 2) ((be16 (r.cls % 65536)).map (· % 256))) : List Nat).length = 512 := by
    rw [splice_length (by
      rw [L2]
      simp only [List.length_append, List.length_cons, List.length_nil, be16_length, be32_length, List.length_map]
      omega)]
    exact L2
  have e3 : BytePacketBuffer.write16 (⟨(splice (splice b.buf b.pos ((encQname d).map (· % 256))) (b.pos + ((encQname d)).length) ((be16 (r.qtype % 65536)).map (· % 256))), ((b.pos + ((encQname d)).length) + 2)⟩ : BytePacketBuffer) (r.cls % 65536) =
      .ok ⟨(splice (splice (splice b.buf b.pos ((encQname d).map (· % 256))) (b.pos + ((encQname d)).length) ((be16 (r.qtype % 65536)).map (· % 256))) ((b.pos + ((encQname d)).length) + 2) ((be16 (r.cls % 65536)).map (· % 256))), (((b.pos + ((encQname d)).length) + 2) + 2)⟩ := by
    rw [write16_eq_writeList]
    exact writeList_ok_of (b := (⟨(splice (splice b.buf b.pos ((encQname d).map (· % 256))) (b.pos + ((encQname d)).length) ((be16 (r.qtype % 65536)).map (· % 256))), ((b.pos + ((encQname d)).length) + 2)⟩ : BytePacketBuffer)) (v := (be16 (r.cls % 65536))) L2
      (show ((b.pos + ((encQname d)).length) + 2) ≤ 512 from by omega)
      (show (((b.pos + ((encQname d)).length) + 2) + 2) ≤ 512 from by omega)
  have L4 : ((splice (splice (splice (splice b.buf b.pos ((encQname d).map (· % 256))) (b.pos + ((encQname d)).length) ((be16 (r.qtype % 65536)).map (· % 256))) ((b.pos + ((encQname d)).length) + 2) ((be16 (r.cls % 65536)).map (· % 256))) (((b.pos + ((encQname d)).length) + 2) + 2) ((be32 (r.ttl % 2 ^ 32)).map (· % 256))) : List Nat).length = 512 := by
    rw [splice_length (by
      rw [L3]
      simp only [List.length_append, List.length_cons, List.length_nil, be16_length, be32_length, List.length_map]
      omega)]
    exact L3
  have e4 : BytePacketBuffer.write32 (⟨(splice (splice (splice b.buf b.pos ((encQname d).map (· % 256))) (b.pos + ((encQname d)).length) ((be16 (r.qtype % 65536)).map (· % 256))) ((b.pos + ((encQname d)).length) + 2) ((be16 (r.cls % 65536)).map (· % 256))), (((b.pos + ((encQname d)).length) + 2) + 2)⟩ : BytePacketBuffer) (r.ttl % 2 ^ 32) =
      .ok ⟨(splice (splice (splice (splice b.buf b.pos ((encQname d).map (· % 256))) (b.pos + ((encQname d)).length) ((be16 (r.qtype % 65536)).map (· % 256))) ((b.pos + ((encQname d)).length) + 2) ((be16 (r.cls % 65536)).map (· % 256))) (((b.pos + ((encQname d)).length) + 2) + 2) ((be32 (r.ttl % 2 ^ 32)).map (· % 256))), ((((b.pos + ((encQname d)).length) + 2) + 2) + 4)⟩ := by
    rw [write32_eq_writeList]
    exact writeList_ok_of (b := (⟨(splice (splice (splice b.buf b.pos ((encQname d).map (· % 256))) (b.pos + ((encQname d)).length) ((be16 (r.qtype % 65536)).map (· % 256))) ((b.pos + ((encQname d)).length) + 2) ((be16 (r.cls % 65536)).map (· % 256))), (((b.pos + ((encQname d)).length) + 2) + 2)⟩ : BytePacketBuffer)) (v := (be32 (r.ttl % 2 ^ 32))) L3
      (show (((b.pos + ((encQname d)).length) + 2) + 2) ≤ 512 from by omega)
      (show ((((b.pos + ((encQname d)).length) + 2) + 2) + 4) ≤ 512 from by omega)
  have L5 : ((splice (splice (splice (splice (splice b.buf b.pos ((encQname d).map (· % 256))) (b.pos + ((encQname d)).length) ((be16 (r.qtype % 65536)).map (· % 256))) ((b.pos + ((encQname d)).length) + 2) ((be16 (r.cls % 65536)).map (· % 256))) (((b.pos + ((encQname d)).length) + 2) + 2) ((be32 (r.ttl % 2 ^ 32)).map (· % 256))) ((((b.pos + ((encQname d)).length) + 2) + 2) + 4) ((be16 0).map (· % 256))) : List Nat).length = 512 := by
    rw [splice_length (by
      rw [L4]
      simp only [List.length_append, List.length_cons, List.length_nil, be16_length, be32_length, List.length_map]
      omega)]
    exact L4
  have e5 : BytePacketBuffer.write16 (⟨(splice (splice (splice (splice b.buf b.pos ((encQname d).map (· % 256))) (b.pos + ((encQname d)).length) ((be16 (r.qtype % 65536)).map (· % 256))) ((b.pos + ((encQname d)).length) + 2) ((be16 (r.cls % 65536)).map (· % 256))) (((b.pos + ((encQname d)).length) + 2) + 2) ((be32 (r.ttl % 2 ^ 32)).map (· % 256))), ((((b.pos + ((encQname d)).length) + 2) + 2) + 4)⟩ : BytePacketBuffer) 0 =
      .ok ⟨(splice (splice (splice (splice (splice b.buf b.pos ((encQname d).map (· % 256))) (b.pos + ((encQname d)).length) ((be16 (r.qtype % 65536)).map (· % 256))) ((b.pos + ((encQname d)).length) + 2) ((be16 (r.cls % 65536)).map (· % 256))) (((b.pos + ((encQname d)).length) + 2) + 2) ((be32 (r.ttl % 2 ^ 32)).map (· % 256))) ((((b.pos + ((encQname d)).length) + 2) + 2) + 4) ((be16 0).map (· % 256))), (((((b.pos + ((encQname d)).length) + 2) + 2) + 4) + 2)⟩ := by
    rw [write16_eq_writeList]
    exact writeList_ok_of (b := (⟨(splice (splice (splice (splice b.buf b.pos ((encQname d).map (· % 256))) (b.pos + ((encQname d)).length) ((be16 (r.qtype % 65536)).map (· % 256))) ((b.pos + ((encQname d)).length) + 2) ((be16 (r.cls % 65536)).map (· % 256))) (((b.pos + ((encQname d)).length) + 2) + 2) ((be32 (r.ttl % 2 ^ 32)).map (· % 256))), ((((b.pos + ((encQname d)).length) + 2) + 2) + 4)⟩ : BytePacketBuffer)) (v := (be16 0)) L4
      (show ((((b.pos + ((encQname d)).length) + 2) + 2) + 4) ≤ 512 from by omega)
      (show (((((b.pos + ((encQname d)).length) + 2) + 2) + 4) + 2) ≤ 512 from by omega)
  have L6 : ((splice (splice (splice (splice (splice (splice b.buf b.pos ((encQname d).map (· % 256))) (b.pos + ((encQname d)).length) ((be16 (r.qtype % 65536)).map (· % 256))) ((b.pos + ((encQname d)).length) + 2) ((be16 (r.cls % 65536)).map (· % 256))) (((b.pos + ((encQname d)).length) + 2) + 2) ((be32 (r.ttl % 2 ^ 32)).map (· % 256))) ((((b.pos + ((encQname d)).length) + 2) + 2) + 4) ((be16 0).map (· % 256))) (((((b.pos + ((encQname d)).length) + 2) + 2) + 4) + 2) ((encQname hn).map (· % 256))) : List Nat).length = 512 := by
    rw [splice_length (by
      rw [L5]
      simp only [List.length_append, List.length_cons, List.length_nil, be16_length, be32_length, List.length_map]
      omega)]
    exact L5
  have e6 : BytePacketBuffer.writeQname (⟨(splice (splice (splice (splice (splice b.buf b.pos ((encQname d).map (· % 256))) (b.pos + ((encQname d)).length) ((be16 (r.qtype % 65536)).map (· % 256))) ((b.pos + ((encQname d)).length) + 2) ((be16 (r.cls % 65536)).map (· % 256))) (((b.pos + ((encQname d)).length) + 2) + 2) ((be32 (r.ttl % 2 ^ 32)).map (· % 256))) ((((b.pos + ((encQname d)).length) + 2) + 2) + 4) ((be16 0).map (· % 256))), (((((b.pos + ((encQname d)).length) + 2) + 2) + 4) + 2)⟩ : BytePacketBuffer) hn =
      .ok ⟨(splice (splice (splice (splice (splice (splice b.buf b.pos ((encQname d).map (· % 256))) (b.pos + ((encQname d)).length) ((be16 (r.qtype % 65536)).map (· % 256))) ((b.pos + ((encQname d)).length) + 2) ((be16 (r.cls % 65536)).map (· % 256))) (((b.pos + ((encQname d)).length) + 2) + 2) ((be32 (r.ttl % 2 ^ 32)).map (· % 256))) ((((b.pos + ((encQname d)).length) + 2) + 2) + 4) ((be16 0).map (· % 256))) (((((b.pos + ((encQname d)).length) + 2) + 2) + 4) + 2) ((encQname hn).map (· % 256))), ((((((b.pos + ((encQname d)).length) + 2) + 2) + 4) + 2) + ((encQname hn)).length)⟩ := by
    rw [writeQname_eq_writeList _ hh63]
    exact writeList_ok_of (b := (⟨(splice (splice (splice (splice (splice b.buf b.pos ((encQname d).map (· % 256))) (b.pos + ((encQname d)).length) ((be16 (r.qtype % 65536)).map (· % 256))) ((b.pos + ((encQname d)).length) + 2) ((be16 (r.cls % 65536)).map (· % 256))) (((b.pos + ((encQname d)).length) + 2) + 2) ((be32 (r.ttl % 2 ^ 32)).map (· % 256))) ((((b.pos + ((encQname d)).length) + 2) + 2) + 4) ((be16 0).map (· % 256))), (((((b.pos + ((encQname d)).length) + 2) + 2) + 4) + 2)⟩ : BytePacketBuffer)) (v := (encQname hn)) L5
      (show (((((b.pos + ((encQname d)).length) + 2) + 2) + 4) + 2) ≤ 512 from by omega)
      (show ((((((b.pos + ((encQname d)).length) + 2) + 2) + 4) + 2) + ((encQname hn)).length) ≤ 512 from by omega)
  unfold DNSRecord.write
  rw [hdom, show derefName (some d) = (Except.ok d : Except String (List Nat))
    from rfl, ok_bind]
  rw [e1]
  simp only [ok_bind]
  rw [e2]
  simp only [ok_bind]
  rw [e3]
  simp only [ok_bind]
  rw [e4]
  simp only [ok_bind]
  rw [if_neg (show ¬ (r.qtype = AQueryType) from by rw [hq]; decide), if_neg (show ¬ (r.qtype = NSQueryType) from by rw [hq]; decide), if_pos hq]
  rw [e5]
  simp only [ok_bind]
  rw [hhost, show derefName (some hn) = (Except.ok hn : Except String (List Nat))
    from rfl, ok_bind]
  rw [e6]
  simp only [ok_bind]
  have gp1 : splice (splice (splice (splice (splice (splice b.buf b.pos ((encQname d).map (· % 256))) (b.pos + ((encQname d)).length) ((be16 (r.qtype % 65536)).map (· % 256))) ((b.pos + ((encQname d)).length) + 2) ((be16 (r.cls % 65536)).map (· % 256))) (((b.pos + ((encQname d)).length) + 2) + 2) ((be32 (r.ttl % 2 ^ 32)).map (· % 256))) ((((b.pos + ((encQname d)).length) + 2) + 2) + 4) ((be16 0).map (· % 256)))
      (((((b.pos + ((encQname d)).length) + 2) + 2) + 4) + 2) ((encQname hn).map (· % 256)) =
      splice (splice (splice (splice (splice b.buf b.pos ((encQname d).map (· % 256))) (b.pos + ((encQname d)).length) ((be16 (r.qtype % 65536)).map (· % 256))) ((b.pos + ((encQname d)).length) + 2) ((be16 (r.cls % 65536)).map (· % 256))) (((b.pos + ((encQname d)).length) + 2) + 2) ((be32 (r.ttl % 2 ^ 32)).map (· % 256))) ((((b.pos + ((encQname d)).length) + 2) + 2) + 4) (((be16 0) ++ (encQname hn)).map (· % 256)) :=
    splice_splice_map (by
      rw [L4]
      simp only [List.length_append, List.length_cons, List.length_nil, be16_length, be32_length, List.length_map]
      omega)
  rw [gp1]
  have eset : BytePacketBuffer.set16
      (⟨splice (splice (splice (splice (splice b.buf b.pos ((encQname d).map (· % 256))) (b.pos + ((encQname d)).length) ((be16 (r.qtype % 65536)).map (· % 256))) ((b.pos + ((encQname d)).length) + 2) ((be16 (r.cls % 65536)).map (· % 256))) (((b.pos + ((encQname d)).length) + 2) + 2) ((be32 (r.ttl % 2 ^ 32)).map (· % 256))) ((((b.pos + ((encQname d)).length) + 2) + 2) + 4) (((be16 0) ++ (encQname hn)).map (· % 256)), ((((((b.pos + ((encQname d)).length) + 2) + 2) + 4) + 2) + ((encQname hn)).length)⟩ : BytePacketBuffer)
      ((((b.pos + ((encQname d)).length) + 2) + 2) + 4) ((((((((b.pos + ((encQname d)).length) + 2) + 2) + 4) + 2) + ((encQname hn)).length) - (((((b.pos + ((encQname d)).length) + 2) + 2) + 4) + 2)) % 65536) =
      some ⟨splice (splice (splice (splice (splice b.buf b.pos ((encQname d).map (· % 256))) (b.pos + ((encQname d)).length) ((be16 (r.qtype % 65536)).map (· % 256))) ((b.pos + ((encQname d)).length) + 2) ((be16 (r.cls % 65536)).map (· % 256))) (((b.pos + ((encQname d)).length) + 2) + 2) ((be32 (r.ttl % 2 ^ 32)).map (· % 256))) ((((b.pos + ((encQname d)).length) + 2) + 2) + 4)
        ((((((((b.pos + ((encQname d)).length) + 2) + 2) + 4) + 2) + ((encQname hn)).length) - (((((b.pos + ((encQname d)).length) + 2) + 2) + 4) + 2)) % 65536 / 256 % 256 :: (((((((b.pos + ((encQname d)).length) + 2) + 2) + 4) + 2) + ((encQname hn)).length) - (((((b.pos + ((encQname d)).length) + 2) + 2) + 4) + 2)) % 65536 % 256 :: ((encQname hn).map (· % 256))), ((((((b.pos + ((encQname d)).length) + 2) + 2) + 4) + 2) + ((encQname hn)).length)⟩ := by
    refine set16_splice0 _ ?_
    rw [L4]
    simp only [List.length_cons, List.length_map, List.length_append,
      List.nil_append, List.cons_append, List.append_eq, be16_length,
      be32_length]
    omega
  rw [eset]
  dsimp only
  rw [show ((((((b.pos + ((encQname d)).length) + 2) + 2) + 4) + 2) + ((encQname hn)).length) - (((((b.pos + ((encQname d)).length) + 2) + 2) + 4) + 2) = (encQname hn).length from by
    try simp only [List.length_append, List.length_cons, List.length_nil, be16_length, be32_length, List.length_map]
    omega]
  rw [mod65536_div256, mod65536_mod256]
  rw [show (encQname hn).length / 256 % 256 :: (encQname hn).length % 256 :: ((encQname hn).map (· % 256)) =
      ((be16 ((encQname hn).length) ++ (encQname hn)).map (· % 256)) from by
    simp [be16, mod256_mod256, List.map_append, List.append_assoc]]
  have gh1 : splice (splice (splice (splice (splice b.buf b.pos ((encQname d).map (· % 256))) (b.pos + ((encQname d)).length) ((be16 (r.qtype % 65536)).map (· % 256))) ((b.pos + ((encQname d)).length) + 2) ((be16 (r.cls % 65536)).map (· % 256))) (((b.pos + ((encQname d)).length) + 2) + 2) ((be32 (r.ttl % 2 ^ 32)).map (· % 256)))
      ((((b.pos + ((encQname d)).length) + 2) + 2) + 4) ((be16 ((encQname hn).length) ++ (encQname hn)).map (· % 256)) =
      splice (splice (splice (splice b.buf b.pos ((encQname d).map (· % 256))) (b.pos + ((encQname d)).length) ((be16 (r.qtype % 65536)).map (· % 256))) ((b.pos + ((encQname d)).length) + 2) ((be16 (r.cls % 65536)).map (· % 256))) (((b.pos + ((encQname d)).length) + 2) + 2) (((be32 (r.ttl % 2 ^ 32)) ++ (be16 ((encQname hn).length) ++ (encQname hn))).map (· % 256)) :=
    splice_splice_map (by
      rw [L3]
      simp only [List.length_append, List.length_cons, List.length_nil, be16_length, be32_length, List.length_map]
      omega)
  rw [gh1]
  have gh2 : splice (splice (splice (splice b.buf b.pos ((encQname d).map (· % 256))) (b.pos + ((encQname d)).length) ((be16 (r.qtype % 65536)).map (· % 256))) ((b.pos + ((encQname d)).length) + 2) ((be16 (r.cls % 65536)).map (· % 256)))
      (((b.pos + ((encQname d)).length) + 2) + 2) (((be32 (r.ttl % 2 ^ 32)) ++ (be16 ((encQname hn).length) ++ (encQname hn))).map (· % 256)) =
      splice (splice (splice b.buf b.pos ((encQname d).map (· % 256))) (b.pos + ((encQname d)).length) ((be16 (r.qtype % 65536)).map (· % 256))) ((b.pos + ((encQname d)).length) + 2) (((be16 (r.cls % 65536)) ++ ((be32 (r.ttl % 2 ^ 32)) ++ (be16 ((encQname hn).length) ++ (encQname hn)))).map (· % 256)) :=
    splice_splice_map (by
      rw [L2]
      simp only [List.length_append, List.length_cons, List.length_nil, be16_length, be32_length, List.length_map]
      omega)
  rw [gh2]
  have gh3 : splice (splice (splice b.buf b.pos ((encQname d).map (· % 256))) (b.pos + ((encQname d)).length) ((be16 (r.qtype % 65536)).map (· % 256)))
      ((b.pos + ((encQname d)).length) + 2) (((be16 (r.cls % 65536)) ++ ((be32 (r.ttl % 2 ^ 32)) ++ (be16 ((encQname hn).length) ++ (encQname hn)))).map (· % 256)) =
      splice (splice b.buf b.pos ((encQname d).map (· % 256))) (b.pos + ((encQname d)).length) (((be16 (r.qtype % 65536)) ++ ((be16 (r.cls % 65536)) ++ ((be32 (r.ttl % 2 ^ 32)) ++ (be16 ((encQname hn).length) ++ (encQname hn))))).map (· % 256)) :=
    splice_splice_map (by
      rw [L1]
      simp only [List.length_append, List.length_cons, List.length_nil, be16_length, be32_length, List.length_map]
      omega)
  rw [gh3]
  have gh4 : splice (splice b.buf b.pos ((encQname d).map (· % 256)))
      (b.pos + ((encQname d)).length) (((be16 (r.qtype % 65536)) ++ ((be16 (r.cls % 65536)) ++ ((be32 (r.ttl % 2 ^ 32)) ++ (be16 ((encQname hn).length) ++ (encQname hn))))).map (· % 256)) =
      splice b.buf b.pos (((encQname d) ++ ((be16 (r.qtype % 65536)) ++ ((be16 (r.cls % 65536)) ++ ((be32 (r.ttl % 2 ^ 32)) ++ (be16 ((encQname hn).length) ++ (encQname hn)))))).map (· % 256)) :=
    splice_splice_map (by
      rw [L0]
      simp only [List.length_append, List.length_cons, List.length_nil, be16_length, be32_length, List.length_map]
      omega)
  rw [gh4]
  rw [show ((encQname d) ++ ((be16 (r.qtype % 65536)) ++ ((be16 (r.cls % 65536)) ++ ((be32 (r.ttl % 2 ^ 32)) ++ (be16 ((encQname hn).length) ++ (encQname hn)))))) = encRecord r from by
    rw [henc]
    simp [List.append_assoc]]
  rw [show ((((((b.pos + ((encQname d)).length) + 2) + 2) + 4) + 2) + ((encQname hn)).length) - b.pos = (encRecord r).length from by
    rw [hRlen]
    try simp only [List.length_append, List.length_cons, List.length_nil, be16_length, be32_length, List.length_map]
    omega]
  rw [show ((((((b.pos + ((encQname d)).length) + 2) + 2) + 4) + 2) + ((encQname hn)).length) = b.pos + (encRecord r).length from by
    rw [hRlen]
    try simp only [List.length_append, List.length_cons, List.length_nil, be16_length, be32_length, List.length_map]
    omega]

/-- DNSRecord.Write of an SOA record in decoder shape: the two names and five 32 bit fields with the back-patched length are spliced in after the common head -/
theorem recordWrite_SOA_ok {r : DNSRecord} {b : BytePacketBuffer}
    {d hn mh : List Nat}
    (hq : r.qtype = SOAQueryType) (hdom : r.domain = some d)
    (hhost : r.host = some hn)
    (hmail : r.mailHost = some mh)
    (hh63 : ∀ lab ∈ splitDot hn, lab.length ≤ 63)
    (hm63 : ∀ lab ∈ splitDot mh, lab.length ≤ 63)
    (hd63 : ∀ lab ∈ splitDot d, lab.length ≤ 63)
    (hlen : b.buf.length = 512) (hpos : b.pos ≤ 512)
    (hfit : b.pos + (encRecord r).length ≤ 512) :
    r.write b = .ok ((encRecord r).length,
      ⟨splice b.buf b.pos ((encRecord r).map (· % 256)),
        b.pos + (encRecord r).length⟩) := by
  have henc : encRecord r = encQname d ++ be16 (r.qtype % 65536) ++
      be16 (r.cls % 65536) ++ be32 (r.ttl % 2 ^ 32) ++
      (be16 (encQname hn ++ encQname mh ++ be32 (r.serial % 2 ^ 32) ++ be32 (r.refresh % 2 ^ 32) ++ be32 (r.retry % 2 ^ 32) ++ be32 (r.expire % 2 ^ 32) ++ be32 (r.minimum % 2 ^ 32)).length ++ (encQname hn ++ encQname mh ++ be32 (r.serial % 2 ^ 32) ++ be32 (r.refresh % 2 ^ 32) ++ be32 (r.retry % 2 ^ 32) ++ be32 (r.expire % 2 ^ 32) ++ be32 (r.minimum % 2 ^ 32))) := by
    unfold encRecord
    rw [if_neg (show ¬ (r.qtype = AQueryType) from by rw [hq]; decide), if_neg (show ¬ (r.qtype = NSQueryType ∨ r.qtype = CNAMEQueryType) from by rw [hq]; decide), if_pos hq, hdom, Option.getD_some, hhost, Option.getD_some, hmail, Option.getD_some]
  have hRlen : (encRecord r).length = (encQname d).length + (encQname hn).length + (encQname mh).length + 30 := by
    rw [henc]
    simp only [List.length_append, List.length_cons, List.length_nil, be16_length, be32_length, List.length_map]
    try omega
  have L0 : (b.buf : List Nat).length = 512 := hlen
  have L1 : ((splice b.buf b.pos ((encQname d).map (· % 256))) : List Nat).length = 512 := by
    rw [splice_length (by
      rw [L0]
      simp only [List.length_append, List.length_cons, List.length_nil, be16_length, be32_length, List.length_map]
      omega)]
    exact L0
  have e1 : BytePacketBuffer.writeQname b d =
      .ok ⟨(splice b.buf b.pos ((encQname d).map (· % 256))), (b.pos + ((encQname d)).length)⟩ := by
    rw [writeQname_eq_writeList _ hd63]
    exact writeList_ok_of (b := b) (v := (encQname d)) L0
      (show b.pos ≤ 512 from by omega)
      (show (b.pos + ((encQname d)).length) ≤ 512 from by omega)
  have L2 : ((splice (splice b.buf b.pos ((encQname d).map (· % 256))) (b.pos + ((encQname d)).length) ((be16 (r.qtype % 65536)).map (· % 256))) : List Nat).length = 512 := by
    rw [splice_length (by
      rw [L1]
      simp only [List.length_append, List.length_cons, List.length_nil, be16_length, be32_length, List.length_map]
      omega)]
    exact L1
  have e2 : BytePacketBuffer.write16 (⟨(splice b.buf b.pos ((encQname d).map (· % 256))), (b.pos + ((encQname d)).length)⟩ : BytePacketBuffer) (r.qtype % 65536) =
      .ok ⟨(splice (splice b.buf b.pos ((encQname d).map (· % 256))) (b.pos + ((encQname d)).length) ((be16 (r.qtype % 65536)).map (· % 256))), ((b.pos + ((encQname d)).length) + 2)⟩ := by
    rw [write16_eq_writeList]
    exact writeList_ok_of (b := (⟨(splice b.buf b.pos ((encQname d).map (· % 256))), (b.pos + ((encQname d)).length)⟩ : BytePacketBuffer)) (v := (be16 (r.qtype % 65536))) L1
      (show (b.pos + ((encQname d)).length) ≤ 512 from by omega)
      (show ((b.pos + ((encQname d)).length) + 2) ≤ 512 from by omega)
  have L3 : ((splice (splice (splice b.buf b.pos ((encQname d).map (· % 256))) (b.pos + ((encQname d)).length) ((be16 (r.qtype % 65536)).map (· % 256))) ((b.pos + ((encQname d)).length) + 2) ((be16 (r.cls % 65536)).map (· % 256))) : List Nat).length = 512 := by
    rw [splice_length (by
      rw [L2]
      simp only [List.length_append, List.length_cons, List.length_nil, be16_length, be32_length, List.length_map]
      omega)]
    exact L2
  have e3 : BytePacketBuffer.write16 (⟨(splice (splice b.buf b.pos ((encQname d).map (· % 256))) (b.pos + ((encQname d)).length) ((be16 (r.qtype % 65536)).map (· % 256))), ((b.pos + ((encQname d)).length) + 2)⟩ : BytePacketBuffer) (r.cls % 65536) =
      .ok ⟨(splice (splice (splice b.buf b.pos ((encQname d).map (· % 256))) (b.pos + ((encQname d)).length) ((be16 (r.qtype % 65536)).map (· % 256))) ((b.pos + ((encQname d)).length) + 2) ((be16 (r.cls % 65536)).map (· % 256))), (((b.pos + ((encQname d)).length) + 2) + 2)⟩ := by
    rw [write16_eq_writeList]
    exact writeList_ok_of (b := (⟨(splice (splice b.buf b.pos ((encQname d).map (· % 256))) (b.pos + ((encQname d)).length) ((be16 (r.qtype % 65536)).map (· % 256))), ((b.pos + ((encQname d)).length) + 2)⟩ : BytePacketBuffer)) (v := (be16 (r.cls % 65536))) L2
      (show ((b.pos + ((encQname d)).length) + 2) ≤ 512 from by omega)
      (show (((b.pos + ((encQname d)).length) + 2) + 2) ≤ 512 from by omega)
  have L4 : ((splice (splice (splice (splice b.buf b.pos ((encQname d).map (· % 256))) (b.pos + ((encQname d)).length) ((be16 (r.qtype % 65536)).map (· % 256))) ((b.pos + ((encQname d)).length) + 2) ((be16 (r.cls % 65536)).map (· % 256))) (((b.pos + ((encQname d)).length) + 2) + 2) ((be32 (r.ttl % 2 ^ 32)).map (· % 256))) : List Nat).length = 512 := by
    rw [splice_length (by
      rw [L3]
      simp only [List.length_append, List.length_cons, List.length_nil, be16_length, be32_length, List.length_map]
      omega)]
    exact L3
  have e4 : BytePacketBuffer.write32 (⟨(splice (splice (splice b.buf b.pos ((encQname d).map (· % 256))) (b.pos + ((encQname d)).length) ((be16 (r.qtype % 65536)).map (· % 256))) ((b.pos + ((encQname d)).length) + 2) ((be16 (r.cls % 65536)).map (· % 256))), (((b.pos + ((encQname d)).length) + 2) + 2)⟩ : BytePacketBuffer) (r.ttl % 2 ^ 32) =
      .ok ⟨(splice (splice (splice (splice b.buf b.pos ((encQname d).map (· % 256))) (b.pos + ((encQname d)).length) ((be16 (r.qtype % 65536)).map (· % 256))) ((b.pos + ((encQname d)).length) + 2) ((be16 (r.cls % 65536)).map (· % 256))) (((b.pos + ((encQname d)).length) + 2) + 2) ((be32 (r.ttl % 2 ^ 32)).map (· % 256))), ((((b.pos + ((encQname d)).length) + 2) + 2) + 4)⟩ := by
    rw [write32_eq_writeList]
    exact writeList_ok_of (b := (⟨(splice (splice (splice b.buf b.pos ((encQname d).map (· % 256))) (b.pos + ((encQname d)).length) ((be16 (r.qtype % 65536)).map (· % 256))) ((b.pos + ((encQname d)).length) + 2) ((be16 (r.cls % 65536)).map (· % 256))), (((b.pos + ((encQname d)).length) + 2) + 2)⟩ : BytePacketBuffer)) (v := (be32 (r.ttl % 2 ^ 32))) L3
      (show (((b.pos + ((encQname d)).length) + 2) + 2) ≤ 512 from by omega)
      (show ((((b.pos + ((encQname d)).length) + 2) + 2) + 4) ≤ 512 from by omega)
  have L5 : ((splice (splice (splice (splice (splice b.buf b.pos ((encQname d).map (· % 256))) (b.pos + ((encQname d)).length) ((be16 (r.qtype % 65536)).map (· % 256))) ((b.pos + ((encQname d)).length) + 2) ((be16 (r.cls % 65536)).map (· % 256))) (((b.pos + ((encQname d)).length) + 2) + 2) ((be32 (r.ttl % 2 ^ 32)).map (· % 256))) ((((b.pos + ((encQname d)).length) + 2) + 2) + 4) ((be16 0).map (· % 256))) : List Nat).length = 512 := by
    rw [splice_length (by
      rw [L4]
      simp only [List.length_append, List.length_cons, List.length_nil, be16_length, be32_length, List.length_map]
      omega)]
    exact L4
  have e5 : BytePacketBuffer.write16 (⟨(splice (splice (splice (splice b.buf b.pos ((encQname d).map (· % 256))) (b.pos + ((encQname d)).length) ((be16 (r.qtype % 65536)).map (· % 256))) ((b.pos + ((encQname d)).length) + 2) ((be16 (r.cls % 65536)).map (· % 256))) (((b.pos + ((encQname d)).length) + 2) + 2) ((be32 (r.ttl % 2 ^ 32)).map (· % 256))), ((((b.pos + ((encQname d)).length) + 2) + 2) + 4)⟩ : BytePacketBuffer) 0 =
      .ok ⟨(splice (splice (splice (splice (splice b.buf b.pos ((encQname d).map (· % 256))) (b.pos + ((encQname d)).length) ((be16 (r.qtype % 65536)).map (· % 256))) ((b.pos + ((encQname d)).length) + 2) ((be16 (r.cls % 65536)).map (· % 256))) (((b.pos + ((encQname d)).length) + 2) + 2) ((be32 (r.ttl % 2 ^ 32)).map (· % 256))) ((((b.pos + ((encQname d)).length) + 2) + 2) + 4) ((be16 0).map (· % 256))), (((((b.pos + ((encQname d)).length) + 2) + 2) + 4) + 2)⟩ := by
    rw [write16_eq_writeList]
    exact writeList_ok_of (b := (⟨(splice (splice (splice (splice b.buf b.pos ((encQname d).map (· % 256))) (b.pos + ((encQname d)).length) ((be16 (r.qtype % 65536)).map (· % 256))) ((b.pos + ((encQname d)).length) + 2) ((be16 (r.cls % 65536)).map (· % 256))) (((b.pos + ((encQname d)).length) + 2) + 2) ((be32 (r.ttl % 2 ^ 32)).map (· % 256))), ((((b.pos + ((encQname d)).length) + 2) + 2) + 4)⟩ : BytePacketBuffer)) (v := (be16 0)) L4
      (show ((((b.pos + ((encQname d)).length) + 2) + 2) + 4) ≤ 512 from by omega)
      (show (((((b.pos + ((encQname d)).length) + 2) + 2) + 4) + 2) ≤ 512 from by omega)
  have L6 : ((splice (splice (splice (splice (splice (splice b.buf b.pos ((encQname d).map (· % 256))) (b.pos + ((encQname d)).length) ((be16 (r.qtype % 65536)).map (· % 256))) ((b.pos + ((encQname d)).length) + 2) ((be16 (r.cls % 65536)).map (· % 256))) (((b.pos + ((encQname d)).length) + 2) + 2) ((be32 (r.ttl % 2 ^ 32)).map (· % 256))) ((((b.pos + ((encQname d)).length) + 2) + 2) + 4) ((be16 0).map (· % 256))) (((((b.pos + ((encQname d)).length) + 2) + 2) + 4) + 2) ((encQname hn).map (· % 256))) : List Nat).length = 512 := by
    rw [splice_length (by
      rw [L5]
      simp only [List.length_append, List.length_cons, List.length_nil, be16_length, be32_length, List.length_map]
      omega)]
    exact L5
  have e6 : BytePacketBuffer.writeQname (⟨(splice (splice (splice (splice (splice b.buf b.pos ((encQname d).map (· % 256))) (b.pos + ((encQname d)).length) ((be16 (r.qtype % 65536)).map (· % 256))) ((b.pos + ((encQname d)).length) + 2) ((be16 (r.cls % 65536)).map (· % 256))) (((b.pos + ((encQname d)).length) + 2) + 2) ((be32 (r.ttl % 2 ^ 32)).map (· % 256))) ((((b.pos + ((encQname d)).length) + 2) + 2) + 4) ((be16 0).map (· % 256))), (((((b.pos + ((encQname d)).length) + 2) + 2) + 4) + 2)⟩ : BytePacketBuffer) hn =
      .ok ⟨(splice (splice (splice (splice (splice (splice b.buf b.pos ((encQname d).map (· % 256))) (b.pos + ((encQname d)).length) ((be16 (r.qtype % 65536)).map (· % 256))) ((b.pos + ((encQname d)).length) + 2) ((be16 (r.cls % 65536)).map (· % 256))) (((b.pos + ((encQname d)).length) + 2) + 2) ((be32 (r.ttl % 2 ^ 32)).map (· % 256))) ((((b.pos + ((encQname d)).length) + 2) + 2) + 4) ((be16 0).map (· % 256))) (((((b.pos + ((encQname d)).length) + 2) + 2) + 4) + 2) ((encQname hn).map (· % 256))), ((((((b.pos + ((encQname d)).length) + 2) + 2) + 4) + 2) + ((encQname hn)).length)⟩ := by
    rw [writeQname_eq_writeList _ hh63]
    exact writeList_ok_of (b := (⟨(splice (splice (splice (splice (splice b.buf b.pos ((encQname d).map (· % 256))) (b.pos + ((encQname d)).length) ((be16 (r.qtype % 65536)).map (· % 256))) ((b.pos + ((encQname d)).length) + 2) ((be16 (r.cls % 65536)).map (· % 256))) (((b.pos + ((encQname d)).length) + 2) + 2) ((be32 (r.ttl % 2 ^ 32)).map (· % 256))) ((((b.pos + ((encQname d)).length) + 2) + 2) + 4) ((be16 0).map (· % 256))), (((((b.pos + ((encQname d)).length) + 2) + 2) + 4) + 2)⟩ : BytePacketBuffer)) (v := (encQname hn)) L5
      (show (((((b.pos + ((encQname d)).length) + 2) + 2) + 4) + 2) ≤ 512 from by omega)
      (show ((((((b.pos + ((encQname d)).length) + 2) + 2) + 4) + 2) + ((encQname hn)).length) ≤ 512 from by omega)
  have L7 : ((splice (splice (splice (splice (splice (splice (splice b.buf b.pos ((encQname d).map (· % 256))) (b.pos + ((encQname d)).length) ((be16 (r.qtype % 65536)).map (· % 256))) ((b.pos + ((encQname d)).length) + 2) ((be16 (r.cls % 65536)).map (· % 256))) (((b.pos + ((encQname d)).length) + 2) + 2) ((be32 (r.ttl % 2 ^ 32)).map (· % 256))) ((((b.pos + ((encQname d)).length) + 2) + 2) + 4) ((be16 0).map (· % 256))) (((((b.pos + ((encQname d)).length) + 2) + 2) + 4) + 2) ((encQname hn).map (· % 256))) ((((((b.pos + ((encQname d)).length) + 2) + 2) + 4) + 2) + ((encQname hn)).length) ((encQname mh).map (· % 256))) : List Nat).length = 512 := by
    rw [splice_length (by
      rw [L6]
      simp only [List.length_append, List.length_cons, List.length_nil, be16_length, be32_length, List.length_map]
      omega)]
    exact L6
  have e7 : BytePacketBuffer.writeQname (⟨(splice (splice (splice (splice (splice (splice b.buf b.pos ((encQname d).map (· % 256))) (b.pos + ((encQname d)).length) ((be16 (r.qtype % 65536)).map (· % 256))) ((b.pos + ((encQname d)).length) + 2) ((be16 (r.cls % 65536)).map (· % 256))) (((b.pos + ((encQname d)).length) + 2) + 2) ((be32 (r.ttl % 2 ^ 32)).map (· % 256))) ((((b.pos + ((encQname d)).length) + 2) + 2) + 4) ((be16 0).map (· % 256))) (((((b.pos + ((encQname d)).length) + 2) + 2) + 4) + 2) ((encQname hn).map (· % 256))), ((((((b.pos + ((encQname d)).length) + 2) + 2) + 4) + 2) + ((encQname hn)).length)⟩ : BytePacketBuffer) mh =
      .ok ⟨(splice (splice (splice (splice (splice (splice (splice b.buf b.pos ((encQname d).map (· % 256))) (b.pos + ((encQname d)).length) ((be16 (r.qtype % 65536)).map (· % 256))) ((b.pos + ((encQname d)).length) + 2) ((be16 (r.cls % 65536)).map (· % 256))) (((b.pos + ((encQname d)).length) + 2) + 2) ((be32 (r.ttl % 2 ^ 32)).map (· % 256))) ((((b.pos + ((encQname d)).length) + 2) + 2) + 4) ((be16 0).map (· % 256))) (((((b.pos + ((encQname d)).length) + 2) + 2) + 4) + 2) ((encQname hn).map (· % 256))) ((((((b.pos + ((encQname d)).length) + 2) + 2) + 4) + 2) + ((encQname hn)).length) ((encQname mh).map (· % 256))), (((((((b.pos + ((encQname d)).length) + 2) + 2) + 4) + 2) + ((encQname hn)).length) + ((encQname mh)).length)⟩ := by
    rw [writeQname_eq_writeList _ hm63]
    exact writeList_ok_of (b := (⟨(splice (splice (splice (splice (splice (splice b.buf b.pos ((encQname d).map (· % 256))) (b.pos + ((encQname d)).length) ((be16 (r.qtype % 65536)).map (· % 256))) ((b.pos + ((encQname d)).length) + 2) ((be16 (r.cls % 65536)).map (· % 256))) (((b.pos + ((encQname d)).length) + 2) + 2) ((be32 (r.ttl % 2 ^ 32)).map (· % 256))) ((((b.pos + ((encQname d)).length) + 2) + 2) + 4) ((be16 0).map (· % 256))) (((((b.pos + ((encQname d)).length) + 2) + 2) + 4) + 2) ((encQname hn).map (· % 256))), ((((((b.pos + ((encQname d)).length) + 2) + 2) + 4) + 2) + ((encQname hn)).length)⟩ : BytePacketBuffer)) (v := (encQname mh)) L6
      (show ((((((b.pos + ((encQname d)).length) + 2) + 2) + 4) + 2) + ((encQname hn)).length) ≤ 512 from by omega)
      (show (((((((b.pos + ((encQname d)).length) + 2) + 2) + 4) + 2) + ((encQname hn)).length) + ((encQname mh)).length) ≤ 512 from by omega)
  have L8 : ((splice (splice (splice (splice (splice (splice (splice (splice b.buf b.pos ((encQname d).map (· % 256))) (b.pos + ((encQname d)).length) ((be16 (r.qtype % 65536)).map (· % 256))) ((b.pos + ((encQname d)).length) + 2) ((be16 (r.cls % 65536)).map (· % 256))) (((b.pos + ((encQname d)).length) + 2) + 2) ((be32 (r.ttl % 2 ^ 32)).map (· % 256))) ((((b.pos + ((encQname d)).length) + 2) + 2) + 4) ((be16 0).map (· % 256))) (((((b.pos + ((encQname d)).length) + 2) + 2) + 4) + 2) ((encQname hn).map (· % 256))) ((((((b.pos + ((encQname d)).length) + 2) + 2) + 4) + 2) + ((encQname hn)).length) ((encQname mh).map (· % 256))) (((((((b.pos + ((encQname d)).length) + 2) + 2) + 4) + 2) + ((encQname hn)).length) + ((encQname mh)).length) ((be32 (r.serial % 2 ^ 32)).map (· % 256))) : List Nat).length = 512 := by
    rw [splice_length (by
      rw [L7]
      simp only [List.length_append, List.length_cons, List.length_nil, be16_length, be32_length, List.length_map]
      omega)]
    exact L7
  have e8 : BytePacketBuffer.write32 (⟨(splice (splice (splice (splice (splice (splice (splice b.buf b.pos ((encQname d).map (· % 256))) (b.pos + ((encQname d)).length) ((be16 (r.qtype % 65536)).map (· % 256))) ((b.pos + ((encQname d)).length) + 2) ((be16 (r.cls % 65536)).map (· % 256))) (((b.pos + ((encQname d)).length) + 2) + 2) ((be32 (r.ttl % 2 ^ 32)).map (· % 256))) ((((b.pos + ((encQname d)).length) + 2) + 2) + 4) ((be16 0).map (· % 256))) (((((b.pos + ((encQname d)).length) + 2) + 2) + 4) + 2) ((encQname hn).map (· % 256))) ((((((b.pos + ((encQname d)).length) + 2) + 2) + 4) + 2) + ((encQname hn)).length) ((encQname mh).map (· % 256))), (((((((b.pos + ((encQname d)).length) + 2) + 2) + 4) + 2) + ((encQname hn)).length) + ((encQname mh)).length)⟩ : BytePacketBuffer) (r.serial % 2 ^ 32) =
      .ok ⟨(splice (splice (splice (splice (splice (splice (splice (splice b.buf b.pos ((encQname d).map (· % 256))) (b.pos + ((encQname d)).length) ((be16 (r.qtype % 65536)).map (· % 256))) ((b.pos + ((encQname d)).length) + 2) ((be16 (r.cls % 65536)).map (· % 256))) (((b.pos + ((encQname d)).length) + 2) + 2) ((be32 (r.ttl % 2 ^ 32)).map (· % 256))) ((((b.pos + ((encQname d)).length) + 2) + 2) + 4) ((be16 0).map (· % 256))) (((((b.pos + ((encQname d)).length) + 2) + 2) + 4) + 2) ((encQname hn).map (· % 256))) ((((((b.pos + ((encQname d)).length) + 2) + 2) + 4) + 2) + ((encQname hn)).length) ((encQname mh).map (· % 256))) (((((((b.pos + ((encQname d)).length) + 2) + 2) + 4) + 2) + ((encQname hn)).length) + ((encQname mh)).length) ((be32 (r.serial % 2 ^ 32)).map (· % 256))), ((((((((b.pos + ((encQname d)).length) + 2) + 2) + 4) + 2) + ((encQname hn)).length) + ((encQname mh)).length) + 4)⟩ := by
    rw [write32_eq_writeList]
    exact writeList_ok_of (b := (⟨(splice (splice (splice (splice (splice (splice (splice b.buf b.pos ((encQname d).map (· % 256))) (b.pos + ((encQname d)).length) ((be16 (r.qtype % 65536)).map (· % 256))) ((b.pos + ((encQname d)).length) + 2) ((be16 (r.cls % 65536)).map (· % 256))) (((b.pos + ((encQname d)).length) + 2) + 2) ((be32 (r.ttl % 2 ^ 32)).map (· % 256))) ((((b.pos + ((encQname d)).length) + 2) + 2) + 4) ((be16 0).map (· % 256))) (((((b.pos + ((encQname d)).length) + 2) + 2) + 4) + 2) ((encQname hn).map (· % 256))) ((((((b.pos + ((encQname d)).length) + 2) + 2) + 4) + 2) + ((encQname hn)).length) ((encQname mh).map (· % 256))), (((((((b.pos + ((encQname d)).length) + 2) + 2) + 4) + 2) + ((encQname hn)).length) + ((encQname mh)).length)⟩ : BytePacketBuffer)) (v := (be32 (r.serial % 2 ^ 32))) L7
      (show (((((((b.pos + ((encQname d)).length) + 2) + 2) + 4) + 2) + ((encQname hn)).length) + ((encQname mh)).length) ≤ 512 from by omega)
      (show ((((((((b.pos + ((encQname d)).length) + 2) + 2) + 4) + 2) + ((encQname hn)).length) + ((encQname mh)).length) + 4) ≤ 512 from by omega)
  have L9 : ((splice (splice (splice (splice (splice (splice (splice (splice (splice b.buf b.pos ((encQname d).map (· % 256))) (b.pos + ((encQname d)).length) ((be16 (r.qtype % 65536)).map (· % 256))) ((b.pos + ((encQname d)).length) + 2) ((be16 (r.cls % 65536)).map (· % 256))) (((b.pos + ((encQname d)).length) + 2) + 2) ((be32 (r.ttl % 2 ^ 32)).map (· % 256))) ((((b.pos + ((encQname d)).length) + 2) + 2) + 4) ((be16 0).map (· % 256))) (((((b.pos + ((encQname d)).length) + 2) + 2) + 4) + 2) ((encQname hn).map (· % 256))) ((((((b.pos + ((encQname d)).length) + 2) + 2) + 4) + 2) + ((encQname hn)).length) ((encQname mh).map (· % 256))) (((((((b.pos + ((encQname d)).length) + 2) + 2) + 4) + 2) + ((encQname hn)).length) + ((encQname mh)).length) ((be32 (r.serial % 2 ^ 32)).map (· % 256))) ((((((((b.pos + ((encQname d)).length) + 2) + 2) + 4) + 2) + ((encQname hn)).length) + ((encQname mh)).length) + 4) ((be32 (r.refresh % 2 ^ 32)).map (· % 256))) : List Nat).length = 512 := by
    rw [splice_length (by
      rw [L8]
      simp only [List.length_append, List.length_cons, List.length_nil, be16_length, be32_length, List.length_map]
      omega)]
    exact L8
  have e9 : BytePacketBuffer.write32 (⟨(splice (splice (splice (splice (splice (splice (splice (splice b.buf b.pos ((encQname d).map (· % 256))) (b.pos + ((encQname d)).length) ((be16 (r.qtype % 65536)).map (· % 256))) ((b.pos + ((encQname d)).length) + 2) ((be16 (r.cls % 65536)).map (· % 256))) (((b.pos + ((encQname d)).length) + 2) + 2) ((be32 (r.ttl % 2 ^ 32)).map (· % 256))) ((((b.pos + ((encQname d)).length) + 2) + 2) + 4) ((be16 0).map (· % 256))) (((((b.pos + ((encQname d)).length) + 2) + 2) + 4) + 2) ((encQname hn).map (· % 256))) ((((((b.pos + ((encQname d)).length) + 2) + 2) + 4) + 2) + ((encQname hn)).length) ((encQname mh).map (· % 256))) (((((((b.pos + ((encQname d)).length) + 2) + 2) + 4) + 2) + ((encQname hn)).length) + ((encQname mh)).length) ((be32 (r.serial % 2 ^ 32)).map (· % 256))), ((((((((b.pos + ((encQname d)).length) + 2) + 2) + 4) + 2) + ((encQname hn)).length) + ((encQname mh)).length) + 4)⟩ : BytePacketBuffer) (r.refresh % 2 ^ 32) =
      .ok ⟨(splice (splice (splice (splice (splice (splice (splice (splice (splice b.buf b.pos ((encQname d).map (· % 256))) (b.pos + ((encQname d)).length) ((be16 (r.qtype % 65536)).map (· % 256))) ((b.pos + ((encQname d)).length) + 2) ((be16 (r.cls % 65536)).map (· % 256))) (((b.pos + ((encQname d)).length) + 2) + 2) ((be32 (r.ttl % 2 ^ 32)).map (· % 256))) ((((b.pos + ((encQname d)).length) + 2) + 2) + 4) ((be16 0).map (· % 256))) (((((b.pos + ((encQname d)).length) + 2) + 2) + 4) + 2) ((encQname hn).map (· % 256))) ((((((b.pos + ((encQname d)).length) + 2) + 2) + 4) + 2) + ((encQname hn)).length) ((encQname mh).map (· % 256))) (((((((b.pos + ((encQname d)).length) + 2) + 2) + 4) + 2) + ((encQname hn)).length) + ((encQname mh)).length) ((be32 (r.serial % 2 ^ 32)).map (· % 256))) ((((((((b.pos + ((encQname d)).length) + 2) + 2) + 4) + 2) + ((encQname hn)).length) + ((encQname mh)).length) + 4) ((be32 (r.refresh % 2 ^ 32)).map (· % 256))), (((((((((b.pos + ((encQname d)).length) + 2) + 2) + 4) + 2) + ((encQname hn)).length) + ((encQname mh)).length) + 4) + 4)⟩ := by
    rw [write32_eq_writeList]
    exact writeList_ok_of (b := (⟨(splice (splice (splice (splice (splice (splice (splice (splice b.buf b.pos ((encQname d).map (· % 256))) (b.pos + ((encQname d)).length) ((be16 (r.qtype % 65536)).map (· % 256))) ((b.pos + ((encQname d)).length) + 2) ((be16 (r.cls % 65536)).map (· % 256))) (((b.pos + ((encQname d)).length) + 2) + 2) ((be32 (r.ttl % 2 ^ 32)).map (· % 256))) ((((b.pos + ((encQname d)).length) + 2) + 2) + 4) ((be16 0).map (· % 256))) (((((b.pos + ((encQname d)).length) + 2) + 2) + 4) + 2) ((encQname hn).map (· % 256))) ((((((b.pos + ((encQname d)).length) + 2) + 2) + 4) + 2) + ((encQname hn)).length) ((encQname mh).map (· % 256))) (((((((b.pos + ((encQname d)).length) + 2) + 2) + 4) + 2) + ((encQname hn)).length) + ((encQname mh)).length) ((be32 (r.serial % 2 ^ 32)).map (· % 256))), ((((((((b.pos + ((encQname d)).length) + 2) + 2) + 4) + 2) + ((encQname hn)).length) + ((encQname mh)).length) + 4)⟩ : BytePacketBuffer)) (v := (be32 (r.refresh % 2 ^ 32))) L8
      (show ((((((((b.pos + ((encQname d)).length) + 2) + 2) + 4) + 2) + ((encQname hn)).length) + ((encQname mh)).length) + 4) ≤ 512 from by omega)
      (show (((((((((b.pos + ((encQname d)).length) + 2) + 2) + 4) + 2) + ((encQname hn)).length) + ((encQname mh)).length) + 4) + 4) ≤ 512 from by omega)
  have L10 : ((splice (splice (splice (splice (splice (splice (splice (splice (splice (splice b.buf b.pos ((encQname d).map (· % 256))) (b.pos + ((encQname d)).length) ((be16 (r.qtype % 65536)).map (· % 256))) ((b.pos + ((encQname d)).length) + 2) ((be16 (r.cls % 65536)).map (· % 256))) (((b.pos + ((encQname d)).length) + 2) + 2) ((be32 (r.ttl % 2 ^ 32)).map (· % 256))) ((((b.pos + ((encQname d)).length) + 2) + 2) + 4) ((be16 0).map (· % 256))) (((((b.pos + ((encQname d)).length) + 2) + 2) + 4) + 2) ((encQname hn).map (· % 256))) ((((((b.pos + ((encQname d)).length) + 2) + 2) + 4) + 2) + ((encQname hn)).length) ((encQname mh).map (· % 256))) (((((((b.pos + ((encQname d)).length) + 2) + 2) + 4) + 2) + ((encQname hn)).length) + ((encQname mh)).length) ((be32 (r.serial % 2 ^ 32)).map (· % 256))) ((((((((b.pos + ((encQname d)).length) + 2) + 2) + 4) + 2) + ((encQname hn)).length) + ((encQname mh)).length) + 4) ((be32 (r.refresh % 2 ^ 32)).map (· % 256))) (((((((((b.pos + ((encQname d)).length) + 2) + 2) + 4) + 2) + ((encQname hn)).length) + ((encQname mh)).length) + 4) + 4) ((be32 (r.retry % 2 ^ 32)).map (· % 256))) : List Nat).length = 512 := by
    rw [splice_length (by
      rw [L9]
      simp only [List.length_append, List.length_cons, List.length_nil, be16_length, be32_length, List.length_map]
      omega)]
    exact L9
  have e10 : BytePacketBuffer.write32 (⟨(splice (splice (splice (splice (splice (splice (splice (splice (splice b.buf b.pos ((encQname d).map (· % 256))) (b.pos + ((encQname d)).length) ((be16 (r.qtype % 65536)).map (· % 256))) ((b.pos + ((encQname d)).length) + 2) ((be16 (r.cls % 65536)).map (· % 256))) (((b.pos + ((encQname d)).length) + 2) + 2) ((be32 (r.ttl % 2 ^ 32)).map (· % 256))) ((((b.pos + ((encQname d)).length) + 2) + 2) + 4) ((be16 0).map (· % 256))) (((((b.pos + ((encQname d)).length) + 2) + 2) + 4) + 2) ((encQname hn).map (· % 256))) ((((((b.pos + ((encQname d)).length) + 2) + 2) + 4) + 2) + ((encQname hn)).length) ((encQname mh).map (· % 256))) (((((((b.pos + ((encQname d)).length) + 2) + 2) + 4) + 2) + ((encQname hn)).length) + ((encQname mh)).length) ((be32 (r.serial % 2 ^ 32)).map (· % 256))) ((((((((b.pos + ((encQname d)).length) + 2) + 2) + 4) + 2) + ((encQname hn)).length) + ((encQname mh)).length) + 4) ((be32 (r.refresh % 2 ^ 32)).map (· % 256))), (((((((((b.pos + ((encQname d)).length) + 2) + 2) + 4) + 2) + ((encQname hn)).length) + ((encQname mh)).length) + 4) + 4)⟩ : BytePacketBuffer) (r.retry % 2 ^ 32) =
      .ok ⟨(splice (splice (splice (splice (splice (splice (splice (splice (splice (splice b.buf b.pos ((encQname d).map (· % 256))) (b.pos + ((encQname d)).length) ((be16 (r.qtype % 65536)).map (· % 256))) ((b.pos + ((encQname d)).length) + 2) ((be16 (r.cls % 65536)).map (· % 256))) (((b.pos + ((encQname d)).length) + 2) + 2) ((be32 (r.ttl % 2 ^ 32)).map (· % 256))) ((((b.pos + ((encQname d)).length) + 2) + 2) + 4) ((be16 0).map (· % 256))) (((((b.pos + ((encQname d)).length) + 2) + 2) + 4) + 2) ((encQname hn).map (· % 256))) ((((((b.pos + ((encQname d)).length) + 2) + 2) + 4) + 2) + ((encQname hn)).length) ((encQname mh).map (· % 256))) (((((((b.pos + ((encQname d)).length) + 2) + 2) + 4) + 2) + ((encQname hn)).length) + ((encQname mh)).length) ((be32 (r.serial % 2 ^ 32)).map (· % 256))) ((((((((b.pos + ((encQname d)).length) + 2) + 2) + 4) + 2) + ((encQname hn)).length) + ((encQname mh)).length) + 4) ((be32 (r.refresh % 2 ^ 32)).map (· % 256))) (((((((((b.pos + ((encQname d)).length) + 2) + 2) + 4) + 2) + ((encQname hn)).length) + ((encQname mh)).length) + 4) + 4) ((be32 (r.retry % 2 ^ 32)).map (· % 256))), ((((((((((b.pos + ((encQname d)).length) + 2) + 2) + 4) + 2) + ((encQname hn)).length) + ((encQname mh)).length) + 4) + 4) + 4)⟩ := by
    rw [write32_eq_writeList]
    exact writeList_ok_of (b := (⟨(splice (splice (splice (splice (splice (splice (splice (splice (splice b.buf b.pos ((encQname d).map (· % 256))) (b.pos + ((encQname d)).length) ((be16 (r.qtype % 65536)).map (· % 256))) ((b.pos + ((encQname d)).length) + 2) ((be16 (r.cls % 65536)).map (· % 256))) (((b.pos + ((encQname d)).length) + 2) + 2) ((be32 (r.ttl % 2 ^ 32)).map (· % 256))) ((((b.pos + ((encQname d)).length) + 2) + 2) + 4) ((be16 0).map (· % 256))) (((((b.pos + ((encQname d)).length) + 2) + 2) + 4) + 2) ((encQname hn).map (· % 256))) ((((((b.pos + ((encQname d)).length) + 2) + 2) + 4) + 2) + ((encQname hn)).length) ((encQname mh).map (· % 256))) (((((((b.pos + ((encQname d)).length) + 2) + 2) + 4) + 2) + ((encQname hn)).length) + ((encQname mh)).length) ((be32 (r.serial % 2 ^ 32)).map (· % 256))) ((((((((b.pos + ((encQname d)).length) + 2) + 2) + 4) + 2) + ((encQname hn)).length) + ((encQname mh)).length) + 4) ((be32 (r.refresh % 2 ^ 32)).map (· % 256))), (((((((((b.pos + ((encQname d)).length) + 2) + 2) + 4) + 2) + ((encQname hn)).length) + ((encQname mh)).length) + 4) + 4)⟩ : BytePacketBuffer)) (v := (be32 (r.retry % 2 ^ 32))) L9
      (show (((((((((b.pos + ((encQname d)).length) + 2) + 2) + 4) + 2) + ((encQname hn)).length) + ((encQname mh)).length) + 4) + 4) ≤ 512 from by omega)
      (show ((((((((((b.pos + ((encQname d)).length) + 2) + 2) + 4) + 2) + ((encQname hn)).length) + ((encQname mh)).length) + 4) + 4) + 4) ≤ 512 from by omega)
  have L11 : ((splice (splice (splice (splice (splice (splice (splice (splice (splice (splice (splice b.buf b.pos ((encQname d).map (· % 256))) (b.pos + ((encQname d)).length) ((be16 (r.qtype % 65536)).map (· % 256))) ((b.pos + ((encQname d)).length) + 2) ((be16 (r.cls % 65536)).map (· % 256))) (((b.pos + ((encQname d)).length) + 2) + 2) ((be32 (r.ttl % 2 ^ 32)).map (· % 256))) ((((b.pos + ((encQname d)).length) + 2) + 2) + 4) ((be16 0).map (· % 256))) (((((b.pos + ((encQname d)).length) + 2) + 2) + 4) + 2) ((encQname hn).map (· % 256))) ((((((b.pos + ((encQname d)).length) + 2) + 2) + 4) + 2) + ((encQname hn)).length) ((encQname mh).map (· % 256))) (((((((b.pos + ((encQname d)).length) + 2) + 2) + 4) + 2) + ((encQname hn)).length) + ((encQname mh)).length) ((be32 (r.serial % 2 ^ 32)).map (· % 256))) ((((((((b.pos + ((encQname d)).length) + 2) + 2) + 4) + 2) + ((encQname hn)).length) + ((encQname mh)).length) + 4) ((be32 (r.refresh % 2 ^ 32)).map (· % 256))) (((((((((b.pos + ((encQname d)).length) + 2) + 2) + 4) + 2) + ((encQname hn)).length) + ((encQname mh)).length) + 4) + 4) ((be32 (r.retry % 2 ^ 32)).map (· % 256))) ((((((((((b.pos + ((encQname d)).length) + 2) + 2) + 4) + 2) + ((encQname hn)).length) + ((encQname mh)).length) + 4) + 4) + 4) ((be32 (r.expire % 2 ^ 32)).map (· % 256))) : List Nat).length = 512 := by
    rw [splice_length (by
      rw [L10]
      simp only [List.length_append, List.length_cons, List.length_nil, be16_length, be32_length, List.length_map]
      omega)]
    exact L10
  have e11 : BytePacketBuffer.write32 (⟨(splice (splice (splice (splice (splice (splice (splice (splice (splice (splice b.buf b.pos ((encQname d).map (· % 256))) (b.pos + ((encQname d)).length) ((be16 (r.qtype % 65536)).map (· % 256))) ((b.pos + ((encQname d)).length) + 2) ((be16 (r.cls % 65536)).map (· % 256))) (((b.pos + ((encQname d)).length) + 2) + 2) ((be32 (r.ttl % 2 ^ 32)).map (· % 256))) ((((b.pos + ((encQname d)).length) + 2) + 2) + 4) ((be16 0).map (· % 256))) (((((b.pos + ((encQname d)).length) + 2) + 2) + 4) + 2) ((encQname hn).map (· % 256))) ((((((b.pos + ((encQname d)).length) + 2) + 2) + 4) + 2) + ((encQname hn)).length) ((encQname mh).map (· % 256))) (((((((b.pos + ((encQname d)).length) + 2) + 2) + 4) + 2) + ((encQname hn)).length) + ((encQname mh)).length) ((be32 (r.serial % 2 ^ 32)).map (· % 256))) ((((((((b.pos + ((encQname d)).length) + 2) + 2) + 4) + 2) + ((encQname hn)).length) + ((encQname mh)).length) + 4) ((be32 (r.refresh % 2 ^ 32)).map (· % 256))) (((((((((b.pos + ((encQname d)).length) + 2) + 2) + 4) + 2) + ((encQname hn)).length) + ((encQname mh)).length) + 4) + 4) ((be32 (r.retry % 2 ^ 32)).map (· % 256))), ((((((((((b.pos + ((encQname d)).length) + 2) + 2) + 4) + 2) + ((encQname hn)).length) + ((encQname mh)).length) + 4) + 4) + 4)⟩ : BytePacketBuffer) (r.expire % 2 ^ 32) =
      .ok ⟨(splice (splice (splice (splice (splice (splice (splice (splice (splice (splice (splice b.buf b.pos ((encQname d).map (· % 256))) (b.pos + ((encQname d)).length) ((be16 (r.qtype % 65536)).map (· % 256))) ((b.pos + ((encQname d)).length) + 2) ((be16 (r.cls % 65536)).map (· % 256))) (((b.pos + ((encQname d)).length) + 2) + 2) ((be32 (r.ttl % 2 ^ 32)).map (· % 256))) ((((b.pos + ((encQname d)).length) + 2) + 2) + 4) ((be16 0).map (· % 256))) (((((b.pos + ((encQname d)).length) + 2) + 2) + 4) + 2) ((encQname hn).map (· % 256))) ((((((b.pos + ((encQname d)).length) + 2) + 2) + 4) + 2) + ((encQname hn)).length) ((encQname mh).map (· % 256))) (((((((b.pos + ((encQname d)).length) + 2) + 2) + 4) + 2) + ((encQname hn)).length) + ((encQname mh)).length) ((be32 (r.serial % 2 ^ 32)).map (· % 256))) ((((((((b.pos + ((encQname d)).length) + 2) + 2) + 4) + 2) + ((encQname hn)).length) + ((encQname mh)).length) + 4) ((be32 (r.refresh % 2 ^ 32)).map (· % 256))) (((((((((b.pos + ((encQname d)).length) + 2) + 2) + 4) + 2) + ((encQname hn)).length) + ((encQname mh)).length) + 4) + 4) ((be32 (r.retry % 2 ^ 32)).map (· % 256))) ((((((((((b.pos + ((encQname d)).length) + 2) + 2) + 4) + 2) + ((encQname hn)).length) + ((encQname mh)).length) + 4) + 4) + 4) ((be32 (r.expire % 2 ^ 32)).map (· % 256))), (((((((((((b.pos + ((encQname d)).length) + 2) + 2) + 4) + 2) + ((encQname hn)).length) + ((encQname mh)).length) + 4) + 4) + 4) + 4)⟩ := by
    rw [write32_eq_writeList]
    exact writeList_ok_of (b := (⟨(splice (splice (splice (splice (splice (splice (splice (splice (splice (splice b.buf b.pos ((encQname d).map (· % 256))) (b.pos + ((encQname d)).length) ((be16 (r.qtype % 65536)).map (· % 256))) ((b.pos + ((encQname d)).length) + 2) ((be16 (r.cls % 65536)).map (· % 256))) (((b.pos + ((encQname d)).length) + 2) + 2) ((be32 (r.ttl % 2 ^ 32)).map (· % 256))) ((((b.pos + ((encQname d)).length) + 2) + 2) + 4) ((be16 0).map (· % 256))) (((((b.pos + ((encQname d)).length) + 2) + 2) + 4) + 2) ((encQname hn).map (· % 256))) ((((((b.pos + ((encQname d)).length) + 2) + 2) + 4) + 2) + ((encQname hn)).length) ((encQname mh).map (· % 256))) (((((((b.pos + ((encQname d)).length) + 2) + 2) + 4) + 2) + ((encQname hn)).length) + ((encQname mh)).length) ((be32 (r.serial % 2 ^ 32)).map (· % 256))) ((((((((b.pos + ((encQname d)).length) + 2) + 2) + 4) + 2) + ((encQname hn)).length) + ((encQname mh)).length) + 4) ((be32 (r.refresh % 2 ^ 32)).map (· % 256))) (((((((((b.pos + ((encQname d)).length) + 2) + 2) + 4) + 2) + ((encQname hn)).length) + ((encQname mh)).length) + 4) + 4) ((be32 (r.retry % 2 ^ 32)).map (· % 256))), ((((((((((b.pos + ((encQname d)).length) + 2) + 2) + 4) + 2) + ((encQname hn)).length) + ((encQname mh)).length) + 4) + 4) + 4)⟩ : BytePacketBuffer)) (v := (be32 (r.expire % 2 ^ 32))) L10
      (show ((((((((((b.pos + ((encQname d)).length) + 2) + 2) + 4) + 2) + ((encQname hn)).length) + ((encQname mh)).length) + 4) + 4) + 4) ≤ 512 from by omega)
      (show (((((((((((b.pos + ((encQname d)).length) + 2) + 2) + 4) + 2) + ((encQname hn)).length) + ((encQname mh)).length) + 4) + 4) + 4) + 4) ≤ 512 from by omega)
  have L12 : ((splice (splice (splice (splice (splice (splice (splice (splice (splice (splice (splice (splice b.buf b.pos ((encQname d).map (· % 256))) (b.pos + ((encQname d)).length) ((be16 (r.qtype % 65536)).map (· % 256))) ((b.pos + ((encQname d)).length) + 2) ((be16 (r.cls % 65536)).map (· % 256))) (((b.pos + ((encQname d)).length) + 2) + 2) ((be32 (r.ttl % 2 ^ 32)).map (· % 256))) ((((b.pos + ((encQname d)).length) + 2) + 2) + 4) ((be16 0).map (· % 256))) (((((b.pos + ((encQname d)).length) + 2) + 2) + 4) + 2) ((encQname hn).map (· % 256))) ((((((b.pos + ((encQname d)).length) + 2) + 2) + 4) + 2) + ((encQname hn)).length) ((encQname mh).map (· % 256))) (((((((b.pos + ((encQname d)).length) + 2) + 2) + 4) + 2) + ((encQname hn)).length) + ((encQname mh)).length) ((be32 (r.serial % 2 ^ 32)).map (· % 256))) ((((((((b.pos + ((encQname d)).length) + 2) + 2) + 4) + 2) + ((encQname hn)).length) + ((encQname mh)).length) + 4) ((be32 (r.refresh % 2 ^ 32)).map (· % 256))) (((((((((b.pos + ((encQname d)).length) + 2) + 2) + 4) + 2) + ((encQname hn)).length) + ((encQname mh)).length) + 4) + 4) ((be32 (r.retry % 2 ^ 32)).map (· % 256))) ((((((((((b.pos + ((encQname d)).length) + 2) + 2) + 4) + 2) + ((encQname hn)).length) + ((encQname mh)).length) + 4) + 4) + 4) ((be32 (r.expire % 2 ^ 32)).map (· % 256))) (((((((((((b.pos + ((encQname d)).length) + 2) + 2) + 4) + 2) + ((encQname hn)).length) + ((encQname mh)).length) + 4) + 4) + 4) + 4) ((be32 (r.minimum % 2 ^ 32)).map (· % 256))) : List Nat).length = 512 := by
    rw [splice_length (by
      rw [L11]
      simp only [List.length_append, List.length_cons, List.length_nil, be16_length, be32_length, List.length_map]
      omega)]
    exact L11
  have e12 : BytePacketBuffer.write32 (⟨(splice (splice (splice (splice (splice (splice (splice (splice (splice (splice (splice b.buf b.pos ((encQname d).map (· % 256))) (b.pos + ((encQname d)).length) ((be16 (r.qtype % 65536)).map (· % 256))) ((b.pos + ((encQname d)).length) + 2) ((be16 (r.cls % 65536)).map (· % 256))) (((b.pos + ((encQname d)).length) + 2) + 2) ((be32 (r.ttl % 2 ^ 32)).map (· % 256))) ((((b.pos + ((encQname d)).length) + 2) + 2) + 4) ((be16 0).map (· % 256))) (((((b.pos + ((encQname d)).length) + 2) + 2) + 4) + 2) ((encQname hn).map (· % 256))) ((((((b.pos + ((encQname d)).length) + 2) + 2) + 4) + 2) + ((encQname hn)).length) ((encQname mh).map (· % 256))) (((((((b.pos + ((encQname d)).length) + 2) + 2) + 4) + 2) + ((encQname hn)).length) + ((encQname mh)).length) ((be32 (r.serial % 2 ^ 32)).map (· % 256))) ((((((((b.pos + ((encQname d)).length) + 2) + 2) + 4) + 2) + ((encQname hn)).length) + ((encQname mh)).length) + 4) ((be32 (r.refresh % 2 ^ 32)).map (· % 256))) (((((((((b.pos + ((encQname d)).length) + 2) + 2) + 4) + 2) + ((encQname hn)).length) + ((encQname mh)).length) + 4) + 4) ((be32 (r.retry % 2 ^ 32)).map (· % 256))) ((((((((((b.pos + ((encQname d)).length) + 2) + 2) + 4) + 2) + ((encQname hn)).length) + ((encQname mh)).length) + 4) + 4) + 4) ((be32 (r.expire % 2 ^ 32)).map (· % 256))), (((((((((((b.pos + ((encQname d)).length) + 2) + 2) + 4) + 2) + ((encQname hn)).length) + ((encQname mh)).length) + 4) + 4) + 4) + 4)⟩ : BytePacketBuffer) (r.minimum % 2 ^ 32) =
      .ok ⟨(splice (splice (splice (splice (splice (splice (splice (splice (splice (splice (splice (splice b.buf b.pos ((encQname d).map (· % 256))) (b.pos + ((encQname d)).length) ((be16 (r.qtype % 65536)).map (· % 256))) ((b.pos + ((encQname d)).length) + 2) ((be16 (r.cls % 65536)).map (· % 256))) (((b.pos + ((encQname d)).length) + 2) + 2) ((be32 (r.ttl % 2 ^ 32)).map (· % 256))) ((((b.pos + ((encQname d)).length) + 2) + 2) + 4) ((be16 0).map (· % 256))) (((((b.pos + ((encQname d)).length) + 2) + 2) + 4) + 2) ((encQname hn).map (· % 256))) ((((((b.pos + ((encQname d)).length) + 2) + 2) + 4) + 2) + ((encQname hn)).length) ((encQname mh).map (· % 256))) (((((((b.pos + ((encQname d)).length) + 2) + 2) + 4) + 2) + ((encQname hn)).length) + ((encQname mh)).length) ((be32 (r.serial % 2 ^ 32)).map (· % 256))) ((((((((b.pos + ((encQname d)).length) + 2) + 2) + 4) + 2) + ((encQname hn)).length) + ((encQname mh)).length) + 4) ((be32 (r.refresh % 2 ^ 32)).map (· % 256))) (((((((((b.pos + ((encQname d)).length) + 2) + 2) + 4) + 2) + ((encQname hn)).length) + ((encQname mh)).length) + 4) + 4) ((be32 (r.retry % 2 ^ 32)).map (· % 256))) ((((((((((b.pos + ((encQname d)).length) + 2) + 2) + 4) + 2) + ((encQname hn)).length) + ((encQname mh)).length) + 4) + 4) + 4) ((be32 (r.expire % 2 ^ 32)).map (· % 256))) (((((((((((b.pos + ((encQname d)).length) + 2) + 2) + 4) + 2) + ((encQname hn)).length) + ((encQname mh)).length) + 4) + 4) + 4) + 4) ((be32 (r.minimum % 2 ^ 32)).map (· % 256))), ((((((((((((b.pos + ((encQname d)).length) + 2) + 2) + 4) + 2) + ((encQname hn)).length) + ((encQname mh)).length) + 4) + 4) + 4) + 4) + 4)⟩ := by
    rw [write32_eq_writeList]
    exact writeList_ok_of (b := (⟨(splice (splice (splice (splice (splice (splice (splice (splice (splice (splice (splice b.buf b.pos ((encQname d).map (· % 256))) (b.pos + ((encQname d)).length) ((be16 (r.qtype % 65536)).map (· % 256))) ((b.pos + ((encQname d)).length) + 2) ((be16 (r.cls % 65536)).map (· % 256))) (((b.pos + ((encQname d)).length) + 2) + 2) ((be32 (r.ttl % 2 ^ 32)).map (· % 256))) ((((b.pos + ((encQname d)).length) + 2) + 2) + 4) ((be16 0).map (· % 256))) (((((b.pos + ((encQname d)).length) + 2) + 2) + 4) + 2) ((encQname hn).map (· % 256))) ((((((b.pos + ((encQname d)).length) + 2) + 2) + 4) + 2) + ((encQname hn)).length) ((encQname mh).map (· % 256))) (((((((b.pos + ((encQname d)).length) + 2) + 2) + 4) + 2) + ((encQname hn)).length) + ((encQname mh)).length) ((be32 (r.serial % 2 ^ 32)).map (· % 256))) ((((((((b.pos + ((encQname d)).length) + 2) + 2) + 4) + 2) + ((encQname hn)).length) + ((encQname mh)).length) + 4) ((be32 (r.refresh % 2 ^ 32)).map (· % 256))) (((((((((b.pos + ((encQname d)).length) + 2) + 2) + 4) + 2) + ((encQname hn)).length) + ((encQname mh)).length) + 4) + 4) ((be32 (r.retry % 2 ^ 32)).map (· % 256))) ((((((((((b.pos + ((encQname d)).length) + 2) + 2) + 4) + 2) + ((encQname hn)).length) + ((encQname mh)).length) + 4) + 4) + 4) ((be32 (r.expire % 2 ^ 32)).map (· % 256))), (((((((((((b.pos + ((encQname d)).length) + 2) + 2) + 4) + 2) + ((encQname hn)).length) + ((encQname mh)).length) + 4) + 4) + 4) + 4)⟩ : BytePacketBuffer)) (v := (be32 (r.minimum % 2 ^ 32))) L11
      (show (((((((((((b.pos + ((encQname d)).length) + 2) + 2) + 4) + 2) + ((encQname hn)).length) + ((encQname mh)).length) + 4) + 4) + 4) + 4) ≤ 512 from by omega)
      (show ((((((((((((b.pos + ((encQname d)).length) + 2) + 2) + 4) + 2) + ((encQname hn)).length) + ((encQname mh)).length) + 4) + 4) + 4) + 4) + 4) ≤ 512 from by omega)
  unfold DNSRecord.write
  rw [hdom, show derefName (some d) = (Except.ok d : Except String (List Nat))
    from rfl, ok_bind]
  rw [e1]
  simp only [ok_bind]
  rw [e2]
  simp only [ok_bind]
  rw [e3]
  simp only [ok_bind]
  rw [e4]
  simp only [ok_bind]
  rw [if_neg (show ¬ (r.qtype = AQueryType) from by rw [hq]; decide), if_neg (show ¬ (r.qtype = NSQueryType) from by rw [hq]; decide), if_neg (show ¬ (r.qtype = CNAMEQueryType) from by rw [hq]; decide), if_pos hq]
  rw [e5]
  simp only [ok_bind]
  rw [hhost, show derefName (some hn) = (Except.ok hn : Except String (List Nat))
    from rfl, ok_bind]
  rw [e6]
  simp only [ok_bind]
  rw [hmail, show derefName (some mh) = (Except.ok mh : Except String (List Nat))
    from rfl, ok_bind]
  rw [e7]
  simp only [ok_bind]
  rw [e8]
  simp only [ok_bind]
  rw [e9]
  simp only [ok_bind]
  rw [e10]
  simp only [ok_bind]
  rw [e11]
  simp only [ok_bind]
  rw [e12]
  simp only [ok_bind]
  have gp1 : splice (splice (splice (splice (splice (splice (splice (splice (splice (splice (splice (splice b.buf b.pos ((encQname d).map (· % 256))) (b.pos + ((encQname d)).length) ((be16 (r.qtype % 65536)).map (· % 256))) ((b.pos + ((encQname d)).length) + 2) ((be16 (r.cls % 65536)).map (· % 256))) (((b.pos + ((encQname d)).length) + 2) + 2) ((be32 (r.ttl % 2 ^ 32)).map (· % 256))) ((((b.pos + ((encQname d)).length) + 2) + 2) + 4) ((be16 0).map (· % 256))) (((((b.pos + ((encQname d)).length) + 2) + 2) + 4) + 2) ((encQname hn).map (· % 256))) ((((((b.pos + ((encQname d)).length) + 2) + 2) + 4) + 2) + ((encQname hn)).length) ((encQname mh).map (· % 256))) (((((((b.pos + ((encQname d)).length) + 2) + 2) + 4) + 2) + ((encQname hn)).length) + ((encQname mh)).length) ((be32 (r.serial % 2 ^ 32)).map (· % 256))) ((((((((b.pos + ((encQname d)).length) + 2) + 2) + 4) + 2) + ((encQname hn)).length) + ((encQname mh)).length) + 4) ((be32 (r.refresh % 2 ^ 32)).map (· % 256))) (((((((((b.pos + ((encQname d)).length) + 2) + 2) + 4) + 2) + ((encQname hn)).length) + ((encQname mh)).length) + 4) + 4) ((be32 (r.retry % 2 ^ 32)).map (· % 256))) ((((((((((b.pos + ((encQname d)).length) + 2) + 2) + 4) + 2) + ((encQname hn)).length) + ((encQname mh)).length) + 4) + 4) + 4) ((be32 (r.expire % 2 ^ 32)).map (· % 256)))
      (((((((((((b.pos + ((encQname d)).length) + 2) + 2) + 4) + 2) + ((encQname hn)).length) + ((encQname mh)).length) + 4) + 4) + 4) + 4) ((be32 (r.minimum % 2 ^ 32)).map (· % 256)) =
      splice (splice (splice (splice (splice (splice (splice (splice (splice (splice (splice b.buf b.pos ((encQname d).map (· % 256))) (b.pos + ((encQname d)).length) ((be16 (r.qtype % 65536)).map (· % 256))) ((b.pos + ((encQname d)).length) + 2) ((be16 (r.cls % 65536)).map (· % 256))) (((b.pos + ((encQname d)).length) + 2) + 2) ((be32 (r.ttl % 2 ^ 32)).map (· % 256))) ((((b.pos + ((encQname d)).length) + 2) + 2) + 4) ((be16 0).map (· % 256))) (((((b.pos + ((encQname d)).length) + 2) + 2) + 4) + 2) ((encQname hn).map (· % 256))) ((((((b.pos + ((encQname d)).length) + 2) + 2) + 4) + 2) + ((encQname hn)).length) ((encQname mh).map (· % 256))) (((((((b.pos + ((encQname d)).length) + 2) + 2) + 4) + 2) + ((encQname hn)).length) + ((encQname mh)).length) ((be32 (r.serial % 2 ^ 32)).map (· % 256))) ((((((((b.pos + ((encQname d)).length) + 2) + 2) + 4) + 2) + ((encQname hn)).length) + ((encQname mh)).length) + 4) ((be32 (r.refresh % 2 ^ 32)).map (· % 256))) (((((((((b.pos + ((encQname d)).length) + 2) + 2) + 4) + 2) + ((encQname hn)).length) + ((encQname mh)).length) + 4) + 4) ((be32 (r.retry % 2 ^ 32)).map (· % 256))) ((((((((((b.pos + ((encQname d)).length) + 2) + 2) + 4) + 2) + ((encQname hn)).length) + ((encQname mh)).length) + 4) + 4) + 4) (((be32 (r.expire % 2 ^ 32)) ++ (be32 (r.minimum % 2 ^ 32))).map (· % 256)) :=
    splice_splice_map (by
      rw [L10]
      simp only [List.length_append, List.length_cons, List.length_nil, be16_length, be32_length, List.length_map]
      omega)
  rw [gp1]
  have gp2 : splice (splice (splice (splice (splice (splice (splice (splice (splice (splice (splice b.buf b.pos ((encQname d).map (· % 256))) (b.pos + ((encQname d)).length) ((be16 (r.qtype % 65536)).map (· % 256))) ((b.pos + ((encQname d)).length) + 2) ((be16 (r.cls % 65536)).map (· % 256))) (((b.pos + ((encQname d)).length) + 2) + 2) ((be32 (r.ttl % 2 ^ 32)).map (· % 256))) ((((b.pos + ((encQname d)).length) + 2) + 2) + 4) ((be16 0).map (· % 256))) (((((b.pos + ((encQname d)).length) + 2) + 2) + 4) + 2) ((encQname hn).map (· % 256))) ((((((b.pos + ((encQname d)).length) + 2) + 2) + 4) + 2) + ((encQname hn)).length) ((encQname mh).map (· % 256))) (((((((b.pos + ((encQname d)).length) + 2) + 2) + 4) + 2) + ((encQname hn)).length) + ((encQname mh)).length) ((be32 (r.serial % 2 ^ 32)).map (· % 256))) ((((((((b.pos + ((encQname d)).length) + 2) + 2) + 4) + 2) + ((encQname hn)).length) + ((encQname mh)).length) + 4) ((be32 (r.refresh % 2 ^ 32)).map (· % 256))) (((((((((b.pos + ((encQname d)).length) + 2) + 2) + 4) + 2) + ((encQname hn)).length) + ((encQname mh)).length) + 4) + 4) ((be32 (r.retry % 2 ^ 32)).map (· % 256)))
      ((((((((((b.pos + ((encQname d)).length) + 2) + 2) + 4) + 2) + ((encQname hn)).length) + ((encQname mh)).length) + 4) + 4) + 4) (((be32 (r.expire % 2 ^ 32)) ++ (be32 (r.minimum % 2 ^ 32))).map (· % 256)) =
      splice (splice (splice (splice (splice (splice (splice (splice (splice (splice b.buf b.pos ((encQname d).map (· % 256))) (b.pos + ((encQname d)).length) ((be16 (r.qtype % 65536)).map (· % 256))) ((b.pos + ((encQname d)).length) + 2) ((be16 (r.cls % 65536)).map (· % 256))) (((b.pos + ((encQname d)).length) + 2) + 2) ((be32 (r.ttl % 2 ^ 32)).map (· % 256))) ((((b.pos + ((encQname d)).length) + 2) + 2) + 4) ((be16 0).map (· % 256))) (((((b.pos + ((encQname d)).length) + 2) + 2) + 4) + 2) ((encQname hn).map (· % 256))) ((((((b.pos + ((encQname d)).length) + 2) + 2) + 4) + 2) + ((encQname hn)).length) ((encQname mh).map (· % 256))) (((((((b.pos + ((encQname d)).length) + 2) + 2) + 4) + 2) + ((encQname hn)).length) + ((encQname mh)).length) ((be32 (r.serial % 2 ^ 32)).map (· % 256))) ((((((((b.pos + ((encQname d)).length) + 2) + 2) + 4) + 2) + ((encQname hn)).length) + ((encQname mh)).length) + 4) ((be32 (r.refresh % 2 ^ 32)).map (· % 256))) (((((((((b.pos + ((encQname d)).length) + 2) + 2) + 4) + 2) + ((encQname hn)).length) + ((encQname mh)).length) + 4) + 4) (((be32 (r.retry % 2 ^ 32)) ++ ((be32 (r.expire % 2 ^ 32)) ++ (be32 (r.minimum % 2 ^ 32)))).map (· % 256)) :=
    splice_splice_map (by
      rw [L9]
      simp only [List.length_append, List.length_cons, List.length_nil, be16_length, be32_length, List.length_map]
      omega)
  rw [gp2]
  have gp3 : splice (splice (splice (splice (splice (splice (splice (splice (splice (splice b.buf b.pos ((encQname d).map (· % 256))) (b.pos + ((encQname d)).length) ((be16 (r.qtype % 65536)).map (· % 256))) ((b.pos + ((encQname d)).length) + 2) ((be16 (r.cls % 65536)).map (· % 256))) (((b.pos + ((encQname d)).length) + 2) + 2) ((be32 (r.ttl % 2 ^ 32)).map (· % 256))) ((((b.pos + ((encQname d)).length) + 2) + 2) + 4) ((be16 0).map (· % 256))) (((((b.pos + ((encQname d)).length) + 2) + 2) + 4) + 2) ((encQname hn).map (· % 256))) ((((((b.pos + ((encQname d)).length) + 2) + 2) + 4) + 2) + ((encQname hn)).length) ((encQname mh).map (· % 256))) (((((((b.pos + ((encQname d)).length) + 2) + 2) + 4) + 2) + ((encQname hn)).length) + ((encQname mh)).length) ((be32 (r.serial % 2 ^ 32)).map (· % 256))) ((((((((b.pos + ((encQname d)).length) + 2) + 2) + 4) + 2) + ((encQname hn)).length) + ((encQname mh)).length) + 4) ((be32 (r.refresh % 2 ^ 32)).map (· % 256)))
      (((((((((b.pos + ((encQname d)).length) + 2) + 2) + 4) + 2) + ((encQname hn)).length) + ((encQname mh)).length) + 4) + 4) (((be32 (r.retry % 2 ^ 32)) ++ ((be32 (r.expire % 2 ^ 32)) ++ (be32 (r.minimum % 2 ^ 32)))).map (· % 256)) =
      splice (splice (splice (splice (splice (splice (splice (splice (splice b.buf b.pos ((encQname d).map (· % 256))) (b.pos + ((encQname d)).length) ((be16 (r.qtype % 65536)).map (· % 256))) ((b.pos + ((encQname d)).length) + 2) ((be16 (r.cls % 65536)).map (· % 256))) (((b.pos + ((encQname d)).length) + 2) + 2) ((be32 (r.ttl % 2 ^ 32)).map (· % 256))) ((((b.pos + ((encQname d)).length) + 2) + 2) + 4) ((be16 0).map (· % 256))) (((((b.pos + ((encQname d)).length) + 2) + 2) + 4) + 2) ((encQname hn).map (· % 256))) ((((((b.pos + ((encQname d)).length) + 2) + 2) + 4) + 2) + ((encQname hn)).length) ((encQname mh).map (· % 256))) (((((((b.pos + ((encQname d)).length) + 2) + 2) + 4) + 2) + ((encQname hn)).length) + ((encQname mh)).length) ((be32 (r.serial % 2 ^ 32)).map (· % 256))) ((((((((b.pos + ((encQname d)).length) + 2) + 2) + 4) + 2) + ((encQname hn)).length) + ((encQname mh)).length) + 4) (((be32 (r.refresh % 2 ^ 32)) ++ ((be32 (r.retry % 2 ^ 32)) ++ ((be32 (r.expire % 2 ^ 32)) ++ (be32 (r.minimum % 2 ^ 32))))).map (· % 256)) :=
    splice_splice_map (by
      rw [L8]
      simp only [List.length_append, List.length_cons, List.length_nil, be16_length, be32_length, List.length_map]
      omega)
  rw [gp3]
  have gp4 : splice (splice (splice (splice (splice (splice (splice (splice (splice b.buf b.pos ((encQname d).map (· % 256))) (b.pos + ((encQname d)).length) ((be16 (r.qtype % 65536)).map (· % 256))) ((b.pos + ((encQname d)).length) + 2) ((be16 (r.cls % 65536)).map (· % 256))) (((b.pos + ((encQname d)).length) + 2) + 2) ((be32 (r.ttl % 2 ^ 32)).map (· % 256))) ((((b.pos + ((encQname d)).length) + 2) + 2) + 4) ((be16 0).map (· % 256))) (((((b.pos + ((encQname d)).length) + 2) + 2) + 4) + 2) ((encQname hn).map (· % 256))) ((((((b.pos + ((encQname d)).length) + 2) + 2) + 4) + 2) + ((encQname hn)).length) ((encQname mh).map (· % 256))) (((((((b.pos + ((encQname d)).length) + 2) + 2) + 4) + 2) + ((encQname hn)).length) + ((encQname mh)).length) ((be32 (r.serial % 2 ^ 32)).map (· % 256)))
      ((((((((b.pos + ((encQname d)).length) + 2) + 2) + 4) + 2) + ((encQname hn)).length) + ((encQname mh)).length) + 4) (((be32 (r.refresh % 2 ^ 32)) ++ ((be32 (r.retry % 2 ^ 32)) ++ ((be32 (r.expire % 2 ^ 32)) ++ (be32 (r.minimum % 2 ^ 32))))).map (· % 256)) =
      splice (splice (splice (splice (splice (splice (splice (splice b.buf b.pos ((encQname d).map (· % 256))) (b.pos + ((encQname d)).length) ((be16 (r.qtype % 65536)).map (· % 256))) ((b.pos + ((encQname d)).length) + 2) ((be16 (r.cls % 65536)).map (· % 256))) (((b.pos + ((encQname d)).length) + 2) + 2) ((be32 (r.ttl % 2 ^ 32)).map (· % 256))) ((((b.pos + ((encQname d)).length) + 2) + 2) + 4) ((be16 0).map (· % 256))) (((((b.pos + ((encQname d)).length) + 2) + 2) + 4) + 2) ((encQname hn).map (· % 256))) ((((((b.pos + ((encQname d)).length) + 2) + 2) + 4) + 2) + ((encQname hn)).length) ((encQname mh).map (· % 256))) (((((((b.pos + ((encQname d)).length) + 2) + 2) + 4) + 2) + ((encQname hn)).length) + ((encQname mh)).length) (((be32 (r.serial % 2 ^ 32)) ++ ((be32 (r.refresh % 2 ^ 32)) ++ ((be32 (r.retry % 2 ^ 32)) ++ ((be32 (r.expire % 2 ^ 32)) ++ (be32 (r.minimum % 2 ^ 32)))))).map (· % 256)) :=
    splice_splice_map (by
      rw [L7]
      simp only [List.length_append, List.length_cons, List.length_nil, be16_length, be32_length, List.length_map]
      omega)
  rw [gp4]
  have gp5 : splice (splice (splice (splice (splice (splice (splice (splice b.buf b.pos ((encQname d).map (· % 256))) (b.pos + ((encQname d)).length) ((be16 (r.qtype % 65536)).map (· % 256))) ((b.pos + ((encQname d)).length) + 2) ((be16 (r.cls % 65536)).map (· % 256))) (((b.pos + ((encQname d)).length) + 2) + 2) ((be32 (r.ttl % 2 ^ 32)).map (· % 256))) ((((b.pos + ((encQname d)).length) + 2) + 2) + 4) ((be16 0).map (· % 256))) (((((b.pos + ((encQname d)).length) + 2) + 2) + 4) + 2) ((encQname hn).map (· % 256))) ((((((b.pos + ((encQname d)).length) + 2) + 2) + 4) + 2) + ((encQname hn)).length) ((encQname mh).map (· % 256)))
      (((((((b.pos + ((encQname d)).length) + 2) + 2) + 4) + 2) + ((encQname hn)).length) + ((encQname mh)).length) (((be32 (r.serial % 2 ^ 32)) ++ ((be32 (r.refresh % 2 ^ 32)) ++ ((be32 (r.retry % 2 ^ 32)) ++ ((be32 (r.expire % 2 ^ 32)) ++ (be32 (r.minimum % 2 ^ 32)))))).map (· % 256)) =
      splice (splice (splice (splice (splice (splice (splice b.buf b.pos ((encQname d).map (· % 256))) (b.pos + ((encQname d)).length) ((be16 (r.qtype % 65536)).map (· % 256))) ((b.pos + ((encQname d)).length) + 2) ((be16 (r.cls % 65536)).map (· % 256))) (((b.pos + ((encQname d)).length) + 2) + 2) ((be32 (r.ttl % 2 ^ 32)).map (· % 256))) ((((b.pos + ((encQname d)).length) + 2) + 2) + 4) ((be16 0).map (· % 256))) (((((b.pos + ((encQname d)).length) + 2) + 2) + 4) + 2) ((encQname hn).map (· % 256))) ((((((b.pos + ((encQname d)).length) + 2) + 2) + 4) + 2) + ((encQname hn)).length) (((encQname mh) ++ ((be32 (r.serial % 2 ^ 32)) ++ ((be32 (r.refresh % 2 ^ 32)) ++ ((be32 (r.retry % 2 ^ 32)) ++ ((be32 (r.expire % 2 ^ 32)) ++ (be32 (r.minimum % 2 ^ 32))))))).map (· % 256)) :=
    splice_splice_map (by
      rw [L6]
      simp only [List.length_append, List.length_cons, List.length_nil, be16_length, be32_length, List.length_map]
      omega)
  rw [gp5]
  have gp6 : splice (splice (splice (splice (splice (splice (splice b.buf b.pos ((encQname d).map (· % 256))) (b.pos + ((encQname d)).length) ((be16 (r.qtype % 65536)).map (· % 256))) ((b.pos + ((encQname d)).length) + 2) ((be16 (r.cls % 65536)).map (· % 256))) (((b.pos + ((encQname d)).length) + 2) + 2) ((be32 (r.ttl % 2 ^ 32)).map (· % 256))) ((((b.pos + ((encQname d)).length) + 2) + 2) + 4) ((be16 0).map (· % 256))) (((((b.pos + ((encQname d)).length) + 2) + 2) + 4) + 2) ((encQname hn).map (· % 256)))
      ((((((b.pos + ((encQname d)).length) + 2) + 2) + 4) + 2) + ((encQname hn)).length) (((encQname mh) ++ ((be32 (r.serial % 2 ^ 32)) ++ ((be32 (r.refresh % 2 ^ 32)) ++ ((be32 (r.retry % 2 ^ 32)) ++ ((be32 (r.expire % 2 ^ 32)) ++ (be32 (r.minimum % 2 ^ 32))))))).map (· % 256)) =
      splice (splice (splice (splice (splice (splice b.buf b.pos ((encQname d).map (· % 256))) (b.pos + ((encQname d)).length) ((be16 (r.qtype % 65536)).map (· % 256))) ((b.pos + ((encQname d)).length) + 2) ((be16 (r.cls % 65536)).map (· % 256))) (((b.pos + ((encQname d)).length) + 2) + 2) ((be32 (r.ttl % 2 ^ 32)).map (· % 256))) ((((b.pos + ((encQname d)).length) + 2) + 2) + 4) ((be16 0).map (· % 256))) (((((b.pos + ((encQname d)).length) + 2) + 2) + 4) + 2) (((encQname hn) ++ ((encQname mh) ++ ((be32 (r.serial % 2 ^ 32)) ++ ((be32 (r.refresh % 2 ^ 32)) ++ ((be32 (r.retry % 2 ^ 32)) ++ ((be32 (r.expire % 2 ^ 32)) ++ (be32 (r.minimum % 2 ^ 32)))))))).map (· % 256)) :=
    splice_splice_map (by
      rw [L5]
      simp only [List.length_append, List.length_cons, List.length_nil, be16_length, be32_length, List.length_map]
      omega)
  rw [gp6]
  have gp7 : splice (splice (splice (splice (splice (splice b.buf b.pos ((encQname d).map (· % 256))) (b.pos + ((encQname d)).length) ((be16 (r.qtype % 65536)).map (· % 256))) ((b.pos + ((encQname d)).length) + 2) ((be16 (r.cls % 65536)).map (· % 256))) (((b.pos + ((encQname d)).length) + 2) + 2) ((be32 (r.ttl % 2 ^ 32)).map (· % 256))) ((((b.pos + ((encQname d)).length) + 2) + 2) + 4) ((be16 0).map (· % 256)))
      (((((b.pos + ((encQname d)).length) + 2) + 2) + 4) + 2) (((encQname hn) ++ ((encQname mh) ++ ((be32 (r.serial % 2 ^ 32)) ++ ((be32 (r.refresh % 2 ^ 32)) ++ ((be32 (r.retry % 2 ^ 32)) ++ ((be32 (r.expire % 2 ^ 32)) ++ (be32 (r.minimum % 2 ^ 32)))))))).map (· % 256)) =
      splice (splice (splice (splice (splice b.buf b.pos ((encQname d).map (· % 256))) (b.pos + ((encQname d)).length) ((be16 (r.qtype % 65536)).map (· % 256))) ((b.pos + ((encQname d)).length) + 2) ((be16 (r.cls % 65536)).map (· % 256))) (((b.pos + ((encQname d)).length) + 2) + 2) ((be32 (r.ttl % 2 ^ 32)).map (· % 256))) ((((b.pos + ((encQname d)).length) + 2) + 2) + 4) (((be16 0) ++ ((encQname hn) ++ ((encQname mh) ++ ((be32 (r.serial % 2 ^ 32)) ++ ((be32 (r.refresh % 2 ^ 32)) ++ ((be32 (r.retry % 2 ^ 32)) ++ ((be32 (r.expire % 2 ^ 32)) ++ (be32 (r.minimum % 2 ^ 32))))))))).map (· % 256)) :=
    splice_splice_map (by
      rw [L4]
      simp only [List.length_append, List.length_cons, List.length_nil, be16_length, be32_length, List.length_map]
      omega)
  rw [gp7]
  have eset : BytePacketBuffer.set16
      (⟨splice (splice (splice (splice (splice b.buf b.pos ((encQname d).map (· % 256))) (b.pos + ((encQname d)).length) ((be16 (r.qtype % 65536)).map (· % 256))) ((b.pos + ((encQname d)).length) + 2) ((be16 (r.cls % 65536)).map (· % 256))) (((b.pos + ((encQname d)).length) + 2) + 2) ((be32 (r.ttl % 2 ^ 32)).map (· % 256))) ((((b.pos + ((encQname d)).length) + 2) + 2) + 4) (((be16 0) ++ ((encQname hn) ++ ((encQname mh) ++ ((be32 (r.serial % 2 ^ 32)) ++ ((be32 (r.refresh % 2 ^ 32)) ++ ((be32 (r.retry % 2 ^ 32)) ++ ((be32 (r.expire % 2 ^ 32)) ++ (be32 (r.minimum % 2 ^ 32))))))))).map (· % 256)), ((((((((((((b.pos + ((encQname d)).length) + 2) + 2) + 4) + 2) + ((encQname hn)).length) + ((encQname mh)).length) + 4) + 4) + 4) + 4) + 4)⟩ : BytePacketBuffer)
      ((((b.pos + ((encQname d)).length) + 2) + 2) + 4) ((((((((((((((b.pos + ((encQname d)).length) + 2) + 2) + 4) + 2) + ((encQname hn)).length) + ((encQname mh)).length) + 4) + 4) + 4) + 4) + 4) - (((((b.pos + ((encQname d)).length) + 2) + 2) + 4) + 2)) % 65536) =
      some ⟨splice (splice (splice (splice (splice b.buf b.pos ((encQname d).map (· % 256))) (b.pos + ((encQname d)).length) ((be16 (r.qtype % 65536)).map (· % 256))) ((b.pos + ((encQname d)).length) + 2) ((be16 (r.cls % 65536)).map (· % 256))) (((b.pos + ((encQname d)).length) + 2) + 2) ((be32 (r.ttl % 2 ^ 32)).map (· % 256))) ((((b.pos + ((encQname d)).length) + 2) + 2) + 4)
        ((((((((((((((b.pos + ((encQname d)).length) + 2) + 2) + 4) + 2) + ((encQname hn)).length) + ((encQname mh)).length) + 4) + 4) + 4) + 4) + 4) - (((((b.pos + ((encQname d)).length) + 2) + 2) + 4) + 2)) % 65536 / 256 % 256 :: (((((((((((((b.pos + ((encQname d)).length) + 2) + 2) + 4) + 2) + ((encQname hn)).length) + ((encQname mh)).length) + 4) + 4) + 4) + 4) + 4) - (((((b.pos + ((encQname d)).length) + 2) + 2) + 4) + 2)) % 65536 % 256 :: (((encQname hn ++ (encQname mh ++ (be32 (r.serial % 2 ^ 32) ++ (be32 (r.refresh % 2 ^ 32) ++ (be32 (r.retry % 2 ^ 32) ++ (be32 (r.expire % 2 ^ 32) ++ be32 (r.minimum % 2 ^ 32))))))).map (· % 256)))), ((((((((((((b.pos + ((encQname d)).length) + 2) + 2) + 4) + 2) + ((encQname hn)).length) + ((encQname mh)).length) + 4) + 4) + 4) + 4) + 4)⟩ := by
    refine set16_splice0 _ ?_
    rw [L4]
    simp only [List.length_cons, List.length_map, List.length_append,
      List.nil_append, List.cons_append, List.append_eq, be16_length,
      be32_length]
    omega
  rw [eset]
  dsimp only
  rw [show ((((((((((((b.pos + ((encQname d)).length) + 2) + 2) + 4) + 2) + ((encQname hn)).length) + ((encQname mh)).length) + 4) + 4) + 4) + 4) + 4) - (((((b.pos + ((encQname d)).length) + 2) + 2) + 4) + 2) = (encQname hn ++ encQname mh ++ be32 (r.serial % 2 ^ 32) ++ be32 (r.refresh % 2 ^ 32) ++ be32 (r.retry % 2 ^ 32) ++ be32 (r.expire % 2 ^ 32) ++ be32 (r.minimum % 2 ^ 32)).length from by
    try simp only [List.length_append, List.length_cons, List.length_nil, be16_length, be32_length, List.length_map]
    omega]
  rw [mod65536_div256, mod65536_mod256]
  rw [show (encQname hn ++ encQname mh ++ be32 (r.serial % 2 ^ 32) ++ be32 (r.refresh % 2 ^ 32) ++ be32 (r.retry % 2 ^ 32) ++ be32 (r.expire % 2 ^ 32) ++ be32 (r.minimum % 2 ^ 32)).length / 256 % 256 :: (encQname hn ++ encQname mh ++ be32 (r.serial % 2 ^ 32) ++ be32 (r.refresh % 2 ^ 32) ++ be32 (r.retry % 2 ^ 32) ++ be32 (r.expire % 2 ^ 32) ++ be32 (r.minimum % 2 ^ 32)).length % 256 :: (((encQname hn ++ (encQname mh ++ (be32 (r.serial % 2 ^ 32) ++ (be32 (r.refresh % 2 ^ 32) ++ (be32 (r.retry % 2 ^ 32) ++ (be32 (r.expire % 2 ^ 32) ++ be32 (r.minimum % 2 ^ 32))))))).map (· % 256))) =
      ((be16 ((encQname hn ++ encQname mh ++ be32 (r.serial % 2 ^ 32) ++ be32 (r.refresh % 2 ^ 32) ++ be32 (r.retry % 2 ^ 32) ++ be32 (r.expire % 2 ^ 32) ++ be32 (r.minimum % 2 ^ 32)).length) ++ (encQname hn ++ encQname mh ++ be32 (r.serial % 2 ^ 32) ++ be32 (r.refresh % 2 ^ 32) ++ be32 (r.retry % 2 ^ 32) ++ be32 (r.expire % 2 ^ 32) ++ be32 (r.minimum % 2 ^ 32))).map (· % 256)) from by
    simp [be16, mod256_mod256, List.map_append, List.append_assoc]]
  have gh1 : splice (splice (splice (splice (splice b.buf b.pos ((encQname d).map (· % 256))) (b.pos + ((encQname d)).length) ((be16 (r.qtype % 65536)).map (· % 256))) ((b.pos + ((encQname d)).length) + 2) ((be16 (r.cls % 65536)).map (· % 256))) (((b.pos + ((encQname d)).length) + 2) + 2) ((be32 (r.ttl % 2 ^ 32)).map (· % 256)))
      ((((b.pos + ((encQname d)).length) + 2) + 2) + 4) ((be16 ((encQname hn ++ encQname mh ++ be32 (r.serial % 2 ^ 32) ++ be32 (r.refresh % 2 ^ 32) ++ be32 (r.retry % 2 ^ 32) ++ be32 (r.expire % 2 ^ 32) ++ be32 (r.minimum % 2 ^ 32)).length) ++ (encQname hn ++ encQname mh ++ be32 (r.serial % 2 ^ 32) ++ be32 (r.refresh % 2 ^ 32) ++ be32 (r.retry % 2 ^ 32) ++ be32 (r.expire % 2 ^ 32) ++ be32 (r.minimum % 2 ^ 32))).map (· % 256)) =
      splice (splice (splice (splice b.buf b.pos ((encQname d).map (· % 256))) (b.pos + ((encQname d)).length) ((be16 (r.qtype % 65536)).map (· % 256))) ((b.pos + ((encQname d)).length) + 2) ((be16 (r.cls % 65536)).map (· % 256))) (((b.pos + ((encQname d)).length) + 2) + 2) (((be32 (r.ttl % 2 ^ 32)) ++ (be16 ((encQname hn ++ encQname mh ++ be32 (r.serial % 2 ^ 32) ++ be32 (r.refresh % 2 ^ 32) ++ be32 (r.retry % 2 ^ 32) ++ be32 (r.expire % 2 ^ 32) ++ be32 (r.minimum % 2 ^ 32)).length) ++ (encQname hn ++ encQname mh ++ be32 (r.serial % 2 ^ 32) ++ be32 (r.refresh % 2 ^ 32) ++ be32 (r.retry % 2 ^ 32) ++ be32 (r.expire % 2 ^ 32) ++ be32 (r.minimum % 2 ^ 32)))).map (· % 256)) :=
    splice_splice_map (by
      rw [L3]
      simp only [List.length_append, List.length_cons, List.length_nil, be16_length, be32_length, List.length_map]
      omega)
  rw [gh1]
  have gh2 : splice (splice (splice (splice b.buf b.pos ((encQname d).map (· % 256))) (b.pos + ((encQname d)).length) ((be16 (r.qtype % 65536)).map (· % 256))) ((b.pos + ((encQname d)).length) + 2) ((be16 (r.cls % 65536)).map (· % 256)))
      (((b.pos + ((encQname d)).length) + 2) + 2) (((be32 (r.ttl % 2 ^ 32)) ++ (be16 ((encQname hn ++ encQname mh ++ be32 (r.serial % 2 ^ 32) ++ be32 (r.refresh % 2 ^ 32) ++ be32 (r.retry % 2 ^ 32) ++ be32 (r.expire % 2 ^ 32) ++ be32 (r.minimum % 2 ^ 32)).length) ++ (encQname hn ++ encQname mh ++ be32 (r.serial % 2 ^ 32) ++ be32 (r.refresh % 2 ^ 32) ++ be32 (r.retry % 2 ^ 32) ++ be32 (r.expire % 2 ^ 32) ++ be32 (r.minimum % 2 ^ 32)))).map (· % 256)) =
      splice (splice (splice b.buf b.pos ((encQname d).map (· % 256))) (b.pos + ((encQname d)).length) ((be16 (r.qtype % 65536)).map (· % 256))) ((b.pos + ((encQname d)).length) + 2) (((be16 (r.cls % 65536)) ++ ((be32 (r.ttl % 2 ^ 32)) ++ (be16 ((encQname hn ++ encQname mh ++ be32 (r.serial % 2 ^ 32) ++ be32 (r.refresh % 2 ^ 32) ++ be32 (r.retry % 2 ^ 32) ++ be32 (r.expire % 2 ^ 32) ++ be32 (r.minimum % 2 ^ 32)).length) ++ (encQname hn ++ encQname mh ++ be32 (r.serial % 2 ^ 32) ++ be32 (r.refresh % 2 ^ 32) ++ be32 (r.retry % 2 ^ 32) ++ be32 (r.expire % 2 ^ 32) ++ be32 (r.minimum % 2 ^ 32))))).map (· % 256)) :=
    splice_splice_map (by
      rw [L2]
      simp only [List.length_append, List.length_cons, List.length_nil, be16_length, be32_length, List.length_map]
      omega)
  rw [gh2]
  have gh3 : splice (splice (splice b.buf b.pos ((encQname d).map (· % 256))) (b.pos + ((encQname d)).length) ((be16 (r.qtype % 65536)).map (· % 256)))
      ((b.pos + ((encQname d)).length) + 2) (((be16 (r.cls % 65536)) ++ ((be32 (r.ttl % 2 ^ 32)) ++ (be16 ((encQname hn ++ encQname mh ++ be32 (r.serial % 2 ^ 32) ++ be32 (r.refresh % 2 ^ 32) ++ be32 (r.retry % 2 ^ 32) ++ be32 (r.expire % 2 ^ 32) ++ be32 (r.minimum % 2 ^ 32)).length) ++ (encQname hn ++ encQname mh ++ be32 (r.serial % 2 ^ 32) ++ be32 (r.refresh % 2 ^ 32) ++ be32 (r.retry % 2 ^ 32) ++ be32 (r.expire % 2 ^ 32) ++ be32 (r.minimum % 2 ^ 32))))).map (· % 256)) =
      splice (splice b.buf b.pos ((encQname d).map (· % 256))) (b.pos + ((encQname d)).length) (((be16 (r.qtype % 65536)) ++ ((be16 (r.cls % 65536)) ++ ((be32 (r.ttl % 2 ^ 32)) ++ (be16 ((encQname hn ++ encQname mh ++ be32 (r.serial % 2 ^ 32) ++ be32 (r.refresh % 2 ^ 32) ++ be32 (r.retry % 2 ^ 32) ++ be32 (r.expire % 2 ^ 32) ++ be32 (r.minimum % 2 ^ 32)).length) ++ (encQname hn ++ encQname mh ++ be32 (r.serial % 2 ^ 32) ++ be32 (r.refresh % 2 ^ 32) ++ be32 (r.retry % 2 ^ 32) ++ be32 (r.expire % 2 ^ 32) ++ be32 (r.minimum % 2 ^ 32)))))).map (· % 256)) :=
    splice_splice_map (by
      rw [L1]
      simp only [List.length_append, List.length_cons, List.length_nil, be16_length, be32_length, List.length_map]
      omega)
  rw [gh3]
  have gh4 : splice (splice b.buf b.pos ((encQname d).map (· % 256)))
      (b.pos + ((encQname d)).length) (((be16 (r.qtype % 65536)) ++ ((be16 (r.cls % 65536)) ++ ((be32 (r.ttl % 2 ^ 32)) ++ (be16 ((encQname hn ++ encQname mh ++ be32 (r.serial % 2 ^ 32) ++ be32 (r.refresh % 2 ^ 32) ++ be32 (r.retry % 2 ^ 32) ++ be32 (r.expire % 2 ^ 32) ++ be32 (r.minimum % 2 ^ 32)).length) ++ (encQname hn ++ encQname mh ++ be32 (r.serial % 2 ^ 32) ++ be32 (r.refresh % 2 ^ 32) ++ be32 (r.retry % 2 ^ 32) ++ be32 (r.expire % 2 ^ 32) ++ be32 (r.minimum % 2 ^ 32)))))).map (· % 256)) =
      splice b.buf b.pos (((encQname d) ++ ((be16 (r.qtype % 65536)) ++ ((be16 (r.cls % 65536)) ++ ((be32 (r.ttl % 2 ^ 32)) ++ (be16 ((encQname hn ++ encQname mh ++ be32 (r.serial % 2 ^ 32) ++ be32 (r.refresh % 2 ^ 32) ++ be32 (r.retry % 2 ^ 32) ++ be32 (r.expire % 2 ^ 32) ++ be32 (r.minimum % 2 ^ 32)).length) ++ (encQname hn ++ encQname mh ++ be32 (r.serial % 2 ^ 32) ++ be32 (r.refresh % 2 ^ 32) ++ be32 (r.retry % 2 ^ 32) ++ be32 (r.expire % 2 ^ 32) ++ be32 (r.minimum % 2 ^ 32))))))).map (· % 256)) :=
    splice_splice_map (by
      rw [L0]
      simp only [List.length_append, List.length_cons, List.length_nil, be16_length, be32_length, List.length_map]
      omega)
  rw [gh4]
  rw [show ((encQname d) ++ ((be16 (r.qtype % 65536)) ++ ((be16 (r.cls % 65536)) ++ ((be32 (r.ttl % 2 ^ 32)) ++ (be16 ((encQname hn ++ encQname mh ++ be32 (r.serial % 2 ^ 32) ++ be32 (r.refresh % 2 ^ 32) ++ be32 (r.retry % 2 ^ 32) ++ be32 (r.expire % 2 ^ 32) ++ be32 (r.minimum % 2 ^ 32)).length) ++ (encQname hn ++ encQname mh ++ be32 (r.serial % 2 ^ 32) ++ be32 (r.refresh % 2 ^ 32) ++ be32 (r.retry % 2 ^ 32) ++ be32 (r.expire % 2 ^ 32) ++ be32 (r.minimum % 2 ^ 32))))))) = encRecord r from by
    rw [henc]
    simp [List.append_assoc]]
  rw [show ((((((((((((b.pos + ((encQname d)).length) + 2) + 2) + 4) + 2) + ((encQname hn)).length) + ((encQname mh)).length) + 4) + 4) + 4) + 4) + 4) - b.pos = (encRecord r).length from by
    rw [hRlen]
    try simp only [List.length_append, List.length_cons, List.length_nil, be16_length, be32_length, List.length_map]
    omega]
  rw [show ((((((((((((b.pos + ((encQname d)).length) + 2) + 2) + 4) + 2) + ((encQname hn)).length) + ((encQname mh)).length) + 4) + 4) + 4) + 4) + 4) = b.pos + (encRecord r).length from by
    rw [hRlen]
    try simp only [List.length_append, List.length_cons, List.length_nil, be16_length, be32_length, List.length_map]
    omega]

/-- DNSRecord.Write of an MX record in decoder shape: priority and host with the back-patched length are spliced in after the common head -/
theorem recordWrite_MX_ok {r : DNSRecord} {b : BytePacketBuffer}
    {d hn : List Nat}
    (hq : r.qtype = MXQueryType) (hdom : r.domain = some d)
    (hhost : r.host = some hn)
    (hh63 : ∀ lab ∈ splitDot hn, lab.length ≤ 63)
    (hd63 : ∀ lab ∈ splitDot d, lab.length ≤ 63)
    (hlen : b.buf.length = 512) (hpos : b.pos ≤ 512)
    (hfit : b.pos + (encRecord r).length ≤ 512) :
    r.write b = .ok ((encRecord r).length,
      ⟨splice b.buf b.pos ((encRecord r).map (· % 256)),
        b.pos + (encRecord r).length⟩) := by
  have henc : encRecord r = encQname d ++ be16 (r.qtype % 65536) ++
      be16 (r.cls % 65536) ++ be32 (r.ttl % 2 ^ 32) ++
      (be16 (be16 (r.priority % 65536) ++ encQname hn).length ++ (be16 (r.priority % 65536) ++ encQname hn)) := by
    unfold encRecord
    rw [if_neg (show ¬ (r.qtype = AQueryType) from by rw [hq]; decide), if_neg (show ¬ (r.qtype = NSQueryType ∨ r.qtype = CNAMEQueryType) from by rw [hq]; decide), if_neg (show ¬ (r.qtype = SOAQueryType) from by rw [hq]; decide), if_pos hq, hdom, Option.getD_some, hhost, Option.getD_some]
  have hRlen : (encRecord r).length = (encQname d).length + (encQname hn).length + 12 := by
    rw [henc]
    simp only [List.length_append, List.length_cons, List.length_nil, be16_length, be32_length, List.length_map]
    try omega
  have L0 : (b.buf : List Nat).length = 512 := hlen
  have L1 : ((splice b.buf b.pos ((encQname d).map (· % 256))) : List Nat).length = 512 := by
    rw [splice_length (by
      rw [L0]
      simp only [List.length_append, List.length_cons, List.length_nil, be16_length, be32_length, List.length_map]
      omega)]
    exact L0
  have e1 : BytePacketBuffer.writeQname b d =
      .ok ⟨(splice b.buf b.pos ((encQname d).map (· % 256))), (b.pos + ((encQname d)).length)⟩ := by
    rw [writeQname_eq_writeList _ hd63]
    exact writeList_ok_of (b := b) (v := (encQname d)) L0
      (show b.pos ≤ 512 from by omega)
      (show (b.pos + ((encQname d)).length) ≤ 512 from by omega)
  have L2 : ((splice (splice b.buf b.pos ((encQname d).map (· % 256))) (b.pos + ((encQname d)).length) ((be16 (r.qtype % 65536)).map (· % 256))) : List Nat).length = 512 := by
    rw [splice_length (by
      rw [L1]
      simp only [List.length_append, List.length_cons, List.length_nil, be16_length, be32_length, List.length_map]
      omega)]
    exact L1
  have e2 : BytePacketBuffer.write16 (⟨(splice b.buf b.pos ((encQname d).map (· % 256))), (b.pos + ((encQname d)).length)⟩ : BytePacketBuffer) (r.qtype % 65536) =
      .ok ⟨(splice (splice b.buf b.pos ((encQname d).map (· % 256))) (b.pos + ((encQname d)).length) ((be16 (r.qtype % 65536)).map (· % 256))), ((b.pos + ((encQname d)).length) + 2)⟩ := by
    rw [write16_eq_writeList]
    exact writeList_ok_of (b := (⟨(splice b.buf b.pos ((encQname d).map (· % 256))), (b.pos + ((encQname d)).length)⟩ : BytePacketBuffer)) (v := (be16 (r.qtype % 65536))) L1
      (show (b.pos + ((encQname d)).length) ≤ 512 from by omega)
      (show ((b.pos + ((encQname d)).length) + 2) ≤ 512 from by omega)
  have L3 : ((splice (splice (splice b.buf b.pos ((encQname d).map (· % 256))) (b.pos + ((encQname d)).length) ((be16 (r.qtype % 65536)).map (· % 256))) ((b.pos + ((encQname d)).length) + 2) ((be16 (r.cls % 65536)).map (· % 256))) : List Nat).length = 512 := by
    rw [splice_length (by
      rw [L2]
      simp only [List.length_append, List.length_cons, List.length_nil, be16_length, be32_length, List.length_map]
      omega)]
    exact L2
  have e3 : BytePacketBuffer.write16 (⟨(splice (splice b.buf b.pos ((encQname d).map (· % 256))) (b.pos + ((encQname d)).length) ((be16 (r.qtype % 65536)).map (· % 256))), ((b.pos + ((encQname d)).length) + 2)⟩ : BytePacketBuffer) (r.cls % 65536) =
      .ok ⟨(splice (splice (splice b.buf b.pos ((encQname d).map (· % 256))) (b.pos + ((encQname d)).length) ((be16 (r.qtype % 65536)).map (· % 256))) ((b.pos + ((encQname d)).length) + 2) ((be16 (r.cls % 65536)).map (· % 256))), (((b.pos + ((encQname d)).length) + 2) + 2)⟩ := by
    rw [write16_eq_writeList]
    exact writeList_ok_of (b := (⟨(splice (splice b.buf b.pos ((encQname d).map (· % 256))) (b.pos + ((encQname d)).length) ((be16 (r.qtype % 65536)).map (· % 256))), ((b.pos + ((encQname d)).length) + 2)⟩ : BytePacketBuffer)) (v := (be16 (r.cls % 65536))) L2
      (show ((b.pos + ((encQname d)).length) + 2) ≤ 512 from by omega)
      (show (((b.pos + ((encQname d)).length) + 2) + 2) ≤ 512 from by omega)
  have L4 : ((splice (splice (splice (splice b.buf b.pos ((encQname d).map (· % 256))) (b.pos + ((encQname d)).length) ((be16 (r.qtype % 65536)).map (· % 256))) ((b.pos + ((encQname d)).length) + 2) ((be16 (r.cls % 65536)).map (· % 256))) (((b.pos + ((encQname d)).length) + 2) + 2) ((be32 (r.ttl % 2 ^ 32)).map (· % 256))) : List Nat).length = 512 := by
    rw [splice_length (by
      rw [L3]
      simp only [List.length_append, List.length_cons, List.length_nil, be16_length, be32_length, List.length_map]
      omega)]
    exact L3
  have e4 : BytePacketBuffer.write32 (⟨(splice (splice (splice b.buf b.pos ((encQname d).map (· % 256))) (b.pos + ((encQname d)).length) ((be16 (r.qtype % 65536)).map (· % 256))) ((b.pos + ((encQname d)).length) + 2) ((be16 (r.cls % 65536)).map (· % 256))), (((b.pos + ((encQname d)).length) + 2) + 2)⟩ : BytePacketBuffer) (r.ttl % 2 ^ 32) =
      .ok ⟨(splice (splice (splice (splice b.buf b.pos ((encQname d).map (· % 256))) (b.pos + ((encQname d)).length) ((be16 (r.qtype % 65536)).map (· % 256))) ((b.pos + ((encQname d)).length) + 2) ((be16 (r.cls % 65536)).map (· % 256))) (((b.pos + ((encQname d)).length) + 2) + 2) ((be32 (r.ttl % 2 ^ 32)).map (· % 256))), ((((b.pos + ((encQname d)).length) + 2) + 2) + 4)⟩ := by
    rw [write32_eq_writeList]
    exact writeList_ok_of (b := (⟨(splice (splice (splice b.buf b.pos ((encQname d).map (· % 256))) (b.pos + ((encQname d)).length) ((be16 (r.qtype % 65536)).map (· % 256))) ((b.pos + ((encQname d)).length) + 2) ((be16 (r.cls % 65536)).map (· % 256))), (((b.pos + ((encQname d)).length) + 2) + 2)⟩ : BytePacketBuffer)) (v := (be32 (r.ttl % 2 ^ 32))) L3
      (show (((b.pos + ((encQname d)).length) + 2) + 2) ≤ 512 from by omega)
      (show ((((b.pos + ((encQname d)).length) + 2) + 2) + 4) ≤ 512 from by omega)
  have L5 : ((splice (splice (splice (splice (splice b.buf b.pos ((encQname d).map (· % 256))) (b.pos + ((encQname d)).length) ((be16 (r.qtype % 65536)).map (· % 256))) ((b.pos + ((encQname d)).length) + 2) ((be16 (r.cls % 65536)).map (· % 256))) (((b.pos + ((encQname d)).length) + 2) + 2) ((be32 (r.ttl % 2 ^ 32)).map (· % 256))) ((((b.pos + ((encQname d)).length) + 2) + 2) + 4) ((be16 0).map (· % 256))) : List Nat).length = 512 := by
    rw [splice_length (by
      rw [L4]
      simp only [List.length_append, List.length_cons, List.length_nil, be16_length, be32_length, List.length_map]
      omega)]
    exact L4
  have e5 : BytePacketBuffer.write16 (⟨(splice (splice (splice (splice b.buf b.pos ((encQname d).map (· % 256))) (b.pos + ((encQname d)).length) ((be16 (r.qtype % 65536)).map (· % 256))) ((b.pos + ((encQname d)).length) + 2) ((be16 (r.cls % 65536)).map (· % 256))) (((b.pos + ((encQname d)).length) + 2) + 2) ((be32 (r.ttl % 2 ^ 32)).map (· % 256))), ((((b.pos + ((encQname d)).length) + 2) + 2) + 4)⟩ : BytePacketBuffer) 0 =
      .ok ⟨(splice (splice (splice (splice (splice b.buf b.pos ((encQname d).map (· % 256))) (b.pos + ((encQname d)).length) ((be16 (r.qtype % 65536)).map (· % 256))) ((b.pos + ((encQname d)).length) + 2) ((be16 (r.cls % 65536)).map (· % 256))) (((b.pos + ((encQname d)).length) + 2) + 2) ((be32 (r.ttl % 2 ^ 32)).map (· % 256))) ((((b.pos + ((encQname d)).length) + 2) + 2) + 4) ((be16 0).map (· % 256))), (((((b.pos + ((encQname d)).length) + 2) + 2) + 4) + 2)⟩ := by
    rw [write16_eq_writeList]
    exact writeList_ok_of (b := (⟨(splice (splice (splice (splice b.buf b.pos ((encQname d).map (· % 256))) (b.pos + ((encQname d)).length) ((be16 (r.qtype % 65536)).map (· % 256))) ((b.pos + ((encQname d)).length) + 2) ((be16 (r.cls % 65536)).map (· % 256))) (((b.pos + ((encQname d)).length) + 2) + 2) ((be32 (r.ttl % 2 ^ 32)).map (· % 256))), ((((b.pos + ((encQname d)).length) + 2) + 2) + 4)⟩ : BytePacketBuffer)) (v := (be16 0)) L4
      (show ((((b.pos + ((encQname d)).length) + 2) + 2) + 4) ≤ 512 from by omega)
      (show (((((b.pos + ((encQname d)).length) + 2) + 2) + 4) + 2) ≤ 512 from by omega)
  have L6 : ((splice (splice (splice (splice (splice (splice b.buf b.pos ((encQname d).map (· % 256))) (b.pos + ((encQname d)).length) ((be16 (r.qtype % 65536)).map (· % 256))) ((b.pos + ((encQname d)).length) + 2) ((be16 (r.cls % 65536)).map (· % 256))) (((b.pos + ((encQname d)).length) + 2) + 2) ((be32 (r.ttl % 2 ^ 32)).map (· % 256))) ((((b.pos + ((encQname d)).length) + 2) + 2) + 4) ((be16 0).map (· % 256))) (((((b.pos + ((encQname d)).length) + 2) + 2) + 4) + 2) ((be16 (r.priority % 65536)).map (· % 256))) : List Nat).length = 512 := by
    rw [splice_length (by
      rw [L5]
      simp only [List.length_append, List.length_cons, List.length_nil, be16_length, be32_length, List.length_map]
      omega)]
    exact L5
  have e6 : BytePacketBuffer.write16 (⟨(splice (splice (splice (splice (splice b.buf b.pos ((encQname d).map (· % 256))) (b.pos + ((encQname d)).length) ((be16 (r.qtype % 65536)).map (· % 256))) ((b.pos + ((encQname d)).length) + 2) ((be16 (r.cls % 65536)).map (· % 256))) (((b.pos + ((encQname d)).length) + 2) + 2) ((be32 (r.ttl % 2 ^ 32)).map (· % 256))) ((((b.pos + ((encQname d)).length) + 2) + 2) + 4) ((be16 0).map (· % 256))), (((((b.pos + ((encQname d)).length) + 2) + 2) + 4) + 2)⟩ : BytePacketBuffer) (r.priority % 65536) =
      .ok ⟨(splice (splice (splice (splice (splice (splice b.buf b.pos ((encQname d).map (· % 256))) (b.pos + ((encQname d)).length) ((be16 (r.qtype % 65536)).map (· % 256))) ((b.pos + ((encQname d)).length) + 2) ((be16 (r.cls % 65536)).map (· % 256))) (((b.pos + ((encQname d)).length) + 2) + 2) ((be32 (r.ttl % 2 ^ 32)).map (· % 256))) ((((b.pos + ((encQname d)).length) + 2) + 2) + 4) ((be16 0).map (· % 256))) (((((b.pos + ((encQname d)).length) + 2) + 2) + 4) + 2) ((be16 (r.priority % 65536)).map (· % 256))), ((((((b.pos + ((encQname d)).length) + 2) + 2) + 4) + 2) + 2)⟩ := by
    rw [write16_eq_writeList]
    exact writeList_ok_of (b := (⟨(splice (splice (splice (splice (splice b.buf b.pos ((encQname d).map (· % 256))) (b.pos + ((encQname d)).length) ((be16 (r.qtype % 65536)).map (· % 256))) ((b.pos + ((encQname d)).length) + 2) ((be16 (r.cls % 65536)).map (· % 256))) (((b.pos + ((encQname d)).length) + 2) + 2) ((be32 (r.ttl % 2 ^ 32)).map (· % 256))) ((((b.pos + ((encQname d)).length) + 2) + 2) + 4) ((be16 0).map (· % 256))), (((((b.pos + ((encQname d)).length) + 2) + 2) + 4) + 2)⟩ : BytePacketBuffer)) (v := (be16 (r.priority % 65536))) L5
      (show (((((b.pos + ((encQname d)).length) + 2) + 2) + 4) + 2) ≤ 512 from by omega)
      (show ((((((b.pos + ((encQname d)).length) + 2) + 2) + 4) + 2) + 2) ≤ 512 from by omega)
  have L7 : ((splice (splice (splice (splice (splice (splice (splice b.buf b.pos ((encQname d).map (· % 256))) (b.pos + ((encQname d)).length) ((be16 (r.qtype % 65536)).map (· % 256))) ((b.pos + ((encQname d)).length) + 2) ((be16 (r.cls % 65536)).map (· % 256))) (((b.pos + ((encQname d)).length) + 2) + 2) ((be32 (r.ttl % 2 ^ 32)).map (· % 256))) ((((b.pos + ((encQname d)).length) + 2) + 2) + 4) ((be16 0).map (· % 256))) (((((b.pos + ((encQname d)).length) + 2) + 2) + 4) + 2) ((be16 (r.priority % 65536)).map (· % 256))) ((((((b.pos + ((encQname d)).length) + 2) + 2) + 4) + 2) + 2) ((encQname hn).map (· % 256))) : List Nat).length = 512 := by
    rw [splice_length (by
      rw [L6]
      simp only [List.length_append, List.length_cons, List.length_nil, be16_length, be32_length, List.length_map]
      omega)]
    exact L6
  have e7 : BytePacketBuffer.writeQname (⟨(splice (splice (splice (splice (splice (splice b.buf b.pos ((encQname d).map (· % 256))) (b.pos + ((encQname d)).length) ((be16 (r.qtype % 65536)).map (· % 256))) ((b.pos + ((encQname d)).length) + 2) ((be16 (r.cls % 65536)).map (· % 256))) (((b.pos + ((encQname d)).length) + 2) + 2) ((be32 (r.ttl % 2 ^ 32)).map (· % 256))) ((((b.pos + ((encQname d)).length) + 2) + 2) + 4) ((be16 0).map (· % 256))) (((((b.pos + ((encQname d)).length) + 2) + 2) + 4) + 2) ((be16 (r.priority % 65536)).map (· % 256))), ((((((b.pos + ((encQname d)).length) + 2) + 2) + 4) + 2) + 2)⟩ : BytePacketBuffer) hn =
      .ok ⟨(splice (splice (splice (splice (splice (splice (splice b.buf b.pos ((encQname d).map (· % 256))) (b.pos + ((encQname d)).length) ((be16 (r.qtype % 65536)).map (· % 256))) ((b.pos + ((encQname d)).length) + 2) ((be16 (r.cls % 65536)).map (· % 256))) (((b.pos + ((encQname d)).length) + 2) + 2) ((be32 (r.ttl % 2 ^ 32)).map (· % 256))) ((((b.pos + ((encQname d)).length) + 2) + 2) + 4) ((be16 0).map (· % 256))) (((((b.pos + ((encQname d)).length) + 2) + 2) + 4) + 2) ((be16 (r.priority % 65536)).map (· % 256))) ((((((b.pos + ((encQname d)).length) + 2) + 2) + 4) + 2) + 2) ((encQname hn).map (· % 256))), (((((((b.pos + ((encQname d)).length) + 2) + 2) + 4) + 2) + 2) + ((encQname hn)).length)⟩ := by
    rw [writeQname_eq_writeList _ hh63]
    exact writeList_ok_of (b := (⟨(splice (splice (splice (splice (splice (splice b.buf b.pos ((encQname d).map (· % 256))) (b.pos + ((encQname d)).length) ((be16 (r.qtype % 65536)).map (· % 256))) ((b.pos + ((encQname d)).length) + 2) ((be16 (r.cls % 65536)).map (· % 256))) (((b.pos + ((encQname d)).length) + 2) + 2) ((be32 (r.ttl % 2 ^ 32)).map (· % 256))) ((((b.pos + ((encQname d)).length) + 2) + 2) + 4) ((be16 0).map (· % 256))) (((((b.pos + ((encQname d)).length) + 2) + 2) + 4) + 2) ((be16 (r.priority % 65536)).map (· % 256))), ((((((b.pos + ((encQname d)).length) + 2) + 2) + 4) + 2) + 2)⟩ : BytePacketBuffer)) (v := (encQname hn)) L6
      (show ((((((b.pos + ((encQname d)).length) + 2) + 2) + 4) + 2) + 2) ≤ 512 from by omega)
      (show (((((((b.pos + ((encQname d)).length) + 2) + 2) + 4) + 2) + 2) + ((encQname hn)).length) ≤ 512 from by omega)
  unfold DNSRecord.write
  rw [hdom, show derefName (some d) = (Except.ok d : Except String (List Nat))
    from rfl, ok_bind]
  rw [e1]
  simp only [ok_bind]
  rw [e2]
  simp only [ok_bind]
  rw [e3]
  simp only [ok_bind]
  rw [e4]
  simp only [ok_bind]
  rw [if_neg (show ¬ (r.qtype = AQueryType) from by rw [hq]; decide), if_neg (show ¬ (r.qtype = NSQueryType) from by rw [hq]; decide), if_neg (show ¬ (r.qtype = CNAMEQueryType) from by rw [hq]; decide), if_neg (show ¬ (r.qtype = SOAQueryType) from by rw [hq]; decide), if_pos hq]
  rw [e5]
  simp only [ok_bind]
  rw [e6]
  simp only [ok_bind]
  rw [hhost, show derefName (some hn) = (Except.ok hn : Except String (List Nat))
    from rfl, ok_bind]
  rw [e7]
  simp only [ok_bind]
  have gp1 : splice (splice (splice (splice (splice (splice (splice b.buf b.pos ((encQname d).map (· % 256))) (b.pos + ((encQname d)).length) ((be16 (r.qtype % 65536)).map (· % 256))) ((b.pos + ((encQname d)).length) + 2) ((be16 (r.cls % 65536)).map (· % 256))) (((b.pos + ((encQname d)).length) + 2) + 2) ((be32 (r.ttl % 2 ^ 32)).map (· % 256))) ((((b.pos + ((encQname d)).length) + 2) + 2) + 4) ((be16 0).map (· % 256))) (((((b.pos + ((encQname d)).length) + 2) + 2) + 4) + 2) ((be16 (r.priority % 65536)).map (· % 256)))
      ((((((b.pos + ((encQname d)).length) + 2) + 2) + 4) + 2) + 2) ((encQname hn).map (· % 256)) =
      splice (splice (splice (splice (splice (splice b.buf b.pos ((encQname d).map (· % 256))) (b.pos + ((encQname d)).length) ((be16 (r.qtype % 65536)).map (· % 256))) ((b.pos + ((encQname d)).length) + 2) ((be16 (r.cls % 65536)).map (· % 256))) (((b.pos + ((encQname d)).length) + 2) + 2) ((be32 (r.ttl % 2 ^ 32)).map (· % 256))) ((((b.pos + ((encQname d)).length) + 2) + 2) + 4) ((be16 0).map (· % 256))) (((((b.pos + ((encQname d)).length) + 2) + 2) + 4) + 2) (((be16 (r.priority % 65536)) ++ (encQname hn)).map (· % 256)) :=
    splice_splice_map (by
      rw [L5]
      simp only [List.length_append, List.length_cons, List.length_nil, be16_length, be32_length, List.length_map]
      omega)
  rw [gp1]
  have gp2 : splice (splice (splice (splice (splice (splice b.buf b.pos ((encQname d).map (· % 256))) (b.pos + ((encQname d)).length) ((be16 (r.qtype % 65536)).map (· % 256))) ((b.pos + ((encQname d)).length) + 2) ((be16 (r.cls % 65536)).map (· % 256))) (((b.pos + ((encQname d)).length) + 2) + 2) ((be32 (r.ttl % 2 ^ 32)).map (· % 256))) ((((b.pos + ((encQname d)).length) + 2) + 2) + 4) ((be16 0).map (· % 256)))
      (((((b.pos + ((encQname d)).length) + 2) + 2) + 4) + 2) (((be16 (r.priority % 65536)) ++ (encQname hn)).map (· % 256)) =
      splice (splice (splice (splice (splice b.buf b.pos ((encQname d).map (· % 256))) (b.pos + ((encQname d)).length) ((be16 (r.qtype % 65536)).map (· % 256))) ((b.pos + ((encQname d)).length) + 2) ((be16 (r.cls % 65536)).map (· % 256))) (((b.pos + ((encQname d)).length) + 2) + 2) ((be32 (r.ttl % 2 ^ 32)).map (· % 256))) ((((b.pos + ((encQname d)).length) + 2) + 2) + 4) (((be16 0) ++ ((be16 (r.priority % 65536)) ++ (encQname hn))).map (· % 256)) :=
    splice_splice_map (by
      rw [L4]
      simp only [List.length_append, List.length_cons, List.length_nil, be16_length, be32_length, List.length_map]
      omega)
  rw [gp2]
  have eset : BytePacketBuffer.set16
      (⟨splice (splice (splice (splice (splice b.buf b.pos ((encQname d).map (· % 256))) (b.pos + ((encQname d)).length) ((be16 (r.qtype % 65536)).map (· % 256))) ((b.pos + ((encQname d)).length) + 2) ((be16 (r.cls % 65536)).map (· % 256))) (((b.pos + ((encQname d)).length) + 2) + 2) ((be32 (r.ttl % 2 ^ 32)).map (· % 256))) ((((b.pos + ((encQname d)).length) + 2) + 2) + 4) (((be16 0) ++ ((be16 (r.priority % 65536)) ++ (encQname hn))).map (· % 256)), (((((((b.pos + ((encQname d)).length) + 2) + 2) + 4) + 2) + 2) + ((encQname hn)).length)⟩ : BytePacketBuffer)
      ((((b.pos + ((encQname d)).length) + 2) + 2) + 4) (((((((((b.pos + ((encQname d)).length) + 2) + 2) + 4) + 2) + 2) + ((encQname hn)).length) - (((((b.pos + ((encQname d)).length) + 2) + 2) + 4) + 2)) % 65536) =
      some ⟨splice (splice (splice (splice (splice b.buf b.pos ((encQname d).map (· % 256))) (b.pos + ((encQname d)).length) ((be16 (r.qtype % 65536)).map (· % 256))) ((b.pos + ((encQname d)).length) + 2) ((be16 (r.cls % 65536)).map (· % 256))) (((b.pos + ((encQname d)).length) + 2) + 2) ((be32 (r.ttl % 2 ^ 32)).map (· % 256))) ((((b.pos + ((encQname d)).length) + 2) + 2) + 4)
        (((((((((b.pos + ((encQname d)).length) + 2) + 2) + 4) + 2) + 2) + ((encQname hn)).length) - (((((b.pos + ((encQname d)).length) + 2) + 2) + 4) + 2)) % 65536 / 256 % 256 :: ((((((((b.pos + ((encQname d)).length) + 2) + 2) + 4) + 2) + 2) + ((encQname hn)).length) - (((((b.pos + ((encQname d)).length) + 2) + 2) + 4) + 2)) % 65536 % 256 :: (((be16 (r.priority % 65536) ++ encQname hn).map (· % 256)))), (((((((b.pos + ((encQname d)).length) + 2) + 2) + 4) + 2) + 2) + ((encQname hn)).length)⟩ := by
    refine set16_splice0 _ ?_
    rw [L4]
    simp only [List.length_cons, List.length_map, List.length_append,
      List.nil_append, List.cons_append, List.append_eq, be16_length,
      be32_length]
    omega
  rw [eset]
  dsimp only
  rw [show (((((((b.pos + ((encQname d)).length) + 2) + 2) + 4) + 2) + 2) + ((encQname hn)).length) - (((((b.pos + ((encQname d)).length) + 2) + 2) + 4) + 2) = (be16 (r.priority % 65536) ++ encQname hn).length from by
    try simp only [List.length_append, List.length_cons, List.length_nil, be16_length, be32_length, List.length_map]
    omega]
  rw [mod65536_div256, mod65536_mod256]
  rw [show (be16 (r.priority % 65536) ++ encQname hn).length / 256 % 256 :: (be16 (r.priority % 65536) ++ encQname hn).length % 256 :: (((be16 (r.priority % 65536) ++ encQname hn).map (· % 256))) =
      ((be16 ((be16 (r.priority % 65536) ++ encQname hn).length) ++ (be16 (r.priority % 65536) ++ encQname hn)).map (· % 256)) from by
    simp [be16, mod256_mod256, List.map_append, List.append_assoc]]
  have gh1 : splice (splice (splice (splice (splice b.buf b.pos ((encQname d).map (· % 256))) (b.pos + ((encQname d)).length) ((be16 (r.qtype % 65536)).map (· % 256))) ((b.pos + ((encQname d)).length) + 2) ((be16 (r.cls % 65536)).map (· % 256))) (((b.pos + ((encQname d)).length) + 2) + 2) ((be32 (r.ttl % 2 ^ 32)).map (· % 256)))
      ((((b.pos + ((encQname d)).length) + 2) + 2) + 4) ((be16 ((be16 (r.priority % 65536) ++ encQname hn).length) ++ (be16 (r.priority % 65536) ++ encQname hn)).map (· % 256)) =
      splice (splice (splice (splice b.buf b.pos ((encQname d).map (· % 256))) (b.pos + ((encQname d)).length) ((be16 (r.qtype % 65536)).map (· % 256))) ((b.pos + ((encQname d)).length) + 2) ((be16 (r.cls % 65536)).map (· % 256))) (((b.pos + ((encQname d)).length) + 2) + 2) (((be32 (r.ttl % 2 ^ 32)) ++ (be16 ((be16 (r.priority % 65536) ++ encQname hn).length) ++ (be16 (r.priority % 65536) ++ encQname hn))).map (· % 256)) :=
    splice_splice_map (by
      rw [L3]
      simp only [List.length_append, List.length_cons, List.length_nil, be16_length, be32_length, List.length_map]
      omega)
  rw [gh1]
  have gh2 : splice (splice (splice (splice b.buf b.pos ((encQname d).map (· % 256))) (b.pos + ((encQname d)).length) ((be16 (r.qtype % 65536)).map (· % 256))) ((b.pos + ((encQname d)).length) + 2) ((be16 (r.cls % 65536)).map (· % 256)))
      (((b.pos + ((encQname d)).length) + 2) + 2) (((be32 (r.ttl % 2 ^ 32)) ++ (be16 ((be16 (r.priority % 65536) ++ encQname hn).length) ++ (be16 (r.priority % 65536) ++ encQname hn))).map (· % 256)) =
      splice (splice (splice b.buf b.pos ((encQname d).map (· % 256))) (b.pos + ((encQname d)).length) ((be16 (r.qtype % 65536)).map (· % 256))) ((b.pos + ((encQname d)).length) + 2) (((be16 (r.cls % 65536)) ++ ((be32 (r.ttl % 2 ^ 32)) ++ (be16 ((be16 (r.priority % 65536) ++ encQname hn).length) ++ (be16 (r.priority % 65536) ++ encQname hn)))).map (· % 256)) :=
    splice_splice_map (by
      rw [L2]
      simp only [List.length_append, List.length_cons, List.length_nil, be16_length, be32_length, List.length_map]
      omega)
  rw [gh2]
  have gh3 : splice (splice (splice b.buf b.pos ((encQname d).map (· % 256))) (b.pos + ((encQname d)).length) ((be16 (r.qtype % 65536)).map (· % 256)))
      ((b.pos + ((encQname d)).length) + 2) (((be16 (r.cls % 65536)) ++ ((be32 (r.ttl % 2 ^ 32)) ++ (be16 ((be16 (r.priority % 65536) ++ encQname hn).length) ++ (be16 (r.priority % 65536) ++ encQname hn)))).map (· % 256)) =
      splice (splice b.buf b.pos ((encQname d).map (· % 256))) (b.pos + ((encQname d)).length) (((be16 (r.qtype % 65536)) ++ ((be16 (r.cls % 65536)) ++ ((be32 (r.ttl % 2 ^ 32)) ++ (be16 ((be16 (r.priority % 65536) ++ encQname hn).length) ++ (be16 (r.priority % 65536) ++ encQname hn))))).map (· % 256)) :=
    splice_splice_map (by
      rw [L1]
      simp only [List.length_append, List.length_cons, List.length_nil, be16_length, be32_length, List.length_map]
      omega)
  rw [gh3]
  have gh4 : splice (splice b.buf b.pos ((encQname d).map (· % 256)))
      (b.pos + ((encQname d)).length) (((be16 (r.qtype % 65536)) ++ ((be16 (r.cls % 65536)) ++ ((be32 (r.ttl % 2 ^ 32)) ++ (be16 ((be16 (r.priority % 65536) ++ encQname hn).length) ++ (be16 (r.priority % 65536) ++ encQname hn))))).map (· % 256)) =
      splice b.buf b.pos (((encQname d) ++ ((be16 (r.qtype % 65536)) ++ ((be16 (r.cls % 65536)) ++ ((be32 (r.ttl % 2 ^ 32)) ++ (be16 ((be16 (r.priority % 65536) ++ encQname hn).length) ++ (be16 (r.priority % 65536) ++ encQname hn)))))).map (· % 256)) :=
    splice_splice_map (by
      rw [L0]
      simp only [List.length_append, List.length_cons, List.length_nil, be16_length, be32_length, List.length_map]
      omega)
  rw [gh4]
  rw [show ((encQname d) ++ ((be16 (r.qtype % 65536)) ++ ((be16 (r.cls % 65536)) ++ ((be32 (r.ttl % 2 ^ 32)) ++ (be16 ((be16 (r.priority % 65536) ++ encQname hn).length) ++ (be16 (r.priority % 65536) ++ encQname hn)))))) = encRecord r from by
    rw [henc]
    simp [List.append_assoc]]
  rw [show (((((((b.pos + ((encQname d)).length) + 2) + 2) + 4) + 2) + 2) + ((encQname hn)).length) - b.pos = (encRecord r).length from by
    rw [hRlen]
    try simp only [List.length_append, List.length_cons, List.length_nil, be16_length, be32_length, List.length_map]
    omega]
  rw [show (((((((b.pos + ((encQname d)).length) + 2) + 2) + 4) + 2) + 2) + ((encQname hn)).length) = b.pos + (encRecord r).length from by
    rw [hRlen]
    try simp only [List.length_append, List.length_cons, List.length_nil, be16_length, be32_length, List.length_map]
    omega]

/-- DNSRecord.Write of an AAAA record in decoder shape: RDLENGTH 16 and
the sixteen address octets are spliced in after the common head. -/
theorem recordWrite_AAAA_ok {r : DNSRecord} {b : BytePacketBuffer}
    {d a : List Nat}
    (hq : r.qtype = AAAAQueryType) (hdom : r.domain = some d)
    (haddr : r.addr = some a) (ha16 : a.length = 16)
    (hd63 : ∀ lab ∈ splitDot d, lab.length ≤ 63)
    (hlen : b.buf.length = 512) (hpos : b.pos ≤ 512)
    (hfit : b.pos + (encRecord r).length ≤ 512) :
    r.write b = .ok ((encRecord r).length,
      ⟨splice b.buf b.pos ((encRecord r).map (· % 256)),
        b.pos + (encRecord r).length⟩) := by
  have henc : encRecord r = encQname d ++ be16 (r.qtype % 65536) ++
      be16 (r.cls % 65536) ++ be32 (r.ttl % 2 ^ 32) ++
      (be16 16 ++ a) := by
    unfold encRecord
    rw [if_neg (show ¬ (r.qtype = AQueryType) from by rw [hq]; decide),
      if_neg (show ¬ (r.qtype = NSQueryType ∨ r.qtype = CNAMEQueryType) from by
        rw [hq]; decide),
      if_neg (show ¬ (r.qtype = SOAQueryType) from by rw [hq]; decide),
      if_neg (show ¬ (r.qtype = MXQueryType) from by rw [hq]; decide),
      if_pos hq, hdom, Option.getD_some, haddr, Option.getD_some,
      ipTo16_of_len16 ha16]
  have hRlen : (encRecord r).length = (encQname d).length + 26 := by
    rw [henc]
    simp only [List.length_append, List.length_cons, List.length_nil, be16_length, be32_length, List.length_map]
    try omega
  have L0 : (b.buf : List Nat).length = 512 := hlen
  have L1 : ((splice b.buf b.pos ((encQname d).map (· % 256))) : List Nat).length = 512 := by
    rw [splice_length (by
      rw [L0]
      simp only [List.length_append, List.length_cons, List.length_nil, be16_length, be32_length, List.length_map]
      omega)]
    exact L0
  have e1 : BytePacketBuffer.writeQname b d =
      .ok ⟨(splice b.buf b.pos ((encQname d).map (· % 256))), (b.pos + ((encQname d)).length)⟩ := by
    rw [writeQname_eq_writeList _ hd63]
    exact writeList_ok_of (b := b) (v := (encQname d)) L0
      (show b.pos ≤ 512 from by omega)
      (show (b.pos + ((encQname d)).length) ≤ 512 from by omega)
  have L2 : ((splice (splice b.buf b.pos ((encQname d).map (· % 256))) (b.pos + ((encQname d)).length) ((be16 (r.qtype % 65536)).map (· % 256))) : List Nat).length = 512 := by
    rw [splice_length (by
      rw [L1]
      simp only [List.length_append, List.length_cons, List.length_nil, be16_length, be32_length, List.length_map]
      omega)]
    exact L1
  have e2 : BytePacketBuffer.write16 (⟨(splice b.buf b.pos ((encQname d).map (· % 256))), (b.pos + ((encQname d)).length)⟩ : BytePacketBuffer) (r.qtype % 65536) =
      .ok ⟨(splice (splice b.buf b.pos ((encQname d).map (· % 256))) (b.pos + ((encQname d)).length) ((be16 (r.qtype % 65536)).map (· % 256))), ((b.pos + ((encQname d)).length) + 2)⟩ := by
    rw [write16_eq_writeList]
    exact writeList_ok_of (b := (⟨(splice b.buf b.pos ((encQname d).map (· % 256))), (b.pos + ((encQname d)).length)⟩ : BytePacketBuffer)) (v := (be16 (r.qtype % 65536))) L1
      (show (b.pos + ((encQname d)).length) ≤ 512 from by omega)
      (show ((b.pos + ((encQname d)).length) + 2) ≤ 512 from by omega)
  have L3 : ((splice (splice (splice b.buf b.pos ((encQname d).map (· % 256))) (b.pos + ((encQname d)).length) ((be16 (r.qtype % 65536)).map (· % 256))) ((b.pos + ((encQname d)).length) + 2) ((be16 (r.cls % 65536)).map (· % 256))) : List Nat).length = 512 := by
    rw [splice_length (by
      rw [L2]
      simp only [List.length_append, List.length_cons, List.length_nil, be16_length, be32_length, List.length_map]
      omega)]
    exact L2
  have e3 : BytePacketBuffer.write16 (⟨(splice (splice b.buf b.pos ((encQname d).map (· % 256))) (b.pos + ((encQname d)).length) ((be16 (r.qtype % 65536)).map (· % 256))), ((b.pos + ((encQname d)).length) + 2)⟩ : BytePacketBuffer) (r.cls % 65536) =
      .ok ⟨(splice (splice (splice b.buf b.pos ((encQname d).map (· % 256))) (b.pos + ((encQname d)).length) ((be16 (r.qtype % 65536)).map (· % 256))) ((b.pos + ((encQname d)).length) + 2) ((be16 (r.cls % 65536)).map (· % 256))), (((b.pos + ((encQname d)).length) + 2) + 2)⟩ := by
    rw [write16_eq_writeList]
    exact writeList_ok_of (b := (⟨(splice (splice b.buf b.pos ((encQname d).map (· % 256))) (b.pos + ((encQname d)).length) ((be16 (r.qtype % 65536)).map (· % 256))), ((b.pos + ((encQname d)).length) + 2)⟩ : BytePacketBuffer)) (v := (be16 (r.cls % 65536))) L2
      (show ((b.pos + ((encQname d)).length) + 2) ≤ 512 from by omega)
      (show (((b.pos + ((encQname d)).length) + 2) + 2) ≤ 512 from by omega)
  have L4 : ((splice (splice (splice (splice b.buf b.pos ((encQname d).map (· % 256))) (b.pos + ((encQname d)).length) ((be16 (r.qtype % 65536)).map (· % 256))) ((b.pos + ((encQname d)).length) + 2) ((be16 (r.cls % 65536)).map (· % 256))) (((b.pos + ((encQname d)).length) + 2) + 2) ((be32 (r.ttl % 2 ^ 32)).map (· % 256))) : List Nat).length = 512 := by
    rw [splice_length (by
      rw [L3]
      simp only [List.length_append, List.length_cons, List.length_nil, be16_length, be32_length, List.length_map]
      omega)]
    exact L3
  have e4 : BytePacketBuffer.write32 (⟨(splice (splice (splice b.buf b.pos ((encQname d).map (· % 256))) (b.pos + ((encQname d)).length) ((be16 (r.qtype % 65536)).map (· % 256))) ((b.pos + ((encQname d)).length) + 2) ((be16 (r.cls % 65536)).map (· % 256))), (((b.pos + ((encQname d)).length) + 2) + 2)⟩ : BytePacketBuffer) (r.ttl % 2 ^ 32) =
      .ok ⟨(splice (splice (splice (splice b.buf b.pos ((encQname d).map (· % 256))) (b.pos + ((encQname d)).length) ((be16 (r.qtype % 65536)).map (· % 256))) ((b.pos + ((encQname d)).length) + 2) ((be16 (r.cls % 65536)).map (· % 256))) (((b.pos + ((encQname d)).length) + 2) + 2) ((be32 (r.ttl % 2 ^ 32)).map (· % 256))), ((((b.pos + ((encQname d)).length) + 2) + 2) + 4)⟩ := by
    rw [write32_eq_writeList]
    exact writeList_ok_of (b := (⟨(splice (splice (splice b.buf b.pos ((encQname d).map (· % 256))) (b.pos + ((encQname d)).length) ((be16 (r.qtype % 65536)).map (· % 256))) ((b.pos + ((encQname d)).length) + 2) ((be16 (r.cls % 65536)).map (· % 256))), (((b.pos + ((encQname d)).length) + 2) + 2)⟩ : BytePacketBuffer)) (v := (be32 (r.ttl % 2 ^ 32))) L3
      (show (((b.pos + ((encQname d)).length) + 2) + 2) ≤ 512 from by omega)
      (show ((((b.pos + ((encQname d)).length) + 2) + 2) + 4) ≤ 512 from by omega)
  have L5 : ((splice (splice (splice (splice (splice b.buf b.pos ((encQname d).map (· % 256))) (b.pos + ((encQname d)).length) ((be16 (r.qtype % 65536)).map (· % 256))) ((b.pos + ((encQname d)).length) + 2) ((be16 (r.cls % 65536)).map (· % 256))) (((b.pos + ((encQname d)).length) + 2) + 2) ((be32 (r.ttl % 2 ^ 32)).map (· % 256))) ((((b.pos + ((encQname d)).length) + 2) + 2) + 4) ((be16 16).map (· % 256))) : List Nat).length = 512 := by
    rw [splice_length (by
      rw [L4]
      simp only [List.length_append, List.length_cons, List.length_nil, be16_length, be32_length, List.length_map]
      omega)]
    exact L4
  have e5 : BytePacketBuffer.write16 (⟨(splice (splice (splice (splice b.buf b.pos ((encQname d).map (· % 256))) (b.pos + ((encQname d)).length) ((be16 (r.qtype % 65536)).map (· % 256))) ((b.pos + ((encQname d)).length) + 2) ((be16 (r.cls % 65536)).map (· % 256))) (((b.pos + ((encQname d)).length) + 2) + 2) ((be32 (r.ttl % 2 ^ 32)).map (· % 256))), ((((b.pos + ((encQname d)).length) + 2) + 2) + 4)⟩ : BytePacketBuffer) 16 =
      .ok ⟨(splice (splice (splice (splice (splice b.buf b.pos ((encQname d).map (· % 256))) (b.pos + ((encQname d)).length) ((be16 (r.qtype % 65536)).map (· % 256))) ((b.pos + ((encQname d)).length) + 2) ((be16 (r.cls % 65536)).map (· % 256))) (((b.pos + ((encQname d)).length) + 2) + 2) ((be32 (r.ttl % 2 ^ 32)).map (· % 256))) ((((b.pos + ((encQname d)).length) + 2) + 2) + 4) ((be16 16).map (· % 256))), (((((b.pos + ((encQname d)).length) + 2) + 2) + 4) + 2)⟩ := by
    rw [write16_eq_writeList]
    exact writeList_ok_of (b := (⟨(splice (splice (splice (splice b.buf b.pos ((encQname d).map (· % 256))) (b.pos + ((encQname d)).length) ((be16 (r.qtype % 65536)).map (· % 256))) ((b.pos + ((encQname d)).length) + 2) ((be16 (r.cls % 65536)).map (· % 256))) (((b.pos + ((encQname d)).length) + 2) + 2) ((be32 (r.ttl % 2 ^ 32)).map (· % 256))), ((((b.pos + ((encQname d)).length) + 2) + 2) + 4)⟩ : BytePacketBuffer)) (v := (be16 16)) L4
      (show ((((b.pos + ((encQname d)).length) + 2) + 2) + 4) ≤ 512 from by omega)
      (show (((((b.pos + ((encQname d)).length) + 2) + 2) + 4) + 2) ≤ 512 from by omega)
  have L6 : ((splice (splice (splice (splice (splice (splice b.buf b.pos ((encQname d).map (· % 256))) (b.pos + ((encQname d)).length) ((be16 (r.qtype % 65536)).map (· % 256))) ((b.pos + ((encQname d)).length) + 2) ((be16 (r.cls % 65536)).map (· % 256))) (((b.pos + ((encQname d)).length) + 2) + 2) ((be32 (r.ttl % 2 ^ 32)).map (· % 256))) ((((b.pos + ((encQname d)).length) + 2) + 2) + 4) ((be16 16).map (· % 256))) (((((b.pos + ((encQname d)).length) + 2) + 2) + 4) + 2) (a.map (· % 256))) : List Nat).length = 512 := by
    rw [splice_length (by
      rw [L5]
      simp only [List.length_append, List.length_cons, List.length_nil, be16_length, be32_length, List.length_map]
      omega)]
    exact L5
  have e6 : List.foldlM (fun (b : BytePacketBuffer) bt => b.write8 bt) (⟨(splice (splice (splice (splice (splice b.buf b.pos ((encQname d).map (· % 256))) (b.pos + ((encQname d)).length) ((be16 (r.qtype % 65536)).map (· % 256))) ((b.pos + ((encQname d)).length) + 2) ((be16 (r.cls % 65536)).map (· % 256))) (((b.pos + ((encQname d)).length) + 2) + 2) ((be32 (r.ttl % 2 ^ 32)).map (· % 256))) ((((b.pos + ((encQname d)).length) + 2) + 2) + 4) ((be16 16).map (· % 256))), (((((b.pos + ((encQname d)).length) + 2) + 2) + 4) + 2)⟩ : BytePacketBuffer) a =
      .ok ⟨(splice (splice (splice (splice (splice (splice b.buf b.pos ((encQname d).map (· % 256))) (b.pos + ((encQname d)).length) ((be16 (r.qtype % 65536)).map (· % 256))) ((b.pos + ((encQname d)).length) + 2) ((be16 (r.cls % 65536)).map (· % 256))) (((b.pos + ((encQname d)).length) + 2) + 2) ((be32 (r.ttl % 2 ^ 32)).map (· % 256))) ((((b.pos + ((encQname d)).length) + 2) + 2) + 4) ((be16 16).map (· % 256))) (((((b.pos + ((encQname d)).length) + 2) + 2) + 4) + 2) (a.map (· % 256))), ((((((b.pos + ((encQname d)).length) + 2) + 2) + 4) + 2) + (a).length)⟩ := by
    exact writeList_ok_of (b := (⟨(splice (splice (splice (splice (splice b.buf b.pos ((encQname d).map (· % 256))) (b.pos + ((encQname d)).length) ((be16 (r.qtype % 65536)).map (· % 256))) ((b.pos + ((encQname d)).length) + 2) ((be16 (r.cls % 65536)).map (· % 256))) (((b.pos + ((encQname d)).length) + 2) + 2) ((be32 (r.ttl % 2 ^ 32)).map (· % 256))) ((((b.pos + ((encQname d)).length) + 2) + 2) + 4) ((be16 16).map (· % 256))), (((((b.pos + ((encQname d)).length) + 2) + 2) + 4) + 2)⟩ : BytePacketBuffer)) (v := a) L5
      (show (((((b.pos + ((encQname d)).length) + 2) + 2) + 4) + 2) ≤ 512 from by omega)
      (show ((((((b.pos + ((encQname d)).length) + 2) + 2) + 4) + 2) + (a).length) ≤ 512 from by omega)
  unfold DNSRecord.write
  rw [hdom, show derefName (some d) = (Except.ok d : Except String (List Nat))
    from rfl, ok_bind]
  rw [e1]
  simp only [ok_bind]
  rw [e2]
  simp only [ok_bind]
  rw [e3]
  simp only [ok_bind]
  rw [e4]
  simp only [ok_bind]
  rw [if_neg (show ¬ (r.qtype = AQueryType) from by rw [hq]; decide),
    if_neg (show ¬ (r.qtype = NSQueryType) from by rw [hq]; decide),
    if_neg (show ¬ (r.qtype = CNAMEQueryType) from by rw [hq]; decide),
    if_neg (show ¬ (r.qtype = SOAQueryType) from by rw [hq]; decide),
    if_neg (show ¬ (r.qtype = MXQueryType) from by rw [hq]; decide),
    if_pos hq]
  rw [e5]
  simp only [ok_bind]
  rw [haddr, show derefName (some a) = (Except.ok a : Except String (List Nat))
    from rfl, ok_bind]
  rw [ipTo16_of_len16 ha16]
  rw [e6]
  simp only [ok_bind]
  have g1 : splice (splice (splice (splice (splice (splice b.buf b.pos ((encQname d).map (· % 256))) (b.pos + ((encQname d)).length) ((be16 (r.qtype % 65536)).map (· % 256))) ((b.pos + ((encQname d)).length) + 2) ((be16 (r.cls % 65536)).map (· % 256))) (((b.pos + ((encQname d)).length) + 2) + 2) ((be32 (r.ttl % 2 ^ 32)).map (· % 256))) ((((b.pos + ((encQname d)).length) + 2) + 2) + 4) ((be16 16).map (· % 256)))
      (((((b.pos + ((encQname d)).length) + 2) + 2) + 4) + 2) (a.map (· % 256)) =
      splice (splice (splice (splice (splice b.buf b.pos ((encQname d).map (· % 256))) (b.pos + ((encQname d)).length) ((be16 (r.qtype % 65536)).map (· % 256))) ((b.pos + ((encQname d)).length) + 2) ((be16 (r.cls % 65536)).map (· % 256))) (((b.pos + ((encQname d)).length) + 2) + 2) ((be32 (r.ttl % 2 ^ 32)).map (· % 256))) ((((b.pos + ((encQname d)).length) + 2) + 2) + 4) (((be16 16) ++ a).map (· % 256)) :=
    splice_splice_map (by
      rw [L4]
      simp only [List.length_append, List.length_cons, List.length_nil, be16_length, be32_length, List.length_map]
      omega)
  rw [g1]
  have g2 : splice (splice (splice (splice (splice b.buf b.pos ((encQname d).map (· % 256))) (b.pos + ((encQname d)).length) ((be16 (r.qtype % 65536)).map (· % 256))) ((b.pos + ((encQname d)).length) + 2) ((be16 (r.cls % 65536)).map (· % 256))) (((b.pos + ((encQname d)).length) + 2) + 2) ((be32 (r.ttl % 2 ^ 32)).map (· % 256)))
      ((((b.pos + ((encQname d)).length) + 2) + 2) + 4) (((be16 16) ++ a).map (· % 256)) =
      splice (splice (splice (splice b.buf b.pos ((encQname d).map (· % 256))) (b.pos + ((encQname d)).length) ((be16 (r.qtype % 65536)).map (· % 256))) ((b.pos + ((encQname d)).length) + 2) ((be16 (r.cls % 65536)).map (· % 256))) (((b.pos + ((encQname d)).length) + 2) + 2) (((be32 (r.ttl % 2 ^ 32)) ++ ((be16 16) ++ a)).map (· % 256)) :=
    splice_splice_map (by
      rw [L3]
      simp only [List.length_append, List.length_cons, List.length_nil, be16_length, be32_length, List.length_map]
      omega)
  rw [g2]
  have g3 : splice (splice (splice (splice b.buf b.pos ((encQname d).map (· % 256))) (b.pos + ((encQname d)).length) ((be16 (r.qtype % 65536)).map (· % 256))) ((b.pos + ((encQname d)).length) + 2) ((be16 (r.cls % 65536)).map (· % 256)))
      (((b.pos + ((encQname d)).length) + 2) + 2) (((be32 (r.ttl % 2 ^ 32)) ++ ((be16 16) ++ a)).map (· % 256)) =
      splice (splice (splice b.buf b.pos ((encQname d).map (· % 256))) (b.pos + ((encQname d)).length) ((be16 (r.qtype % 65536)).map (· % 256))) ((b.pos + ((encQname d)).length) + 2) (((be16 (r.cls % 65536)) ++ ((be32 (r.ttl % 2 ^ 32)) ++ ((be16 16) ++ a))).map (· % 256)) :=
    splice_splice_map (by
      rw [L2]
      simp only [List.length_append, List.length_cons, List.length_nil, be16_length, be32_length, List.length_map]
      omega)
  rw [g3]
  have g4 : splice (splice (splice b.buf b.pos ((encQname d).map (· % 256))) (b.pos + ((encQname d)).length) ((be16 (r.qtype % 65536)).map (· % 256)))
      ((b.pos + ((encQname d)).length) + 2) (((be16 (r.cls % 65536)) ++ ((be32 (r.ttl % 2 ^ 32)) ++ ((be16 16) ++ a))).map (· % 256)) =
      splice (splice b.buf b.pos ((encQname d).map (· % 256))) (b.pos + ((encQname d)).length) (((be16 (r.qtype % 65536)) ++ ((be16 (r.cls % 65536)) ++ ((be32 (r.ttl % 2 ^ 32)) ++ ((be16 16) ++ a)))).map (· % 256)) :=
    splice_splice_map (by
      rw [L1]
      simp only [List.length_append, List.length_cons, List.length_nil, be16_length, be32_length, List.length_map]
      omega)
  rw [g4]
  have g5 : splice (splice b.buf b.pos ((encQname d).map (· % 256)))
      (b.pos + ((encQname d)).length) (((be16 (r.qtype % 65536)) ++ ((be16 (r.cls % 65536)) ++ ((be32 (r.ttl % 2 ^ 32)) ++ ((be16 16) ++ a)))).map (· % 256)) =
      splice b.buf b.pos (((encQname d) ++ ((be16 (r.qtype % 65536)) ++ ((be16 (r.cls % 65536)) ++ ((be32 (r.ttl % 2 ^ 32)) ++ ((be16 16) ++ a))))).map (· % 256)) :=
    splice_splice_map (by
      rw [L0]
      simp only [List.length_append, List.length_cons, List.length_nil, be16_length, be32_length, List.length_map]
      omega)
  rw [g5]
  rw [show ((encQname d) ++ ((be16 (r.qtype % 65536)) ++ ((be16 (r.cls % 65536)) ++ ((be32 (r.ttl % 2 ^ 32)) ++ ((be16 16) ++ a))))) = encRecord r from by
    rw [henc]
    simp [List.append_assoc]]
  rw [show ((((((b.pos + ((encQname d)).length) + 2) + 2) + 4) + 2) + (a).length) - b.pos = (encRecord r).length from by
    rw [hRlen]
    try simp only [List.length_append, List.length_cons, List.length_nil, be16_length, be32_length, List.length_map]
    omega]
  rw [show ((((((b.pos + ((encQname d)).length) + 2) + 2) + 4) + 2) + (a).length) = b.pos + (encRecord r).length from by
    rw [hRlen]
    try simp only [List.length_append, List.length_cons, List.length_nil, be16_length, be32_length, List.length_map]
    omega]

-- END RECORD BRANCHES

/-- DNSRecord.Write of any record in decoder shape: the encoding is
spliced in at the cursor and the returned count is its length. -/
theorem recordWrite_ok {r : DNSRecord} {b : BytePacketBuffer}
    (hgood : goodRecord r) (hlen : b.buf.length = 512) (hpos : b.pos ≤ 512)
    (hfit : b.pos + (encRecord r).length ≤ 512) :
    r.write b = .ok ((encRecord r).length,
      ⟨splice b.buf b.pos ((encRecord r).map (· % 256)),
        b.pos + (encRecord r).length⟩) := by
  obtain ⟨hdom, hdgood, hcls, httl, hcase⟩ := hgood
  obtain ⟨d, hd⟩ := Option.ne_none_iff_exists'.mp hdom
  rw [hd] at hdgood
  simp only [Option.getD_some] at hdgood
  obtain ⟨hdg1, hdg2⟩ := hdgood
  have hd63 : ∀ lab ∈ splitDot d, lab.length ≤ 63 :=
    fun lab hx => (hdg1 lab hx).2
  rcases hcase with ⟨hq, haddr, ha16, htake, hbytes, hh, hm, hsoa, hpr⟩ |
    ⟨hq2, hhost, haddr, hm, hsoa, hpr⟩ |
    ⟨hq, hhost, hmail, hmg, haddr, h1, h2, h3, h4, h5, hpr⟩ |
    ⟨hq, hhost, hprio, haddr, hm, hsoa⟩ |
    ⟨hq, haddr, ha16, hbytes, hh, hm, hsoa, hpr⟩
  · obtain ⟨a, ha⟩ := Option.ne_none_iff_exists'.mp haddr
    rw [ha] at ha16 htake
    simp only [Option.getD_some] at ha16 htake
    exact recordWrite_A_ok hq hd ha ha16 htake hd63 hlen hpos hfit
  · obtain ⟨hhne, hhgood⟩ := hhost
    obtain ⟨hn, hh⟩ := Option.ne_none_iff_exists'.mp hhne
    rw [hh] at hhgood
    simp only [Option.getD_some] at hhgood
    obtain ⟨hhg1, hhg2⟩ := hhgood
    have hh63 : ∀ lab ∈ splitDot hn, lab.length ≤ 63 :=
      fun lab hx => (hhg1 lab hx).2
    rcases hq2 with hq | hq
    · exact recordWrite_NS_ok hq hd hh hh63 hd63 hlen hpos hfit
    · exact recordWrite_CNAME_ok hq hd hh hh63 hd63 hlen hpos hfit
  · obtain ⟨hhne, hhgood⟩ := hhost
    obtain ⟨hn, hh⟩ := Option.ne_none_iff_exists'.mp hhne
    rw [hh] at hhgood
    simp only [Option.getD_some] at hhgood
    obtain ⟨hhg1, hhg2⟩ := hhgood
    obtain ⟨mh, hmh⟩ := Option.ne_none_iff_exists'.mp hmail
    rw [hmh] at hmg
    simp only [Option.getD_some] at hmg
    obtain ⟨hmg1, hmg2⟩ := hmg
    have hh63 : ∀ lab ∈ splitDot hn, lab.length ≤ 63 :=
      fun lab hx => (hhg1 lab hx).2
    have hm63 : ∀ lab ∈ splitDot mh, lab.length ≤ 63 :=
      fun lab hx => (hmg1 lab hx).2
    exact recordWrite_SOA_ok hq hd hh hmh hh63 hm63 hd63 hlen hpos hfit
  · obtain ⟨hhne, hhgood⟩ := hhost
    obtain ⟨hn, hh⟩ := Option.ne_none_iff_exists'.mp hhne
    rw [hh] at hhgood
    simp only [Option.getD_some] at hhgood
    obtain ⟨hhg1, hhg2⟩ := hhgood
    have hh63 : ∀ lab ∈ splitDot hn, lab.length ≤ 63 :=
      fun lab hx => (hhg1 lab hx).2
    exact recordWrite_MX_ok hq hd hh hh63 hd63 hlen hpos hfit
  · obtain ⟨a, ha⟩ := Option.ne_none_iff_exists'.mp haddr
    rw [ha] at ha16
    simp only [Option.getD_some] at ha16
    exact recordWrite_AAAA_ok hq hd ha ha16 hd63 hlen hpos hfit

/-- The questions fold of DNSPacket.Write: the concatenated question
encodings are spliced in at the cursor. -/
theorem foldQuestions_ok : ∀ (qs : List DNSQuestion) (b : BytePacketBuffer),
    (∀ q ∈ qs, goodQuestion q) → b.buf.length = 512 → b.pos ≤ 512 →
    b.pos + ((qs.map encQuestion).flatten).length ≤ 512 →
    qs.foldlM (fun b q => q.write b) b =
      .ok ⟨splice b.buf b.pos (((qs.map encQuestion).flatten).map (· % 256)),
        b.pos + ((qs.map encQuestion).flatten).length⟩ := by
  intro qs
  induction qs with
  | nil =>
    intro b hgood hlen hpos hfit
    simp only [List.map_nil, List.flatten_nil, List.length_nil, Nat.add_zero]
    rw [List.foldlM_nil, splice_nil _ _ (by omega)]
    rfl
  | cons q qs ih =>
    intro b hgood hlen hpos hfit
    have hflat : ((q :: qs).map encQuestion).flatten =
        encQuestion q ++ (qs.map encQuestion).flatten := by
      simp
    rw [hflat] at hfit ⊢
    simp only [List.length_append] at hfit ⊢
    rw [List.foldlM_cons,
      questionWrite_ok (hgood q (by simp)) hlen hpos (by omega), ok_bind,
      ih _ (fun x hx => hgood x (by simp [hx]))
        (by
          rw [splice_length (by
            simp only [List.length_map]
            omega)]
          exact hlen)
        (show b.pos + (encQuestion q).length ≤ 512 from by omega)
        (show b.pos + (encQuestion q).length +
          ((qs.map encQuestion).flatten).length ≤ 512 from by omega)]
    rw [splice_splice_map (by omega)]
    rw [show b.pos + (encQuestion q).length +
        ((qs.map encQuestion).flatten).length =
        b.pos + ((encQuestion q).length + ((qs.map encQuestion).flatten).length)
      from by omega]

/-- A record-section fold of DNSPacket.Write: the concatenated record
encodings are spliced in at the cursor. -/
theorem foldRecords_ok : ∀ (rs : List DNSRecord) (b : BytePacketBuffer),
    (∀ r ∈ rs, goodRecord r) → b.buf.length = 512 → b.pos ≤ 512 →
    b.pos + ((rs.map encRecord).flatten).length ≤ 512 →
    rs.foldlM (fun (b : BytePacketBuffer) r => (r.write b).map Prod.snd) b =
      .ok ⟨splice b.buf b.pos (((rs.map encRecord).flatten).map (· % 256)),
        b.pos + ((rs.map encRecord).flatten).length⟩ := by
  intro rs
  induction rs with
  | nil =>
    intro b hgood hlen hpos hfit
    simp only [List.map_nil, List.flatten_nil, List.length_nil, Nat.add_zero]
    rw [List.foldlM_nil, splice_nil _ _ (by omega)]
    rfl
  | cons r rs ih =>
    intro b hgood hlen hpos hfit
    have hflat : ((r :: rs).map encRecord).flatten =
        encRecord r ++ (rs.map encRecord).flatten := by
      simp
    rw [hflat] at hfit ⊢
    simp only [List.length_append] at hfit ⊢
    rw [List.foldlM_cons,
      recordWrite_ok (hgood r (by simp)) hlen hpos (by omega)]
    rw [show (Except.ok ((encRecord r).length,
        (⟨splice b.buf b.pos ((encRecord r).map (· % 256)),
          b.pos + (encRecord r).length⟩ : BytePacketBuffer)) :
          Except String (Nat × BytePacketBuffer)).map Prod.snd =
        Except.ok (⟨splice b.buf b.pos ((encRecord r).map (· % 256)),
          b.pos + (encRecord r).length⟩ : BytePacketBuffer) from rfl, ok_bind]
    rw [ih _ (fun x hx => hgood x (by simp [hx]))
        (by
          rw [splice_length (by
            simp only [List.length_map]
            omega)]
          exact hlen)
        (show b.pos + (encRecord r).length ≤ 512 from by omega)
        (show b.pos + (encRecord r).length +
          ((rs.map encRecord).flatten).length ≤ 512 from by omega)]
    rw [splice_splice_map (by omega)]
    rw [show b.pos + (encRecord r).length +
        ((rs.map encRecord).flatten).length =
        b.pos + ((encRecord r).length + ((rs.map encRecord).flatten).length)
      from by omega]

theorem encHeader_length (h : DNSHeader) : (encHeader h).length = 12 := rfl

/-- DNSPacket.Write of a wellformed packet that fits the free space: the
packet encoding (with the recomputed header counts) is spliced in at the
cursor. -/
theorem packetWrite_ok {p : DNSPacket} {b : BytePacketBuffer}
    (hgood : goodPacket p) (hlen : b.buf.length = 512) (hpos : b.pos ≤ 512)
    (hfit : b.pos + (encPacket p).length ≤ 512) :
    p.write b = .ok ⟨splice b.buf b.pos ((encPacket p).map (· % 256)),
      b.pos + (encPacket p).length⟩ := by
  obtain ⟨hgh, hgq, hga, hgau, hgr⟩ := hgood
  have hPlen : (encPacket p).length = 12 + ((p.questions.map encQuestion).flatten).length + ((p.answers.map encRecord).flatten).length +
      ((p.authorities.map encRecord).flatten).length + ((p.resources.map encRecord).flatten).length := by
    unfold encPacket
    simp only [List.length_append, encHeader_length]
    try omega
  have L0 : (b.buf : List Nat).length = 512 := hlen
  have L1 : ((splice b.buf b.pos ((encHeader (⟨p.header.id, p.header.recursionDesired, p.header.truncatedMessage, p.header.authoritativeAnswer, p.header.opcode, p.header.response, p.header.resCode, p.header.checkingDisabled, p.header.authedData, p.header.z, p.header.recursionAvailable, p.questions.length % 65536, p.answers.length % 65536, p.authorities.length % 65536, p.resources.length % 65536⟩ : DNSHeader)).map (· % 256))) : List Nat).length = 512 := by
    rw [splice_length (by
      rw [L0]
      simp only [List.length_map, encHeader_length]
      omega)]
    exact L0
  have L2 : ((splice (splice b.buf b.pos ((encHeader (⟨p.header.id, p.header.recursionDesired, p.header.truncatedMessage, p.header.authoritativeAnswer, p.header.opcode, p.header.response, p.header.resCode, p.header.checkingDisabled, p.header.authedData, p.header.z, p.header.recursionAvailable, p.questions.length % 65536, p.answers.length % 65536, p.authorities.length % 65536, p.resources.length % 65536⟩ : DNSHeader)).map (· % 256))) (b.pos + 12) (((p.questions.map encQuestion).flatten).map (· % 256))) : List Nat).length = 512 := by
    rw [splice_length (by
      rw [L1]
      simp only [List.length_map, encHeader_length]
      omega)]
    exact L1
  have L3 : ((splice (splice (splice b.buf b.pos ((encHeader (⟨p.header.id, p.header.recursionDesired, p.header.truncatedMessage, p.header.authoritativeAnswer, p.header.opcode, p.header.response, p.header.resCode, p.header.checkingDisabled, p.header.authedData, p.header.z, p.header.recursionAvailable, p.questions.length % 65536, p.answers.length % 65536, p.authorities.length % 65536, p.resources.length % 65536⟩ : DNSHeader)).map (· % 256))) (b.pos + 12) (((p.questions.map encQuestion).flatten).map (· % 256))) ((b.pos + 12) + ((p.questions.map encQuestion).flatten).length) (((p.answers.map encRecord).flatten).map (· % 256))) : List Nat).length = 512 := by
    rw [splice_length (by
      rw [L2]
      simp only [List.length_map, encHeader_length]
      omega)]
    exact L2
  have L4 : ((splice (splice (splice (splice b.buf b.pos ((encHeader (⟨p.header.id, p.header.recursionDesired, p.header.truncatedMessage, p.header.authoritativeAnswer, p.header.opcode, p.header.response, p.header.resCode, p.header.checkingDisabled, p.header.authedData, p.header.z, p.header.recursionAvailable, p.questions.length % 65536, p.answers.length % 65536, p.authorities.length % 65536, p.resources.length % 65536⟩ : DNSHeader)).map (· % 256))) (b.pos + 12) (((p.questions.map encQuestion).flatten).map (· % 256))) ((b.pos + 12) + ((p.questions.map encQuestion).flatten).length) (((p.answers.map encRecord).flatten).map (· % 256))) (((b.pos + 12) + ((p.questions.map encQuestion).flatten).length) + ((p.answers.map encRecord).flatten).length) (((p.authorities.map encRecord).flatten).map (· % 256))) : List Nat).length = 512 := by
    rw [splice_length (by
      rw [L3]
      simp only [List.length_map, encHeader_length]
      omega)]
    exact L3
  have L5 : ((splice (splice (splice (splice (splice b.buf b.pos ((encHeader (⟨p.header.id, p.header.recursionDesired, p.header.truncatedMessage, p.header.authoritativeAnswer, p.header.opcode, p.header.response, p.header.resCode, p.header.checkingDisabled, p.header.authedData, p.header.z, p.header.recursionAvailable, p.questions.length % 65536, p.answers.length % 65536, p.authorities.length % 65536, p.resources.length % 65536⟩ : DNSHeader)).map (· % 256))) (b.pos + 12) (((p.questions.map encQuestion).flatten).map (· % 256))) ((b.pos + 12) + ((p.questions.map encQuestion).flatten).length) (((p.answers.map encRecord).flatten).map (· % 256))) (((b.pos + 12) + ((p.questions.map encQuestion).flatten).length) + ((p.answers.map encRecord).flatten).length) (((p.authorities.map encRecord).flatten).map (· % 256))) ((((b.pos + 12) + ((p.questions.map encQuestion).flatten).length) + ((p.answers.map encRecord).flatten).length) + ((p.authorities.map encRecord).flatten).length) (((p.resources.map encRecord).flatten).map (· % 256))) : List Nat).length = 512 := by
    rw [splice_length (by
      rw [L4]
      simp only [List.length_map, encHeader_length]
      omega)]
    exact L4
  unfold DNSPacket.write
  dsimp only
  rw [headerWrite_ok hlen hpos (by omega)]
  simp only [ok_bind]
  rw [foldQuestions_ok p.questions _ (fun x hx => hgq x hx) L1
      (show (b.pos + 12) ≤ 512 from by omega)
      (show (b.pos + 12) + ((p.questions.map encQuestion).flatten).length ≤ 512 from by omega)]
  simp only [ok_bind]
  rw [foldRecords_ok p.answers _ (fun x hx => hga x hx) L2
      (show ((b.pos + 12) + ((p.questions.map encQuestion).flatten).length) ≤ 512 from by omega)
      (show ((b.pos + 12) + ((p.questions.map encQuestion).flatten).length) + ((p.answers.map encRecord).flatten).length ≤ 512 from by omega)]
  simp only [ok_bind]
  rw [foldRecords_ok p.authorities _ (fun x hx => hgau x hx) L3
      (show (((b.pos + 12) + ((p.questions.map encQuestion).flatten).length) + ((p.answers.map encRecord).flatten).length) ≤ 512 from by omega)
      (show (((b.pos + 12) + ((p.questions.map encQuestion).flatten).length) + ((p.answers.map encRecord).flatten).length) + ((p.authorities.map encRecord).flatten).length ≤ 512 from by omega)]
  simp only [ok_bind]
  rw [foldRecords_ok p.resources _ (fun x hx => hgr x hx) L4
      (show ((((b.pos + 12) + ((p.questions.map encQuestion).flatten).length) + ((p.answers.map encRecord).flatten).length) + ((p.authorities.map encRecord).flatten).length) ≤ 512 from by omega)
      (show ((((b.pos + 12) + ((p.questions.map encQuestion).flatten).length) + ((p.answers.map encRecord).flatten).length) + ((p.authorities.map encRecord).flatten).length) + ((p.resources.map encRecord).flatten).length ≤ 512 from by omega)]
  simp only [ok_bind]
  have g1 : splice (splice (splice (splice (splice b.buf b.pos ((encHeader (⟨p.header.id, p.header.recursionDesired, p.header.truncatedMessage, p.header.authoritativeAnswer, p.header.opcode, p.header.response, p.header.resCode, p.header.checkingDisabled, p.header.authedData, p.header.z, p.header.recursionAvailable, p.questions.length % 65536, p.answers.length % 65536, p.authorities.length % 65536, p.resources.length % 65536⟩ : DNSHeader)).map (· % 256))) (b.pos + 12) (((p.questions.map encQuestion).flatten).map (· % 256))) ((b.pos + 12) + ((p.questions.map encQuestion).flatten).length) (((p.answers.map encRecord).flatten).map (· % 256))) (((b.pos + 12) + ((p.questions.map encQuestion).flatten).length) + ((p.answers.map encRecord).flatten).length) (((p.authorities.map encRecord).flatten).map (· % 256)))
      ((((b.pos + 12) + ((p.questions.map encQuestion).flatten).length) + ((p.answers.map encRecord).flatten).length) + ((p.authorities.map encRecord).flatten).length) (((p.resources.map encRecord).flatten).map (· % 256)) =
      splice (splice (splice (splice b.buf b.pos ((encHeader (⟨p.header.id, p.header.recursionDesired, p.header.truncatedMessage, p.header.authoritativeAnswer, p.header.opcode, p.header.response, p.header.resCode, p.header.checkingDisabled, p.header.authedData, p.header.z, p.header.recursionAvailable, p.questions.length % 65536, p.answers.length % 65536, p.authorities.length % 65536, p.resources.length % 65536⟩ : DNSHeader)).map (· % 256))) (b.pos + 12) (((p.questions.map encQuestion).flatten).map (· % 256))) ((b.pos + 12) + ((p.questions.map encQuestion).flatten).length) (((p.answers.map encRecord).flatten).map (· % 256))) (((b.pos + 12) + ((p.questions.map encQuestion).flatten).length) + ((p.answers.map encRecord).flatten).length) ((((p.authorities.map encRecord).flatten) ++ ((p.resources.map encRecord).flatten)).map (· % 256)) :=
    splice_splice_map (by
      rw [L3]
      try simp only [List.length_append]
      omega)
  rw [g1]
  have g2 : splice (splice (splice (splice b.buf b.pos ((encHeader (⟨p.header.id, p.header.recursionDesired, p.header.truncatedMessage, p.header.authoritativeAnswer, p.header.opcode, p.header.response, p.header.resCode, p.header.checkingDisabled, p.header.authedData, p.header.z, p.header.recursionAvailable, p.questions.length % 65536, p.answers.length % 65536, p.authorities.length % 65536, p.resources.length % 65536⟩ : DNSHeader)).map (· % 256))) (b.pos + 12) (((p.questions.map encQuestion).flatten).map (· % 256))) ((b.pos + 12) + ((p.questions.map encQuestion).flatten).length) (((p.answers.map encRecord).flatten).map (· % 256)))
      (((b.pos + 12) + ((p.questions.map encQuestion).flatten).length) + ((p.answers.map encRecord).flatten).length) ((((p.authorities.map encRecord).flatten) ++ ((p.resources.map encRecord).flatten)).map (· % 256)) =
      splice (splice (splice b.buf b.pos ((encHeader (⟨p.header.id, p.header.recursionDesired, p.header.truncatedMessage, p.header.authoritativeAnswer, p.header.opcode, p.header.response, p.header.resCode, p.header.checkingDisabled, p.header.authedData, p.header.z, p.header.recursionAvailable, p.questions.length % 65536, p.answers.length % 65536, p.authorities.length % 65536, p.resources.length % 65536⟩ : DNSHeader)).map (· % 256))) (b.pos + 12) (((p.questions.map encQuestion).flatten).map (· % 256))) ((b.pos + 12) + ((p.questions.map encQuestion).flatten).length) ((((p.answers.map encRecord).flatten) ++ (((p.authorities.map encRecord).flatten) ++ ((p.resources.map encRecord).flatten))).map (· % 256)) :=
    splice_splice_map (by
      rw [L2]
      simp only [List.length_append]
      omega)
  rw [g2]
  have g3 : splice (splice (splice b.buf b.pos ((encHeader (⟨p.header.id, p.header.recursionDesired, p.header.truncatedMessage, p.header.authoritativeAnswer, p.header.opcode, p.header.response, p.header.resCode, p.header.checkingDisabled, p.header.authedData, p.header.z, p.header.recursionAvailable, p.questions.length % 65536, p.answers.length % 65536, p.authorities.length % 65536, p.resources.length % 65536⟩ : DNSHeader)).map (· % 256))) (b.pos + 12) (((p.questions.map encQuestion).flatten).map (· % 256)))
      ((b.pos + 12) + ((p.questions.map encQuestion).flatten).length) ((((p.answers.map encRecord).flatten) ++ (((p.authorities.map encRecord).flatten) ++ ((p.resources.map encRecord).flatten))).map (· % 256)) =
      splice (splice b.buf b.pos ((encHeader (⟨p.header.id, p.header.recursionDesired, p.header.truncatedMessage, p.header.authoritativeAnswer, p.header.opcode, p.header.response, p.header.resCode, p.header.checkingDisabled, p.header.authedData, p.header.z, p.header.recursionAvailable, p.questions.length % 65536, p.answers.length % 65536, p.authorities.length % 65536, p.resources.length % 65536⟩ : DNSHeader)).map (· % 256))) (b.pos + 12) ((((p.questions.map encQuestion).flatten) ++ (((p.answers.map encRecord).flatten) ++ (((p.authorities.map encRecord).flatten) ++ ((p.resources.map encRecord).flatten)))).map (· % 256)) :=
    splice_splice_map (by
      rw [L1]
      simp only [List.length_append]
      omega)
  rw [g3]
  have g4 : splice (splice b.buf b.pos ((encHeader (⟨p.header.id, p.header.recursionDesired, p.header.truncatedMessage, p.header.authoritativeAnswer, p.header.opcode, p.header.response, p.header.resCode, p.header.checkingDisabled, p.header.authedData, p.header.z, p.header.recursionAvailable, p.questions.length % 65536, p.answers.length % 65536, p.authorities.length % 65536, p.resources.length % 65536⟩ : DNSHeader)).map (· % 256)))
      (b.pos + 12) ((((p.questions.map encQuestion).flatten) ++ (((p.answers.map encRecord).flatten) ++ (((p.authorities.map encRecord).flatten) ++ ((p.resources.map encRecord).flatten)))).map (· % 256)) =
      splice b.buf b.pos (((encHeader (⟨p.header.id, p.header.recursionDesired, p.header.truncatedMessage, p.header.authoritativeAnswer, p.header.opcode, p.header.response, p.header.resCode, p.header.checkingDisabled, p.header.authedData, p.header.z, p.header.recursionAvailable, p.questions.length % 65536, p.answers.length % 65536, p.authorities.length % 65536, p.resources.length % 65536⟩ : DNSHeader)) ++ (((p.questions.map encQuestion).flatten) ++ (((p.answers.map encRecord).flatten) ++ (((p.authorities.map encRecord).flatten) ++ ((p.resources.map encRecord).flatten))))).map (· % 256)) :=
    splice_splice_map (by
      rw [L0, encHeader_length]
      simp only [List.length_append]
      omega)
  rw [g4]
  rw [show ((encHeader (⟨p.header.id, p.header.recursionDesired, p.header.truncatedMessage, p.header.authoritativeAnswer, p.header.opcode, p.header.response, p.header.resCode, p.header.checkingDisabled, p.header.authedData, p.header.z, p.header.recursionAvailable, p.questions.length % 65536, p.answers.length % 65536, p.authorities.length % 65536, p.resources.length % 65536⟩ : DNSHeader)) ++ (((p.questions.map encQuestion).flatten) ++ (((p.answers.map encRecord).flatten) ++ (((p.authorities.map encRecord).flatten) ++ ((p.resources.map encRecord).flatten))))) = encPacket p from by
    unfold encPacket
    simp [List.append_assoc]]
  rw [show (((((b.pos + 12) + ((p.questions.map encQuestion).flatten).length) + ((p.answers.map encRecord).flatten).length) + ((p.authorities.map encRecord).flatten).length) + ((p.resources.map encRecord).flatten).length) = b.pos + (encPacket p).length from by
    rw [hPlen]
    omega]


theorem flagByteA_lt (h : DNSHeader) : flagByteA h < 256 :=
  Nat.mod_lt _ (by norm_num)

theorem flagByteB_lt (h : DNSHeader) : flagByteB h < 256 :=
  Nat.mod_lt _ (by norm_num)

theorem flagA_bits : ∀ op : Nat, op < 16 → ∀ rd tm aa resp : Bool,
    flagSet ((boolToUint8 rd ||| (boolToUint8 tm <<< 1) |||
      (boolToUint8 aa <<< 2) ||| (op <<< 3) |||
      (boolToUint8 resp <<< 7)) % 256 &&& (1 <<< 0)) = rd ∧
    flagSet ((boolToUint8 rd ||| (boolToUint8 tm <<< 1) |||
      (boolToUint8 aa <<< 2) ||| (op <<< 3) |||
      (boolToUint8 resp <<< 7)) % 256 &&& (1 <<< 1)) = tm ∧
    flagSet ((boolToUint8 rd ||| (boolToUint8 tm <<< 1) |||
      (boolToUint8 aa <<< 2) ||| (op <<< 3) |||
      (boolToUint8 resp <<< 7)) % 256 &&& (1 <<< 2)) = aa ∧
    (((boolToUint8 rd ||| (boolToUint8 tm <<< 1) |||
      (boolToUint8 aa <<< 2) ||| (op <<< 3) |||
      (boolToUint8 resp <<< 7)) % 256) >>> 3) &&& 0x0F = op ∧
    flagSet ((boolToUint8 rd ||| (boolToUint8 tm <<< 1) |||
      (boolToUint8 aa <<< 2) ||| (op <<< 3) |||
      (boolToUint8 resp <<< 7)) % 256 &&& (1 <<< 7)) = resp := by
  decide

theorem flagB_bits : ∀ rv : Nat, rv < 6 → ∀ cd ad z ra : Bool,
    getResCode ((rv ||| boolToUint8 cd <<< 4 ||| boolToUint8 ad <<< 5 |||
      boolToUint8 z <<< 6 ||| boolToUint8 ra <<< 7) % 256 &&& 0x0F) =
      getResCode rv ∧
    flagSet ((rv ||| boolToUint8 cd <<< 4 ||| boolToUint8 ad <<< 5 |||
      boolToUint8 z <<< 6 ||| boolToUint8 ra <<< 7) % 256 &&& (1 <<< 4)) = cd ∧
    flagSet ((rv ||| boolToUint8 cd <<< 4 ||| boolToUint8 ad <<< 5 |||
      boolToUint8 z <<< 6 ||| boolToUint8 ra <<< 7) % 256 &&& (1 <<< 5)) = ad ∧
    flagSet ((rv ||| boolToUint8 cd <<< 4 ||| boolToUint8 ad <<< 5 |||
      boolToUint8 z <<< 6 ||| boolToUint8 ra <<< 7) % 256 &&& (1 <<< 6)) = z ∧
    flagSet ((rv ||| boolToUint8 cd <<< 4 ||| boolToUint8 ad <<< 5 |||
      boolToUint8 z <<< 6 ||| boolToUint8 ra <<< 7) % 256 &&& (1 <<< 7)) = ra := by
  decide

/-- The first flags byte decodes back to the five fields it packs. -/
theorem flagA_roundtrip : ∀ h : DNSHeader, h.opcode < 16 →
    (flagSet (flagByteA h &&& (1 <<< 0)) = h.recursionDesired ∧
     flagSet (flagByteA h &&& (1 <<< 1)) = h.truncatedMessage ∧
     flagSet (flagByteA h &&& (1 <<< 2)) = h.authoritativeAnswer ∧
     (flagByteA h >>> 3) &&& 0x0F = h.opcode ∧
     flagSet (flagByteA h &&& (1 <<< 7)) = h.response) := by
  intro h hop
  obtain ⟨id, rd, tm, aa, op, resp, rc, cd, ad, z, ra, qs, an, au, re⟩ := h
  simp only [flagByteA] at hop ⊢
  exact flagA_bits op hop rd tm aa resp

/-- The second flags byte decodes back to the five fields it packs. -/
theorem flagB_roundtrip : ∀ h : DNSHeader,
    getResCode (flagByteB h &&& 0x0F) = h.resCode ∧
    flagSet (flagByteB h &&& (1 <<< 4)) = h.checkingDisabled ∧
    flagSet (flagByteB h &&& (1 <<< 5)) = h.authedData ∧
    flagSet (flagByteB h &&& (1 <<< 6)) = h.z ∧
    flagSet (flagByteB h &&& (1 <<< 7)) = h.recursionAvailable := by
  intro h
  obtain ⟨id, rd, tm, aa, op, resp, rc, cd, ad, z, ra, qs, an, au, re⟩ := h
  simp only [flagByteB]
  obtain ⟨h1, h2, h3, h4, h5⟩ :=
    flagB_bits rc.toUint8 (by cases rc <;> decide) cd ad z ra
  refine ⟨?_, h2, h3, h4, h5⟩
  rw [h1]
  cases rc <;> rfl

/-- DNSHeader.Read over a region holding a header encoding decodes the
header exactly; the wire does not carry values outside the hypotheses
since the encoder reduces everything modulo the field widths. -/
theorem headerRead_bytes {l : List Nat} {p : Nat} {h : DNSHeader}
    (hlen : l.length = 512) (hgood : goodHeader h)
    (hq : h.questions < 65536) (han : h.answers < 65536)
    (hau : h.authoritativeEntries < 65536) (hre : h.resourceEntries < 65536)
    (hb : bytesAt l p (encHeader h)) :
    DNSHeader.read ⟨l, p⟩ = .ok (h, ⟨l, p + 12⟩) := by
  obtain ⟨hid, hop⟩ := hgood
  have hshape : encHeader h = be16 h.id ++ ([flagByteA h, flagByteB h] ++
      (be16 h.questions ++ (be16 h.answers ++
        (be16 h.authoritativeEntries ++ be16 h.resourceEntries)))) := by
    simp [encHeader, List.append_assoc]
  rw [hshape] at hb
  rw [bytesAt_append] at hb
  obtain ⟨hb1, hb⟩ := hb
  rw [bytesAt_append] at hb
  obtain ⟨hb2, hb⟩ := hb
  rw [bytesAt_append] at hb
  obtain ⟨hb3, hb⟩ := hb
  rw [bytesAt_append] at hb
  obtain ⟨hb4, hb⟩ := hb
  rw [bytesAt_append] at hb
  obtain ⟨hb5, hb6⟩ := hb
  have hc2 : bytesAt l (p + 2) [flagByteA h, flagByteB h] := hb2
  have hc3 : bytesAt l (p + 2 + 2) (be16 h.questions) := hb3
  have hc4 : bytesAt l (p + 2 + 2 + 2) (be16 h.answers) := hb4
  have hc5 : bytesAt l (p + 2 + 2 + 2 + 2) (be16 h.authoritativeEntries) := hb5
  have hc6 : bytesAt l (p + 2 + 2 + 2 + 2 + 2) (be16 h.resourceEntries) := hb6
  have hBlt : flagByteB h < 256 := flagByteB_lt h
  unfold DNSHeader.read
  rw [read16_bytes hlen hid hb1]
  simp only [ok_bind]
  rw [read16_bytes_raw (u := flagByteA h) (w := flagByteB h) hlen hc2]
  simp only [ok_bind]
  rw [read16_bytes hlen hq hc3]
  simp only [ok_bind]
  rw [read16_bytes hlen han hc4]
  simp only [ok_bind]
  rw [read16_bytes hlen hau hc5]
  simp only [ok_bind]
  rw [read16_bytes hlen hre hc6]
  simp only [ok_bind]
  rw [lor_shift8_shr8 _ _ hBlt, lor_shift8_and255 _ _ hBlt]
  obtain ⟨hA1, hA2, hA3, hA4, hA5⟩ := flagA_roundtrip h hop
  obtain ⟨hB1, hB2, hB3, hB4, hB5⟩ := flagB_roundtrip h
  rw [hA1, hA2, hA3, hA4, hA5, hB1, hB2, hB3, hB4, hB5]

/-- DNSQuestion.Read over a region holding a question encoding decodes
the question exactly. -/
theorem questionRead_bytes {l : List Nat} {p : Nat} {q : DNSQuestion}
    (hlen : l.length = 512) (hgood : goodQuestion q)
    (hb : bytesAt l p (encQuestion q)) :
    DNSQuestion.read ⟨l, p⟩ = .ok (q, ⟨l, p + (encQuestion q).length⟩) := by
  obtain ⟨hname, hcls, hqt⟩ := hgood
  have hqlen : (encQuestion q).length = (encQname q.name).length + 4 := by
    simp [encQuestion, be16_length]
  have hshape : encQuestion q =
      encQname q.name ++ (be16 q.qtype ++ be16 q.cls) := by
    simp [encQuestion, List.append_assoc, be16_mod_65536]
  rw [hshape] at hb
  rw [bytesAt_append] at hb
  obtain ⟨hb1, hb⟩ := hb
  rw [bytesAt_append] at hb
  obtain ⟨hb2, hb3⟩ := hb
  have hc3 : bytesAt l (p + (encQname q.name).length + 2) (be16 q.cls) := hb3
  unfold DNSQuestion.read
  rw [readQname_bytes hlen hname hb1]
  simp only [ok_bind]
  rw [read16_bytes hlen hqt hb2]
  simp only [ok_bind]
  rw [read16_bytes hlen hcls hc3]
  simp only [ok_bind]
  rw [show p + (encQname q.name).length + 2 + 2 = p + (encQuestion q).length
    from by rw [hqlen]; omega]

theorem be32_mod_2_32 (v : Nat) : be32 (v % 2 ^ 32) = be32 v := by
  simp only [be32]
  rw [show v % 2 ^ 32 / 2 ^ 24 % 256 = v / 2 ^ 24 % 256 from by omega,
    show v % 2 ^ 32 / 2 ^ 16 % 256 = v / 2 ^ 16 % 256 from by omega,
    show v % 2 ^ 32 / 2 ^ 8 % 256 = v / 2 ^ 8 % 256 from by omega,
    show v % 2 ^ 32 % 256 = v % 256 from by omega]

theorem list_len16 : ∀ {l : List Nat}, l.length = 16 →
    ∃ (x0 : Nat) (x1 : Nat) (x2 : Nat) (x3 : Nat) (x4 : Nat) (x5 : Nat) (x6 : Nat) (x7 : Nat) (x8 : Nat) (x9 : Nat) (x10 : Nat) (x11 : Nat) (x12 : Nat) (x13 : Nat) (x14 : Nat) (x15 : Nat), l = [x0, x1, x2, x3, x4, x5, x6, x7, x8, x9, x10, x11, x12, x13, x14, x15]
  | [x0, x1, x2, x3, x4, x5, x6, x7, x8, x9, x10, x11, x12, x13, x14, x15], _ => ⟨x0, x1, x2, x3, x4, x5, x6, x7, x8, x9, x10, x11, x12, x13, x14, x15, rfl⟩
  | [], h => by simp only [List.length_cons, List.length_nil] at h; omega
  | [_], h => by simp only [List.length_cons, List.length_nil] at h; omega
  | [_, _], h => by simp only [List.length_cons, List.length_nil] at h; omega
  | [_, _, _], h => by simp only [List.length_cons, List.length_nil] at h; omega
  | [_, _, _, _], h => by simp only [List.length_cons, List.length_nil] at h; omega
  | [_, _, _, _, _], h => by simp only [List.length_cons, List.length_nil] at h; omega
  | [_, _, _, _, _, _], h => by simp only [List.length_cons, List.length_nil] at h; omega
  | [_, _, _, _, _, _, _], h => by simp only [List.length_cons, List.length_nil] at h; omega
  | [_, _, _, _, _, _, _, _], h => by simp only [List.length_cons, List.length_nil] at h; omega
  | [_, _, _, _, _, _, _, _, _], h => by simp only [List.length_cons, List.length_nil] at h; omega
  | [_, _, _, _, _, _, _, _, _, _], h => by simp only [List.length_cons, List.length_nil] at h; omega
  | [_, _, _, _, _, _, _, _, _, _, _], h => by simp only [List.length_cons, List.length_nil] at h; omega
  | [_, _, _, _, _, _, _, _, _, _, _, _], h => by simp only [List.length_cons, List.length_nil] at h; omega
  | [_, _, _, _, _, _, _, _, _, _, _, _, _], h => by simp only [List.length_cons, List.length_nil] at h; omega
  | [_, _, _, _, _, _, _, _, _, _, _, _, _, _], h => by simp only [List.length_cons, List.length_nil] at h; omega
  | [_, _, _, _, _, _, _, _, _, _, _, _, _, _, _], h => by simp only [List.length_cons, List.length_nil] at h; omega
  | _ :: _ :: _ :: _ :: _ :: _ :: _ :: _ :: _ :: _ :: _ :: _ :: _ :: _ :: _ :: _ :: _ :: _, h => by
    simp only [List.length_cons] at h; omega

-- BEGIN READ BRANCHES
/-- DNSRecord.Read over a region holding the encoding of an A record in decoder shape decodes the record with DataLen cleared -/
theorem recordRead_A_bytes {l : List Nat} {p : Nat} {r : DNSRecord}
    {d a : List Nat}
    (hq : r.qtype = AQueryType) (hdom : r.domain = some d)
    (haddr : r.addr = some a) (ha16 : a.length = 16)
    (htake : a.take 12 = v4MappedHead) (hbytes : ∀ x ∈ a, x < 256)
    (hh : r.host = none) (hm : r.mailHost = none) (hsoa : zeroSOAFields r)
    (hpr : r.priority = 0) (hdg : goodName d) (hcls : r.cls < 65536)
    (httl : r.ttl < 2 ^ 32)
    (hlen : l.length = 512) (hb : bytesAt l p (encRecord r)) :
    DNSRecord.read ⟨l, p⟩ =
      .ok (zeroDataLen r, ⟨l, p + (encRecord r).length⟩) := by
  obtain ⟨a0, a1, a2, a3, hdrop⟩ :=
    list_len4 (l := a.drop 12) (by rw [List.length_drop, ha16])
  have hm0 : a0 < 256 := hbytes a0 (List.mem_of_mem_drop (by rw [hdrop]; simp))
  have hm1 : a1 < 256 := hbytes a1 (List.mem_of_mem_drop (by rw [hdrop]; simp))
  have hm2 : a2 < 256 := hbytes a2 (List.mem_of_mem_drop (by rw [hdrop]; simp))
  have hm3 : a3 < 256 := hbytes a3 (List.mem_of_mem_drop (by rw [hdrop]; simp))
  have hqlt : r.qtype < 65536 := by rw [hq]; decide
  have hpay : (ipTo4 (r.addr.getD [])).getD [] = [a0, a1, a2, a3] := by
    rw [haddr, Option.getD_some, ipTo4_v4mapped ha16 htake, Option.getD_some,
      hdrop]
  have henc : encRecord r = encQname d ++ be16 (r.qtype % 65536) ++
      be16 (r.cls % 65536) ++ be32 (r.ttl % 2 ^ 32) ++
      (be16 4 ++ [a0, a1, a2, a3]) := by
    unfold encRecord
    rw [if_pos hq, hdom, Option.getD_some, hpay]
  have hRlen : (encRecord r).length = (encQname d).length + 14 := by
    rw [henc]
    simp only [List.length_append, List.length_cons, List.length_nil, be16_length, be32_length, List.length_map]
    try omega
  have hbound : p + (encRecord r).length ≤ 512 := by
    have hbb := (bytesAt_iff.mp hb).1
    omega
  have hshape : encRecord r = encQname d ++ (be16 r.qtype ++ (be16 r.cls ++
      (be32 r.ttl ++ (be16 4 ++ [a0, a1, a2, a3])))) := by
    rw [henc, be16_mod_65536, be16_mod_65536, be32_mod_2_32]
    simp [List.append_assoc]
  rw [hshape] at hb
  rw [bytesAt_append] at hb
  obtain ⟨hb1, hb⟩ := hb
  rw [bytesAt_append] at hb
  obtain ⟨hb2, hb⟩ := hb
  rw [bytesAt_append] at hb
  obtain ⟨hb3, hb⟩ := hb
  rw [bytesAt_append] at hb
  obtain ⟨hb4, hb⟩ := hb
  rw [bytesAt_append] at hb
  obtain ⟨hb5, hb⟩ := hb
  have hb6 := hb
  have hc1 : bytesAt l p (encQname d) := hb1
  have hc2 : bytesAt l (p + (encQname d).length) (be16 r.qtype) := hb2
  have hc3 : bytesAt l ((p + (encQname d).length) + 2) (be16 r.cls) := hb3
  have hc4 : bytesAt l (((p + (encQname d).length) + 2) + 2) (be32 r.ttl) := hb4
  have hc5 : bytesAt l ((((p + (encQname d).length) + 2) + 2) + 4) (be16 4) := hb5
  have hc6 : bytesAt l (((((p + (encQname d).length) + 2) + 2) + 4) + 2) ([a0, a1, a2, a3]) := hb6
  unfold DNSRecord.read
  rw [readQname_bytes hlen hdg hc1]
  simp only [ok_bind]
  rw [read16_bytes hlen hqlt hc2]
  simp only [ok_bind]
  rw [read16_bytes hlen hcls hc3]
  simp only [ok_bind]
  rw [read32_bytes hlen httl hc4]
  simp only [ok_bind]
  rw [read16_bytes hlen (show (4 : Nat) < 65536 from by norm_num) hc5]
  simp only [ok_bind]
  rw [if_pos hq]
  rw [read32_bytes_raw (u := a0) (w := a1) (y := a2) (z := a3) hlen hc6]
  simp only [ok_bind]
  rw [four_byte_value hm0 hm1 hm2 hm3]
  obtain ⟨f0, f1, f2, f3⟩ := four_byte_fields hm0 hm1 hm2 hm3
  rw [f0, f1, f2, f3]
  rw [show netIPv4 a0 a1 a2 a3 = a from by
    unfold netIPv4
    rw [← htake, ← hdrop]
    exact List.take_append_drop 12 a]
  obtain ⟨hs1, hs2, hs3, hs4, hs5⟩ := hsoa
  have hzd : zeroDataLen r = ⟨r.qtype, some d, none, none, 0, 0, 0, 0, 0, r.cls, 0, some a, r.ttl, 0⟩ := by
    unfold zeroDataLen
    try dsimp only
    rw [hdom, haddr, hh, hm, hs1, hs2, hs3, hs4, hs5, hpr]
  rw [hzd]
  simp only [emptyDNSRecord]
  rw [show p + (encQname d).length + 2 + 2 + 4 + 2 + 4 = p + (encRecord r).length from by
    rw [hRlen]
    omega]

/-- DNSRecord.Read over a region holding the encoding of a NS record in decoder shape decodes the record with DataLen cleared -/
theorem recordRead_NS_bytes {l : List Nat} {p : Nat} {r : DNSRecord}
    {d hn : List Nat}
    (hq : r.qtype = NSQueryType) (hdom : r.domain = some d)
    (hhost : r.host = some hn) (haddr : r.addr = none)
    (hm : r.mailHost = none) (hsoa : zeroSOAFields r) (hpr : r.priority = 0)
    (hdg : goodName d) (hhg : goodName hn) (hcls : r.cls < 65536)
    (httl : r.ttl < 2 ^ 32)
    (hlen : l.length = 512) (hb : bytesAt l p (encRecord r)) :
    DNSRecord.read ⟨l, p⟩ =
      .ok (zeroDataLen r, ⟨l, p + (encRecord r).length⟩) := by
  have hqlt : r.qtype < 65536 := by rw [hq]; decide
  have henc : encRecord r = encQname d ++ be16 (r.qtype % 65536) ++
      be16 (r.cls % 65536) ++ be32 (r.ttl % 2 ^ 32) ++
      (be16 (encQname hn).length ++ encQname hn) := by
    unfold encRecord
    rw [if_neg (show ¬ (r.qtype = AQueryType) from by rw [hq]; decide),
      if_pos (Or.inl hq), hdom, Option.getD_some, hhost, Option.getD_some]
  have hRlen : (encRecord r).length = (encQname d).length + (encQname hn).length + 10 := by
    rw [henc]
    simp only [List.length_append, List.length_cons, List.length_nil, be16_length, be32_length, List.length_map]
    try omega
  have hbound : p + (encRecord r).length ≤ 512 := by
    have hbb := (bytesAt_iff.mp hb).1
    omega
  have hshape : encRecord r = encQname d ++ (be16 r.qtype ++ (be16 r.cls ++
      (be32 r.ttl ++ (be16 (encQname hn).length ++ encQname hn)))) := by
    rw [henc, be16_mod_65536, be16_mod_65536, be32_mod_2_32]
    simp [List.append_assoc]
  rw [hshape] at hb
  rw [bytesAt_append] at hb
  obtain ⟨hb1, hb⟩ := hb
  rw [bytesAt_append] at hb
  obtain ⟨hb2, hb⟩ := hb
  rw [bytesAt_append] at hb
  obtain ⟨hb3, hb⟩ := hb
  rw [bytesAt_append] at hb
  obtain ⟨hb4, hb⟩ := hb
  rw [bytesAt_append] at hb
  obtain ⟨hb5, hb⟩ := hb
  have hb6 := hb
  have hc1 : bytesAt l p (encQname d) := hb1
  have hc2 : bytesAt l (p + (encQname d).length) (be16 r.qtype) := hb2
  have hc3 : bytesAt l ((p + (encQname d).length) + 2) (be16 r.cls) := hb3
  have hc4 : bytesAt l (((p + (encQname d).length) + 2) + 2) (be32 r.ttl) := hb4
  have hc5 : bytesAt l ((((p + (encQname d).length) + 2) + 2) + 4) (be16 (encQname hn).length) := hb5
  have hc6 : bytesAt l (((((p + (encQname d).length) + 2) + 2) + 4) + 2) (encQname hn) := hb6
  unfold DNSRecord.read
  rw [readQname_bytes hlen hdg hc1]
  simp only [ok_bind]
  rw [read16_bytes hlen hqlt hc2]
  simp only [ok_bind]
  rw [read16_bytes hlen hcls hc3]
  simp only [ok_bind]
  rw [read32_bytes hlen httl hc4]
  simp only [ok_bind]
  rw [read16_bytes hlen (show (encQname hn).length < 65536 from by omega) hc5]
  simp only [ok_bind]
  rw [if_neg (show ¬ (r.qtype = AQueryType) from by rw [hq]; decide), if_pos hq]
  rw [readQname_bytes hlen hhg hc6]
  simp only [ok_bind]
  obtain ⟨hs1, hs2, hs3, hs4, hs5⟩ := hsoa
  have hzd : zeroDataLen r = ⟨r.qtype, some d, some hn, none, 0, 0, 0, 0, 0, r.cls, 0, none, r.ttl, 0⟩ := by
    unfold zeroDataLen
    try dsimp only
    rw [hdom, hhost, hm, hs1, hs2, hs3, hs4, hs5, hpr, haddr]
  rw [hzd]
  simp only [emptyDNSRecord]
  rw [show p + (encQname d).length + 2 + 2 + 4 + 2 + (encQname hn).length = p + (encRecord r).length from by
    rw [hRlen]
    omega]

/-- DNSRecord.Read over a region holding the encoding of a CNAME record in decoder shape decodes the record with DataLen cleared -/
theorem recordRead_CNAME_bytes {l : List Nat} {p : Nat} {r : DNSRecord}
    {d hn : List Nat}
    (hq : r.qtype = CNAMEQueryType) (hdom : r.domain = some d)
    (hhost : r.host = some hn) (haddr : r.addr = none)
    (hm : r.mailHost = none) (hsoa : zeroSOAFields r) (hpr : r.priority = 0)
    (hdg : goodName d) (hhg : goodName hn) (hcls : r.cls < 65536)
    (httl : r.ttl < 2 ^ 32)
    (hlen : l.length = 512) (hb : bytesAt l p (encRecord r)) :
    DNSRecord.read ⟨l, p⟩ =
      .ok (zeroDataLen r, ⟨l, p + (encRecord r).length⟩) := by
  have hqlt : r.qtype < 65536 := by rw [hq]; decide
  have henc : encRecord r = encQname d ++ be16 (r.qtype % 65536) ++
      be16 (r.cls % 65536) ++ be32 (r.ttl % 2 ^ 32) ++
      (be16 (encQname hn).length ++ encQname hn) := by
    unfold encRecord
    rw [if_neg (show ¬ (r.qtype = AQueryType) from by rw [hq]; decide),
      if_pos (Or.inr hq), hdom, Option.getD_some, hhost, Option.getD_some]
  have hRlen : (encRecord r).length = (encQname d).length + (encQname hn).length + 10 := by
    rw [henc]
    simp only [List.length_append, List.length_cons, List.length_nil, be16_length, be32_length, List.length_map]
    try omega
  have hbound : p + (encRecord r).length ≤ 512 := by
    have hbb := (bytesAt_iff.mp hb).1
    omega
  have hshape : encRecord r = encQname d ++ (be16 r.qtype ++ (be16 r.cls ++
      (be32 r.ttl ++ (be16 (encQname hn).length ++ encQname hn)))) := by
    rw [henc, be16_mod_65536, be16_mod_65536, be32_mod_2_32]
    simp [List.append_assoc]
  rw [hshape] at hb
  rw [bytesAt_append] at hb
  obtain ⟨hb1, hb⟩ := hb
  rw [bytesAt_append] at hb
  obtain ⟨hb2, hb⟩ := hb
  rw [bytesAt_append] at hb
  obtain ⟨hb3, hb⟩ := hb
  rw [bytesAt_append] at hb
  obtain ⟨hb4, hb⟩ := hb
  rw [bytesAt_append] at hb
  obtain ⟨hb5, hb⟩ := hb
  have hb6 := hb
  have hc1 : bytesAt l p (encQname d) := hb1
  have hc2 : bytesAt l (p + (encQname d).length) (be16 r.qtype) := hb2
  have hc3 : bytesAt l ((p + (encQname d).length) + 2) (be16 r.cls) := hb3
  have hc4 : bytesAt l (((p + (encQname d).length) + 2) + 2) (be32 r.ttl) := hb4
  have hc5 : bytesAt l ((((p + (encQname d).length) + 2) + 2) + 4) (be16 (encQname hn).length) := hb5
  have hc6 : bytesAt l (((((p + (encQname d).length) + 2) + 2) + 4) + 2) (encQname hn) := hb6
  unfold DNSRecord.read
  rw [readQname_bytes hlen hdg hc1]
  simp only [ok_bind]
  rw [read16_bytes hlen hqlt hc2]
  simp only [ok_bind]
  rw [read16_bytes hlen hcls hc3]
  simp only [ok_bind]
  rw [read32_bytes hlen httl hc4]
  simp only [ok_bind]
  rw [read16_bytes hlen (show (encQname hn).length < 65536 from by omega) hc5]
  simp only [ok_bind]
  rw [if_neg (show ¬ (r.qtype = AQueryType) from by rw [hq]; decide), if_neg (show ¬ (r.qtype = NSQueryType) from by rw [hq]; decide), if_pos hq]
  rw [readQname_bytes hlen hhg hc6]
  simp only [ok_bind]
  obtain ⟨hs1, hs2, hs3, hs4, hs5⟩ := hsoa
  have hzd : zeroDataLen r = ⟨r.qtype, some d, some hn, none, 0, 0, 0, 0, 0, r.cls, 0, none, r.ttl, 0⟩ := by
    unfold zeroDataLen
    try dsimp only
    rw [hdom, hhost, hm, hs1, hs2, hs3, hs4, hs5, hpr, haddr]
  rw [hzd]
  simp only [emptyDNSRecord]
  rw [show p + (encQname d).length + 2 + 2 + 4 + 2 + (encQname hn).length = p + (encRecord r).length from by
    rw [hRlen]
    omega]

/-- DNSRecord.Read over a region holding the encoding of an SOA record in decoder shape decodes the record with DataLen cleared -/
theorem recordRead_SOA_bytes {l : List Nat} {p : Nat} {r : DNSRecord}
    {d hn mh : List Nat}
    (hq : r.qtype = SOAQueryType) (hdom : r.domain = some d)
    (hhost : r.host = some hn) (hmail : r.mailHost = some mh)
    (haddr : r.addr = none) (hpr : r.priority = 0)
    (hdg : goodName d) (hhg : goodName hn) (hmg : goodName mh)
    (hcls : r.cls < 65536) (httl : r.ttl < 2 ^ 32)
    (hse : r.serial < 2 ^ 32) (hrf : r.refresh < 2 ^ 32)
    (hrt : r.retry < 2 ^ 32) (hex : r.expire < 2 ^ 32)
    (hmi : r.minimum < 2 ^ 32)
    (hlen : l.length = 512) (hb : bytesAt l p (encRecord r)) :
    DNSRecord.read ⟨l, p⟩ =
      .ok (zeroDataLen r, ⟨l, p + (encRecord r).length⟩) := by
  have hqlt : r.qtype < 65536 := by rw [hq]; decide
  have henc : encRecord r = encQname d ++ be16 (r.qtype % 65536) ++
      be16 (r.cls % 65536) ++ be32 (r.ttl % 2 ^ 32) ++
      (be16 (encQname hn ++ encQname mh ++ be32 (r.serial % 2 ^ 32) ++
          be32 (r.refresh % 2 ^ 32) ++ be32 (r.retry % 2 ^ 32) ++
          be32 (r.expire % 2 ^ 32) ++ be32 (r.minimum % 2 ^ 32)).length ++
        (encQname hn ++ encQname mh ++ be32 (r.serial % 2 ^ 32) ++
          be32 (r.refresh % 2 ^ 32) ++ be32 (r.retry % 2 ^ 32) ++
          be32 (r.expire % 2 ^ 32) ++ be32 (r.minimum % 2 ^ 32))) := by
    unfold encRecord
    rw [if_neg (show ¬ (r.qtype = AQueryType) from by rw [hq]; decide),
      if_neg (show ¬ (r.qtype = NSQueryType ∨ r.qtype = CNAMEQueryType) from by
        rw [hq]; decide),
      if_pos hq, hdom, Option.getD_some, hhost, Option.getD_some, hmail,
      Option.getD_some]
  have hRlen : (encRecord r).length = (encQname d).length + (encQname hn).length + (encQname mh).length + 30 := by
    rw [henc]
    simp only [List.length_append, List.length_cons, List.length_nil, be16_length, be32_length, List.length_map]
    try omega
  have hbound : p + (encRecord r).length ≤ 512 := by
    have hbb := (bytesAt_iff.mp hb).1
    omega
  have hshape : encRecord r = encQname d ++ (be16 r.qtype ++ (be16 r.cls ++
      (be32 r.ttl ++ (be16 (encQname hn ++ encQname mh ++ be32 r.serial ++
          be32 r.refresh ++ be32 r.retry ++ be32 r.expire ++
          be32 r.minimum).length ++
        (encQname hn ++ (encQname mh ++ (be32 r.serial ++ (be32 r.refresh ++
          (be32 r.retry ++ (be32 r.expire ++ be32 r.minimum)))))))))) := by
    rw [henc, be16_mod_65536, be16_mod_65536, be32_mod_2_32, be32_mod_2_32,
      be32_mod_2_32, be32_mod_2_32, be32_mod_2_32, be32_mod_2_32]
    simp [List.append_assoc]
  rw [hshape] at hb
  rw [bytesAt_append] at hb
  obtain ⟨hb1, hb⟩ := hb
  rw [bytesAt_append] at hb
  obtain ⟨hb2, hb⟩ := hb
  rw [bytesAt_append] at hb
  obtain ⟨hb3, hb⟩ := hb
  rw [bytesAt_append] at hb
  obtain ⟨hb4, hb⟩ := hb
  rw [bytesAt_append] at hb
  obtain ⟨hb5, hb⟩ := hb
  rw [bytesAt_append] at hb
  obtain ⟨hb6, hb⟩ := hb
  rw [bytesAt_append] at hb
  obtain ⟨hb7, hb⟩ := hb
  rw [bytesAt_append] at hb
  obtain ⟨hb8, hb⟩ := hb
  rw [bytesAt_append] at hb
  obtain ⟨hb9, hb⟩ := hb
  rw [bytesAt_append] at hb
  obtain ⟨hb10, hb⟩ := hb
  rw [bytesAt_append] at hb
  obtain ⟨hb11, hb⟩ := hb
  have hb12 := hb
  have hc1 : bytesAt l p (encQname d) := hb1
  have hc2 : bytesAt l (p + (encQname d).length) (be16 r.qtype) := hb2
  have hc3 : bytesAt l ((p + (encQname d).length) + 2) (be16 r.cls) := hb3
  have hc4 : bytesAt l (((p + (encQname d).length) + 2) + 2) (be32 r.ttl) := hb4
  have hc5 : bytesAt l ((((p + (encQname d).length) + 2) + 2) + 4) (be16 (encQname hn ++ encQname mh ++ be32 r.serial ++ be32 r.refresh ++ be32 r.retry ++ be32 r.expire ++ be32 r.minimum).length) := hb5
  have hc6 : bytesAt l (((((p + (encQname d).length) + 2) + 2) + 4) + 2) (encQname hn) := hb6
  have hc7 : bytesAt l ((((((p + (encQname d).length) + 2) + 2) + 4) + 2) + (encQname hn).length) (encQname mh) := hb7
  have hc8 : bytesAt l (((((((p + (encQname d).length) + 2) + 2) + 4) + 2) + (encQname hn).length) + (encQname mh).length) (be32 r.serial) := hb8
  have hc9 : bytesAt l ((((((((p + (encQname d).length) + 2) + 2) + 4) + 2) + (encQname hn).length) + (encQname mh).length) + 4) (be32 r.refresh) := hb9
  have hc10 : bytesAt l (((((((((p + (encQname d).length) + 2) + 2) + 4) + 2) + (encQname hn).length) + (encQname mh).length) + 4) + 4) (be32 r.retry) := hb10
  have hc11 : bytesAt l ((((((((((p + (encQname d).length) + 2) + 2) + 4) + 2) + (encQname hn).length) + (encQname mh).length) + 4) + 4) + 4) (be32 r.expire) := hb11
  have hc12 : bytesAt l (((((((((((p + (encQname d).length) + 2) + 2) + 4) + 2) + (encQname hn).length) + (encQname mh).length) + 4) + 4) + 4) + 4) (be32 r.minimum) := hb12
  unfold DNSRecord.read
  rw [readQname_bytes hlen hdg hc1]
  simp only [ok_bind]
  rw [read16_bytes hlen hqlt hc2]
  simp only [ok_bind]
  rw [read16_bytes hlen hcls hc3]
  simp only [ok_bind]
  rw [read32_bytes hlen httl hc4]
  simp only [ok_bind]
  rw [read16_bytes hlen (show (encQname hn ++ encQname mh ++ be32 r.serial ++ be32 r.refresh ++
      be32 r.retry ++ be32 r.expire ++ be32 r.minimum).length < 65536 from by
      have hXl : (encQname hn ++ encQname mh ++ be32 r.serial ++
          be32 r.refresh ++ be32 r.retry ++ be32 r.expire ++
          be32 r.minimum).length =
          (encQname hn).length + (encQname mh).length + 20 := by
        simp only [List.length_append, be32_length]
        try omega
      omega) hc5]
  simp only [ok_bind]
  rw [if_neg (show ¬ (r.qtype = AQueryType) from by rw [hq]; decide),
    if_neg (show ¬ (r.qtype = NSQueryType) from by rw [hq]; decide),
    if_neg (show ¬ (r.qtype = CNAMEQueryType) from by rw [hq]; decide),
    if_pos hq]
  rw [readQname_bytes hlen hhg hc6]
  simp only [ok_bind]
  rw [readQname_bytes hlen hmg hc7]
  simp only [ok_bind]
  rw [read32_bytes hlen hse hc8]
  simp only [ok_bind]
  rw [read32_bytes hlen hrf hc9]
  simp only [ok_bind]
  rw [read32_bytes hlen hrt hc10]
  simp only [ok_bind]
  rw [read32_bytes hlen hex hc11]
  simp only [ok_bind]
  rw [read32_bytes hlen hmi hc12]
  simp only [ok_bind]
  have hzd : zeroDataLen r = ⟨r.qtype, some d, some hn, some mh, r.serial, r.refresh, r.retry, r.expire, r.minimum, r.cls, 0, none, r.ttl, 0⟩ := by
    unfold zeroDataLen
    try dsimp only
    rw [hdom, hhost, hmail, hpr, haddr]
  rw [hzd]
  simp only [emptyDNSRecord]
  rw [show p + (encQname d).length + 2 + 2 + 4 + 2 + (encQname hn).length + (encQname mh).length + 4 + 4 + 4 + 4 + 4 = p + (encRecord r).length from by
    rw [hRlen]
    omega]

/-- DNSRecord.Read over a region holding the encoding of an MX record in decoder shape decodes the record with DataLen cleared -/
theorem recordRead_MX_bytes {l : List Nat} {p : Nat} {r : DNSRecord}
    {d hn : List Nat}
    (hq : r.qtype = MXQueryType) (hdom : r.domain = some d)
    (hhost : r.host = some hn) (haddr : r.addr = none)
    (hm : r.mailHost = none) (hsoa : zeroSOAFields r)
    (hdg : goodName d) (hhg : goodName hn) (hcls : r.cls < 65536)
    (httl : r.ttl < 2 ^ 32) (hprio : r.priority < 65536)
    (hlen : l.length = 512) (hb : bytesAt l p (encRecord r)) :
    DNSRecord.read ⟨l, p⟩ =
      .ok (zeroDataLen r, ⟨l, p + (encRecord r).length⟩) := by
  have hqlt : r.qtype < 65536 := by rw [hq]; decide
  have henc : encRecord r = encQname d ++ be16 (r.qtype % 65536) ++
      be16 (r.cls % 65536) ++ be32 (r.ttl % 2 ^ 32) ++
      (be16 (be16 (r.priority % 65536) ++ encQname hn).length ++
        (be16 (r.priority % 65536) ++ encQname hn)) := by
    unfold encRecord
    rw [if_neg (show ¬ (r.qtype = AQueryType) from by rw [hq]; decide),
      if_neg (show ¬ (r.qtype = NSQueryType ∨ r.qtype = CNAMEQueryType) from by
        rw [hq]; decide),
      if_neg (show ¬ (r.qtype = SOAQueryType) from by rw [hq]; decide),
      if_pos hq, hdom, Option.getD_some, hhost, Option.getD_some]
  have hRlen : (encRecord r).length = (encQname d).length + (encQname hn).length + 12 := by
    rw [henc]
    simp only [List.length_append, List.length_cons, List.length_nil, be16_length, be32_length, List.length_map]
    try omega
  have hbound : p + (encRecord r).length ≤ 512 := by
    have hbb := (bytesAt_iff.mp hb).1
    omega
  have hshape : encRecord r = encQname d ++ (be16 r.qtype ++ (be16 r.cls ++
      (be32 r.ttl ++ (be16 (be16 r.priority ++ encQname hn).length ++
        (be16 r.priority ++ encQname hn))))) := by
    rw [henc, be16_mod_65536, be16_mod_65536, be16_mod_65536, be32_mod_2_32]
    simp [List.append_assoc]
  rw [hshape] at hb
  rw [bytesAt_append] at hb
  obtain ⟨hb1, hb⟩ := hb
  rw [bytesAt_append] at hb
  obtain ⟨hb2, hb⟩ := hb
  rw [bytesAt_append] at hb
  obtain ⟨hb3, hb⟩ := hb
  rw [bytesAt_append] at hb
  obtain ⟨hb4, hb⟩ := hb
  rw [bytesAt_append] at hb
  obtain ⟨hb5, hb⟩ := hb
  rw [bytesAt_append] at hb
  obtain ⟨hb6, hb⟩ := hb
  have hb7 := hb
  have hc1 : bytesAt l p (encQname d) := hb1
  have hc2 : bytesAt l (p + (encQname d).length) (be16 r.qtype) := hb2
  have hc3 : bytesAt l ((p + (encQname d).length) + 2) (be16 r.cls) := hb3
  have hc4 : bytesAt l (((p + (encQname d).length) + 2) + 2) (be32 r.ttl) := hb4
  have hc5 : bytesAt l ((((p + (encQname d).length) + 2) + 2) + 4) (be16 (be16 r.priority ++ encQname hn).length) := hb5
  have hc6 : bytesAt l (((((p + (encQname d).length) + 2) + 2) + 4) + 2) (be16 r.priority) := hb6
  have hc7 : bytesAt l ((((((p + (encQname d).length) + 2) + 2) + 4) + 2) + 2) (encQname hn) := hb7
  unfold DNSRecord.read
  rw [readQname_bytes hlen hdg hc1]
  simp only [ok_bind]
  rw [read16_bytes hlen hqlt hc2]
  simp only [ok_bind]
  rw [read16_bytes hlen hcls hc3]
  simp only [ok_bind]
  rw [read32_bytes hlen httl hc4]
  simp only [ok_bind]
  rw [read16_bytes hlen (show (be16 r.priority ++ encQname hn).length < 65536 from by
      have hXl : (be16 r.priority ++ encQname hn).length =
          (encQname hn).length + 2 := by
        simp only [List.length_append, be16_length]
        omega
      omega) hc5]
  simp only [ok_bind]
  rw [if_neg (show ¬ (r.qtype = AQueryType) from by rw [hq]; decide),
    if_neg (show ¬ (r.qtype = NSQueryType) from by rw [hq]; decide),
    if_neg (show ¬ (r.qtype = CNAMEQueryType) from by rw [hq]; decide),
    if_neg (show ¬ (r.qtype = SOAQueryType) from by rw [hq]; decide),
    if_neg (show ¬ (r.qtype = AAAAQueryType) from by rw [hq]; decide),
    if_pos hq]
  rw [read16_bytes hlen hprio hc6]
  simp only [ok_bind]
  rw [readQname_bytes hlen hhg hc7]
  simp only [ok_bind]
  obtain ⟨hs1, hs2, hs3, hs4, hs5⟩ := hsoa
  have hzd : zeroDataLen r = ⟨r.qtype, some d, some hn, none, 0, 0, 0, 0, 0, r.cls, r.priority, none, r.ttl, 0⟩ := by
    unfold zeroDataLen
    try dsimp only
    rw [hdom, hhost, hm, hs1, hs2, hs3, hs4, hs5, haddr]
  rw [hzd]
  simp only [emptyDNSRecord]
  rw [show p + (encQname d).length + 2 + 2 + 4 + 2 + 2 + (encQname hn).length = p + (encRecord r).length from by
    rw [hRlen]
    omega]

/-- DNSRecord.Read over a region holding the encoding of an AAAA record in decoder shape decodes the record with DataLen cleared -/
theorem recordRead_AAAA_bytes {l : List Nat} {p : Nat} {r : DNSRecord}
    {d a : List Nat}
    (hq : r.qtype = AAAAQueryType) (hdom : r.domain = some d)
    (haddr : r.addr = some a) (ha16 : a.length = 16)
    (hbytes : ∀ x ∈ a, x < 256)
    (hh : r.host = none) (hm : r.mailHost = none) (hsoa : zeroSOAFields r)
    (hpr : r.priority = 0) (hdg : goodName d) (hcls : r.cls < 65536)
    (httl : r.ttl < 2 ^ 32)
    (hlen : l.length = 512) (hb : bytesAt l p (encRecord r)) :
    DNSRecord.read ⟨l, p⟩ =
      .ok (zeroDataLen r, ⟨l, p + (encRecord r).length⟩) := by
  obtain ⟨x0, x1, x2, x3, x4, x5, x6, x7, x8, x9, x10, x11, x12, x13, x14, x15, ha⟩ := list_len16 (l := a) ha16
  have hx0 : x0 < 256 := hbytes x0 (by rw [ha]; simp)
  have hx1 : x1 < 256 := hbytes x1 (by rw [ha]; simp)
  have hx2 : x2 < 256 := hbytes x2 (by rw [ha]; simp)
  have hx3 : x3 < 256 := hbytes x3 (by rw [ha]; simp)
  have hx4 : x4 < 256 := hbytes x4 (by rw [ha]; simp)
  have hx5 : x5 < 256 := hbytes x5 (by rw [ha]; simp)
  have hx6 : x6 < 256 := hbytes x6 (by rw [ha]; simp)
  have hx7 : x7 < 256 := hbytes x7 (by rw [ha]; simp)
  have hx8 : x8 < 256 := hbytes x8 (by rw [ha]; simp)
  have hx9 : x9 < 256 := hbytes x9 (by rw [ha]; simp)
  have hx10 : x10 < 256 := hbytes x10 (by rw [ha]; simp)
  have hx11 : x11 < 256 := hbytes x11 (by rw [ha]; simp)
  have hx12 : x12 < 256 := hbytes x12 (by rw [ha]; simp)
  have hx13 : x13 < 256 := hbytes x13 (by rw [ha]; simp)
  have hx14 : x14 < 256 := hbytes x14 (by rw [ha]; simp)
  have hx15 : x15 < 256 := hbytes x15 (by rw [ha]; simp)
  have hqlt : r.qtype < 65536 := by rw [hq]; decide
  have henc : encRecord r = encQname d ++ be16 (r.qtype % 65536) ++
      be16 (r.cls % 65536) ++ be32 (r.ttl % 2 ^ 32) ++
      (be16 16 ++ a) := by
    unfold encRecord
    rw [if_neg (show ¬ (r.qtype = AQueryType) from by rw [hq]; decide),
      if_neg (show ¬ (r.qtype = NSQueryType ∨ r.qtype = CNAMEQueryType) from by
        rw [hq]; decide),
      if_neg (show ¬ (r.qtype = SOAQueryType) from by rw [hq]; decide),
      if_neg (show ¬ (r.qtype = MXQueryType) from by rw [hq]; decide),
      if_pos hq, hdom, Option.getD_some, haddr, Option.getD_some,
      ipTo16_of_len16 ha16]
  have hRlen : (encRecord r).length = (encQname d).length + 26 := by
    rw [henc]
    simp only [List.length_append, List.length_cons, List.length_nil, be16_length, be32_length, List.length_map]
    try omega
  have hbound : p + (encRecord r).length ≤ 512 := by
    have hbb := (bytesAt_iff.mp hb).1
    omega
  have hshape : encRecord r = encQname d ++ (be16 r.qtype ++ (be16 r.cls ++
      (be32 r.ttl ++ (be16 16 ++ ([x0, x1, x2, x3] ++ ([x4, x5, x6, x7] ++
        ([x8, x9, x10, x11] ++ [x12, x13, x14, x15]))))))) := by
    rw [henc, be16_mod_65536, be16_mod_65536, be32_mod_2_32, ha]
    simp [List.append_assoc]
  rw [hshape] at hb
  rw [bytesAt_append] at hb
  obtain ⟨hb1, hb⟩ := hb
  rw [bytesAt_append] at hb
  obtain ⟨hb2, hb⟩ := hb
  rw [bytesAt_append] at hb
  obtain ⟨hb3, hb⟩ := hb
  rw [bytesAt_append] at hb
  obtain ⟨hb4, hb⟩ := hb
  rw [bytesAt_append] at hb
  obtain ⟨hb5, hb⟩ := hb
  rw [bytesAt_append] at hb
  obtain ⟨hb6, hb⟩ := hb
  rw [bytesAt_append] at hb
  obtain ⟨hb7, hb⟩ := hb
  rw [bytesAt_append] at hb
  obtain ⟨hb8, hb⟩ := hb
  have hb9 := hb
  have hc1 : bytesAt l p (encQname d) := hb1
  have hc2 : bytesAt l (p + (encQname d).length) (be16 r.qtype) := hb2
  have hc3 : bytesAt l ((p + (encQname d).length) + 2) (be16 r.cls) := hb3
  have hc4 : bytesAt l (((p + (encQname d).length) + 2) + 2) (be32 r.ttl) := hb4
  have hc5 : bytesAt l ((((p + (encQname d).length) + 2) + 2) + 4) (be16 16) := hb5
  have hc6 : bytesAt l (((((p + (encQname d).length) + 2) + 2) + 4) + 2) ([x0, x1, x2, x3]) := hb6
  have hc7 : bytesAt l ((((((p + (encQname d).length) + 2) + 2) + 4) + 2) + 4) ([x4, x5, x6, x7]) := hb7
  have hc8 : bytesAt l (((((((p + (encQname d).length) + 2) + 2) + 4) + 2) + 4) + 4) ([x8, x9, x10, x11]) := hb8
  have hc9 : bytesAt l ((((((((p + (encQname d).length) + 2) + 2) + 4) + 2) + 4) + 4) + 4) ([x12, x13, x14, x15]) := hb9
  unfold DNSRecord.read
  rw [readQname_bytes hlen hdg hc1]
  simp only [ok_bind]
  rw [read16_bytes hlen hqlt hc2]
  simp only [ok_bind]
  rw [read16_bytes hlen hcls hc3]
  simp only [ok_bind]
  rw [read32_bytes hlen httl hc4]
  simp only [ok_bind]
  rw [read16_bytes hlen (show (16 : Nat) < 65536 from by norm_num) hc5]
  simp only [ok_bind]
  rw [if_neg (show ¬ (r.qtype = AQueryType) from by rw [hq]; decide),
    if_neg (show ¬ (r.qtype = NSQueryType) from by rw [hq]; decide),
    if_neg (show ¬ (r.qtype = CNAMEQueryType) from by rw [hq]; decide),
    if_neg (show ¬ (r.qtype = SOAQueryType) from by rw [hq]; decide),
    if_pos hq]
  rw [read32_bytes_raw (u := x0) (w := x1) (y := x2) (z := x3) hlen hc6]
  simp only [ok_bind]
  rw [read32_bytes_raw (u := x4) (w := x5) (y := x6) (z := x7) hlen hc7]
  simp only [ok_bind]
  rw [read32_bytes_raw (u := x8) (w := x9) (y := x10) (z := x11) hlen hc8]
  simp only [ok_bind]
  rw [read32_bytes_raw (u := x12) (w := x13) (y := x14) (z := x15) hlen hc9]
  simp only [ok_bind]
  rw [four_byte_value hx0 hx1 hx2 hx3]
  obtain ⟨f0, f1, f2, f3⟩ := four_byte_fields hx0 hx1 hx2 hx3
  rw [f0, f1, f2, f3]
  rw [four_byte_value hx4 hx5 hx6 hx7]
  obtain ⟨f4, f5, f6, f7⟩ := four_byte_fields hx4 hx5 hx6 hx7
  rw [f4, f5, f6, f7]
  rw [four_byte_value hx8 hx9 hx10 hx11]
  obtain ⟨f8, f9, f10, f11⟩ := four_byte_fields hx8 hx9 hx10 hx11
  rw [f8, f9, f10, f11]
  rw [four_byte_value hx12 hx13 hx14 hx15]
  obtain ⟨f12, f13, f14, f15⟩ := four_byte_fields hx12 hx13 hx14 hx15
  rw [f12, f13, f14, f15]
  rw [show (([x0, x1, x2, x3] ++ [x4, x5, x6, x7] ++ [x8, x9, x10, x11] ++ [x12, x13, x14, x15]) : List Nat) = a
    from by rw [ha]; simp]
  obtain ⟨hs1, hs2, hs3, hs4, hs5⟩ := hsoa
  have hzd : zeroDataLen r = ⟨r.qtype, some d, none, none, 0, 0, 0, 0, 0, r.cls, 0, some a, r.ttl, 0⟩ := by
    unfold zeroDataLen
    try dsimp only
    rw [hdom, haddr, hh, hm, hs1, hs2, hs3, hs4, hs5, hpr]
  rw [hzd]
  simp only [emptyDNSRecord]
  rw [show p + (encQname d).length + 2 + 2 + 4 + 2 + 4 + 4 + 4 + 4 = p + (encRecord r).length from by
    rw [hRlen]
    omega]
-- END READ BRANCHES

/-- DNSRecord.Read over a region holding the encoding of any record in
decoder shape decodes the record with DataLen cleared. -/
theorem recordRead_bytes {l : List Nat} {p : Nat} {r : DNSRecord}
    (hgood : goodRecord r) (hlen : l.length = 512)
    (hb : bytesAt l p (encRecord r)) :
    DNSRecord.read ⟨l, p⟩ =
      .ok (zeroDataLen r, ⟨l, p + (encRecord r).length⟩) := by
  obtain ⟨hdom, hdgood, hcls, httl, hcase⟩ := hgood
  obtain ⟨d, hd⟩ := Option.ne_none_iff_exists'.mp hdom
  rw [hd] at hdgood
  simp only [Option.getD_some] at hdgood
  rcases hcase with ⟨hq, haddr, ha16, htake, hbytes, hh, hm, hsoa, hpr⟩ |
    ⟨hq2, hhost, haddr, hm, hsoa, hpr⟩ |
    ⟨hq, hhost, hmail, hmg, haddr, h1, h2, h3, h4, h5, hpr⟩ |
    ⟨hq, hhost, hprio, haddr, hm, hsoa⟩ |
    ⟨hq, haddr, ha16, hbytes, hh, hm, hsoa, hpr⟩
  · obtain ⟨a, ha⟩ := Option.ne_none_iff_exists'.mp haddr
    rw [ha] at ha16 htake hbytes
    simp only [Option.getD_some] at ha16 htake hbytes
    exact recordRead_A_bytes hq hd ha ha16 htake hbytes hh hm hsoa hpr
      hdgood hcls httl hlen hb
  · obtain ⟨hhne, hhgood⟩ := hhost
    obtain ⟨hn, hh⟩ := Option.ne_none_iff_exists'.mp hhne
    rw [hh] at hhgood
    simp only [Option.getD_some] at hhgood
    rcases hq2 with hq | hq
    · exact recordRead_NS_bytes hq hd hh haddr hm hsoa hpr hdgood hhgood
        hcls httl hlen hb
    · exact recordRead_CNAME_bytes hq hd hh haddr hm hsoa hpr hdgood hhgood
        hcls httl hlen hb
  · obtain ⟨hhne, hhgood⟩ := hhost
    obtain ⟨hn, hh⟩ := Option.ne_none_iff_exists'.mp hhne
    rw [hh] at hhgood
    simp only [Option.getD_some] at hhgood
    obtain ⟨mh, hmh⟩ := Option.ne_none_iff_exists'.mp hmail
    rw [hmh] at hmg
    simp only [Option.getD_some] at hmg
    exact recordRead_SOA_bytes hq hd hh hmh haddr hpr hdgood hhgood hmg
      hcls httl h1 h2 h3 h4 h5 hlen hb
  · obtain ⟨hhne, hhgood⟩ := hhost
    obtain ⟨hn, hh⟩ := Option.ne_none_iff_exists'.mp hhne
    rw [hh] at hhgood
    simp only [Option.getD_some] at hhgood
    exact recordRead_MX_bytes hq hd hh haddr hm hsoa hdgood hhgood
      hcls httl hprio hlen hb
  · obtain ⟨a, ha⟩ := Option.ne_none_iff_exists'.mp haddr
    rw [ha] at ha16 hbytes
    simp only [Option.getD_some] at ha16 hbytes
    exact recordRead_AAAA_bytes hq hd ha ha16 hbytes hh hm hsoa hpr
      hdgood hcls httl hlen hb

/-- The question loop of DNSPacket.Read over the concatenated question
encodings. -/
theorem readN_questions_bytes : ∀ (qs : List DNSQuestion) (l : List Nat) (p : Nat),
    l.length = 512 → (∀ q ∈ qs, goodQuestion q) →
    bytesAt l p ((qs.map encQuestion).flatten) →
    readN DNSQuestion.read qs.length ⟨l, p⟩ =
      .ok (qs, ⟨l, p + ((qs.map encQuestion).flatten).length⟩) := by
  intro qs
  induction qs with
  | nil =>
    intro l p hlen hgood hb
    simp only [List.length_nil, List.map_nil, List.flatten_nil, Nat.add_zero]
    rfl
  | cons q qs ih =>
    intro l p hlen hgood hb
    have hflat : ((q :: qs).map encQuestion).flatten =
        encQuestion q ++ (qs.map encQuestion).flatten := by
      simp
    rw [hflat] at hb ⊢
    rw [bytesAt_append] at hb
    obtain ⟨hb1, hb2⟩ := hb
    rw [show (q :: qs).length = qs.length + 1 from rfl]
    simp only [readN]
    rw [questionRead_bytes hlen (hgood q (by simp)) hb1]
    simp only [ok_bind]
    rw [ih l _ hlen (fun x hx => hgood x (by simp [hx])) hb2]
    simp only [ok_bind]
    rw [show p + (encQuestion q).length +
        ((qs.map encQuestion).flatten).length =
        p + (encQuestion q ++ (qs.map encQuestion).flatten).length from by
      simp only [List.length_append]
      omega]

/-- A record loop of DNSPacket.Read over the concatenated record
encodings: the decoded section is the original with DataLen cleared. -/
theorem readN_records_bytes : ∀ (rs : List DNSRecord) (l : List Nat) (p : Nat),
    l.length = 512 → (∀ r ∈ rs, goodRecord r) →
    bytesAt l p ((rs.map encRecord).flatten) →
    readN DNSRecord.read rs.length ⟨l, p⟩ =
      .ok (rs.map zeroDataLen, ⟨l, p + ((rs.map encRecord).flatten).length⟩) := by
  intro rs
  induction rs with
  | nil =>
    intro l p hlen hgood hb
    simp only [List.length_nil, List.map_nil, List.flatten_nil, Nat.add_zero]
    rfl
  | cons r rs ih =>
    intro l p hlen hgood hb
    have hflat : ((r :: rs).map encRecord).flatten =
        encRecord r ++ (rs.map encRecord).flatten := by
      simp
    rw [hflat] at hb ⊢
    rw [bytesAt_append] at hb
    obtain ⟨hb1, hb2⟩ := hb
    rw [show (r :: rs).length = rs.length + 1 from rfl]
    simp only [readN]
    rw [recordRead_bytes (hgood r (by simp)) hlen hb1]
    simp only [ok_bind]
    rw [ih l _ hlen (fun x hx => hgood x (by simp [hx])) hb2]
    simp only [ok_bind]
    rw [show p + (encRecord r).length +
        ((rs.map encRecord).flatten).length =
        p + (encRecord r ++ (rs.map encRecord).flatten).length from by
      simp only [List.length_append]
      omega]
    rfl

theorem mem_splitDot : ∀ {n : List Nat} {l : List Nat}, l ∈ splitDot n →
    ∀ x ∈ l, x ∈ n := by
  intro n
  induction n with
  | nil =>
    intro l hl x hx
    simp [splitDot] at hl
    subst hl
    simp at hx
  | cons c rest ih =>
    intro l hl x hx
    simp only [splitDot] at hl
    by_cases hc : c = 46
    · rw [if_pos hc] at hl
      rcases List.mem_cons.mp hl with rfl | hl
      · simp at hx
      · exact List.mem_cons_of_mem c (ih hl x hx)
    · rw [if_neg hc] at hl
      cases hs : splitDot rest with
      | nil => exact absurd hs (splitDot_ne_nil rest)
      | cons l0 ls =>
        rw [hs] at hl
        rcases List.mem_cons.mp hl with rfl | hl
        · rcases List.mem_cons.mp hx with rfl | hx
          · exact List.mem_cons_self _ _
          · exact List.mem_cons_of_mem c
              (ih (by rw [hs]; exact List.mem_cons_self _ _) x hx)
        · exact List.mem_cons_of_mem c
            (ih (by rw [hs]; exact List.mem_cons_of_mem _ hl) x hx)

theorem encLabels_lt : ∀ (ls : List (List Nat)),
    (∀ l ∈ ls, l.length ≤ 63) → (∀ l ∈ ls, ∀ x ∈ l, x < 256) →
    ∀ x ∈ encLabels ls, x < 256 := by
  intro ls
  induction ls with
  | nil =>
    intro _ _ x hx
    simp [encLabels_nil] at hx
  | cons l ls ih =>
    intro h63 hlt x hx
    rw [encLabels_cons] at hx
    rcases List.mem_cons.mp hx with rfl | hx
    · have := h63 l (by simp)
      omega
    · rcases List.mem_append.mp hx with hx | hx
      · exact hlt l (by simp) x hx
      · exact ih (fun a ha => h63 a (by simp [ha]))
          (fun a ha => hlt a (by simp [ha])) x hx

theorem encQname_lt {n : List Nat} (hgood : goodName n) :
    ∀ x ∈ encQname n, x < 256 := by
  obtain ⟨h1, h2⟩ := hgood
  intro x hx
  simp only [encQname, List.mem_append, List.mem_singleton] at hx
  rcases hx with hx | rfl
  · exact encLabels_lt _ (fun l hl => (h1 l hl).2)
      (fun l hl y hy => h2 y (mem_splitDot hl y hy)) x hx
  · norm_num

theorem encHeader_lt (h : DNSHeader) : ∀ x ∈ encHeader h, x < 256 := by
  intro x hx
  simp only [encHeader, List.mem_append, List.mem_cons, List.not_mem_nil,
    or_false] at hx
  rcases hx with ((((hx | hx) | hx) | hx) | hx) | hx
  · exact be16_lt _ x hx
  · rcases hx with rfl | rfl
    · exact flagByteA_lt h
    · exact flagByteB_lt h
  · exact be16_lt _ x hx
  · exact be16_lt _ x hx
  · exact be16_lt _ x hx
  · exact be16_lt _ x hx

theorem encQuestion_lt {q : DNSQuestion} (hgood : goodQuestion q) :
    ∀ x ∈ encQuestion q, x < 256 := by
  obtain ⟨hn, h1, h2⟩ := hgood
  intro x hx
  simp only [encQuestion, List.mem_append] at hx
  rcases hx with (hx | hx) | hx
  · exact encQname_lt hn x hx
  · exact be16_lt _ x hx
  · exact be16_lt _ x hx

theorem encRecord_lt {r : DNSRecord} (hgood : goodRecord r) :
    ∀ x ∈ encRecord r, x < 256 := by
  obtain ⟨hdom, hdgood, hcls, httl, hcase⟩ := hgood
  intro x hx
  unfold encRecord at hx
  rcases List.mem_append.mp hx with hx | hpay
  · rcases List.mem_append.mp hx with hx | hx
    · rcases List.mem_append.mp hx with hx | hx
      · rcases List.mem_append.mp hx with hx | hx
        · exact encQname_lt hdgood x hx
        · exact be16_lt _ x hx
      · exact be16_lt _ x hx
    · exact be32_lt _ x hx
  · rcases hcase with ⟨hq, haddr, ha16, htake, hbytes, _, _, _, _⟩ |
      ⟨hq2, hhost, _, _, _, _⟩ |
      ⟨hq, hhost, hmail, hmg, _, _, _, _, _, _, _⟩ |
      ⟨hq, hhost, _, _, _, _⟩ |
      ⟨hq, haddr, ha16, hbytes, _, _, _, _⟩
    · rw [if_pos hq] at hpay
      obtain ⟨a, ha⟩ := Option.ne_none_iff_exists'.mp haddr
      rw [ha] at ha16 htake hbytes
      simp only [Option.getD_some] at ha16 htake hbytes
      rw [ha, Option.getD_some, ipTo4_v4mapped ha16 htake] at hpay
      simp only [Option.getD_some] at hpay
      rcases List.mem_append.mp hpay with hx | hx
      · exact be16_lt _ x hx
      · exact hbytes x (List.mem_of_mem_drop hx)
    · rw [if_neg (show ¬ (r.qtype = AQueryType) from by
          rcases hq2 with hq | hq <;> rw [hq] <;> decide),
        if_pos hq2] at hpay
      obtain ⟨hhne, hhgood⟩ := hhost
      obtain ⟨hn, hh⟩ := Option.ne_none_iff_exists'.mp hhne
      rw [hh] at hhgood
      simp only [Option.getD_some] at hhgood
      rw [hh] at hpay
      simp only [Option.getD_some] at hpay
      rcases List.mem_append.mp hpay with hx | hx
      · exact be16_lt _ x hx
      · exact encQname_lt hhgood x hx
    · rw [if_neg (show ¬ (r.qtype = AQueryType) from by rw [hq]; decide),
        if_neg (show ¬ (r.qtype = NSQueryType ∨ r.qtype = CNAMEQueryType)
          from by rw [hq]; decide),
        if_pos hq] at hpay
      obtain ⟨hhne, hhgood⟩ := hhost
      obtain ⟨hn, hh⟩ := Option.ne_none_iff_exists'.mp hhne
      rw [hh] at hhgood
      simp only [Option.getD_some] at hhgood
      obtain ⟨mh, hmh⟩ := Option.ne_none_iff_exists'.mp hmail
      rw [hmh] at hmg
      simp only [Option.getD_some] at hmg
      rw [hh, hmh] at hpay
      simp only [Option.getD_some] at hpay
      rcases List.mem_append.mp hpay with hx | hx
      · exact be16_lt _ x hx
      · rcases List.mem_append.mp hx with hx | hx
        · rcases List.mem_append.mp hx with hx | hx
          · rcases List.mem_append.mp hx with hx | hx
            · rcases List.mem_append.mp hx with hx | hx
              · rcases List.mem_append.mp hx with hx | hx
                · rcases List.mem_append.mp hx with hx | hx
                  · exact encQname_lt hhgood x hx
                  · exact encQname_lt hmg x hx
                · exact be32_lt _ x hx
              · exact be32_lt _ x hx
            · exact be32_lt _ x hx
          · exact be32_lt _ x hx
        · exact be32_lt _ x hx
    · rw [if_neg (show ¬ (r.qtype = AQueryType) from by rw [hq]; decide),
        if_neg (show ¬ (r.qtype = NSQueryType ∨ r.qtype = CNAMEQueryType)
          from by rw [hq]; decide),
        if_neg (show ¬ (r.qtype = SOAQueryType) from by rw [hq]; decide),
        if_pos hq] at hpay
      obtain ⟨hhne, hhgood⟩ := hhost
      obtain ⟨hn, hh⟩ := Option.ne_none_iff_exists'.mp hhne
      rw [hh] at hhgood
      simp only [Option.getD_some] at hhgood
      rw [hh] at hpay
      simp only [Option.getD_some] at hpay
      rcases List.mem_append.mp hpay with hx | hx
      · exact be16_lt _ x hx
      · rcases List.mem_append.mp hx with hx | hx
        · exact be16_lt _ x hx
        · exact encQname_lt hhgood x hx
    · rw [if_neg (show ¬ (r.qtype = AQueryType) from by rw [hq]; decide),
        if_neg (show ¬ (r.qtype = NSQueryType ∨ r.qtype = CNAMEQueryType)
          from by rw [hq]; decide),
        if_neg (show ¬ (r.qtype = SOAQueryType) from by rw [hq]; decide),
        if_neg (show ¬ (r.qtype = MXQueryType) from by rw [hq]; decide),
        if_pos hq] at hpay
      obtain ⟨a, ha⟩ := Option.ne_none_iff_exists'.mp haddr
      rw [ha] at ha16 hbytes
      simp only [Option.getD_some] at ha16 hbytes
      rw [ha] at hpay
      simp only [Option.getD_some] at hpay
      rw [ipTo16_of_len16 ha16] at hpay
      rcases List.mem_append.mp hpay with hx | hx
      · exact be16_lt _ x hx
      · exact hbytes x hx

theorem flatten_lt {α : Type} (g : α → List Nat) (xs : List α)
    (h : ∀ x ∈ xs, ∀ y ∈ g x, y < 256) :
    ∀ y ∈ (xs.map g).flatten, y < 256 := by
  intro y hy
  simp only [List.mem_flatten, List.mem_map] at hy
  obtain ⟨s, ⟨x, hx, rfl⟩, hys⟩ := hy
  exact h x hx y hys

theorem encPacket_lt {p : DNSPacket} (hgood : goodPacket p) :
    ∀ x ∈ encPacket p, x < 256 := by
  obtain ⟨hgh, hgq, hga, hgau, hgr⟩ := hgood
  intro x hx
  unfold encPacket at hx
  rcases List.mem_append.mp hx with hx | hx
  · rcases List.mem_append.mp hx with hx | hx
    · rcases List.mem_append.mp hx with hx | hx
      · rcases List.mem_append.mp hx with hx | hx
        · exact encHeader_lt _ x hx
        · exact flatten_lt _ _ (fun q hq => encQuestion_lt (hgq q hq)) x hx
      · exact flatten_lt _ _ (fun r hr => encRecord_lt (hga r hr)) x hx
    · exact flatten_lt _ _ (fun r hr => encRecord_lt (hgau r hr)) x hx
  · exact flatten_lt _ _ (fun r hr => encRecord_lt (hgr r hr)) x hx

theorem encQname_len_pos (n : List Nat) : 1 ≤ (encQname n).length := by
  simp only [encQname, List.length_append, List.length_cons, List.length_nil]
  omega

theorem encQuestion_len_pos (q : DNSQuestion) : 1 ≤ (encQuestion q).length := by
  unfold encQuestion
  simp only [List.length_append]
  have := encQname_len_pos q.name
  omega

theorem encRecord_len_pos (r : DNSRecord) : 1 ≤ (encRecord r).length := by
  unfold encRecord
  simp only [List.length_append]
  have := encQname_len_pos (r.domain.getD [])
  omega

theorem count_le_flatten {α : Type} (g : α → List Nat) :
    ∀ (xs : List α), (∀ x ∈ xs, 1 ≤ (g x).length) →
    xs.length ≤ ((xs.map g).flatten).length := by
  intro xs
  induction xs with
  | nil => simp
  | cons x xs ih =>
    intro h
    simp only [List.map_cons, List.flatten_cons, List.length_append,
      List.length_cons]
    have h1 := h x (by simp)
    have h2 := ih (fun a ha => h a (by simp [ha]))
    omega

theorem encPacket_length (p : DNSPacket) : (encPacket p).length =
    12 + ((p.questions.map encQuestion).flatten).length +
    ((p.answers.map encRecord).flatten).length +
    ((p.authorities.map encRecord).flatten).length +
    ((p.resources.map encRecord).flatten).length := by
  unfold encPacket
  simp only [List.length_append, encHeader_length]
  try omega

/-- DNSPacket.Read over a region holding a packet encoding at offset 0:
the decoded packet carries the recomputed counts in its header, the
original questions, and the record sections with DataLen cleared. -/
theorem packetRead_encoding {p : DNSPacket} {l : List Nat}
    (hgood : goodPacket p) (hlen : l.length = 512)
    (hq16 : p.questions.length < 65536) (han16 : p.answers.length < 65536)
    (hau16 : p.authorities.length < 65536) (hre16 : p.resources.length < 65536)
    (hb : bytesAt l 0 (encPacket p)) :
    DNSPacket.read ⟨l, 0⟩ = .ok
      (⟨(⟨p.header.id, p.header.recursionDesired, p.header.truncatedMessage, p.header.authoritativeAnswer, p.header.opcode, p.header.response, p.header.resCode, p.header.checkingDisabled, p.header.authedData, p.header.z, p.header.recursionAvailable, p.questions.length, p.answers.length, p.authorities.length, p.resources.length⟩ : DNSHeader), p.questions, p.answers.map zeroDataLen,
        p.authorities.map zeroDataLen, p.resources.map zeroDataLen⟩,
       ⟨l, (encPacket p).length⟩) := by
  obtain ⟨hgh, hgq, hga, hgau, hgr⟩ := hgood
  obtain ⟨hid, hop⟩ := hgh
  have hshape : encPacket p = encHeader (⟨p.header.id, p.header.recursionDesired, p.header.truncatedMessage, p.header.authoritativeAnswer, p.header.opcode, p.header.response, p.header.resCode, p.header.checkingDisabled, p.header.authedData, p.header.z, p.header.recursionAvailable, p.questions.length, p.answers.length, p.authorities.length, p.resources.length⟩ : DNSHeader) ++
      (((p.questions.map encQuestion).flatten) ++ (((p.answers.map encRecord).flatten) ++ (((p.authorities.map encRecord).flatten) ++ ((p.resources.map encRecord).flatten)))) := by
    unfold encPacket
    simp [encHeader, flagByteA, flagByteB, be16_mod_65536, List.append_assoc]
  rw [hshape] at hb
  rw [bytesAt_append] at hb
  obtain ⟨hbH, hb⟩ := hb
  rw [bytesAt_append] at hb
  obtain ⟨hbQ, hb⟩ := hb
  rw [bytesAt_append] at hb
  obtain ⟨hbA, hb⟩ := hb
  rw [bytesAt_append] at hb
  obtain ⟨hbAU, hbR⟩ := hb
  have hcQ : bytesAt l (0 + 12) ((p.questions.map encQuestion).flatten) := hbQ
  have hcA : bytesAt l (0 + 12 + ((p.questions.map encQuestion).flatten).length) ((p.answers.map encRecord).flatten) := hbA
  have hcAU : bytesAt l (0 + 12 + ((p.questions.map encQuestion).flatten).length + ((p.answers.map encRecord).flatten).length) ((p.authorities.map encRecord).flatten) := hbAU
  have hcR : bytesAt l (0 + 12 + ((p.questions.map encQuestion).flatten).length + ((p.answers.map encRecord).flatten).length + ((p.authorities.map encRecord).flatten).length)
      ((p.resources.map encRecord).flatten) := hbR
  unfold DNSPacket.read
  rw [headerRead_bytes (h := (⟨p.header.id, p.header.recursionDesired, p.header.truncatedMessage, p.header.authoritativeAnswer, p.header.opcode, p.header.response, p.header.resCode, p.header.checkingDisabled, p.header.authedData, p.header.z, p.header.recursionAvailable, p.questions.length, p.answers.length, p.authorities.length, p.resources.length⟩ : DNSHeader)) hlen ⟨hid, hop⟩ hq16 han16 hau16 hre16 hbH]
  simp only [ok_bind]
  rw [readN_questions_bytes p.questions l (0 + 12) hlen hgq hcQ]
  simp only [ok_bind]
  rw [readN_records_bytes p.answers l (0 + 12 + ((p.questions.map encQuestion).flatten).length) hlen hga hcA]
  simp only [ok_bind]
  rw [readN_records_bytes p.authorities l (0 + 12 + ((p.questions.map encQuestion).flatten).length + ((p.answers.map encRecord).flatten).length)
    hlen hgau hcAU]
  simp only [ok_bind]
  rw [readN_records_bytes p.resources
    l (0 + 12 + ((p.questions.map encQuestion).flatten).length + ((p.answers.map encRecord).flatten).length + ((p.authorities.map encRecord).flatten).length) hlen hgr hcR]
  simp only [ok_bind]
  rw [show 0 + 12 + ((p.questions.map encQuestion).flatten).length + ((p.answers.map encRecord).flatten).length + ((p.authorities.map encRecord).flatten).length + ((p.resources.map encRecord).flatten).length =
      (encPacket p).length from by
    rw [encPacket_length]
    try omega]

/-! ### Writer-step machinery: every writer, also on ill-formed input,
moves the cursor forwards, keeps the buffer length, keeps an in-bounds
cursor in bounds and leaves the octets below its starting cursor
untouched. -/

theorem getD_set_ne {l : List Nat} {i j v : Nat} (h : ¬ i = j) :
    (l.set i v).getD j 0 = l.getD j 0 := by
  rw [List.getD_eq_getElem?_getD, List.getD_eq_getElem?_getD,
    List.getElem?_set, if_neg h]

theorem writeStep_refl (b : BytePacketBuffer) : writeStep b b :=
  ⟨le_refl _, rfl, fun h => h, fun _ _ => rfl⟩

theorem writeStep_trans {a b c : BytePacketBuffer}
    (h1 : writeStep a b) (h2 : writeStep b c) : writeStep a c := by
  obtain ⟨p1, l1, s1, g1⟩ := h1
  obtain ⟨p2, l2, s2, g2⟩ := h2
  exact ⟨le_trans p1 p2, l2.trans l1, fun h => s2 (s1 h),
    fun i hi => (g2 i (lt_of_lt_of_le hi p1)).trans (g1 i hi)⟩

theorem writePacketByte_pos {b : BytePacketBuffer} {v : Nat}
    {b2 : BytePacketBuffer} (h : b.writePacketByte v = .ok b2) :
    b2.pos = b.pos + 1 := by
  unfold BytePacketBuffer.writePacketByte at h
  by_cases hc : 512 ≤ b.pos
  · rw [if_pos hc] at h
    exact Except.noConfusion h
  · rw [if_neg hc] at h
    injection h with h
    subst h
    rfl

theorem writePacketByte_writeStep {b : BytePacketBuffer} {v : Nat}
    {b2 : BytePacketBuffer} (h : b.writePacketByte v = .ok b2) :
    writeStep b b2 := by
  unfold BytePacketBuffer.writePacketByte at h
  by_cases hc : 512 ≤ b.pos
  · rw [if_pos hc] at h
    exact Except.noConfusion h
  · rw [if_neg hc] at h
    injection h with h
    subst h
    refine ⟨?_, ?_, ?_, fun i hi => ?_⟩
    · show b.pos ≤ b.pos + 1
      omega
    · show (b.buf.set b.pos (v % 256)).length = b.buf.length
      simp
    · show b.pos ≤ 512 → b.pos + 1 ≤ 512
      omega
    · show (b.buf.set b.pos (v % 256)).getD i 0 = b.buf.getD i 0
      exact getD_set_ne (by omega)

theorem write8_writeStep {b : BytePacketBuffer} {v : Nat}
    {b2 : BytePacketBuffer} (h : b.write8 v = .ok b2) : writeStep b b2 :=
  writePacketByte_writeStep h

theorem bind_writeStep {e : Except String BytePacketBuffer}
    {g : BytePacketBuffer → Except String BytePacketBuffer}
    {b b2 : BytePacketBuffer} (h : e >>= g = .ok b2)
    (he : ∀ c, e = .ok c → writeStep b c)
    (hg : ∀ c c2, g c = .ok c2 → writeStep c c2) : writeStep b b2 := by
  cases e with
  | error s => rw [error_bind] at h; exact Except.noConfusion h
  | ok c =>
    rw [ok_bind] at h
    exact writeStep_trans (he c rfl) (hg c b2 h)

theorem write16_writeStep {b : BytePacketBuffer} {v : Nat}
    {b2 : BytePacketBuffer} (h : b.write16 v = .ok b2) : writeStep b b2 := by
  unfold BytePacketBuffer.write16 at h
  exact bind_writeStep h (fun c hc => writePacketByte_writeStep hc)
    (fun c c2 hc => writePacketByte_writeStep hc)

theorem write16_pos {b : BytePacketBuffer} {v : Nat} {b2 : BytePacketBuffer}
    (h : b.write16 v = .ok b2) : b2.pos = b.pos + 2 := by
  unfold BytePacketBuffer.write16 at h
  cases hc : b.writePacketByte (v / 256 % 256) with
  | error e => rw [hc, error_bind] at h; exact Except.noConfusion h
  | ok c =>
    rw [hc] at h
    simp only [ok_bind] at h
    have h1 := writePacketByte_pos hc
    have h2 := writePacketByte_pos h
    omega

theorem write32_writeStep {b : BytePacketBuffer} {v : Nat}
    {b2 : BytePacketBuffer} (h : b.write32 v = .ok b2) : writeStep b b2 := by
  unfold BytePacketBuffer.write32 at h
  refine bind_writeStep h (fun c hc => writePacketByte_writeStep hc)
    (fun c c2 hc => ?_)
  refine bind_writeStep hc (fun d hd => writePacketByte_writeStep hd)
    (fun d d2 hd => ?_)
  exact bind_writeStep hd (fun u hu => writePacketByte_writeStep hu)
    (fun u u2 hu => writePacketByte_writeStep hu)

theorem foldlM_writeStep {α : Type}
    {f : BytePacketBuffer → α → Except String BytePacketBuffer}
    (hf : ∀ c x c2, f c x = .ok c2 → writeStep c c2) :
    ∀ (xs : List α) (b b2 : BytePacketBuffer),
      xs.foldlM f b = .ok b2 → writeStep b b2 := by
  intro xs
  induction xs with
  | nil =>
    intro b b2 h
    rw [List.foldlM_nil] at h
    have h' : (Except.ok b : Except String BytePacketBuffer) = .ok b2 := h
    injection h' with h'
    subst h'
    exact writeStep_refl b
  | cons x xs ih =>
    intro b b2 h
    rw [List.foldlM_cons] at h
    exact bind_writeStep h (fun c hc => hf b x c hc) (fun c c2 hc => ih c c2 hc)

theorem foldlM_writeStep_adv {α : Type}
    {f : BytePacketBuffer → α → Except String BytePacketBuffer}
    (hf : ∀ c x c2, f c x = .ok c2 → writeStep c c2 ∧ c.pos < c2.pos) :
    ∀ (xs : List α) (b b2 : BytePacketBuffer),
      xs.foldlM f b = .ok b2 →
      writeStep b b2 ∧ b.pos + xs.length ≤ b2.pos := by
  intro xs
  induction xs with
  | nil =>
    intro b b2 h
    rw [List.foldlM_nil] at h
    have h' : (Except.ok b : Except String BytePacketBuffer) = .ok b2 := h
    injection h' with h'
    subst h'
    exact ⟨writeStep_refl b, by simp⟩
  | cons x xs ih =>
    intro b b2 h
    rw [List.foldlM_cons] at h
    cases hc : f b x with
    | error e => rw [hc, error_bind] at h; exact Except.noConfusion h
    | ok c =>
      rw [hc] at h
      simp only [ok_bind] at h
      obtain ⟨s1, a1⟩ := hf b x c hc
      obtain ⟨s2, a2⟩ := ih c b2 h
      refine ⟨writeStep_trans s1 s2, ?_⟩
      simp only [List.length_cons]
      omega

theorem writeQname_writeStep {b : BytePacketBuffer} {n : List Nat}
    {b2 : BytePacketBuffer} (h : b.writeQname n = .ok b2) : writeStep b b2 := by
  unfold BytePacketBuffer.writeQname at h
  refine bind_writeStep h (fun c hc => ?_) (fun c c2 hc => write8_writeStep hc)
  refine foldlM_writeStep (fun d lab d2 hd => ?_) (splitDot n) b c hc
  by_cases hx : 0x3f < lab.length
  · rw [if_pos hx] at hd
    exact Except.noConfusion hd
  · rw [if_neg hx] at hd
    exact bind_writeStep hd (fun u hu => write8_writeStep hu)
      (fun u u2 hu =>
        foldlM_writeStep (fun s y s2 hs => write8_writeStep hs) lab u u2 hu)

theorem set16_pos {c : BytePacketBuffer} {j v : Nat} {b2 : BytePacketBuffer}
    (h : c.set16 j v = some b2) : b2.pos = c.pos := by
  unfold BytePacketBuffer.set16 at h
  by_cases hc : j + 1 < c.buf.length
  · rw [if_pos hc] at h
    injection h with h
    subst h
    rfl
  · rw [if_neg hc] at h
    exact Option.noConfusion h

theorem set16_writeStep_from {a c b2 : BytePacketBuffer} {j v : Nat}
    (hs : writeStep a c) (h : c.set16 j v = some b2) (hj : a.pos ≤ j) :
    writeStep a b2 := by
  unfold BytePacketBuffer.set16 at h
  by_cases hc : j + 1 < c.buf.length
  · rw [if_pos hc] at h
    injection h with h
    subst h
    obtain ⟨p1, l1, s1, g1⟩ := hs
    refine ⟨p1, ?_, s1, fun i hi => ?_⟩
    · show ((c.buf.set j (v / 256 % 256)).set (j + 1) (v % 256)).length =
        a.buf.length
      simpa using l1
    · show ((c.buf.set j (v / 256 % 256)).set (j + 1) (v % 256)).getD i 0 =
        a.buf.getD i 0
      rw [getD_set_ne (by omega), getD_set_ne (by omega)]
      exact g1 i hi
  · rw [if_neg hc] at h
    exact Option.noConfusion h

theorem questionWrite_writeStep {q : DNSQuestion} {b b2 : BytePacketBuffer}
    (h : q.write b = .ok b2) : writeStep b b2 ∧ b.pos < b2.pos := by
  unfold DNSQuestion.write at h
  cases h1 : b.writeQname q.name with
  | error e => rw [h1, error_bind] at h; exact Except.noConfusion h
  | ok c =>
    rw [h1] at h
    simp only [ok_bind] at h
    cases h2 : c.write16 (q.qtype % 65536) with
    | error e => rw [h2, error_bind] at h; exact Except.noConfusion h
    | ok d =>
      rw [h2] at h
      simp only [ok_bind] at h
      have s1 := writeQname_writeStep h1
      have s2 := write16_writeStep h2
      have s3 := write16_writeStep h
      have a2 := write16_pos h2
      refine ⟨writeStep_trans s1 (writeStep_trans s2 s3), ?_⟩
      have g1 := s1.1
      have g3 := s3.1
      omega

theorem recordWrite_writeStep {r : DNSRecord} {b : BytePacketBuffer}
    {n : Nat} {b2 : BytePacketBuffer} (h : r.write b = .ok (n, b2)) :
    writeStep b b2 ∧ b.pos < b2.pos := by
  unfold DNSRecord.write at h
  dsimp only at h
  cases hd : derefName r.domain with
  | error e => rw [hd, error_bind] at h; exact Except.noConfusion h
  | ok d =>
  rw [hd] at h
  simp only [ok_bind] at h
  cases h1 : b.writeQname d with
  | error e => rw [h1, error_bind] at h; exact Except.noConfusion h
  | ok c1 =>
  rw [h1] at h
  simp only [ok_bind] at h
  cases h2 : c1.write16 (r.qtype % 65536) with
  | error e => rw [h2, error_bind] at h; exact Except.noConfusion h
  | ok c2 =>
  rw [h2] at h
  simp only [ok_bind] at h
  cases h3 : c2.write16 (r.cls % 65536) with
  | error e => rw [h3, error_bind] at h; exact Except.noConfusion h
  | ok c3 =>
  rw [h3] at h
  simp only [ok_bind] at h
  cases h4 : c3.write32 (r.ttl % 2 ^ 32) with
  | error e => rw [h4, error_bind] at h; exact Except.noConfusion h
  | ok c4 =>
  rw [h4] at h
  simp only [ok_bind] at h
  have s1 := writeQname_writeStep h1
  have s2 := write16_writeStep h2
  have s3 := write16_writeStep h3
  have s4 := write32_writeStep h4
  have a2 := write16_pos h2
  have shead : writeStep b c4 :=
    writeStep_trans s1 (writeStep_trans s2 (writeStep_trans s3 s4))
  have hblt : b.pos < c4.pos := by
    have g1 := s1.1
    have g3 := s3.1
    have g4 := s4.1
    omega
  have hfinish : writeStep c4 b2 → writeStep b b2 ∧ b.pos < b2.pos := by
    intro hS
    refine ⟨writeStep_trans shead hS, ?_⟩
    have := hS.1
    omega
  clear s1 s2 s3 s4 a2 h1 h2 h3 h4 hd
  by_cases hqA : r.qtype = AQueryType
  · rw [if_pos hqA] at h
    cases h5 : c4.write16 4 with
    | error e => rw [h5, error_bind] at h; exact Except.noConfusion h
    | ok c5 =>
    rw [h5] at h
    simp only [ok_bind] at h
    cases hip : derefName r.addr with
    | error e => rw [hip, error_bind] at h; exact Except.noConfusion h
    | ok ip =>
    rw [hip] at h
    simp only [ok_bind] at h
    cases hm : ipTo4 ip with
    | none =>
      rw [hm] at h
      dsimp only at h
      exact Except.noConfusion h
    | some a4 =>
    rw [hm] at h
    dsimp only at h
    cases h6 : c5.write8 (a4.getD 0 0) with
    | error e => rw [h6, error_bind] at h; exact Except.noConfusion h
    | ok c6 =>
    rw [h6] at h
    simp only [ok_bind] at h
    cases h7 : c6.write8 (a4.getD 1 0) with
    | error e => rw [h7, error_bind] at h; exact Except.noConfusion h
    | ok c7 =>
    rw [h7] at h
    simp only [ok_bind] at h
    cases h8 : c7.write8 (a4.getD 2 0) with
    | error e => rw [h8, error_bind] at h; exact Except.noConfusion h
    | ok c8 =>
    rw [h8] at h
    simp only [ok_bind] at h
    cases h9 : c8.write8 (a4.getD 3 0) with
    | error e => rw [h9, error_bind] at h; exact Except.noConfusion h
    | ok c9 =>
    rw [h9] at h
    simp only [ok_bind] at h
    injection h with h
    injection h with ha hb
    subst hb
    exact hfinish (writeStep_trans (write16_writeStep h5)
      (writeStep_trans (write8_writeStep h6)
        (writeStep_trans (write8_writeStep h7)
          (writeStep_trans (write8_writeStep h8) (write8_writeStep h9)))))
  · rw [if_neg hqA] at h
    by_cases hqNS : r.qtype = NSQueryType
    · rw [if_pos hqNS] at h
      cases h5 : c4.write16 0 with
      | error e => rw [h5, error_bind] at h; exact Except.noConfusion h
      | ok c5 =>
      rw [h5] at h
      simp only [ok_bind] at h
      cases hh : derefName r.host with
      | error e => rw [hh, error_bind] at h; exact Except.noConfusion h
      | ok hst =>
      rw [hh] at h
      simp only [ok_bind] at h
      cases h6 : c5.writeQname hst with
      | error e => rw [h6, error_bind] at h; exact Except.noConfusion h
      | ok c6 =>
      rw [h6] at h
      simp only [ok_bind] at h
      cases hset : c6.set16 c4.pos ((c6.pos - (c4.pos + 2)) % 65536) with
      | none =>
        rw [hset] at h
        dsimp only at h
        exact Except.noConfusion h
      | some c7 =>
      rw [hset] at h
      dsimp only at h
      injection h with h
      injection h with ha hb
      subst hb
      exact hfinish (set16_writeStep_from
        (writeStep_trans (write16_writeStep h5) (writeQname_writeStep h6))
        hset (le_refl c4.pos))
    · rw [if_neg hqNS] at h
      by_cases hqCN : r.qtype = CNAMEQueryType
      · rw [if_pos hqCN] at h
        cases h5 : c4.write16 0 with
        | error e => rw [h5, error_bind] at h; exact Except.noConfusion h
        | ok c5 =>
        rw [h5] at h
        simp only [ok_bind] at h
        cases hh : derefName r.host with
        | error e => rw [hh, error_bind] at h; exact Except.noConfusion h
        | ok hst =>
        rw [hh] at h
        simp only [ok_bind] at h
        cases h6 : c5.writeQname hst with
        | error e => rw [h6, error_bind] at h; exact Except.noConfusion h
        | ok c6 =>
        rw [h6] at h
        simp only [ok_bind] at h
        cases hset : c6.set16 c4.pos ((c6.pos - (c4.pos + 2)) % 65536) with
        | none =>
          rw [hset] at h
          dsimp only at h
          exact Except.noConfusion h
        | some c7 =>
        rw [hset] at h
        dsimp only at h
        injection h with h
        injection h with ha hb
        subst hb
        exact hfinish (set16_writeStep_from
          (writeStep_trans (write16_writeStep h5) (writeQname_writeStep h6))
          hset (le_refl c4.pos))
      · rw [if_neg hqCN] at h
        by_cases hqSOA : r.qtype = SOAQueryType
        · rw [if_pos hqSOA] at h
          cases h5 : c4.write16 0 with
          | error e => rw [h5, error_bind] at h; exact Except.noConfusion h
          | ok c5 =>
          rw [h5] at h
          simp only [ok_bind] at h
          cases hh : derefName r.host with
          | error e => rw [hh, error_bind] at h; exact Except.noConfusion h
          | ok hst =>
          rw [hh] at h
          simp only [ok_bind] at h
          cases h6 : c5.writeQname hst with
          | error e => rw [h6, error_bind] at h; exact Except.noConfusion h
          | ok c6 =>
          rw [h6] at h
          simp only [ok_bind] at h
          cases hmh : derefName r.mailHost with
          | error e => rw [hmh, error_bind] at h; exact Except.noConfusion h
          | ok mh =>
          rw [hmh] at h
          simp only [ok_bind] at h
          cases h7 : c6.writeQname mh with
          | error e => rw [h7, error_bind] at h; exact Except.noConfusion h
          | ok c7 =>
          rw [h7] at h
          simp only [ok_bind] at h
          cases h8 : c7.write32 (r.serial % 2 ^ 32) with
          | error e => rw [h8, error_bind] at h; exact Except.noConfusion h
          | ok c8 =>
          rw [h8] at h
          simp only [ok_bind] at h
          cases h9 : c8.write32 (r.refresh % 2 ^ 32) with
          | error e => rw [h9, error_bind] at h; exact Except.noConfusion h
          | ok c9 =>
          rw [h9] at h
          simp only [ok_bind] at h
          cases h10 : c9.write32 (r.retry % 2 ^ 32) with
          | error e => rw [h10, error_bind] at h; exact Except.noConfusion h
          | ok c10 =>
          rw [h10] at h
          simp only [ok_bind] at h
          cases h11 : c10.write32 (r.expire % 2 ^ 32) with
          | error e => rw [h11, error_bind] at h; exact Except.noConfusion h
          | ok c11 =>
          rw [h11] at h
          simp only [ok_bind] at h
          cases h12 : c11.write32 (r.minimum % 2 ^ 32) with
          | error e => rw [h12, error_bind] at h; exact Except.noConfusion h
          | ok c12 =>
          rw [h12] at h
          simp only [ok_bind] at h
          cases hset : c12.set16 c4.pos ((c12.pos - (c4.pos + 2)) % 65536) with
          | none =>
            rw [hset] at h
            dsimp only at h
            exact Except.noConfusion h
          | some c13 =>
          rw [hset] at h
          dsimp only at h
          injection h with h
          injection h with ha hb
          subst hb
          exact hfinish (set16_writeStep_from
            (writeStep_trans (write16_writeStep h5)
              (writeStep_trans (writeQname_writeStep h6)
                (writeStep_trans (writeQname_writeStep h7)
                  (writeStep_trans (write32_writeStep h8)
                    (writeStep_trans (write32_writeStep h9)
                      (writeStep_trans (write32_writeStep h10)
                        (writeStep_trans (write32_writeStep h11)
                          (write32_writeStep h12))))))))
            hset (le_refl c4.pos))
        · rw [if_neg hqSOA] at h
          by_cases hqMX : r.qtype = MXQueryType
          · rw [if_pos hqMX] at h
            cases h5 : c4.write16 0 with
            | error e => rw [h5, error_bind] at h; exact Except.noConfusion h
            | ok c5 =>
            rw [h5] at h
            simp only [ok_bind] at h
            cases h6 : c5.write16 (r.priority % 65536) with
            | error e => rw [h6, error_bind] at h; exact Except.noConfusion h
            | ok c6 =>
            rw [h6] at h
            simp only [ok_bind] at h
            cases hh : derefName r.host with
            | error e => rw [hh, error_bind] at h; exact Except.noConfusion h
            | ok hst =>
            rw [hh] at h
            simp only [ok_bind] at h
            cases h7 : c6.writeQname hst with
            | error e => rw [h7, error_bind] at h; exact Except.noConfusion h
            | ok c7 =>
            rw [h7] at h
            simp only [ok_bind] at h
            cases hset : c7.set16 c4.pos ((c7.pos - (c4.pos + 2)) % 65536) with
            | none =>
              rw [hset] at h
              dsimp only at h
              exact Except.noConfusion h
            | some c8 =>
            rw [hset] at h
            dsimp only at h
            injection h with h
            injection h with ha hb
            subst hb
            exact hfinish (set16_writeStep_from
              (writeStep_trans (write16_writeStep h5)
                (writeStep_trans (write16_writeStep h6)
                  (writeQname_writeStep h7)))
              hset (le_refl c4.pos))
          · rw [if_neg hqMX] at h
            by_cases hqAAAA : r.qtype = AAAAQueryType
            · rw [if_pos hqAAAA] at h
              cases h5 : c4.write16 16 with
              | error e => rw [h5, error_bind] at h; exact Except.noConfusion h
              | ok c5 =>
              rw [h5] at h
              simp only [ok_bind] at h
              cases hip : derefName r.addr with
              | error e => rw [hip, error_bind] at h; exact Except.noConfusion h
              | ok ip =>
              rw [hip] at h
              simp only [ok_bind] at h
              cases h6 : (ipTo16 ip).foldlM
                  (fun (b : BytePacketBuffer) bt => b.write8 bt) c5 with
              | error e => rw [h6, error_bind] at h; exact Except.noConfusion h
              | ok c6 =>
              rw [h6] at h
              simp only [ok_bind] at h
              injection h with h
              injection h with ha hb
              subst hb
              exact hfinish (writeStep_trans (write16_writeStep h5)
                (foldlM_writeStep (fun s y s2 hs => write8_writeStep hs)
                  (ipTo16 ip) c5 c6 h6))
            · rw [if_neg hqAAAA] at h
              injection h with h
              injection h with ha hb
              subst hb
              exact hfinish (writeStep_refl c4)

theorem recordFold_writeStep {r : DNSRecord} {c c2 : BytePacketBuffer}
    (h : (r.write c).map Prod.snd = .ok c2) :
    writeStep c c2 ∧ c.pos < c2.pos := by
  cases hw : r.write c with
  | error e =>
    rw [hw] at h
    dsimp only [Except.map] at h
    exact Except.noConfusion h
  | ok pr =>
    rw [hw] at h
    dsimp only [Except.map] at h
    injection h with h
    subst h
    obtain ⟨m, d⟩ := pr
    exact recordWrite_writeStep hw

theorem four_fold_writeStep {p : DNSPacket} {b1 b2 : BytePacketBuffer}
    (hw : (p.questions.foldlM (fun b q => q.write b) b1 >>= fun b =>
           p.answers.foldlM
             (fun (b : BytePacketBuffer) r => (r.write b).map Prod.snd) b >>=
           fun b =>
           p.authorities.foldlM
             (fun (b : BytePacketBuffer) r => (r.write b).map Prod.snd) b >>=
           fun b =>
           p.resources.foldlM
             (fun (b : BytePacketBuffer) r => (r.write b).map Prod.snd) b >>=
           fun b => Except.ok b) = .ok b2) :
    writeStep b1 b2 ∧
    b1.pos + p.questions.length + p.answers.length + p.authorities.length +
      p.resources.length ≤ b2.pos := by
  cases hq : p.questions.foldlM (fun b q => q.write b) b1 with
  | error e => rw [hq, error_bind] at hw; exact Except.noConfusion hw
  | ok bq =>
  rw [hq] at hw
  simp only [ok_bind] at hw
  cases ha : p.answers.foldlM
      (fun (b : BytePacketBuffer) r => (r.write b).map Prod.snd) bq with
  | error e => rw [ha, error_bind] at hw; exact Except.noConfusion hw
  | ok ba =>
  rw [ha] at hw
  simp only [ok_bind] at hw
  cases hau : p.authorities.foldlM
      (fun (b : BytePacketBuffer) r => (r.write b).map Prod.snd) ba with
  | error e => rw [hau, error_bind] at hw; exact Except.noConfusion hw
  | ok bau =>
  rw [hau] at hw
  simp only [ok_bind] at hw
  cases hre : p.resources.foldlM
      (fun (b : BytePacketBuffer) r => (r.write b).map Prod.snd) bau with
  | error e => rw [hre, error_bind] at hw; exact Except.noConfusion hw
  | ok br =>
  rw [hre] at hw
  simp only [ok_bind] at hw
  injection hw with hw
  subst hw
  obtain ⟨sq, aq⟩ := foldlM_writeStep_adv
    (fun c x c2 hc => questionWrite_writeStep hc) p.questions b1 bq hq
  obtain ⟨sa, aa⟩ := foldlM_writeStep_adv
    (fun c x c2 hc => recordFold_writeStep hc) p.answers bq ba ha
  obtain ⟨sau, aau⟩ := foldlM_writeStep_adv
    (fun c x c2 hc => recordFold_writeStep hc) p.authorities ba bau hau
  obtain ⟨sre, are⟩ := foldlM_writeStep_adv
    (fun c x c2 hc => recordFold_writeStep hc) p.resources bau br hre
  refine ⟨writeStep_trans sq (writeStep_trans sa (writeStep_trans sau sre)), ?_⟩
  omega

theorem headerBytes_counts {h : DNSHeader} {b2 : BytePacketBuffer}
    (hstep : writeStep ⟨splice newBytePacketBuffer.buf newBytePacketBuffer.pos
      ((encHeader h).map (· % 256)), newBytePacketBuffer.pos + 12⟩ b2) :
    b2.buf.getD 4 0 * 256 + b2.buf.getD 5 0 = h.questions % 65536 ∧
    b2.buf.getD 6 0 * 256 + b2.buf.getD 7 0 = h.answers % 65536 ∧
    b2.buf.getD 8 0 * 256 + b2.buf.getD 9 0 = h.authoritativeEntries % 65536 ∧
    b2.buf.getD 10 0 * 256 + b2.buf.getD 11 0 = h.resourceEntries % 65536 := by
  obtain ⟨s1, s2, s3, s4⟩ := hstep
  have hfit : newBytePacketBuffer.pos + ((encHeader h).map (· % 256)).length ≤
      newBytePacketBuffer.buf.length := by
    show 0 + ((encHeader h).map (· % 256)).length ≤
      (List.replicate 512 0).length
    simp [encHeader, be16]
  have hb : bytesAt (splice newBytePacketBuffer.buf newBytePacketBuffer.pos
      ((encHeader h).map (· % 256))) newBytePacketBuffer.pos
      ((encHeader h).map (· % 256)) := bytesAt_splice hfit
  have hshape : (encHeader h).map (· % 256) =
      (be16 h.id ++ [flagByteA h % 256] ++ [flagByteB h % 256]) ++
      (be16 (h.questions % 65536) ++ (be16 (h.answers % 65536) ++
       (be16 (h.authoritativeEntries % 65536) ++
        be16 (h.resourceEntries % 65536)))) := by
    simp [encHeader, be16, mod256_mod256, mod65536_div256, mod65536_mod256]
  nth_rewrite 2 [hshape] at hb
  rw [bytesAt_append] at hb
  obtain ⟨hbHead, hb⟩ := hb
  have hb4 : bytesAt (splice newBytePacketBuffer.buf newBytePacketBuffer.pos
      ((encHeader h).map (· % 256))) 4
      (be16 (h.questions % 65536) ++ (be16 (h.answers % 65536) ++
       (be16 (h.authoritativeEntries % 65536) ++
        be16 (h.resourceEntries % 65536)))) := hb
  rw [bytesAt_append] at hb4
  obtain ⟨hbQ, hb4⟩ := hb4
  have hb6 : bytesAt (splice newBytePacketBuffer.buf newBytePacketBuffer.pos
      ((encHeader h).map (· % 256))) 6
      (be16 (h.answers % 65536) ++
       (be16 (h.authoritativeEntries % 65536) ++
        be16 (h.resourceEntries % 65536))) := hb4
  rw [bytesAt_append] at hb6
  obtain ⟨hbA, hb6⟩ := hb6
  have hb8 : bytesAt (splice newBytePacketBuffer.buf newBytePacketBuffer.pos
      ((encHeader h).map (· % 256))) 8
      (be16 (h.authoritativeEntries % 65536) ++
       be16 (h.resourceEntries % 65536)) := hb6
  rw [bytesAt_append] at hb8
  obtain ⟨hbAU, hb8⟩ := hb8
  have hbR : bytesAt (splice newBytePacketBuffer.buf newBytePacketBuffer.pos
      ((encHeader h).map (· % 256))) 10
      (be16 (h.resourceEntries % 65536)) := hb8
  simp only [be16] at hbQ hbA hbAU hbR
  rw [bytesAt_cons, bytesAt_singleton] at hbQ hbA hbAU hbR
  obtain ⟨-, hg4, -, hg5⟩ := hbQ
  obtain ⟨-, hg6, -, hg7⟩ := hbA
  obtain ⟨-, hg8, -, hg9⟩ := hbAU
  obtain ⟨-, hg10, -, hg11⟩ := hbR
  have t4 : b2.buf.getD 4 0 = (splice newBytePacketBuffer.buf
      newBytePacketBuffer.pos ((encHeader h).map (· % 256))).getD 4 0 :=
    s4 4 (by show (4 : Nat) < 0 + 12; omega)
  have t5 : b2.buf.getD 5 0 = (splice newBytePacketBuffer.buf
      newBytePacketBuffer.pos ((encHeader h).map (· % 256))).getD 5 0 :=
    s4 5 (by show (5 : Nat) < 0 + 12; omega)
  have t6 : b2.buf.getD 6 0 = (splice newBytePacketBuffer.buf
      newBytePacketBuffer.pos ((encHeader h).map (· % 256))).getD 6 0 :=
    s4 6 (by show (6 : Nat) < 0 + 12; omega)
  have t7 : b2.buf.getD 7 0 = (splice newBytePacketBuffer.buf
      newBytePacketBuffer.pos ((encHeader h).map (· % 256))).getD 7 0 :=
    s4 7 (by show (7 : Nat) < 0 + 12; omega)
  have t8 : b2.buf.getD 8 0 = (splice newBytePacketBuffer.buf
      newBytePacketBuffer.pos ((encHeader h).map (· % 256))).getD 8 0 :=
    s4 8 (by show (8 : Nat) < 0 + 12; omega)
  have t9 : b2.buf.getD 9 0 = (splice newBytePacketBuffer.buf
      newBytePacketBuffer.pos ((encHeader h).map (· % 256))).getD 9 0 :=
    s4 9 (by show (9 : Nat) < 0 + 12; omega)
  have t10 : b2.buf.getD 10 0 = (splice newBytePacketBuffer.buf
      newBytePacketBuffer.pos ((encHeader h).map (· % 256))).getD 10 0 :=
    s4 10 (by show (10 : Nat) < 0 + 12; omega)
  have t11 : b2.buf.getD 11 0 = (splice newBytePacketBuffer.buf
      newBytePacketBuffer.pos ((encHeader h).map (· % 256))).getD 11 0 :=
    s4 11 (by show (11 : Nat) < 0 + 12; omega)
  rw [hg4] at t4
  rw [hg5] at t5
  rw [hg6] at t6
  rw [hg7] at t7
  rw [hg8] at t8
  rw [hg9] at t9
  rw [hg10] at t10
  rw [hg11] at t11
  refine ⟨by omega, by omega, by omega, by omega⟩

/-! ### Claim theorems -/

/-- Claim C2: the spec and the buffer test expect the second write of
www.google.com to start at octet 16 with the compression pointer 0xC0
0x00; the WriteQname of the source performs no compression and emits the
second copy literally, so octet 16 holds the label length 3 and octet 17
the letter w (119).  This theorem evaluates the code at the failing
input of the test write_qname_with_jumps. -/
theorem c2_writeQname_second_copy_literal :
    (do
      let b ← newBytePacketBuffer.writeQname wwwGoogleCom
      let b ← b.writeQname wwwGoogleCom
      pure (b.buf.getD 16 0, b.buf.getD 17 0, b.pos) :
        Except String (Nat × Nat × Nat)) = .ok (3, 119, 32) := by
  rfl

/-- Claim C5 counterexample: encoding the empty domain name with
WriteQname does not leave the cursor at 1: it writes a zero length octet
for the single empty label of strings.Split and then the terminator. -/
theorem c5_empty_name_not_one_octet :
    (newBytePacketBuffer.writeQname []).toOption.map (·.pos) ≠ some 1 := by
  decide

/-- Claim C5 amended: encoding the empty domain name emits exactly two
zero octets, the empty label length and the terminator: the cursor ends
at 2 and octets 0 and 1 are both 0x00. -/
theorem c5_empty_name_two_octets :
    (newBytePacketBuffer.writeQname []).toOption.map
      (fun b => (b.pos, b.buf.getD 0 0, b.buf.getD 1 0)) = some (2, 0, 0) := by
  decide

/-- Claim C3: with 11 free octets (cursor at 501) DNSHeader.Write
reports no error for any header, although the resource entries count
write fails half way: eleven octets are emitted and the cursor ends at
512 (the high half of the resource entries count lands in octet 511,
its low half is lost), the three trailing count writes having their
errors discarded by the source.  The claim that every component failure
is reported is therefore false. -/
theorem c3_header_write_swallows_count_error (h : DNSHeader) :
    512 - bufferAt501.pos < 12 ∧
    (h.write bufferAt501).isOk = true ∧
    (h.write bufferAt501).toOption.map (·.pos) = some 512 := by
  refine ⟨by decide, ?_, ?_⟩ <;>
    simp [DNSHeader.write, BytePacketBuffer.write16,
      BytePacketBuffer.write16Ignored, BytePacketBuffer.write8,
      BytePacketBuffer.writePacketByte, bufferAt501, bind, Except.bind,
      Except.isOk, Except.toBool, Except.toOption]

/-- Claim C9: Set16 performs no bounds check of its own: whenever
pos + 1 < 512 it overwrites exactly the octets pos and pos+1 with the
big-endian halves of the value and returns normally, and at pos = 511 it
touches index 512 of the 512 octet buffer, a runtime range fault
(modelled as none) rather than an error return. -/
theorem c9_set16_unchecked (b : BytePacketBuffer) (pos v : Nat)
    (hlen : b.buf.length = 512) :
    (pos + 1 < 512 →
      ∃ b2, b.set16 pos v = some b2 ∧
        b2.pos = b.pos ∧ b2.buf.length = 512 ∧
        b2.buf.getD pos 0 = v / 256 % 256 ∧
        b2.buf.getD (pos + 1) 0 = v % 256 ∧
        ∀ i, i ≠ pos → i ≠ pos + 1 → b2.buf.getD i 0 = b.buf.getD i 0) ∧
    b.set16 511 v = none := by
  constructor
  · intro hpos
    have hcond : pos + 1 < b.buf.length := by omega
    refine ⟨{ b with buf := (b.buf.set pos (v / 256 % 256)).set (pos + 1) (v % 256) },
      by simp [BytePacketBuffer.set16, hcond], rfl, by simp [hlen], ?_, ?_, ?_⟩
    · show ((b.buf.set pos (v / 256 % 256)).set (pos + 1) (v % 256)).getD pos 0 = _
      rw [List.getD_eq_getElem?_getD,
        List.getElem?_set_ne (by omega : pos + 1 ≠ pos),
        List.getElem?_set_self (by omega : pos < b.buf.length)]
      rfl
    · show ((b.buf.set pos (v / 256 % 256)).set (pos + 1) (v % 256)).getD (pos + 1) 0 = _
      rw [List.getD_eq_getElem?_getD,
        List.getElem?_set_self (by rw [List.length_set]; omega)]
      rfl
    · intro i hi hi1
      show ((b.buf.set pos (v / 256 % 256)).set (pos + 1) (v % 256)).getD i 0 = _
      rw [List.getD_eq_getElem?_getD,
        List.getElem?_set_ne (by omega : pos + 1 ≠ i),
        List.getElem?_set_ne (by omega : pos ≠ i),
        List.getD_eq_getElem?_getD]
  · simp [BytePacketBuffer.set16, hlen]

/-- Claim C9 witness. -/
theorem c9_set16_unchecked_witness :
    ∃ b2, newBytePacketBuffer.set16 3 0xABCD = some b2 ∧
      b2.pos = newBytePacketBuffer.pos ∧ b2.buf.length = 512 ∧
      b2.buf.getD 3 0 = 0xABCD / 256 % 256 ∧
      b2.buf.getD 4 0 = 0xABCD % 256 ∧
      ∀ i, i ≠ 3 → i ≠ 4 → b2.buf.getD i 0 = newBytePacketBuffer.buf.getD i 0 :=
  (c9_set16_unchecked newBytePacketBuffer 3 0xABCD (by decide)).1 (by decide)

/-- Claim C10: GetRange rejects a range exactly when start + len is at
least 512, so the range ending precisely at the 512th octet is rejected
although it lies inside the buffer; consequently ReadQname fails on any
name whose last label byte occupies the final octet, because the label
is fetched with GetRange(pos+1, len) and (pos+1)+len = 512. -/
theorem c10_getRange_off_by_one :
    (∀ (b : BytePacketBuffer) (start len : Nat),
      (b.getRange start len).isOk = true ↔ start + len < 512) ∧
    (∀ (b : BytePacketBuffer) (len : Nat),
      b.buf.getD b.pos 0 = len → len ≠ 0 → len < 64 → b.pos + 1 + len = 512 →
      b.readQname = .error "reading the label: buffer overflow") := by
  constructor
  · intro b start len
    rcases Nat.lt_or_ge (start + len) 512 with hc | hc
    · simp [BytePacketBuffer.getRange, Nat.not_le.mpr hc, Except.isOk, Except.toBool, hc]
    · simp [BytePacketBuffer.getRange, hc, Except.isOk, Except.toBool]
  · intro b len hget hne hlt hend
    have hfuel : readQnameFuel = 3596 + 1 := by norm_num [readQnameFuel]
    have hnp : len &&& 0xC0 = 0 := small_not_pointer len hlt
    unfold BytePacketBuffer.readQname
    rw [hfuel, readQnameLoop_succ, hget]
    have hpos : ¬ 512 ≤ b.pos := by omega
    simp [MAX_JUMPS, hpos, hnp, hne, hend]

/-- Claim C10 witness. -/
theorem c10_getRange_off_by_one_witness :
    ((labelAtEndBuffer.getRange 0 512).isOk = true ↔ (0 : Nat) + 512 < 512) ∧
    labelAtEndBuffer.readQname = .error "reading the label: buffer overflow" :=
  ⟨c10_getRange_off_by_one.1 labelAtEndBuffer 0 512,
   c10_getRange_off_by_one.2 labelAtEndBuffer 2 (by decide) (by decide)
     (by decide) (by decide)⟩

/-- Claim C4 counterexample: an NS authority record whose owner differs
from the queried name only in ASCII letter case is not selected by
getNS, while the lower-case variant of the same record is: the matching
of the source is a byte-exact strings.HasSuffix with no lowercasing. -/
theorem c4_case_sensitive_counterexample :
    (packetWithAuthorities [nsRecordUpper]).getNS wwwGoogleCom = [] ∧
    (packetWithAuthorities [nsRecordLower]).getNS wwwGoogleCom =
      [(googleComLower, [110, 115])] := by
  constructor <;> rfl

/-- Claim C4 amended: in the nameserver selection an NS authority record
is considered a match exactly when the queried name ends with the owner
name byte for byte (case-sensitively): getNS returns precisely the
(owner, host) tuples of the authority records whose query type is NS and
whose owner is a byte-exact suffix of qname, in section order. -/
theorem c4_getNS_exact_suffix_match (p : DNSPacket) (qname : List Nat) :
    p.getNS qname =
      (p.authorities.filter
        (fun r => decide (r.qtype = NSQueryType ∧
          (domainString r.domain).isSuffixOf qname))).map
        (fun r => (domainString r.domain, domainString r.host)) := by
  unfold DNSPacket.getNS
  simpa using getNS_fold_eq qname p.authorities []

/-- Claim C7: ReadQname always terminates.  First: the loop, run with
fuel at least its iteration measure, never exhausts the fuel (so the
unbounded Go loop terminates on every input); in particular ReadQname
itself never returns the fuel marker.  Second: a successful run performs
at most 6 pointer jumps (in fact at most MAX_JUMPS = 5).  Third: once
the jump counter exceeds MAX_JUMPS = 5 the decoder fails with the
too-many-jumps error, as on the buffer whose first two octets form a
pointer to offset 0. -/
theorem c7_readQname_terminates :
    (∀ (buf : List Nat) (bpos pos : Nat) (jumped : Bool) (jumps : Nat)
       (acc delim : List Nat) (fuel : Nat),
       (6 - jumps) * 514 + (512 - pos) + 1 ≤ fuel →
       readQnameLoop buf bpos pos jumped jumps acc delim fuel ≠
         .error "loop fuel exhausted") ∧
    (∀ b : BytePacketBuffer, b.readQname ≠ .error "loop fuel exhausted") ∧
    (∀ (buf : List Nat) (bpos pos : Nat) (jumped : Bool) (jumps : Nat)
       (acc delim : List Nat) (fuel : Nat) (res : List Nat × Nat × Nat),
       readQnameLoop buf bpos pos jumped jumps acc delim fuel = .ok res →
       res.2.2 ≤ 6) ∧
    selfJumpBuffer.readQname = .error "Limit of 5 max jumps exceeded" := by
  refine ⟨?_, ?_, ?_, by rfl⟩
  · intro buf bpos pos jumped jumps acc delim fuel hm
    exact readQnameLoop_fuel_sufficient fuel buf bpos pos jumped jumps acc delim hm
  · intro b
    unfold BytePacketBuffer.readQname
    have hs := readQnameLoop_fuel_sufficient readQnameFuel b.buf b.pos b.pos
      false 0 [] [] (by norm_num [readQnameFuel]; omega)
    cases hq : readQnameLoop b.buf b.pos b.pos false 0 [] [] readQnameFuel with
    | error e =>
      intro hcontra
      simp at hcontra
      exact hs (by rw [hq, hcontra])
    | ok res => simp [hq]
  · intro buf bpos pos jumped jumps acc delim fuel res hok
    have := readQnameLoop_jumps_le fuel buf bpos pos jumped jumps acc delim res hok
    simp [MAX_JUMPS] at this
    omega

/-- Claim C7 witness: the fuel bound holds at a concrete state, and a
concrete successful run (the all-zero buffer decodes the empty name with
zero jumps) stays within 6 jumps. -/
theorem c7_readQname_terminates_witness :
    (readQnameLoop (List.replicate 512 0) 0 0 false 0 [] [] 3597 ≠
      .error "loop fuel exhausted") ∧
    (0 : Nat) ≤ 6 :=
  ⟨c7_readQname_terminates.1 (List.replicate 512 0) 0 0 false 0 [] [] 3597
     (by norm_num),
   c7_readQname_terminates.2.2.1 (List.replicate 512 0) 0 0 false 0 [] [] 3597
     ([], 1, 0) (by rfl)⟩

/-- Claim C8: header decoding maps the low 4 bits of the second flags
byte through GetResCode: 0..5 decode to the six result codes in order
and every other nibble value decodes to NoError, so decoding never fails
on an unrecognized rcode; and a successful DNSHeader.Read sets resCode
to exactly GetResCode applied to the low nibble of the fourth octet. -/
theorem c8_rescode_mapping :
    (getResCode 0 = .noError ∧ getResCode 1 = .formErr ∧
     getResCode 2 = .servFail ∧ getResCode 3 = .nxDomain ∧
     getResCode 4 = .noTimp ∧ getResCode 5 = .refused) ∧
    (∀ c : Nat, 5 < c → getResCode c = .noError) ∧
    (∀ (b : BytePacketBuffer) (h : DNSHeader) (b2 : BytePacketBuffer),
       b.buf.getD (b.pos + 3) 0 < 256 →
       DNSHeader.read b = .ok (h, b2) →
       h.resCode = getResCode (b.buf.getD (b.pos + 3) 0 &&& 0x0F)) := by
  refine ⟨by decide, ?_, ?_⟩
  · intro c hc
    obtain ⟨n, rfl⟩ : ∃ n, c = n + 6 := ⟨c - 6, by omega⟩
    rfl
  · intro b h b2 hlt hok
    simp only [DNSHeader.read, read16_eq, bind, Except.bind] at hok
    by_cases h1 : 512 ≤ b.pos + 1
    · simp [h1] at hok
    · rw [if_neg h1] at hok
      dsimp only at hok
      by_cases h2 : 512 ≤ b.pos + 2 + 1
      · simp [h2] at hok
      · rw [if_neg h2] at hok
        dsimp only at hok
        by_cases h3 : 512 ≤ b.pos + 2 + 2 + 1
        · simp [h3] at hok
        · rw [if_neg h3] at hok
          dsimp only at hok
          by_cases h4 : 512 ≤ b.pos + 2 + 2 + 2 + 1
          · simp [h4] at hok
          · rw [if_neg h4] at hok
            dsimp only at hok
            by_cases h5 : 512 ≤ b.pos + 2 + 2 + 2 + 2 + 1
            · simp [h5] at hok
            · rw [if_neg h5] at hok
              dsimp only at hok
              by_cases h6 : 512 ≤ b.pos + 2 + 2 + 2 + 2 + 2 + 1
              · simp [h6] at hok
              · rw [if_neg h6] at hok
                dsimp only at hok
                injection hok with hpair
                have hfst := congrArg Prod.fst hpair
                have hres := congrArg DNSHeader.resCode hfst
                rw [← hres]
                show getResCode ((b.buf.getD (b.pos + 2) 0 <<< 8 |||
                  b.buf.getD (b.pos + 2 + 1) 0) &&& 255 &&& 15) = _
                have h21 : b.pos + 2 + 1 = b.pos + 3 := by omega
                rw [h21, lor_shift8_and255 _ _ hlt]

/-- Claim C8 witness: a header whose second flags byte has low nibble 9
(an unrecognized rcode) decodes to NoError. -/
theorem c8_rescode_mapping_witness :
    getResCode 9 = .noError ∧
    ∃ h b2, DNSHeader.read { buf := (List.replicate 512 0).set 3 9, pos := 0 } =
      .ok (h, b2) ∧ h.resCode = getResCode
        (((List.replicate 512 0).set 3 9).getD 3 0 &&& 0x0F) := by
  refine ⟨c8_rescode_mapping.2.1 9 (by norm_num), ?_⟩
  obtain ⟨h, b2, hok⟩ : ∃ h b2,
      DNSHeader.read { buf := (List.replicate 512 0).set 3 9, pos := 0 } =
        .ok (h, b2) := ⟨_, _, rfl⟩
  exact ⟨h, b2, hok, c8_rescode_mapping.2.2 _ h b2 (by decide) hok⟩

/-- Claim C1 counterexample: the round trip is not the identity outside
the count fields.  The packet packetDataLen7 carries an A answer with
DataLen 7; encoding it and decoding the buffer yields the answer with
DataLen 0, because DNSRecord.Read stores the data length field only for
unknown query types and leaves the zero-value DataLen on the known ones,
while DNSRecord.Write never consults the field. -/
theorem c1_datalen_not_roundtripped :
    ((packetDataLen7.write newBytePacketBuffer).toOption.bind
      (fun b => (DNSPacket.read ⟨b.buf, 0⟩).toOption)).map
      (fun pr => (pr.1.answers.map (fun r => r.dataLen),
        packetDataLen7.answers.map (fun r => r.dataLen))) =
      some ([0], [7]) := by
  rfl

/-- Claim C1 (amended): for every packet in the decoder's image shape
(goodPacket) whose encoding fits the 512 octet buffer, DNSPacket.Write
into a fresh buffer succeeds and DNSPacket.Read of the written buffer
from cursor 0 returns the packet with the four header counts recomputed
from the section lengths and with every record's DataLen cleared to the
zero value; all other fields round-trip exactly. -/
theorem c1_roundtrip_mod_counts_datalen {p : DNSPacket}
    (hgood : goodPacket p) (hfit : (encPacket p).length ≤ 512) :
    ∃ b : BytePacketBuffer, p.write newBytePacketBuffer = .ok b ∧
      DNSPacket.read ⟨b.buf, 0⟩ = .ok
        (⟨⟨p.header.id, p.header.recursionDesired, p.header.truncatedMessage,
           p.header.authoritativeAnswer, p.header.opcode, p.header.response,
           p.header.resCode, p.header.checkingDisabled, p.header.authedData,
           p.header.z, p.header.recursionAvailable, p.questions.length,
           p.answers.length, p.authorities.length, p.resources.length⟩,
          p.questions, p.answers.map zeroDataLen,
          p.authorities.map zeroDataLen, p.resources.map zeroDataLen⟩,
         ⟨b.buf, (encPacket p).length⟩) := by
  have hfit' : newBytePacketBuffer.pos + (encPacket p).length ≤ 512 := by
    show 0 + (encPacket p).length ≤ 512
    omega
  have hw := packetWrite_ok hgood
    (by show (List.replicate 512 0).length = 512; simp)
    (by show (0 : Nat) ≤ 512; omega) hfit'
  refine ⟨_, hw, ?_⟩
  have hmap : (encPacket p).map (· % 256) = encPacket p :=
    map_mod_eq_self (encPacket_lt hgood)
  have hble : newBytePacketBuffer.pos + (encPacket p).length ≤
      newBytePacketBuffer.buf.length := by
    show 0 + (encPacket p).length ≤ (List.replicate 512 0).length
    simp only [List.length_replicate]
    omega
  have hb0 : bytesAt (splice newBytePacketBuffer.buf newBytePacketBuffer.pos
      ((encPacket p).map (· % 256))) 0 (encPacket p) := by
    rw [hmap]
    exact bytesAt_splice hble
  have hlen2 : (splice newBytePacketBuffer.buf newBytePacketBuffer.pos
      ((encPacket p).map (· % 256))).length = 512 := by
    rw [hmap, splice_length hble]
    show (List.replicate 512 0).length = 512
    simp
  have hlenP := encPacket_length p
  have hq1 : p.questions.length ≤ ((p.questions.map encQuestion).flatten).length :=
    count_le_flatten encQuestion p.questions (fun q _ => encQuestion_len_pos q)
  have ha1 : p.answers.length ≤ ((p.answers.map encRecord).flatten).length :=
    count_le_flatten encRecord p.answers (fun r _ => encRecord_len_pos r)
  have hau1 : p.authorities.length ≤
      ((p.authorities.map encRecord).flatten).length :=
    count_le_flatten encRecord p.authorities (fun r _ => encRecord_len_pos r)
  have hre1 : p.resources.length ≤
      ((p.resources.map encRecord).flatten).length :=
    count_le_flatten encRecord p.resources (fun r _ => encRecord_len_pos r)
  have hq16 : p.questions.length < 65536 := by omega
  have han16 : p.answers.length < 65536 := by omega
  have hau16 : p.authorities.length < 65536 := by omega
  have hre16 : p.resources.length < 65536 := by omega
  exact packetRead_encoding hgood hlen2 hq16 han16 hau16 hre16 hb0

/-- Claim C1 witness: the amended round trip evaluated at the concrete
wellformed witness packet. -/
theorem c1_roundtrip_mod_counts_datalen_witness :
    goodPacket wfWitnessPacket ∧ (encPacket wfWitnessPacket).length ≤ 512 ∧
    ∃ b : BytePacketBuffer,
      wfWitnessPacket.write newBytePacketBuffer = .ok b ∧
      DNSPacket.read ⟨b.buf, 0⟩ = .ok
        (⟨⟨wfWitnessPacket.header.id, wfWitnessPacket.header.recursionDesired,
           wfWitnessPacket.header.truncatedMessage,
           wfWitnessPacket.header.authoritativeAnswer,
           wfWitnessPacket.header.opcode, wfWitnessPacket.header.response,
           wfWitnessPacket.header.resCode,
           wfWitnessPacket.header.checkingDisabled,
           wfWitnessPacket.header.authedData, wfWitnessPacket.header.z,
           wfWitnessPacket.header.recursionAvailable,
           wfWitnessPacket.questions.length, wfWitnessPacket.answers.length,
           wfWitnessPacket.authorities.length,
           wfWitnessPacket.resources.length⟩,
          wfWitnessPacket.questions, wfWitnessPacket.answers.map zeroDataLen,
          wfWitnessPacket.authorities.map zeroDataLen,
          wfWitnessPacket.resources.map zeroDataLen⟩,
         ⟨b.buf, (encPacket wfWitnessPacket).length⟩) :=
  ⟨by decide, by decide,
    c1_roundtrip_mod_counts_datalen (by decide) (by decide)⟩

/-- Claim C6: whenever DNSPacket.Write of any packet into a fresh buffer
succeeds, the four big-endian 16 bit counts at octets 4..11 of the
emitted header equal the lengths of the question, answer, authority and
resource sections, whatever count values the input header carried: the
writer rebinds the counts to the section lengths before emitting the
header, and every later section item advances the cursor without
touching the header octets, so a successful write also bounds each
section length by the buffer capacity. -/
theorem c6_header_counts_written {p : DNSPacket} {b2 : BytePacketBuffer}
    (hw : p.write newBytePacketBuffer = .ok b2) :
    b2.buf.getD 4 0 * 256 + b2.buf.getD 5 0 = p.questions.length ∧
    b2.buf.getD 6 0 * 256 + b2.buf.getD 7 0 = p.answers.length ∧
    b2.buf.getD 8 0 * 256 + b2.buf.getD 9 0 = p.authorities.length ∧
    b2.buf.getD 10 0 * 256 + b2.buf.getD 11 0 = p.resources.length := by
  unfold DNSPacket.write at hw
  dsimp only at hw
  rw [headerWrite_ok (by show (List.replicate 512 0).length = 512; simp)
    (by show (0 : Nat) ≤ 512; omega)
    (by show (0 : Nat) + 12 ≤ 512; omega)] at hw
  simp only [ok_bind] at hw
  obtain ⟨stepAll, adv⟩ := four_fold_writeStep hw
  obtain ⟨hc1, hc2, hc3, hc4⟩ := headerBytes_counts stepAll
  have hc1' : b2.buf.getD 4 0 * 256 + b2.buf.getD 5 0 =
      p.questions.length % 65536 % 65536 := hc1
  have hc2' : b2.buf.getD 6 0 * 256 + b2.buf.getD 7 0 =
      p.answers.length % 65536 % 65536 := hc2
  have hc3' : b2.buf.getD 8 0 * 256 + b2.buf.getD 9 0 =
      p.authorities.length % 65536 % 65536 := hc3
  have hc4' : b2.buf.getD 10 0 * 256 + b2.buf.getD 11 0 =
      p.resources.length % 65536 % 65536 := hc4
  have hadv : 12 + p.questions.length + p.answers.length +
      p.authorities.length + p.resources.length ≤ b2.pos := adv
  have h512 : b2.pos ≤ 512 :=
    stepAll.2.2.1 (by show (0 : Nat) + 12 ≤ 512; omega)
  refine ⟨by omega, by omega, by omega, by omega⟩

/-- Claim C6 witness: the count binding evaluated at the written witness
packet, whose input header carries all-zero counts. -/
theorem c6_header_counts_written_witness :
    wfWitnessPacket.write newBytePacketBuffer = .ok wfWitnessWritten ∧
    (wfWitnessWritten.buf.getD 4 0 * 256 + wfWitnessWritten.buf.getD 5 0 =
      wfWitnessPacket.questions.length ∧
    wfWitnessWritten.buf.getD 6 0 * 256 + wfWitnessWritten.buf.getD 7 0 =
      wfWitnessPacket.answers.length ∧
    wfWitnessWritten.buf.getD 8 0 * 256 + wfWitnessWritten.buf.getD 9 0 =
      wfWitnessPacket.authorities.length ∧
    wfWitnessWritten.buf.getD 10 0 * 256 + wfWitnessWritten.buf.getD 11 0 =
      wfWitnessPacket.resources.length) :=
  ⟨by rfl, @c6_header_counts_written wfWitnessPacket wfWitnessWritten (by rfl)⟩

end GoDNS
